import Mathlib

/-!
# indy-sdk-go: the asynchronous native-call bridge

A shallow embedding of the Go binding's bridging mechanism:

* `common/types`     : `Handle`
* `common/indyerror` : status codes, `errorStringMap`, `New`, `Code`
* `common/callback`  : the pending-operation registry (`register`, `remove`)
* `indy/callbacks.go`: the eight de-multiplexer entry points
* `indy/*.go`        : native call adapters
* `anoncreds`, `crypto`, `did`, `ledger`, `pool`, `wallet` : blocking facades built from
  channels
* `operations`       : every operation with the entry point its adapter passes and
  the continuation its facade registers

Go values are modelled as follows.  `int`, `int32` and C integers are `Int`
(a conversion that can wrap is written with an explicit modulus), `string` is
`String`, `[]byte` is `List (Fin 256)`, a nil-able interface or pointer is an
`Option`.  Shared mutable state (the registry, channels, the record of native
calls) is threaded explicitly through a `World`.
-/

set_option linter.dupNamespace false

namespace IndySdk

/-! ## common/types -/

namespace types

/-- Embeds `type Handle int` (types.go:10). -/
abbrev Handle := Int

/-- Embeds `type Alias struct { value string }` (types.go:13-15). -/
structure Alias where
  value : String
deriving DecidableEq, Repr

/-- Embeds `func NewAlias(value string) *Alias` (types.go:18-20). -/
def NewAlias (value : String) : Alias := { value := value }

/-- Embeds `func (a *Alias) String() string` (types.go:23-25). -/
def Alias.String (a : Alias) : String := a.value

end types

/-! ## common/role -/

namespace role

/-- Embeds `type Role struct { value string }` (role.go:24-26). -/
structure Role where
  value : String
deriving DecidableEq, Repr

/-- Embeds `func NewRole(value string) *Role` (role.go:29-31). -/
def NewRole (value : String) : Role := { value := value }

/-- Embeds `func (r *Role) String() string` (role.go:34-36). -/
def Role.String (r : Role) : String := r.value

/-- Trustee is the Trustee role (role.go:11). -/
def Trustee : Role := NewRole "TRUSTEE"

/-- Steward is the Steward role (role.go:14). -/
def Steward : Role := NewRole "STEWARD"

/-- TrustAnchor is the Trust Anchor role (role.go:17). -/
def TrustAnchor : Role := NewRole "TRUST_ANCHOR"

/-- Reset resets the role (role.go:20). -/
def Reset : Role := NewRole ""

end role

open types

/-! ## common/indyerror -/

namespace indyerror

def Success : Int := 0
def CommonInvalidParam1 : Int := 100
def CommonInvalidParam2 : Int := 101
def CommonInvalidParam3 : Int := 102
def CommonInvalidParam4 : Int := 103
def CommonInvalidParam5 : Int := 104
def CommonInvalidParam6 : Int := 105
def CommonInvalidParam7 : Int := 106
def CommonInvalidParam8 : Int := 107
def CommonInvalidParam9 : Int := 108
def CommonInvalidParam10 : Int := 109
def CommonInvalidParam11 : Int := 110
def CommonInvalidParam12 : Int := 111
def CommonInvalidState : Int := 112
def CommonInvalidStructure : Int := 113
def CommonIOError : Int := 114
def WalletInvalidHandle : Int := 200
def WalletUnknownTypeError : Int := 201
def WalletTypeAlreadyRegisteredError : Int := 202
def WalletAlreadyExistsError : Int := 203
def WalletNotFoundError : Int := 204
def WalletIncompatiblePoolError : Int := 205
def WalletAlreadyOpenedError : Int := 206
def WalletAccessFailed : Int := 207
def PoolLedgerNotCreatedError : Int := 300
def PoolLedgerInvalidPoolHandle : Int := 301
def PoolLedgerTerminated : Int := 302
def LedgerNoConsensusError : Int := 303
def LedgerInvalidTransaction : Int := 304
def LedgerSecurityError : Int := 305
def PoolLedgerConfigAlreadyExistsError : Int := 306
def PoolLedgerTimeout : Int := 307
def AnoncredsRevocationRegistryFullError : Int := 400
def AnoncredsInvalidUserRevocID : Int := 401
def AnoncredsMasterSecretDuplicateNameError : Int := 404
def AnoncredsProofRejected : Int := 405
def AnoncredsCredentialRevoked : Int := 406
def AnoncredsCredDefAlreadyExistsError : Int := 407
def UnknownCryptoTypeError : Int := 500
def DidAlreadyExistsError : Int := 600
/-- Undefined indicates that the error is not an Indy error. -/
def Undefined : Int := -1

/-- Embeds `var errorStringMap = map[int32]string{...}` (indyerror.go:150-191), as the
list of its key/value pairs; the keys are pairwise distinct. -/
def errorStringMap : List (Int × String) :=
  [ (Success, "Success"),
    (CommonInvalidParam1, "Caller passed invalid value as param 1 (null, invalid json and etc..)"),
    (CommonInvalidParam2, "Caller passed invalid value as param 2 (null, invalid json and etc..)"),
    (CommonInvalidParam3, "Caller passed invalid value as param 3 (null, invalid json and etc..)"),
    (CommonInvalidParam4, "Caller passed invalid value as param 4 (null, invalid json and etc..)"),
    (CommonInvalidParam5, "Caller passed invalid value as param 5 (null, invalid json and etc..)"),
    (CommonInvalidParam6, "Caller passed invalid value as param 6 (null, invalid json and etc..)"),
    (CommonInvalidParam7, "Caller passed invalid value as param 7 (null, invalid json and etc..)"),
    (CommonInvalidParam8, "Caller passed invalid value as param 8 (null, invalid json and etc..)"),
    (CommonInvalidParam9, "Caller passed invalid value as param 9 (null, invalid json and etc..)"),
    (CommonInvalidParam10, "Caller passed invalid value as param 10 (null, invalid json and etc..)"),
    (CommonInvalidParam11, "Caller passed invalid value as param 11 (null, invalid json and etc..)"),
    (CommonInvalidParam12, "Caller passed invalid value as param 12 (null, invalid json and etc..)"),
    (CommonInvalidState, "Invalid library state was detected in runtime. It signals library bug"),
    (CommonInvalidStructure, "Object (json, config, key, credential and etc...) passed by library caller has invalid structure"),
    (CommonIOError, "IO Error"),
    (WalletInvalidHandle, "Caller passed invalid wallet handle"),
    (WalletUnknownTypeError, "Unknown type of wallet was passed on create_wallet"),
    (WalletTypeAlreadyRegisteredError, "Attempt to register already existing wallet type"),
    (WalletAlreadyExistsError, "Attempt to create wallet with name used for another exists wallet"),
    (WalletNotFoundError, "Requested entity id isn't present in wallet"),
    (WalletIncompatiblePoolError, "Trying to use wallet with pool that has different name"),
    (WalletAlreadyOpenedError, "Trying to open wallet that was opened already"),
    (WalletAccessFailed, "Attempt to open encrypted wallet with invalid credentials"),
    (PoolLedgerNotCreatedError, "Trying to open pool ledger that wasn't created before"),
    (PoolLedgerInvalidPoolHandle, "Caller passed invalid pool ledger handle"),
    (PoolLedgerTerminated, "Pool ledger terminated"),
    (LedgerNoConsensusError, "No concensus during ledger operation"),
    (LedgerInvalidTransaction, "Attempt to parse invalid transaction response"),
    (LedgerSecurityError, "Attempt to send transaction without the necessary privileges"),
    (PoolLedgerConfigAlreadyExistsError, "Attempt to create pool ledger config with name used for another existing pool"),
    (PoolLedgerTimeout, "Timeout for action"),
    (AnoncredsRevocationRegistryFullError, "Revocation registry is full and creation of new registry is necessary"),
    (AnoncredsInvalidUserRevocID, "AnoncredsInvalidUserRevocId"),
    (AnoncredsMasterSecretDuplicateNameError, "Attempt to generate master secret with dupplicated name"),
    (AnoncredsProofRejected, "AnoncredsProofRejected"),
    (AnoncredsCredentialRevoked, "AnoncredsCredentialRevoked"),
    (AnoncredsCredDefAlreadyExistsError, "Attempt to create credential definition with duplicated did schema pair"),
    (UnknownCryptoTypeError, "Unknown format of DID entity keys"),
    (DidAlreadyExistsError, "Attempt to create duplicate did") ]

end indyerror

namespace fmt

/-- The text produced by `fmt.Errorf(format)` called with a format string and
no operands, on the characters of the format.  Text outside verbs is copied;
`%%` gives `%`; a verb `%x` with no operand gives `%!x(MISSING)`; a `%` that
ends the format gives `%!(NOVERB)`.  Flags and widths between `%` and the verb
letter are not modelled (no format string of this package has one). -/
def renderNoOperands : List Char → List Char
  | [] => []
  | '%' :: [] => "%!(NOVERB)".toList
  | '%' :: '%' :: rest => '%' :: renderNoOperands rest
  | '%' :: verb :: rest => "%!".toList ++ verb :: "(MISSING)".toList ++ renderNoOperands rest
  | c :: rest => c :: renderNoOperands rest

/-- The text of `fmt.Errorf(format)` with no operands. -/
def Sprintf (format : String) : String :=
  String.mk (renderNoOperands format.toList)

end fmt

namespace indyerror

/-- Embeds `type indyError struct { error; code int32 }` (indyerror.go:222-225); the
embedded error is given by its message. -/
structure indyError where
  error : String
  code : Int
deriving DecidableEq, Repr

end indyerror

/-- Non-nil values of Go's `error` interface that occur in the binding: a
`*indyError` (the only implementation of `IndyError`), or a plain error made
by `fmt.Errorf` or returned by a library.  The nil error is `none` of
`Option GoError`. -/
inductive GoError where
  | indy (e : indyerror.indyError)
  | plain (msg : String)
deriving DecidableEq, Repr

/-- Embeds `err.Error()`. -/
def GoError.Error : GoError → String
  | .indy e => e.error
  | .plain msg => msg

namespace fmt

/-- Embeds `fmt.Errorf(format)` with no operands: a plain error with that text. -/
def Errorf (format : String) : GoError :=
  .plain (Sprintf format)

end fmt

namespace indyerror

/-- Embeds `func (e *indyError) Code() int32` (indyerror.go:228-230). -/
def indyError.Code (e : indyError) : Int := e.code

/-- Embeds `func New(code int32) IndyError` (indyerror.go:194-210).  The result is an
interface value: `none` is the nil interface.  The embedded error is
`fmt.Errorf(msg)`, the table's string being the format, or
`fmt.Errorf("unknown error: %d", code)`. -/
def New (code : Int) : Option GoError :=
  if code = Success then none
  else
    let err : String :=
      match errorStringMap.lookup code with
      | some msg => fmt.Sprintf msg
      | none => "unknown error: " ++ toString code
    some (.indy { error := err, code := code })

/-- Embeds `func Code(err error) int32` (indyerror.go:214-220): the type assertion
`err.(IndyError)` succeeds exactly on a non-nil `*indyError`. -/
def Code (err : Option GoError) : Int :=
  match err with
  | some (.indy indyErr) => indyErr.Code
  | _ => Undefined

end indyerror

/-! ## Go runtime values shared by the packages -/

/-- A `*C.char` argument: `none` is the NULL pointer, `some s` the address of
a NUL-terminated buffer whose bytes before the terminator written by the
allocator are `s`.  C code reads it up to the first NUL. -/
abbrev CString := Option String

/-- A `*C.uchar` argument: `none` is the NULL pointer, `some m` the address of
a readable region holding the bytes `m`. -/
abbrev CBytes := Option (List (Fin 256))

/-- Channels are allocated in the `World` and named by their index. -/
abbrev ChanId := Nat

namespace callback

/-- Embeds `type Data interface{}` (callback.go:17): the dynamic values that the
de-multiplexer hands to a continuation. -/
inductive Data where
  | nil
  | handle (h : Handle)
  | string (s : String)
  | strings (ss : List String)
  | bytes (b : List (Fin 256))
  | ifaces (ds : List Data)
  | bool (b : Bool)

end callback

/-- The element sent on a channel: an `error` (possibly nil) on a
`chan error`, or the response of a facade on its response channel (a struct,
a string, a bool, a byte slice or a slice of strings). -/
inductive Value where
  | error (err : Option GoError)
  | issuerCreateSchemaResponse (schemaID schemaJSON : String)
  | Info (DID VerKey : String)
  | issuerCreateCredentialResp (CredJSON CredRevID RevocRegDeltaJSON : String)
  | string (s : String)
  | bool (b : Bool)
  | issuerCAndSCredDefResp (credentialDefID credentialDefJSON : String)
  | proverCreateCredentialResp (requestJSON requestMetadataJSON : String)
  | bytes (b : List (Fin 256))
  | authDecryptResponse (sender : String) (message : List (Fin 256))
  | parseResponse (id json : String)
  | Pool (Name : String) (handle : Handle)
  | Wallet (Name : String) (handle : Handle)
  | strings (ss : List String)
deriving DecidableEq, Repr

/-- What one call of a continuation does: every continuation of the binding
ends in a single channel send, unless a type assertion or an index on `data`
fails first, which is a run-time panic. -/
inductive Delivery where
  | send (ch : ChanId) (v : Value)
  | panic (msg : String)
deriving DecidableEq, Repr

namespace callback

/-- Embeds `type Callback func(error, Data)` (callback.go:21), as the action the
closure performs on its arguments. -/
abbrev Callback := Option GoError → Data → Delivery

/-- Embeds `func New(errChan chan error) Callback` (callback.go:24-28). -/
def New (errChan : ChanId) : Callback :=
  fun err _ => .send errChan (.error err)

/-- Embeds `type registry struct { registry map[types.Handle]Callback; mutex }`
(callback.go:41-44).  The map is given by its lookup function (`none` for a key
that is absent; the continuations stored by the binding are never nil); the
mutex makes `register` and `remove` atomic, which is how they are modelled. -/
structure registry where
  registry : Handle → Option Callback

end callback

namespace rand

/-- Embeds `rand.Int31()`: the next value of the random source `src` (an arbitrary
sequence, read at position `pos`), as a non-negative 31-bit integer. -/
def Int31 (src : Nat → Nat) (pos : Nat) : Int :=
  ((src pos % 2147483648 : Nat) : Int)

end rand

namespace callback

/-- Embeds `func (r *registry) register(cb Callback) types.Handle`
(callback.go:46-57).  `src` and `pos` are the random source and how far it has
been read; `fuel` bounds the number of iterations of the `for` loop that are
followed, and `none` is a loop that is still running after that many.  On
return: the handle, the registry and the new position of the source. -/
def registry.register (src : Nat → Nat) (cb : Callback) :
    Nat → callback.registry → Nat → Option (Handle × callback.registry × Nat)
  | 0, _, _ => none
  | fuel + 1, r, pos =>
    let handle : Handle := rand.Int31 src pos
    match r.registry handle with
    | none =>
      some (handle, { registry := fun k => if k = handle then some cb else r.registry k }, pos + 1)
    | some _ => registry.register src cb fuel r (pos + 1)

/-- Embeds `func (r *registry) remove(handle types.Handle) (Callback, bool)`
(callback.go:59-68).  The returned continuation is `none` (nil) when the
handle is absent. -/
def registry.remove (r : callback.registry) (handle : Handle) :
    (Option Callback × Bool) × callback.registry :=
  match r.registry handle with
  | some cb => ((some cb, true), { registry := fun k => if k = handle then none else r.registry k })
  | none => ((none, false), r)

/-- Registering the continuations `cbs` one after another on the same
registry and random source, each `register` being one atomic step; the
handles are returned in order. -/
def registerAll (src : Nat → Nat) (fuel : Nat) :
    List Callback → registry → Nat → Option (List Handle × registry × Nat)
  | [], r, pos => some ([], r, pos)
  | cb :: cbs, r, pos =>
    match registry.register src cb fuel r pos with
    | none => none
    | some (h, r1, pos1) =>
      match registerAll src fuel cbs r1 pos1 with
      | none => none
      | some (hs, r2, pos2) => some (h :: hs, r2, pos2)

end callback

/-! ## The native library and the state of the process -/

/-- The eight function pointers of callbacks.go:55-85, naming the exported
de-multiplexer entry each one points to. -/
inductive Entry where
  | Default          -- def_callback
  | SingleHandle     -- handle_callback
  | String           -- string_callback
  | String2          -- string2_callback
  | String3          -- string3_callback
  | Bytes            -- bytes_callback
  | StringAndBytes   -- string_bytes_callback
  | Bool             -- bool_callback
deriving DecidableEq, Repr

/-- One marshaled argument of a native call. -/
inductive CArg where
  | handle (h : Int)
  | str (s : CString)
  | bytes (b : CBytes)
  | u32 (n : Int)
  | i32 (n : Int)
deriving DecidableEq, Repr

/-- One call into libindy: the C function, the command handle, the remaining
arguments in order, and the callback pointer. -/
structure NativeCall where
  fn : String
  command_handle : Int
  args : List CArg
  cb : Entry
deriving DecidableEq, Repr

/-- One invocation of an exported de-multiplexer entry by the native library,
with the C arguments it passes (callbacks.go:27-49). -/
inductive Completion where
  | def_callback (handle errCode : Int)
  | handle_callback (handle errCode poolHandle : Int)
  | string_callback (handle errCode : Int) (s : CString)
  | string2_callback (handle errCode : Int) (s1 s2 : CString)
  | string3_callback (handle errCode : Int) (s1 s2 s3 : CString)
  | bytes_callback (handle errCode : Int) (b : CBytes) (blength : Int)
  | string_bytes_callback (handle errCode : Int) (s : CString) (b : CBytes) (blength : Int)
  | bool_callback (handle errCode : Int) (b : Nat)
deriving DecidableEq, Repr

/-- The C arguments with which the native library invokes a callback, for
whichever entry point it was handed: the pool or wallet handle, up to three
strings, a byte buffer with its length, and the unsigned flag. -/
structure Payload where
  poolHandle : Int
  s1 : CString
  s2 : CString
  s3 : CString
  b : CBytes
  blength : Int
  flag : Nat
deriving DecidableEq, Repr

/-- The invocation by which the native library completes a call: it calls the
function pointer that the call carried (`cb`), with the command handle of the
call, a status, and the arguments that this entry point takes
(callbacks.go:27-49). -/
def NativeCall.complete (call : NativeCall) (errCode : Int) (p : Payload) : Completion :=
  match call.cb with
  | .Default => .def_callback call.command_handle errCode
  | .SingleHandle => .handle_callback call.command_handle errCode p.poolHandle
  | .String => .string_callback call.command_handle errCode p.s1
  | .String2 => .string2_callback call.command_handle errCode p.s1 p.s2
  | .String3 => .string3_callback call.command_handle errCode p.s1 p.s2 p.s3
  | .Bytes => .bytes_callback call.command_handle errCode p.b p.blength
  | .StringAndBytes =>
    .string_bytes_callback call.command_handle errCode p.s1 p.b p.blength
  | .Bool => .bool_callback call.command_handle errCode p.flag

/-- What lies outside the binding.  `rand` is the sequence behind
`rand.Int31`, `fuel` the bound used for the loop of `register`.  `native` is
libindy: given the calls made before and the present call it answers with the
immediate status (a C `indy_error_t`, which an adapter converts with
`int32(errCode)`) and with the callback invocations it will make for this call
on its own threads.  `pick` settles a `select` that finds both of its
channels ready (Go chooses at random). -/
structure Env where
  rand : Nat → Nat
  fuel : Nat
  native : List NativeCall → NativeCall → Int × List Completion
  pick : Bool

/-- A Go channel: its capacity, the values buffered in it, and the values held
by senders that are parked on it (on an unbuffered or a full channel). -/
structure Chan where
  cap : Nat
  buf : List Value
  sendq : List Value
deriving DecidableEq, Repr

/-- The mutable state of the process: the global callback registry
(`cbRegistry`, callback.go:71), how far the random source has been read, the
channels made so far, the native calls issued so far, the callback
invocations the native library still owes, and the panic that has brought the
process down, if any. -/
structure World where
  cbRegistry : callback.registry
  randPos : Nat
  chans : ChanId → Chan
  nextChan : ChanId
  calls : List NativeCall
  completions : List Completion
  fault : Option String

/-- Embeds `make(chan T, cap)`; `make(chan T)` is `make 0`. -/
def make (cap : Nat) (w : World) : ChanId × World :=
  (w.nextChan,
   { w with chans := fun i => if i = w.nextChan then { cap := cap, buf := [], sendq := [] } else w.chans i,
            nextChan := w.nextChan + 1 })

/-- Replace the state of one channel. -/
def World.setChan (w : World) (ch : ChanId) (c : Chan) : World :=
  { w with chans := fun i => if i = ch then c else w.chans i }

/-- Embeds `ch <- v` with no receiver waiting: the value goes into the buffer when
there is room, otherwise the sender parks with it. -/
def send (ch : ChanId) (v : Value) (w : World) : World :=
  let c := w.chans ch
  if c.buf.length < c.cap then w.setChan ch { c with buf := c.buf ++ [v] }
  else w.setChan ch { c with sendq := c.sendq ++ [v] }

/-- Embeds `ch <- v` on the goroutine of the facade itself: `none` when the send
would park, for then the facade never reaches its receive. -/
def sendNow (ch : ChanId) (v : Value) (w : World) : Option World :=
  let c := w.chans ch
  if c.buf.length < c.cap then some (w.setChan ch { c with buf := c.buf ++ [v] })
  else none

/-- Embeds `<-ch`: the oldest buffered value (a parked sender then moves its value
into the buffer), else the value of the first parked sender; `none` when the
receive would block. -/
def recv (ch : ChanId) (w : World) : Option (Value × World) :=
  let c := w.chans ch
  match c.buf, c.sendq with
  | v :: buf, [] => some (v, w.setChan ch { c with buf := buf })
  | v :: buf, s :: q => some (v, w.setChan ch { c with buf := buf ++ [s], sendq := q })
  | [], s :: q => some (s, w.setChan ch { c with sendq := q })
  | [], [] => none

/-- Which case of a two-way `select` fired, with the value received. -/
inductive Selected where
  | case1 (v : Value)
  | case2 (v : Value)
deriving DecidableEq, Repr

/-- Embeds `select { case x := <-c1: ... case y := <-c2: ... }`: `none` when neither
channel is ready. -/
def select2 (pick : Bool) (c1 c2 : ChanId) (w : World) : Option (Selected × World) :=
  match recv c1 w, recv c2 w with
  | some (v, w1), none => some (.case1 v, w1)
  | none, some (v, w2) => some (.case2 v, w2)
  | some (v1, w1), some (v2, w2) => if pick then some (.case1 v1, w1) else some (.case2 v2, w2)
  | none, none => none

/-- The process goes down with a run-time panic. -/
def World.panic (w : World) (msg : String) : World :=
  { w with fault := some msg }

/-- Carry out what a continuation did. -/
def exec (a : Delivery) (w : World) : World :=
  match a with
  | .send ch v => send ch v w
  | .panic msg => w.panic msg

/-- Calling a value of type `Callback`: calling the nil function panics. -/
def call (cb : Option callback.Callback) (err : Option GoError) (data : callback.Data)
    (w : World) : World :=
  match cb with
  | none => w.panic "invalid memory address or nil pointer dereference"
  | some f => exec (f err data) w

namespace callback

/-- Embeds `func Register(cb Callback) types.Handle` (callback.go:32-34), on the
global registry; `none` when `register` does not return. -/
def Register (env : Env) (cb : Callback) (w : World) : Option (Handle × World) :=
  match registry.register env.rand cb env.fuel w.cbRegistry w.randPos with
  | none => none
  | some (handle, r, pos) => some (handle, { w with cbRegistry := r, randPos := pos })

/-- Embeds `func Remove(handle types.Handle) (Callback, bool)` (callback.go:37-39),
on the global registry. -/
def Remove (handle : Handle) (w : World) : (Option Callback × Bool) × World :=
  let (res, r) := w.cbRegistry.remove handle
  (res, { w with cbRegistry := r })

end callback

/-! ## indy: strings.go, callbacks.go and the adapters -/

namespace indy

/-- Embeds `func newChar(s string) *C.char` (strings.go:16-18): `C.CString(s)`. -/
def newChar (s : String) : CString := some s

/-- Embeds `C.GoString(p)`: the empty string for NULL, else a copy of the bytes up to
the first NUL. -/
def GoString (p : CString) : String :=
  match p with
  | none => ""
  | some s => String.mk (s.toList.takeWhile (fun c => c ≠ Char.ofNat 0))

/-- Embeds `C.GoBytes(p, n)`: a copy of `n` bytes at `p`.  Nothing is read when
`n = 0`; a negative length panics, and reading through NULL or past the end of
the readable region is a fault (`none`). -/
def GoBytes (p : CBytes) (n : Int) : Option (List (Fin 256)) :=
  if n = 0 then some []
  else if n < 0 then none
  else
    match p with
    | none => none
    | some m => if n.toNat ≤ m.length then some (m.take n.toNat) else none

/-- The conversion of an integer to a signed 32-bit one, `(C.indy_handle_t)(h)`
of a Go `int` and `int32(errCode)` of the C status: the low 32 bits, read as
a signed value. -/
def toInt32 (h : Int) : Int :=
  (h + 2147483648) % 4294967296 - 2147483648

/-- The text of `fmt.Errorf("unable to find callback for handle: %d", handle)`. -/
def unableToFind (handle : Int) : GoError :=
  .plain ("unable to find callback for handle: " ++ toString handle)

/-- Embeds `func def_callback(handle int32, errCode int32)` (callbacks.go:88-95). -/
def def_callback (handle errCode : Int) (w : World) : World :=
  let ((cb, ok), w) := callback.Remove handle w
  if !ok then call cb (some (unableToFind handle)) .nil w
  else call cb (indyerror.New errCode) .nil w

/-- Embeds `func handle_callback(handle int32, errCode int32, poolHandle int32)`
(callbacks.go:98-105). -/
def handle_callback (handle errCode poolHandle : Int) (w : World) : World :=
  let ((cb, ok), w) := callback.Remove handle w
  if !ok then call cb (some (unableToFind handle)) .nil w
  else call cb (indyerror.New errCode) (.handle poolHandle) w

/-- Embeds `func string_callback(handle int32, errCode int32, s *C.char)`
(callbacks.go:108-115). -/
def string_callback (handle errCode : Int) (s : CString) (w : World) : World :=
  let ((cb, ok), w) := callback.Remove handle w
  if !ok then call cb (some (unableToFind handle)) .nil w
  else call cb (indyerror.New errCode) (.string (GoString s)) w

/-- Embeds `func string2_callback(handle int32, errCode int32, s1 *C.char, s2 *C.char)`
(callbacks.go:118-125). -/
def string2_callback (handle errCode : Int) (s1 s2 : CString) (w : World) : World :=
  let ((cb, ok), w) := callback.Remove handle w
  if !ok then call cb (some (unableToFind handle)) .nil w
  else call cb (indyerror.New errCode) (.strings [GoString s1, GoString s2]) w

/-- Embeds `func string3_callback(handle int32, errCode int32, s1, s2, s3 *C.char)`
(callbacks.go:128-135). -/
def string3_callback (handle errCode : Int) (s1 s2 s3 : CString) (w : World) : World :=
  let ((cb, ok), w) := callback.Remove handle w
  if !ok then call cb (some (unableToFind handle)) .nil w
  else call cb (indyerror.New errCode) (.strings [GoString s1, GoString s2, GoString s3]) w

/-- Embeds `func bytes_callback(handle int32, errCode int32, b *C.uchar, blength int32)`
(callbacks.go:138-145).  The operands of the call are evaluated before it is
made, so a fault in `C.GoBytes` comes before the continuation runs. -/
def bytes_callback (handle errCode : Int) (b : CBytes) (blength : Int) (w : World) : World :=
  let ((cb, ok), w) := callback.Remove handle w
  if !ok then call cb (some (unableToFind handle)) .nil w
  else
    match GoBytes b blength with
    | none => w.panic "fault in C.GoBytes"
    | some bs => call cb (indyerror.New errCode) (.bytes bs) w

/-- Embeds `func string_bytes_callback(handle int32, errCode int32, s *C.char,
b *C.uchar, blength int32)` (callbacks.go:148-155). -/
def string_bytes_callback (handle errCode : Int) (s : CString) (b : CBytes) (blength : Int)
    (w : World) : World :=
  let ((cb, ok), w) := callback.Remove handle w
  if !ok then call cb (some (unableToFind handle)) .nil w
  else
    match GoBytes b blength with
    | none => w.panic "fault in C.GoBytes"
    | some bs => call cb (indyerror.New errCode) (.ifaces [.string (GoString s), .bytes bs]) w

/-- Embeds `func bool_callback(handle int32, errCode int32, b C.uint)`
(callbacks.go:158-165). -/
def bool_callback (handle errCode : Int) (b : Nat) (w : World) : World :=
  let ((cb, ok), w) := callback.Remove handle w
  if !ok then call cb (some (unableToFind handle)) .nil w
  else call cb (indyerror.New errCode) (.bool (b == 1)) w

/-- The native library makes one callback invocation. -/
def invoke (c : Completion) (w : World) : World :=
  match c with
  | .def_callback handle errCode => def_callback handle errCode w
  | .handle_callback handle errCode poolHandle => handle_callback handle errCode poolHandle w
  | .string_callback handle errCode s => string_callback handle errCode s w
  | .string2_callback handle errCode s1 s2 => string2_callback handle errCode s1 s2 w
  | .string3_callback handle errCode s1 s2 s3 => string3_callback handle errCode s1 s2 s3 w
  | .bytes_callback handle errCode b blength => bytes_callback handle errCode b blength w
  | .string_bytes_callback handle errCode s b blength =>
    string_bytes_callback handle errCode s b blength w
  | .bool_callback handle errCode b => bool_callback handle errCode b w

/-- The threads of the native library make, in order, the callback
invocations it owes.  A panic in one of them brings the process down and the
remaining ones are never made. -/
def nativeThreads (w : World) : World :=
  w.completions.foldl
    (fun w c => match w.fault with
      | some _ => w
      | none => invoke c w)
    { w with completions := [] }

/-- One call into libindy: the call is recorded, the library answers with its
immediate status, and the callback invocations it will make are owed from now
on. -/
def native (env : Env) (c : NativeCall) (w : World) : Int × World :=
  let (errCode, owed) := env.native w.calls c
  (errCode, { w with calls := w.calls ++ [c], completions := w.completions ++ owed })

/-- Embeds `func IssuerCreateSchema(issuerDID, name, version, attrs string,
cb callback.Callback) error` (indy/anoncreds.go:27-43); `none` when
`Register` does not return. -/
def IssuerCreateSchema (env : Env) (issuerDID name version attrs : String)
    (cb : callback.Callback) (w : World) : Option (Option GoError × World) :=
  let csIssuerDID := newChar issuerDID
  let csName := newChar name
  let csVersion := newChar version
  let csAttrs := newChar attrs
  match callback.Register env cb w with
  | none => none
  | some (handle, w) =>
    let (errCode, w) := native env
      { fn := "indy_issuer_create_schema", command_handle := toInt32 handle,
        args := [.str csIssuerDID, .str csName, .str csVersion, .str csAttrs],
        cb := .String2 } w
    some (indyerror.New (toInt32 errCode), w)

/-- Embeds `func CreateAndStoreMyDID(walletHandle types.Handle, didJSON string,
cb callback.Callback) error` (indy/did.go:26-33). -/
def CreateAndStoreMyDID (env : Env) (walletHandle : Handle) (didJSON : String)
    (cb : callback.Callback) (w : World) : Option (Option GoError × World) :=
  let csDidJSON := newChar didJSON
  match callback.Register env cb w with
  | none => none
  | some (handle, w) =>
    let (errCode, w) := native env
      { fn := "indy_create_and_store_my_did", command_handle := toInt32 handle,
        args := [.handle (toInt32 walletHandle), .str csDidJSON],
        cb := .String2 } w
    some (indyerror.New (toInt32 errCode), w)

/-- Embeds `func CreatePoolLedgerConfig(name, configPath string,
cb callback.Callback) error` (indy/pool.go:25-35). -/
def CreatePoolLedgerConfig (env : Env) (name configPath : String)
    (cb : callback.Callback) (w : World) : Option (Option GoError × World) :=
  let csName := newChar name
  let csConfigPath := newChar configPath
  match callback.Register env cb w with
  | none => none
  | some (handle, w) =>
    let (errCode, w) := native env
      { fn := "indy_create_pool_ledger_config", command_handle := toInt32 handle,
        args := [.str csName, .str csConfigPath],
        cb := .Default } w
    some (indyerror.New (toInt32 errCode), w)

/-- The conversion `(C.indy_u32_t)(n)` of a Go `int` to `uint32_t`: the low
32 bits. -/
def toUint32 (n : Int) : Int :=
  n % 4294967296

/-- Embeds `func IssuerCreateCredential(walletHandle types.Handle, credOfferJSON,
credReqJSON, credValuesJSON, revRegID string, blobStorageReaderHandle
types.Handle, cb callback.Callback) error` (indy/anoncreds.go:75-94). -/
def IssuerCreateCredential (env : Env) (walletHandle : Handle)
    (credOfferJSON credReqJSON credValuesJSON revRegID : String)
    (blobStorageReaderHandle : Handle) (cb : callback.Callback) (w : World) :
    Option (Option GoError × World) :=
  let csCredOfferJSON := newChar credOfferJSON
  let csCredReqJSON := newChar credReqJSON
  let csCredValuesJSON := newChar credValuesJSON
  let csRevRegID : CString := if revRegID ≠ "" then newChar revRegID else none
  match callback.Register env cb w with
  | none => none
  | some (handle, w) =>
    let (errCode, w) := native env
      { fn := "indy_issuer_create_credential", command_handle := toInt32 handle,
        args := [.handle (toInt32 walletHandle), .str csCredOfferJSON, .str csCredReqJSON,
          .str csCredValuesJSON, .str csRevRegID, .i32 (toInt32 blobStorageReaderHandle)],
        cb := .String3 } w
    some (indyerror.New (toInt32 errCode), w)

/-- Embeds `func AnonCrypt(recipientVK string, message []byte,
cb callback.Callback) error` (indy/crypto.go:29-39).  `C.CBytes(message)` is a
C buffer holding a copy of the bytes of `message`. -/
def AnonCrypt (env : Env) (recipientVK : String) (message : List (Fin 256))
    (cb : callback.Callback) (w : World) : Option (Option GoError × World) :=
  let csRecipientVK := newChar recipientVK
  let cbMessage : CBytes := some message
  match callback.Register env cb w with
  | none => none
  | some (handle, w) =>
    let (errCode, w) := native env
      { fn := "indy_crypto_anon_crypt", command_handle := toInt32 handle,
        args := [.str csRecipientVK, .bytes cbMessage, .u32 (toUint32 message.length)],
        cb := .Bytes } w
    some (indyerror.New (toInt32 errCode), w)

/-- Embeds `func AnonDecrypt(walletHandle types.Handle, recipientVK string,
message []byte, cb callback.Callback) error` (indy/crypto.go:41-51). -/
def AnonDecrypt (env : Env) (walletHandle : Handle) (recipientVK : String)
    (message : List (Fin 256)) (cb : callback.Callback) (w : World) :
    Option (Option GoError × World) :=
  let csRecipientVK := newChar recipientVK
  let cbMessage : CBytes := some message
  match callback.Register env cb w with
  | none => none
  | some (handle, w) =>
    let (errCode, w) := native env
      { fn := "indy_crypto_anon_decrypt", command_handle := toInt32 handle,
        args := [.handle (toInt32 walletHandle), .str csRecipientVK, .bytes cbMessage,
          .u32 (toUint32 message.length)],
        cb := .Bytes } w
    some (indyerror.New (toInt32 errCode), w)

/-- Embeds `func AuthCrypt(walletHandle types.Handle, senderVK, recipientVK
string, message []byte, cb callback.Callback) error` (indy/crypto.go:53-66). -/
def AuthCrypt (env : Env) (walletHandle : Handle) (senderVK recipientVK : String)
    (message : List (Fin 256)) (cb : callback.Callback) (w : World) :
    Option (Option GoError × World) :=
  let csRecipientVK := newChar recipientVK
  let csSenderVK := newChar senderVK
  let cbMessage : CBytes := some message
  match callback.Register env cb w with
  | none => none
  | some (handle, w) =>
    let (errCode, w) := native env
      { fn := "indy_crypto_auth_crypt", command_handle := toInt32 handle,
        args := [.handle (toInt32 walletHandle), .str csSenderVK, .str csRecipientVK,
          .bytes cbMessage, .u32 (toUint32 message.length)],
        cb := .Bytes } w
    some (indyerror.New (toInt32 errCode), w)

/-- Embeds `func AuthDecrypt(walletHandle types.Handle, recipientVK string,
message []byte, cb callback.Callback) error` (indy/crypto.go:68-78). -/
def AuthDecrypt (env : Env) (walletHandle : Handle) (recipientVK : String)
    (message : List (Fin 256)) (cb : callback.Callback) (w : World) :
    Option (Option GoError × World) :=
  let csRecipientVK := newChar recipientVK
  let cbMessage : CBytes := some message
  match callback.Register env cb w with
  | none => none
  | some (handle, w) =>
    let (errCode, w) := native env
      { fn := "indy_crypto_auth_decrypt", command_handle := toInt32 handle,
        args := [.handle (toInt32 walletHandle), .str csRecipientVK, .bytes cbMessage,
          .u32 (toUint32 message.length)],
        cb := .StringAndBytes } w
    some (indyerror.New (toInt32 errCode), w)

/-- Embeds `func BuildNYMRequest(submitterDID, targetDID, verkey string,
alias *types.Alias, role *role.Role, cb callback.Callback) error`
(indy/ledger.go:27-52).  A nil pointer is `none`; the parameter `alias` is
written `nymAlias`. -/
def BuildNYMRequest (env : Env) (submitterDID targetDID verkey : String)
    (nymAlias : Option types.Alias) (role : Option role.Role) (cb : callback.Callback)
    (w : World) : Option (Option GoError × World) :=
  let csSubmitterDID := newChar submitterDID
  let csTargetDID := newChar targetDID
  let csVerKey := newChar verkey
  let csAlias : CString :=
    match nymAlias with
    | some a => newChar a.String
    | none => none
  let csRole : CString :=
    match role with
    | some role => newChar role.String
    | none => none
  match callback.Register env cb w with
  | none => none
  | some (handle, w) =>
    let (errCode, w) := native env
      { fn := "indy_build_nym_request", command_handle := toInt32 handle,
        args := [.str csSubmitterDID, .str csTargetDID, .str csVerKey, .str csAlias,
          .str csRole],
        cb := .String } w
    some (indyerror.New (toInt32 errCode), w)

end indy

/-! ## The facades -/

/-- How a blocking facade call ends: it returns a value; it never returns
(its goroutine stays inside `register` or stays blocked on a channel); or the
process has gone down with a panic on a native thread.  `illTyped` stands for
a channel that delivers a value of another channel's element type, which Go's
type checker excludes. -/
inductive Outcome (α : Type) where
  | returned (a : α)
  | blocked
  | crashed
  | illTyped
deriving DecidableEq, Repr

namespace wallet

/-- Embeds `type Wallet struct { Name string; handle types.Handle }`
(wallet/wallet.go:21-24). -/
structure Wallet where
  Name : String
  handle : Handle
deriving DecidableEq, Repr

/-- Embeds `func (w *Wallet) Handle() types.Handle` (wallet/wallet.go:69-71). -/
def Wallet.Handle (w : Wallet) : Handle := w.handle

end wallet

namespace anoncreds

/-- The continuation built in `issuerCreateSchema` (anoncreds.go:493-503). -/
def issuerCreateSchemaCb (respChan errChan : ChanId) : callback.Callback :=
  fun err data =>
    match err with
    | some e => .send errChan (.error (some e))
    | none =>
      match data with
      | .strings resp =>
        match resp[0]?, resp[1]? with
        | some schemaID, some schemaJSON =>
          .send respChan (.issuerCreateSchemaResponse schemaID schemaJSON)
        | _, _ => .panic "index out of range"
      | _ => .panic "interface conversion: interface {} is not []string"

/-- Embeds `func issuerCreateSchema(issuerDID, name, version, attrs string)
(chan *issuerCreateSchemaResponse, chan error)` (anoncreds.go:470-512).
`none` when the function does not return. -/
def issuerCreateSchema (env : Env) (issuerDID name version attrs : String) (w : World) :
    Option ((ChanId × ChanId) × World) :=
  let (respChan, w) := make 0 w
  let (errChan, w) := make 1 w
  if issuerDID = "" then
    (sendNow errChan (.error (some (fmt.Errorf "issuer DID must be specified"))) w).map
      (fun w => ((respChan, errChan), w))
  else if name = "" then
    (sendNow errChan (.error (some (fmt.Errorf "name must be specified"))) w).map
      (fun w => ((respChan, errChan), w))
  else if version = "" then
    (sendNow errChan (.error (some (fmt.Errorf "version must be specified"))) w).map
      (fun w => ((respChan, errChan), w))
  else if attrs = "" then
    (sendNow errChan (.error (some (fmt.Errorf "attrs must be specified"))) w).map
      (fun w => ((respChan, errChan), w))
  else
    let cb := issuerCreateSchemaCb respChan errChan
    match indy.IssuerCreateSchema env issuerDID name version attrs cb w with
    | none => none
    | some (some err, w) =>
      -- Send the error immediately
      (sendNow errChan (.error (some err)) w).map (fun w => ((respChan, errChan), w))
    | some (none, w) => some ((respChan, errChan), w)

/-- Embeds `func IssuerCreateSchema(issuerDid, name, version, attrs string)
(schemaID, schemaJSON string, err error)` (anoncreds.go:33-42).  Between the
return of `issuerCreateSchema` and the `select` the native threads make the
callback invocations the library owes. -/
def IssuerCreateSchema (env : Env) (issuerDid name version attrs : String) (w : World) :
    Outcome (String × String × Option GoError) × World :=
  match issuerCreateSchema env issuerDid name version attrs w with
  | none => (.blocked, w)
  | some ((respChan, errChan), w) =>
    let w := indy.nativeThreads w
    match w.fault with
    | some _ => (.crashed, w)
    | none =>
      match select2 env.pick respChan errChan w with
      | none => (.blocked, w)
      | some (.case1 (.issuerCreateSchemaResponse schemaID schemaJSON), w) =>
        (.returned (schemaID, schemaJSON, none), w)
      | some (.case2 (.error err), w) => (.returned ("", "", err), w)
      | some (_, w) => (.illTyped, w)

/-- The continuation built in `issuerCreateCredential` (anoncreds.go:616-627). -/
def issuerCreateCredentialCb (respChan errChan : ChanId) : callback.Callback :=
  fun err data =>
    match err with
    | some e => .send errChan (.error (some e))
    | none =>
      match data with
      | .strings sd =>
        match sd[0]?, sd[1]?, sd[2]? with
        | some CredJSON, some CredRevID, some RevocRegDeltaJSON =>
          .send respChan (.issuerCreateCredentialResp CredJSON CredRevID RevocRegDeltaJSON)
        | _, _, _ => .panic "index out of range"
      | _ => .panic "interface conversion: interface {} is not []string"

/-- Embeds `func issuerCreateCredential(wallet *wallet.Wallet, credOfferJSON,
credReqJSON, credValuesJSON, revRegID string, blobStorageReaderHandle
types.Handle) (chan *issuerCreateCredentialResp, chan error)`
(anoncreds.go:597-636). -/
def issuerCreateCredential (env : Env) (wallet : wallet.Wallet)
    (credOfferJSON credReqJSON credValuesJSON revRegID : String)
    (blobStorageReaderHandle : Handle) (w : World) : Option ((ChanId × ChanId) × World) :=
  let (respChan, w) := make 0 w
  let (errChan, w) := make 1 w
  if credOfferJSON = "" then
    (sendNow errChan (.error (some (fmt.Errorf "cred offer JSON must be specified"))) w).map
      (fun w => ((respChan, errChan), w))
  else if credReqJSON = "" then
    (sendNow errChan (.error (some (fmt.Errorf "cred request JSON must be specified"))) w).map
      (fun w => ((respChan, errChan), w))
  else if credValuesJSON = "" then
    (sendNow errChan (.error (some (fmt.Errorf "cred values JSON must be specified"))) w).map
      (fun w => ((respChan, errChan), w))
  else
    let cb := issuerCreateCredentialCb respChan errChan
    match indy.IssuerCreateCredential env wallet.Handle credOfferJSON credReqJSON
        credValuesJSON revRegID blobStorageReaderHandle cb w with
    | none => none
    | some (some err, w) =>
      -- Send the error immediately
      (sendNow errChan (.error (some err)) w).map (fun w => ((respChan, errChan), w))
    | some (none, w) => some ((respChan, errChan), w)

/-- Embeds `func IssuerCreateCredential(wallet *wallet.Wallet, credOfferJSON,
credReqJSON, credValuesJSON, revRegID string, blobStorageReaderHandle
types.Handle) (credJSON, credRevID, revocRegDeltaJSON string, err error)`
(anoncreds.go:131-141). -/
def IssuerCreateCredential (env : Env) (wallet : wallet.Wallet)
    (credOfferJSON credReqJSON credValuesJSON revRegID : String)
    (blobStorageReaderHandle : Handle) (w : World) :
    Outcome (String × String × String × Option GoError) × World :=
  match issuerCreateCredential env wallet credOfferJSON credReqJSON credValuesJSON revRegID
      blobStorageReaderHandle w with
  | none => (.blocked, w)
  | some ((respChan, errChan), w) =>
    let w := indy.nativeThreads w
    match w.fault with
    | some _ => (.crashed, w)
    | none =>
      match select2 env.pick respChan errChan w with
      | none => (.blocked, w)
      | some (.case1 (.issuerCreateCredentialResp CredJSON CredRevID RevocRegDeltaJSON), w) =>
        (.returned (CredJSON, CredRevID, RevocRegDeltaJSON, none), w)
      | some (.case2 (.error err), w) => (.returned ("", "", "", err), w)
      | some (_, w) => (.illTyped, w)

end anoncreds

namespace did

/-- Embeds `type Info struct { DID string; VerKey string }` (did/did.go:23-26). -/
structure Info where
  DID : String
  VerKey : String
deriving DecidableEq, Repr

/-- The continuation built in `createAndStoreMyDID` (did.go:81-91). -/
def createAndStoreMyDIDCb (didChan errChan : ChanId) : callback.Callback :=
  fun err data =>
    match err with
    | some e => .send errChan (.error (some e))
    | none =>
      match data with
      | .strings sd =>
        match sd[0]?, sd[1]? with
        | some DID, some VerKey => .send didChan (.Info DID VerKey)
        | _, _ => .panic "index out of range"
      | _ => .panic "interface conversion: interface {} is not []string"

/-- Embeds `func createAndStoreMyDID(wallet *wallet.Wallet, didJSON string)
(chan *Info, chan error)` (did.go:70-100). -/
def createAndStoreMyDID (env : Env) (wallet : wallet.Wallet) (didJSON : String) (w : World) :
    Option ((ChanId × ChanId) × World) :=
  let (didChan, w) := make 0 w
  let (errChan, w) := make 1 w
  if didJSON = "" then
    (sendNow errChan (.error (some (fmt.Errorf "JSON for DID must be specified"))) w).map
      (fun w => ((didChan, errChan), w))
  else
    let cb := createAndStoreMyDIDCb didChan errChan
    match indy.CreateAndStoreMyDID env wallet.Handle didJSON cb w with
    | none => none
    | some (some err, w) =>
      -- Send the error immediately
      (sendNow errChan (.error (some err)) w).map (fun w => ((didChan, errChan), w))
    | some (none, w) => some ((didChan, errChan), w)

/-- Embeds `func CreateAndStoreMyDID(wallet *wallet.Wallet, didJSON string)
(didInfo *Info, err error)` (did.go:36-43). -/
def CreateAndStoreMyDID (env : Env) (wallet : wallet.Wallet) (didJSON : String) (w : World) :
    Outcome (Option Info × Option GoError) × World :=
  match createAndStoreMyDID env wallet didJSON w with
  | none => (.blocked, w)
  | some ((infoChan, errChan), w) =>
    let w := indy.nativeThreads w
    match w.fault with
    | some _ => (.crashed, w)
    | none =>
      match select2 env.pick infoChan errChan w with
      | none => (.blocked, w)
      | some (.case1 (.Info DID VerKey), w) =>
        (.returned (some { DID := DID, VerKey := VerKey }, none), w)
      | some (.case2 (.error err), w) => (.returned (none, err), w)
      | some (_, w) => (.illTyped, w)

end did

open callback

namespace pool

/-- Embeds `func create(name string, configPath string) chan error`
(pool/pool.go:82-103). -/
def create (env : Env) (name configPath : String) (w : World) : Option (ChanId × World) :=
  let (errChan, w) := make 1 w
  if name = "" then
    (sendNow errChan (.error (some (fmt.Errorf "pool name must be specified"))) w).map
      (fun w => (errChan, w))
  else if configPath = "" then
    (sendNow errChan (.error (some (fmt.Errorf "config path must be specified"))) w).map
      (fun w => (errChan, w))
  else
    match indy.CreatePoolLedgerConfig env name configPath (callback.New errChan) w with
    | none => none
    | some (some err, w) =>
      -- Send the error immediately
      (sendNow errChan (.error (some err)) w).map (fun w => (errChan, w))
    | some (none, w) => some (errChan, w)

/-- Embeds `func Create(name string, configPath string) error`
(pool/pool.go:36-38): `return <-create(name, configPath)`. -/
def Create (env : Env) (name configPath : String) (w : World) :
    Outcome (Option GoError) × World :=
  match create env name configPath w with
  | none => (.blocked, w)
  | some (errChan, w) =>
    let w := indy.nativeThreads w
    match w.fault with
    | some _ => (.crashed, w)
    | none =>
      match recv errChan w with
      | none => (.blocked, w)
      | some (.error err, w) => (.returned err, w)
      | some (_, w) => (.illTyped, w)

end pool

namespace ledger

/-- The continuation built in `buildNYMRequest` (ledger.go:208-214). -/
def buildNYMRequestCb (reqChan errChan : ChanId) : callback.Callback :=
  fun err data =>
    match err with
    | some e => .send errChan (.error (some e))
    | none =>
      match data with
      | .string s => .send reqChan (.string s)
      | _ => .panic "interface conversion: interface {} is not string"

/-- Embeds `func buildNYMRequest(submitterDID, targetDID, verkey string,
alias *types.Alias, role *role.Role) (chan string, chan error)`
(ledger.go:193-223). -/
def buildNYMRequest (env : Env) (submitterDID targetDID verkey : String)
    (nymAlias : Option types.Alias) (role : Option role.Role) (w : World) :
    Option ((ChanId × ChanId) × World) :=
  let (reqChan, w) := make 0 w
  let (errChan, w) := make 1 w
  if submitterDID = "" then
    (sendNow errChan (.error (some (fmt.Errorf "Submitter DID must be specified"))) w).map
      (fun w => ((reqChan, errChan), w))
  else if targetDID = "" then
    (sendNow errChan (.error (some (fmt.Errorf "Target DID must be specified"))) w).map
      (fun w => ((reqChan, errChan), w))
  else
    let cb := buildNYMRequestCb reqChan errChan
    match indy.BuildNYMRequest env submitterDID targetDID verkey nymAlias role cb w with
    | none => none
    | some (some err, w) =>
      -- Send the error immediately
      (sendNow errChan (.error (some err)) w).map (fun w => ((reqChan, errChan), w))
    | some (none, w) => some ((reqChan, errChan), w)

/-- Embeds `func BuildNYMRequest(submitterDID, targetDID, verkey string,
alias *types.Alias, role *role.Role) (nymReq string, err error)`
(ledger.go:31-38). -/
def BuildNYMRequest (env : Env) (submitterDID targetDID verkey : String)
    (nymAlias : Option types.Alias) (role : Option role.Role) (w : World) :
    Outcome (String × Option GoError) × World :=
  match buildNYMRequest env submitterDID targetDID verkey nymAlias role w with
  | none => (.blocked, w)
  | some ((nymReqChan, errChan), w) =>
    let w := indy.nativeThreads w
    match w.fault with
    | some _ => (.crashed, w)
    | none =>
      match select2 env.pick nymReqChan errChan w with
      | none => (.blocked, w)
      | some (.case1 (.string nymReq), w) => (.returned (nymReq, none), w)
      | some (.case2 (.error err), w) => (.returned ("", err), w)
      | some (_, w) => (.illTyped, w)

end ledger

/-! ## Further adapters -/

namespace indy

/-- Embeds `func IssuerCreateAndStoreCredentialDef(walletHandle types.Handle,
issuerDID, schemaJSON, tag, signatureType, configJSON string,
cb callback.Callback) error` (indy/anoncreds.go:45-64). -/
def IssuerCreateAndStoreCredentialDef (env : Env) (walletHandle : Handle)
    (issuerDID schemaJSON tag signatureType configJSON : String) (cb : callback.Callback)
    (w : World) : Option (Option GoError × World) :=
  let csIssuerDID := newChar issuerDID
  let csSchemaJSON := newChar schemaJSON
  let csTag := newChar tag
  let csSignatureType := newChar signatureType
  let csConfigJSON := newChar configJSON
  match callback.Register env cb w with
  | none => none
  | some (handle, w) =>
    let (errCode, w) := native env
      { fn := "indy_issuer_create_and_store_credential_def", command_handle := toInt32 handle,
        args := [.handle (toInt32 walletHandle), .str csIssuerDID, .str csSchemaJSON,
          .str csTag, .str csSignatureType, .str csConfigJSON],
        cb := .String2 } w
    some (indyerror.New (toInt32 errCode), w)

/-- Embeds `func ProverCreateMasterSecret(walletHandle types.Handle,
masterSecretID string, cb callback.Callback) error` (indy/anoncreds.go:96-106). -/
def ProverCreateMasterSecret (env : Env) (walletHandle : Handle) (masterSecretID : String)
    (cb : callback.Callback) (w : World) : Option (Option GoError × World) :=
  let csMasterSecretID : CString := if masterSecretID ≠ "" then newChar masterSecretID else none
  match callback.Register env cb w with
  | none => none
  | some (handle, w) =>
    let (errCode, w) := native env
      { fn := "indy_prover_create_master_secret", command_handle := toInt32 handle,
        args := [.handle (toInt32 walletHandle), .str csMasterSecretID],
        cb := .String } w
    some (indyerror.New (toInt32 errCode), w)

/-- Embeds `func ProverStoreCredential(walletHandle types.Handle, credID,
credReqMetadataJSON, credJSON, credDefJSON, revRegDefJSON string,
cb callback.Callback) error` (indy/anoncreds.go:126-151). -/
def ProverStoreCredential (env : Env) (walletHandle : Handle)
    (credID credReqMetadataJSON credJSON credDefJSON revRegDefJSON : String)
    (cb : callback.Callback) (w : World) : Option (Option GoError × World) :=
  let csCredID : CString := if credID ≠ "" then newChar credID else none
  let csCredReqMetadataJSON := newChar credReqMetadataJSON
  let csCredJSON := newChar credJSON
  let csCredDefJSON := newChar credDefJSON
  let csRevRegDefJSON : CString := if revRegDefJSON ≠ "" then newChar revRegDefJSON else none
  match callback.Register env cb w with
  | none => none
  | some (handle, w) =>
    let (errCode, w) := native env
      { fn := "indy_prover_store_credential", command_handle := toInt32 handle,
        args := [.handle (toInt32 walletHandle), .str csCredID, .str csCredReqMetadataJSON,
          .str csCredJSON, .str csCredDefJSON, .str csRevRegDefJSON],
        cb := .String } w
    some (indyerror.New (toInt32 errCode), w)

/-- Embeds `func VerifierVerifyProof(proofRequest, proof, schemas, credentialDefs,
revocRegDefs, revocRegs string, cb callback.Callback) error`
(indy/anoncreds.go:186-208). -/
def VerifierVerifyProof (env : Env)
    (proofRequest proof schemas credentialDefs revocRegDefs revocRegs : String)
    (cb : callback.Callback) (w : World) : Option (Option GoError × World) :=
  let csProofRequest := newChar proofRequest
  let csProof := newChar proof
  let csSchemas := newChar schemas
  let csCredentialDefs := newChar credentialDefs
  let csRevocRegDefs := newChar revocRegDefs
  let csRevocRegs := newChar revocRegs
  match callback.Register env cb w with
  | none => none
  | some (handle, w) =>
    let (errCode, w) := native env
      { fn := "indy_verifier_verify_proof", command_handle := toInt32 handle,
        args := [.str csProofRequest, .str csProof, .str csSchemas, .str csCredentialDefs,
          .str csRevocRegDefs, .str csRevocRegs],
        cb := .Bool } w
    some (indyerror.New (toInt32 errCode), w)

/-- Embeds `func OpenPoolLedger(name, config string, cb callback.Callback) error`
(indy/pool.go:46-59). -/
def OpenPoolLedger (env : Env) (name config : String) (cb : callback.Callback) (w : World) :
    Option (Option GoError × World) :=
  let csName := newChar name
  let csConfig : CString := if config ≠ "" then newChar config else none
  match callback.Register env cb w with
  | none => none
  | some (handle, w) =>
    let (errCode, w) := native env
      { fn := "indy_open_pool_ledger", command_handle := toInt32 handle,
        args := [.str csName, .str csConfig],
        cb := .SingleHandle } w
    some (indyerror.New (toInt32 errCode), w)

end indy

/-! ## Further facades and the continuations of all operations -/

namespace anoncreds

/-- The continuation built in `issuerCreateAndStoreCredentialDef`
(anoncreds.go:542-552). -/
def issuerCreateAndStoreCredentialDefCb (respChan errChan : ChanId) : Callback :=
  fun err data =>
    match err with
    | some e => .send errChan (.error (some e))
    | none =>
      match data with
      | .strings resp =>
        match resp[0]?, resp[1]? with
        | some credentialDefID, some credentialDefJSON =>
          .send respChan (.issuerCAndSCredDefResp credentialDefID credentialDefJSON)
        | _, _ => .panic "index out of range"
      | _ => .panic "interface conversion: interface {} is not []string"

/-- Embeds `func issuerCreateAndStoreCredentialDef(wallet *wallet.Wallet, issuerDID,
schemaJSON, tag, signatureType, configJSON string) (chan *issuerCAndSCredDefResp,
chan error)` (anoncreds.go:519-561). -/
def issuerCreateAndStoreCredentialDef (env : Env) (wallet : wallet.Wallet)
    (issuerDID schemaJSON tag signatureType configJSON : String) (w : World) :
    Option ((ChanId × ChanId) × World) :=
  let (respChan, w) := make 0 w
  let (errChan, w) := make 1 w
  if issuerDID = "" then
    (sendNow errChan (.error (some (fmt.Errorf "issuer DID must be specified"))) w).map
      (fun w => ((respChan, errChan), w))
  else if schemaJSON = "" then
    (sendNow errChan (.error (some (fmt.Errorf "schema must be specified"))) w).map
      (fun w => ((respChan, errChan), w))
  else if tag = "" then
    (sendNow errChan (.error (some (fmt.Errorf "tag must be specified"))) w).map
      (fun w => ((respChan, errChan), w))
  else if configJSON = "" then
    (sendNow errChan (.error (some (fmt.Errorf "config must be specified"))) w).map
      (fun w => ((respChan, errChan), w))
  else
    let cb := issuerCreateAndStoreCredentialDefCb respChan errChan
    match indy.IssuerCreateAndStoreCredentialDef env wallet.Handle issuerDID schemaJSON tag
        signatureType configJSON cb w with
    | none => none
    | some (some err, w) =>
      -- Send the error immediately
      (sendNow errChan (.error (some err)) w).map (fun w => ((respChan, errChan), w))
    | some (none, w) => some ((respChan, errChan), w)

/-- Embeds `func IssuerCreateAndStoreCredentialDef(wallet *wallet.Wallet, issuerDID,
schemaJSON, tag, signatureType, configJSON string) (credentialDefID,
credentialDefJSON string, err error)` (anoncreds.go:62-71). -/
def IssuerCreateAndStoreCredentialDef (env : Env) (wallet : wallet.Wallet)
    (issuerDID schemaJSON tag signatureType configJSON : String) (w : World) :
    Outcome (String × String × Option GoError) × World :=
  match issuerCreateAndStoreCredentialDef env wallet issuerDID schemaJSON tag signatureType
      configJSON w with
  | none => (.blocked, w)
  | some ((respChan, errChan), w) =>
    let w := indy.nativeThreads w
    match w.fault with
    | some _ => (.crashed, w)
    | none =>
      match select2 env.pick respChan errChan w with
      | none => (.blocked, w)
      | some (.case1 (.issuerCAndSCredDefResp credentialDefID credentialDefJSON), w) =>
        (.returned (credentialDefID, credentialDefJSON, none), w)
      | some (.case2 (.error err), w) => (.returned ("", "", err), w)
      | some (_, w) => (.illTyped, w)

/-- The continuation built in `issuerCreateCredentialOffer` (anoncreds.go:574-580). -/
def issuerCreateCredentialOfferCb (respChan errChan : ChanId) : Callback :=
  fun err data =>
    match err with
    | some e => .send errChan (.error (some e))
    | none =>
      match data with
      | .string s => .send respChan (.string s)
      | _ => .panic "interface conversion: interface {} is not string"

/-- The continuation built in `proverCreateMasterSecret` (anoncreds.go:644-650). -/
def proverCreateMasterSecretCb (respChan errChan : ChanId) : Callback :=
  fun err data =>
    match err with
    | some e => .send errChan (.error (some e))
    | none =>
      match data with
      | .string s => .send respChan (.string s)
      | _ => .panic "interface conversion: interface {} is not string"

/-- The continuation built in `proverCreateCredentialReq` (anoncreds.go:689-699). -/
def proverCreateCredentialReqCb (respChan errChan : ChanId) : Callback :=
  fun err data =>
    match err with
    | some e => .send errChan (.error (some e))
    | none =>
      match data with
      | .strings sd =>
        match sd[0]?, sd[1]? with
        | some requestJSON, some requestMetadataJSON =>
          .send respChan (.proverCreateCredentialResp requestJSON requestMetadataJSON)
        | _, _ => .panic "index out of range"
      | _ => .panic "interface conversion: interface {} is not []string"

/-- The continuation built in `proverStoreCredential` (anoncreds.go:729-735). -/
def proverStoreCredentialCb (respChan errChan : ChanId) : Callback :=
  fun err data =>
    match err with
    | some e => .send errChan (.error (some e))
    | none =>
      match data with
      | .string s => .send respChan (.string s)
      | _ => .panic "interface conversion: interface {} is not string"

/-- The continuation built in `proverGetCredentialsForProofReq`
(anoncreds.go:757-763). -/
def proverGetCredentialsForProofReqCb (respChan errChan : ChanId) : Callback :=
  fun err data =>
    match err with
    | some e => .send errChan (.error (some e))
    | none =>
      match data with
      | .string s => .send respChan (.string s)
      | _ => .panic "interface conversion: interface {} is not string"

/-- The continuation built in `proverCreateProof` (anoncreds.go:805-811). -/
def proverCreateProofCb (respChan errChan : ChanId) : Callback :=
  fun err data =>
    match err with
    | some e => .send errChan (.error (some e))
    | none =>
      match data with
      | .string s => .send respChan (.string s)
      | _ => .panic "interface conversion: interface {} is not string"

/-- The continuation built in `verifierVerifyProof` (anoncreds.go:853-859). -/
def verifierVerifyProofCb (respChan errChan : ChanId) : Callback :=
  fun err data =>
    match err with
    | some e => .send errChan (.error (some e))
    | none =>
      match data with
      | .bool b => .send respChan (.bool b)
      | _ => .panic "interface conversion: interface {} is not bool"

/-- Embeds `func verifierVerifyProof(proofRequest, proof, schemas, credentialDefs,
revocRegDefs, revocRegs string) (chan bool, chan error)` (anoncreds.go:822-868). -/
def verifierVerifyProof (env : Env)
    (proofRequest proof schemas credentialDefs revocRegDefs revocRegs : String) (w : World) :
    Option ((ChanId × ChanId) × World) :=
  let (respChan, w) := make 0 w
  let (errChan, w) := make 1 w
  if proofRequest = "" then
    (sendNow errChan (.error (some (fmt.Errorf "proof request must be specified"))) w).map
      (fun w => ((respChan, errChan), w))
  else if proof = "" then
    (sendNow errChan (.error (some (fmt.Errorf "proof must be specified"))) w).map
      (fun w => ((respChan, errChan), w))
  else if schemas = "" then
    (sendNow errChan (.error (some (fmt.Errorf "schemas must be specified"))) w).map
      (fun w => ((respChan, errChan), w))
  else if credentialDefs = "" then
    (sendNow errChan (.error (some (fmt.Errorf "credential defs must be specified"))) w).map
      (fun w => ((respChan, errChan), w))
  else if revocRegDefs = "" then
    (sendNow errChan (.error (some (fmt.Errorf "revoc reg defs must be specified"))) w).map
      (fun w => ((respChan, errChan), w))
  else if revocRegs = "" then
    (sendNow errChan (.error (some (fmt.Errorf "revoc regs must be specified"))) w).map
      (fun w => ((respChan, errChan), w))
  else
    let cb := verifierVerifyProofCb respChan errChan
    match indy.VerifierVerifyProof env proofRequest proof schemas credentialDefs revocRegDefs
        revocRegs cb w with
    | none => none
    | some (some err, w) =>
      -- Send the error immediately
      (sendNow errChan (.error (some err)) w).map (fun w => ((respChan, errChan), w))
    | some (none, w) => some ((respChan, errChan), w)

/-- Embeds `func VerifierVerifyProof(proofRequest, proof, schemas, credentialDefs,
revocRegDefs, revocRegs string) (valid bool, err error)` (anoncreds.go:456-463). -/
def VerifierVerifyProof (env : Env)
    (proofRequest proof schemas credentialDefs revocRegDefs revocRegs : String) (w : World) :
    Outcome (Bool × Option GoError) × World :=
  match verifierVerifyProof env proofRequest proof schemas credentialDefs revocRegDefs
      revocRegs w with
  | none => (.blocked, w)
  | some ((respChan, errChan), w) =>
    let w := indy.nativeThreads w
    match w.fault with
    | some _ => (.crashed, w)
    | none =>
      match select2 env.pick respChan errChan w with
      | none => (.blocked, w)
      | some (.case1 (.bool valid), w) => (.returned (valid, none), w)
      | some (.case2 (.error err), w) => (.returned (false, err), w)
      | some (_, w) => (.illTyped, w)

end anoncreds

namespace crypto

/-- The continuation built in `anonCrypt` (crypto/crypto.go:119-125). -/
def anonCryptCb (respChan errChan : ChanId) : Callback :=
  fun err data =>
    match err with
    | some e => .send errChan (.error (some e))
    | none =>
      match data with
      | .bytes b => .send respChan (.bytes b)
      | _ => .panic "interface conversion: interface {} is not []uint8"

/-- The continuation built in `anonDecrypt` (crypto/crypto.go:151-157). -/
def anonDecryptCb (respChan errChan : ChanId) : Callback :=
  fun err data =>
    match err with
    | some e => .send errChan (.error (some e))
    | none =>
      match data with
      | .bytes b => .send respChan (.bytes b)
      | _ => .panic "interface conversion: interface {} is not []uint8"

/-- The continuation built in `authCrypt` (crypto/crypto.go:183-189). -/
def authCryptCb (respChan errChan : ChanId) : Callback :=
  fun err data =>
    match err with
    | some e => .send errChan (.error (some e))
    | none =>
      match data with
      | .bytes b => .send respChan (.bytes b)
      | _ => .panic "interface conversion: interface {} is not []uint8"

/-- The continuation built in `authDecrypt` (crypto/crypto.go:216-226).  The
fields of the response are evaluated in order: element 0, asserted to be a
string, then element 1, asserted to be a byte slice. -/
def authDecryptCb (respChan errChan : ChanId) : Callback :=
  fun err data =>
    match err with
    | some e => .send errChan (.error (some e))
    | none =>
      match data with
      | .ifaces senderAndMessage =>
        match senderAndMessage[0]? with
        | none => .panic "index out of range"
        | some (Data.string sender) =>
          match senderAndMessage[1]? with
          | none => .panic "index out of range"
          | some (Data.bytes message) => .send respChan (.authDecryptResponse sender message)
          | some _ => .panic "interface conversion: interface {} is not []uint8"
        | some _ => .panic "interface conversion: interface {} is not string"
      | _ => .panic "interface conversion: interface {} is not []interface {}"

/-- Embeds `func authDecrypt(wallet *wallet.Wallet, recipientVK string, message []byte)
(chan *authDecryptResponse, chan error)` (crypto/crypto.go:205-235). -/
def authDecrypt (env : Env) (wallet : wallet.Wallet) (recipientVK : String)
    (message : List (Fin 256)) (w : World) : Option ((ChanId × ChanId) × World) :=
  let (respChan, w) := make 0 w
  let (errChan, w) := make 1 w
  if recipientVK = "" then
    (sendNow errChan
        (.error (some (fmt.Errorf "recipient verification key must be specified"))) w).map
      (fun w => ((respChan, errChan), w))
  else
    let cb := authDecryptCb respChan errChan
    match indy.AuthDecrypt env wallet.Handle recipientVK message cb w with
    | none => none
    | some (some err, w) =>
      -- Send the error immediately
      (sendNow errChan (.error (some err)) w).map (fun w => ((respChan, errChan), w))
    | some (none, w) => some ((respChan, errChan), w)

/-- Embeds `func AuthDecrypt(wallet *wallet.Wallet, recipientVK string, message []byte)
(sender string, decryptedMsg []byte, err error)` (crypto/crypto.go:97-106). -/
def AuthDecrypt (env : Env) (wallet : wallet.Wallet) (recipientVK : String)
    (message : List (Fin 256)) (w : World) :
    Outcome (String × List (Fin 256) × Option GoError) × World :=
  match authDecrypt env wallet recipientVK message w with
  | none => (.blocked, w)
  | some ((respChan, errChan), w) =>
    let w := indy.nativeThreads w
    match w.fault with
    | some _ => (.crashed, w)
    | none =>
      match select2 env.pick respChan errChan w with
      | none => (.blocked, w)
      | some (.case1 (.authDecryptResponse sender message), w) =>
        (.returned (sender, message, none), w)
      | some (.case2 (.error err), w) => (.returned ("", [], err), w)
      | some (_, w) => (.illTyped, w)

end crypto

namespace did

/-- The continuation built in `keyForDID` (did.go:113-120). -/
def keyForDIDCb (keyChan errChan : ChanId) : Callback :=
  fun err data =>
    match err with
    | some e => .send errChan (.error (some e))
    | none =>
      match data with
      | .string key => .send keyChan (.string key)
      | _ => .panic "interface conversion: interface {} is not string"

end did

namespace ledger

/-- The continuation built in `signAndSubmitRequest` (ledger.go:240-246). -/
def signAndSubmitRequestCb (respChan errChan : ChanId) : Callback :=
  fun err data =>
    match err with
    | some e => .send errChan (.error (some e))
    | none =>
      match data with
      | .string s => .send respChan (.string s)
      | _ => .panic "interface conversion: interface {} is not string"

/-- The continuation built in `submitRequest` (ledger.go:268-274). -/
def submitRequestCb (respChan errChan : ChanId) : Callback :=
  fun err data =>
    match err with
    | some e => .send errChan (.error (some e))
    | none =>
      match data with
      | .string s => .send respChan (.string s)
      | _ => .panic "interface conversion: interface {} is not string"

/-- The continuation built in `buildSchemaRequest` (ledger.go:300-306). -/
def buildSchemaRequestCb (reqChan errChan : ChanId) : Callback :=
  fun err data =>
    match err with
    | some e => .send errChan (.error (some e))
    | none =>
      match data with
      | .string s => .send reqChan (.string s)
      | _ => .panic "interface conversion: interface {} is not string"

/-- The continuation built in `buildGetSchemaRequest` (ledger.go:332-338). -/
def buildGetSchemaRequestCb (reqChan errChan : ChanId) : Callback :=
  fun err data =>
    match err with
    | some e => .send errChan (.error (some e))
    | none =>
      match data with
      | .string s => .send reqChan (.string s)
      | _ => .panic "interface conversion: interface {} is not string"

/-- The continuation built in `parseGetSchemaResponse` (ledger.go:365-375). -/
def parseGetSchemaResponseCb (resultChan errChan : ChanId) : Callback :=
  fun err data =>
    match err with
    | some e => .send errChan (.error (some e))
    | none =>
      match data with
      | .strings sd =>
        match sd[0]?, sd[1]? with
        | some id, some json => .send resultChan (.parseResponse id json)
        | _, _ => .panic "index out of range"
      | _ => .panic "interface conversion: interface {} is not []string"

/-- The continuation built in `buildCredDefRequest` (ledger.go:401-407). -/
def buildCredDefRequestCb (reqChan errChan : ChanId) : Callback :=
  fun err data =>
    match err with
    | some e => .send errChan (.error (some e))
    | none =>
      match data with
      | .string s => .send reqChan (.string s)
      | _ => .panic "interface conversion: interface {} is not string"

/-- The continuation built in `buildGetCredDefRequest` (ledger.go:433-439). -/
def buildGetCredDefRequestCb (reqChan errChan : ChanId) : Callback :=
  fun err data =>
    match err with
    | some e => .send errChan (.error (some e))
    | none =>
      match data with
      | .string s => .send reqChan (.string s)
      | _ => .panic "interface conversion: interface {} is not string"

/-- The continuation built in `parseGetCredDefResponse` (ledger.go:461-471). -/
def parseGetCredDefResponseCb (resultChan errChan : ChanId) : Callback :=
  fun err data =>
    match err with
    | some e => .send errChan (.error (some e))
    | none =>
      match data with
      | .strings sd =>
        match sd[0]?, sd[1]? with
        | some id, some json => .send resultChan (.parseResponse id json)
        | _, _ => .panic "index out of range"
      | _ => .panic "interface conversion: interface {} is not []string"

end ledger

namespace pool

/-- The continuation built in `open` (pool/pool.go:135-145); `name` is the
argument of `open` that the closure captures. -/
def openCb (name : String) (poolChan errChan : ChanId) : Callback :=
  fun err data =>
    match err with
    | some e => .send errChan (.error (some e))
    | none =>
      match data with
      | .handle handle => .send poolChan (.Pool name handle)
      | _ => .panic "interface conversion: interface {} is not types.Handle"

/-- The continuation built in `list` (pool/pool.go:162-176).  `asPools`
(pool.go:212-222) decodes the JSON text with `encoding/json` and is a
parameter here: it yields the pool names and a nil error, or an error. -/
def listCb (asPools : String → List String × Option GoError) (poolsChan errChan : ChanId) :
    Callback :=
  fun err data =>
    match err with
    | some e => .send errChan (.error (some e))
    | none =>
      match data with
      | .string json =>
        match asPools json with
        | (_, some err) => .send errChan (.error (some err))
        | (pools, none) => .send poolsChan (.strings pools)
      | _ => .panic "interface conversion: interface {} is not string"

end pool

namespace wallet

/-- The continuation built in `open` (wallet/wallet.go:144-156); `name` is the
argument of `open` that the closure captures. -/
def openCb (name : String) (walletChan errChan : ChanId) : Callback :=
  fun err data =>
    match err with
    | some e => .send errChan (.error (some e))
    | none =>
      match data with
      | .handle handle => .send walletChan (.Wallet name handle)
      | _ => .panic "interface conversion: interface {} is not types.Handle"

end wallet

/-! ## The remaining adapters -/

namespace indy

/-- Embeds `func IssuerCreateCredentialOffer(walletHandle types.Handle, credDefID string, cb
callback.Callback) error` (indy/anoncreds.go:66-73). -/
def IssuerCreateCredentialOffer (env : Env) (walletHandle : Handle) (credDefID : String)
    (cb : callback.Callback) (w : World) : Option (Option GoError × World) :=
  let csCredDefID := newChar credDefID
  match callback.Register env cb w with
  | none => none
  | some (handle, w) =>
    let (errCode, w) := native env
      { fn := "indy_issuer_create_credential_offer", command_handle := toInt32 handle,
        args := [.handle (toInt32 walletHandle), .str csCredDefID],
        cb := .String } w
    some (indyerror.New (toInt32 errCode), w)

/-- Embeds `func ProverCreateCredentialReq(walletHandle types.Handle, proverDID,
credentialOfferJSON, credentialDefJSON, masterSecretID string, cb callback.Callback) error`
(indy/anoncreds.go:108-124). -/
def ProverCreateCredentialReq (env : Env) (walletHandle : Handle)
    (proverDID credentialOfferJSON credentialDefJSON masterSecretID : String)
    (cb : callback.Callback) (w : World) : Option (Option GoError × World) :=
  let csProverDID := newChar proverDID
  let csCredentialOfferJSON := newChar credentialOfferJSON
  let csCredentialDefJSON := newChar credentialDefJSON
  let csMasterSecretID := newChar masterSecretID
  match callback.Register env cb w with
  | none => none
  | some (handle, w) =>
    let (errCode, w) := native env
      { fn := "indy_prover_create_credential_req", command_handle := toInt32 handle,
        args := [.handle (toInt32 walletHandle), .str csProverDID, .str csCredentialOfferJSON,
          .str csCredentialDefJSON, .str csMasterSecretID],
        cb := .String2 } w
    some (indyerror.New (toInt32 errCode), w)

/-- Embeds `func ProverGetCredentialsForProofReq(walletHandle types.Handle, proofRequest string, cb
callback.Callback) error` (indy/anoncreds.go:153-160). -/
def ProverGetCredentialsForProofReq (env : Env) (walletHandle : Handle) (proofRequest : String)
    (cb : callback.Callback) (w : World) : Option (Option GoError × World) :=
  let csProofRequest := newChar proofRequest
  match callback.Register env cb w with
  | none => none
  | some (handle, w) =>
    let (errCode, w) := native env
      { fn := "indy_prover_get_credentials_for_proof_req", command_handle := toInt32 handle,
        args := [.handle (toInt32 walletHandle), .str csProofRequest],
        cb := .String } w
    some (indyerror.New (toInt32 errCode), w)

/-- Embeds `func ProverCreateProof(walletHandle types.Handle, proofRequest, requestedCredentials,
masterSecret, schemas, credentialDefs, revStates string, cb callback.Callback) error`
(indy/anoncreds.go:162-184). -/
def ProverCreateProof (env : Env) (walletHandle : Handle)
    (proofRequest requestedCredentials masterSecret schemas credentialDefs revStates : String)
    (cb : callback.Callback) (w : World) : Option (Option GoError × World) :=
  let csProofRequest := newChar proofRequest
  let csRequestedCredentials := newChar requestedCredentials
  let csMasterSecret := newChar masterSecret
  let csSchemas := newChar schemas
  let csCredentialDefs := newChar credentialDefs
  let csRevStates := newChar revStates
  match callback.Register env cb w with
  | none => none
  | some (handle, w) =>
    let (errCode, w) := native env
      { fn := "indy_prover_create_proof", command_handle := toInt32 handle,
        args := [.handle (toInt32 walletHandle), .str csProofRequest, .str csRequestedCredentials,
          .str csMasterSecret, .str csSchemas, .str csCredentialDefs, .str csRevStates],
        cb := .String } w
    some (indyerror.New (toInt32 errCode), w)

/-- Embeds `func KeyForDID(poolHandle types.Handle, walletHandle types.Handle, did string, cb
callback.Callback) error` (indy/did.go:35-42). -/
def KeyForDID (env : Env) (poolHandle walletHandle : Handle) (did : String) (cb : callback.Callback)
    (w : World) : Option (Option GoError × World) :=
  let csDID := newChar did
  match callback.Register env cb w with
  | none => none
  | some (handle, w) =>
    let (errCode, w) := native env
      { fn := "indy_key_for_did", command_handle := toInt32 handle,
        args := [.handle (toInt32 poolHandle), .handle (toInt32 walletHandle), .str csDID],
        cb := .String } w
    some (indyerror.New (toInt32 errCode), w)

/-- Embeds `func SignAndSubmitRequest(poolHandle types.Handle, walletHandle types.Handle,
submitterDID, requestJSON string, cb callback.Callback) error` (indy/ledger.go:54-64). -/
def SignAndSubmitRequest (env : Env) (poolHandle walletHandle : Handle)
    (submitterDID requestJSON : String) (cb : callback.Callback) (w : World) :
    Option (Option GoError × World) :=
  let csSubmitterDID := newChar submitterDID
  let csRequestJSON := newChar requestJSON
  match callback.Register env cb w with
  | none => none
  | some (handle, w) =>
    let (errCode, w) := native env
      { fn := "indy_sign_and_submit_request", command_handle := toInt32 handle,
        args := [.handle (toInt32 poolHandle), .handle (toInt32 walletHandle), .str csSubmitterDID,
          .str csRequestJSON],
        cb := .String } w
    some (indyerror.New (toInt32 errCode), w)

/-- Embeds `func SubmitRequest(poolHandle types.Handle, requestJSON string, cb callback.Callback)
error` (indy/ledger.go:66-73). -/
def SubmitRequest (env : Env) (poolHandle : Handle) (requestJSON : String) (cb : callback.Callback)
    (w : World) : Option (Option GoError × World) :=
  let csRequestJSON := newChar requestJSON
  match callback.Register env cb w with
  | none => none
  | some (handle, w) =>
    let (errCode, w) := native env
      { fn := "indy_submit_request", command_handle := toInt32 handle,
        args := [.handle (toInt32 poolHandle), .str csRequestJSON],
        cb := .String } w
    some (indyerror.New (toInt32 errCode), w)

/-- Embeds `func BuildSchemaRequest(submitterDID, data string, cb callback.Callback) error`
(indy/ledger.go:75-85). -/
def BuildSchemaRequest (env : Env) (submitterDID data : String) (cb : callback.Callback)
    (w : World) : Option (Option GoError × World) :=
  let csSubmitterDID := newChar submitterDID
  let csData := newChar data
  match callback.Register env cb w with
  | none => none
  | some (handle, w) =>
    let (errCode, w) := native env
      { fn := "indy_build_schema_request", command_handle := toInt32 handle,
        args := [.str csSubmitterDID, .str csData],
        cb := .String } w
    some (indyerror.New (toInt32 errCode), w)

/-- Embeds `func BuildGetSchemaRequest(submitterDID, id string, cb callback.Callback) error`
(indy/ledger.go:87-97). -/
def BuildGetSchemaRequest (env : Env) (submitterDID id : String) (cb : callback.Callback)
    (w : World) : Option (Option GoError × World) :=
  let csSubmitterDID := newChar submitterDID
  let csID := newChar id
  match callback.Register env cb w with
  | none => none
  | some (handle, w) =>
    let (errCode, w) := native env
      { fn := "indy_build_get_schema_request", command_handle := toInt32 handle,
        args := [.str csSubmitterDID, .str csID],
        cb := .String } w
    some (indyerror.New (toInt32 errCode), w)

/-- Embeds `func ParseGetSchemaResponse(response string, cb callback.Callback) error`
(indy/ledger.go:99-106). -/
def ParseGetSchemaResponse (env : Env) (response : String) (cb : callback.Callback) (w : World) :
    Option (Option GoError × World) :=
  let csResponse := newChar response
  match callback.Register env cb w with
  | none => none
  | some (handle, w) =>
    let (errCode, w) := native env
      { fn := "indy_parse_get_schema_response", command_handle := toInt32 handle,
        args := [.str csResponse],
        cb := .String2 } w
    some (indyerror.New (toInt32 errCode), w)

/-- Embeds `func BuildCredDefRequest(submitterDID, data string, cb callback.Callback) error`
(indy/ledger.go:108-118). -/
def BuildCredDefRequest (env : Env) (submitterDID data : String) (cb : callback.Callback)
    (w : World) : Option (Option GoError × World) :=
  let csSubmitterDID := newChar submitterDID
  let csData := newChar data
  match callback.Register env cb w with
  | none => none
  | some (handle, w) =>
    let (errCode, w) := native env
      { fn := "indy_build_cred_def_request", command_handle := toInt32 handle,
        args := [.str csSubmitterDID, .str csData],
        cb := .String } w
    some (indyerror.New (toInt32 errCode), w)

/-- Embeds `func BuildGetCredDefRequest(submitterDID, id string, cb callback.Callback) error`
(indy/ledger.go:120-130). -/
def BuildGetCredDefRequest (env : Env) (submitterDID id : String) (cb : callback.Callback)
    (w : World) : Option (Option GoError × World) :=
  let csSubmitterDID := newChar submitterDID
  let csID := newChar id
  match callback.Register env cb w with
  | none => none
  | some (handle, w) =>
    let (errCode, w) := native env
      { fn := "indy_build_get_cred_def_request", command_handle := toInt32 handle,
        args := [.str csSubmitterDID, .str csID],
        cb := .String } w
    some (indyerror.New (toInt32 errCode), w)

/-- Embeds `func ParseGetCredDefResponse(response string, cb callback.Callback) error`
(indy/ledger.go:132-139). -/
def ParseGetCredDefResponse (env : Env) (response : String) (cb : callback.Callback) (w : World) :
    Option (Option GoError × World) :=
  let csResponse := newChar response
  match callback.Register env cb w with
  | none => none
  | some (handle, w) =>
    let (errCode, w) := native env
      { fn := "indy_parse_get_cred_def_response", command_handle := toInt32 handle,
        args := [.str csResponse],
        cb := .String2 } w
    some (indyerror.New (toInt32 errCode), w)

/-- Embeds `func DeletePoolLedgerConfig(name string, cb callback.Callback) error`
(indy/pool.go:37-44). -/
def DeletePoolLedgerConfig (env : Env) (name : String) (cb : callback.Callback) (w : World) :
    Option (Option GoError × World) :=
  let csName := newChar name
  match callback.Register env cb w with
  | none => none
  | some (handle, w) =>
    let (errCode, w) := native env
      { fn := "indy_delete_pool_ledger_config", command_handle := toInt32 handle,
        args := [.str csName],
        cb := .Default } w
    some (indyerror.New (toInt32 errCode), w)

/-- Embeds `func ListPools(cb callback.Callback) error` (indy/pool.go:61-65). -/
def ListPools (env : Env) (cb : callback.Callback) (w : World) : Option (Option GoError × World) :=
  match callback.Register env cb w with
  | none => none
  | some (handle, w) =>
    let (errCode, w) := native env
      { fn := "indy_list_pools", command_handle := toInt32 handle,
        args := [],
        cb := .String } w
    some (indyerror.New (toInt32 errCode), w)

/-- Embeds `func RefreshPoolLedger(poolHandle types.Handle, cb callback.Callback) error`
(indy/pool.go:67-71). -/
def RefreshPoolLedger (env : Env) (poolHandle : Handle) (cb : callback.Callback) (w : World) :
    Option (Option GoError × World) :=
  match callback.Register env cb w with
  | none => none
  | some (handle, w) =>
    let (errCode, w) := native env
      { fn := "indy_refresh_pool_ledger", command_handle := toInt32 handle,
        args := [.handle (toInt32 poolHandle)],
        cb := .Default } w
    some (indyerror.New (toInt32 errCode), w)

/-- Embeds `func ClosePoolLedger(poolHandle types.Handle, cb callback.Callback) error`
(indy/pool.go:73-77). -/
def ClosePoolLedger (env : Env) (poolHandle : Handle) (cb : callback.Callback) (w : World) :
    Option (Option GoError × World) :=
  match callback.Register env cb w with
  | none => none
  | some (handle, w) =>
    let (errCode, w) := native env
      { fn := "indy_close_pool_ledger", command_handle := toInt32 handle,
        args := [.handle (toInt32 poolHandle)],
        cb := .Default } w
    some (indyerror.New (toInt32 errCode), w)

/-- Embeds `func CreateWallet(poolName, name, xtype, config, credentials string, cb
callback.Callback) error` (indy/wallet.go:26-54). -/
def CreateWallet (env : Env) (poolName name xtype config credentials : String)
    (cb : callback.Callback) (w : World) : Option (Option GoError × World) :=
  let csPoolName := newChar poolName
  let csName := newChar name
  let csType : CString := if xtype ≠ "" then newChar xtype else none
  let csConfig : CString := if config ≠ "" then newChar config else none
  let csCredentials : CString := if credentials ≠ "" then newChar credentials else none
  match callback.Register env cb w with
  | none => none
  | some (handle, w) =>
    let (errCode, w) := native env
      { fn := "indy_create_wallet", command_handle := toInt32 handle,
        args := [.str csPoolName, .str csName, .str csType, .str csConfig, .str csCredentials],
        cb := .Default } w
    some (indyerror.New (toInt32 errCode), w)

/-- Embeds `func DeleteWallet(name, credentials string, cb callback.Callback) error`
(indy/wallet.go:56-69).  The credentials are marshaled with `C.CString`, which `newChar` wraps. -/
def DeleteWallet (env : Env) (name credentials : String) (cb : callback.Callback) (w : World) :
    Option (Option GoError × World) :=
  let csName := newChar name
  let csCredentials : CString := if credentials ≠ "" then some credentials else none
  match callback.Register env cb w with
  | none => none
  | some (handle, w) =>
    let (errCode, w) := native env
      { fn := "indy_delete_wallet", command_handle := toInt32 handle,
        args := [.str csName, .str csCredentials],
        cb := .Default } w
    some (indyerror.New (toInt32 errCode), w)

/-- Embeds `func OpenWallet(name, config, credentials string, cb callback.Callback) error`
(indy/wallet.go:71-90).  The three strings are marshaled with `C.CString`, which `newChar` wraps. -/
def OpenWallet (env : Env) (name config credentials : String) (cb : callback.Callback) (w : World) :
    Option (Option GoError × World) :=
  let csName : CString := some name
  let csConfig : CString := if config ≠ "" then some config else none
  let csCredentials : CString := if credentials ≠ "" then some credentials else none
  match callback.Register env cb w with
  | none => none
  | some (handle, w) =>
    let (errCode, w) := native env
      { fn := "indy_open_wallet", command_handle := toInt32 handle,
        args := [.str csName, .str csConfig, .str csCredentials],
        cb := .SingleHandle } w
    some (indyerror.New (toInt32 errCode), w)

/-- Embeds `func CloseWallet(walletHandle types.Handle, cb callback.Callback) error`
(indy/wallet.go:92-96). -/
def CloseWallet (env : Env) (walletHandle : Handle) (cb : callback.Callback) (w : World) :
    Option (Option GoError × World) :=
  match callback.Register env cb w with
  | none => none
  | some (handle, w) =>
    let (errCode, w) := native env
      { fn := "indy_close_wallet", command_handle := toInt32 handle,
        args := [.handle (toInt32 walletHandle)],
        cb := .Default } w
    some (indyerror.New (toInt32 errCode), w)

end indy

/-! ## The remaining facades -/

namespace pool

/-- Embeds `type Pool struct { Name string; handle types.Handle }`
(pool/pool.go:22-25). -/
structure Pool where
  Name : String
  handle : Handle
deriving DecidableEq, Repr

/-- Embeds `func (p *Pool) Handle() types.Handle` (pool/pool.go:28-30). -/
def Pool.Handle (p : Pool) : Handle := p.handle

/-- Embeds `func delete(name string) chan error` (pool/pool.go:105-122). -/
def delete (env : Env) (name : String) (w : World) : Option (ChanId × World) :=
  let (errChan, w) := make 1 w
  if name = "" then
    (sendNow errChan (.error (some (fmt.Errorf "pool name must be specified"))) w).map
      (fun w => (errChan, w))
  else
    match indy.DeletePoolLedgerConfig env name (callback.New errChan) w with
    | none => none
    | some (some err, w) =>
      -- Send the error immediately
      (sendNow errChan (.error (some err)) w).map (fun w => (errChan, w))
    | some (none, w) => some (errChan, w)

/-- Embeds `func Delete(name string) error` (pool/pool.go:43-45): `return <-delete(name)`. -/
def Delete (env : Env) (name : String) (w : World) : Outcome (Option GoError) × World :=
  match delete env name w with
  | none => (.blocked, w)
  | some (errChan, w) =>
    let w := indy.nativeThreads w
    match w.fault with
    | some _ => (.crashed, w)
    | none =>
      match recv errChan w with
      | none => (.blocked, w)
      | some (.error err, w) => (.returned err, w)
      | some (_, w) => (.illTyped, w)

/-- Embeds `func open(name string, config string) (chan *Pool, chan error)` (pool/pool.go:124-154).
-/
def «open» (env : Env) (name config : String) (w : World) : Option ((ChanId × ChanId) × World) :=
  let (poolChan, w) := make 0 w
  let (errChan, w) := make 1 w
  if name = "" then
    (sendNow errChan (.error (some (fmt.Errorf "pool name must be specified"))) w).map
      (fun w => ((poolChan, errChan), w))
  else
    let cb := openCb name poolChan errChan
    match indy.OpenPoolLedger env name config cb w with
    | none => none
    | some (some err, w) =>
      -- Send the error immediately
      (sendNow errChan (.error (some err)) w).map (fun w => ((poolChan, errChan), w))
    | some (none, w) => some ((poolChan, errChan), w)

/-- Embeds `func Open(name string, config string) (*Pool, error)` (pool/pool.go:51-59). -/
def Open (env : Env) (name config : String) (w : World) :
    Outcome (Option Pool × Option GoError) × World :=
  match «open» env name config w with
  | none => (.blocked, w)
  | some ((poolChan, errChan), w) =>
    let w := indy.nativeThreads w
    match w.fault with
    | some _ => (.crashed, w)
    | none =>
      match select2 env.pick poolChan errChan w with
      | none => (.blocked, w)
      | some (.case1 (.Pool Name handle), w) =>
        (.returned (some { Name := Name, handle := handle }, none), w)
      | some (.case2 (.error err), w) => (.returned (none, err), w)
      | some (_, w) => (.illTyped, w)

/-- Embeds `func list() (chan []string, chan error)` (pool/pool.go:156-185).  `asPools` is the JSON
decoder of pool.go:213-223. -/
def list (env : Env) (asPools : String → List String × Option GoError) (w : World) :
    Option ((ChanId × ChanId) × World) :=
  let (poolsChan, w) := make 0 w
  let (errChan, w) := make 1 w
  let cb := listCb asPools poolsChan errChan
  match indy.ListPools env cb w with
  | none => none
  | some (some err, w) =>
    -- Send the error immediately
    (sendNow errChan (.error (some err)) w).map (fun w => ((poolsChan, errChan), w))
  | some (none, w) => some ((poolsChan, errChan), w)

/-- Embeds `func List() ([]string, error)` (pool/pool.go:62-70). -/
def List (env : Env) (asPools : String → List String × Option GoError) (w : World) :
    Outcome (List String × Option GoError) × World :=
  match list env asPools w with
  | none => (.blocked, w)
  | some ((poolNameChan, errChan), w) =>
    let w := indy.nativeThreads w
    match w.fault with
    | some _ => (.crashed, w)
    | none =>
      match select2 env.pick poolNameChan errChan w with
      | none => (.blocked, w)
      | some (.case1 (.strings poolName), w) => (.returned (poolName, none), w)
      | some (.case2 (.error err), w) => (.returned ([], err), w)
      | some (_, w) => (.illTyped, w)

/-- Embeds `func (p *Pool) refresh() chan error` (pool/pool.go:187-198). -/
def Pool.refresh (env : Env) (p : Pool) (w : World) : Option (ChanId × World) :=
  let (errChan, w) := make 1 w
  match indy.RefreshPoolLedger env p.handle (callback.New errChan) w with
  | none => none
  | some (some err, w) =>
    -- Send the error immediately
    (sendNow errChan (.error (some err)) w).map (fun w => (errChan, w))
  | some (none, w) => some (errChan, w)

/-- Embeds `func (p *Pool) Refresh() error` (pool/pool.go:73-75): `return <-p.refresh()`. -/
def Pool.Refresh (env : Env) (p : Pool) (w : World) : Outcome (Option GoError) × World :=
  match Pool.refresh env p w with
  | none => (.blocked, w)
  | some (errChan, w) =>
    let w := indy.nativeThreads w
    match w.fault with
    | some _ => (.crashed, w)
    | none =>
      match recv errChan w with
      | none => (.blocked, w)
      | some (.error err, w) => (.returned err, w)
      | some (_, w) => (.illTyped, w)

/-- Embeds `func (p *Pool) close() chan error` (pool/pool.go:200-211). -/
def Pool.close (env : Env) (p : Pool) (w : World) : Option (ChanId × World) :=
  let (errChan, w) := make 1 w
  match indy.ClosePoolLedger env p.handle (callback.New errChan) w with
  | none => none
  | some (some err, w) =>
    -- Send the error immediately
    (sendNow errChan (.error (some err)) w).map (fun w => (errChan, w))
  | some (none, w) => some (errChan, w)

/-- Embeds `func (p *Pool) Close() error` (pool/pool.go:78-80): `return <-p.close()`. -/
def Pool.Close (env : Env) (p : Pool) (w : World) : Outcome (Option GoError) × World :=
  match Pool.close env p w with
  | none => (.blocked, w)
  | some (errChan, w) =>
    let w := indy.nativeThreads w
    match w.fault with
    | some _ => (.crashed, w)
    | none =>
      match recv errChan w with
      | none => (.blocked, w)
      | some (.error err, w) => (.returned err, w)
      | some (_, w) => (.illTyped, w)

end pool

namespace wallet

/-- Embeds `func (w *Wallet) close() chan error` (wallet/wallet.go:78-89).  The receiver `w` is
written `wallet`. -/
def Wallet.close (env : Env) (wallet : Wallet) (w : World) : Option (ChanId × World) :=
  let (errChan, w) := make 1 w
  match indy.CloseWallet env wallet.handle (callback.New errChan) w with
  | none => none
  | some (some err, w) =>
    -- Send the error immediately
    (sendNow errChan (.error (some err)) w).map (fun w => (errChan, w))
  | some (none, w) => some (errChan, w)

/-- Embeds `func (w *Wallet) Close() error` (wallet/wallet.go:74-76): `return <-w.close()`. -/
def Wallet.Close (env : Env) (wallet : Wallet) (w : World) : Outcome (Option GoError) × World :=
  match Wallet.close env wallet w with
  | none => (.blocked, w)
  | some (errChan, w) =>
    let w := indy.nativeThreads w
    match w.fault with
    | some _ => (.crashed, w)
    | none =>
      match recv errChan w with
      | none => (.blocked, w)
      | some (.error err, w) => (.returned err, w)
      | some (_, w) => (.illTyped, w)

/-- Embeds `func create(poolName, name, walletType, config, credentials string) chan error`
(wallet/wallet.go:91-112). -/
def create (env : Env) (poolName name walletType config credentials : String) (w : World) :
    Option (ChanId × World) :=
  let (errChan, w) := make 1 w
  if poolName = "" then
    (sendNow errChan (.error (some (fmt.Errorf "pool name must be specified"))) w).map
      (fun w => (errChan, w))
  else if name = "" then
    (sendNow errChan (.error (some (fmt.Errorf "wallet name must be specified"))) w).map
      (fun w => (errChan, w))
  else
    match indy.CreateWallet env poolName name walletType config credentials (callback.New errChan)
        w with
    | none => none
    | some (some err, w) =>
      -- Send the error immediately
      (sendNow errChan (.error (some err)) w).map (fun w => (errChan, w))
    | some (none, w) => some (errChan, w)

/-- Embeds `func Create(poolName, name, walletType, config, credentials string) error`
(wallet/wallet.go:37-39): `return <-create(poolName, name, walletType, config, credentials)`. -/
def Create (env : Env) (poolName name walletType config credentials : String) (w : World) :
    Outcome (Option GoError) × World :=
  match create env poolName name walletType config credentials w with
  | none => (.blocked, w)
  | some (errChan, w) =>
    let w := indy.nativeThreads w
    match w.fault with
    | some _ => (.crashed, w)
    | none =>
      match recv errChan w with
      | none => (.blocked, w)
      | some (.error err, w) => (.returned err, w)
      | some (_, w) => (.illTyped, w)

/-- Embeds `func delete(name, credentials string) chan error` (wallet/wallet.go:114-131). -/
def delete (env : Env) (name credentials : String) (w : World) : Option (ChanId × World) :=
  let (errChan, w) := make 1 w
  if name = "" then
    (sendNow errChan (.error (some (fmt.Errorf "wallet must be specified"))) w).map
      (fun w => (errChan, w))
  else
    match indy.DeleteWallet env name credentials (callback.New errChan) w with
    | none => none
    | some (some err, w) =>
      -- Send the error immediately
      (sendNow errChan (.error (some err)) w).map (fun w => (errChan, w))
    | some (none, w) => some (errChan, w)

/-- Embeds `func Delete(name, credentials string) error` (wallet/wallet.go:44-46): `return
<-delete(name, credentials)`. -/
def Delete (env : Env) (name credentials : String) (w : World) : Outcome (Option GoError) × World :=
  match delete env name credentials w with
  | none => (.blocked, w)
  | some (errChan, w) =>
    let w := indy.nativeThreads w
    match w.fault with
    | some _ => (.crashed, w)
    | none =>
      match recv errChan w with
      | none => (.blocked, w)
      | some (.error err, w) => (.returned err, w)
      | some (_, w) => (.illTyped, w)

/-- Embeds `func open(name, config, credentials string) (chan *Wallet, chan error)`
(wallet/wallet.go:133-165).  The error channel is made first. -/
def «open» (env : Env) (name config credentials : String) (w : World) :
    Option ((ChanId × ChanId) × World) :=
  let (errChan, w) := make 1 w
  let (walletChan, w) := make 0 w
  if name = "" then
    (sendNow errChan (.error (some (fmt.Errorf "wallet name must be specified"))) w).map
      (fun w => ((walletChan, errChan), w))
  else
    let cb := openCb name walletChan errChan
    match indy.OpenWallet env name config credentials cb w with
    | none => none
    | some (some err, w) =>
      -- Send the error immediately
      (sendNow errChan (.error (some err)) w).map (fun w => ((walletChan, errChan), w))
    | some (none, w) => some ((walletChan, errChan), w)

/-- Embeds `func Open(name, config, credentials string) (wallet *Wallet, err error)`
(wallet/wallet.go:54-61). -/
def Open (env : Env) (name config credentials : String) (w : World) :
    Outcome (Option Wallet × Option GoError) × World :=
  match «open» env name config credentials w with
  | none => (.blocked, w)
  | some ((wChan, errChan), w) =>
    let w := indy.nativeThreads w
    match w.fault with
    | some _ => (.crashed, w)
    | none =>
      match select2 env.pick wChan errChan w with
      | none => (.blocked, w)
      | some (.case1 (.Wallet Name handle), w) =>
        (.returned (some { Name := Name, handle := handle }, none), w)
      | some (.case2 (.error err), w) => (.returned (none, err), w)
      | some (_, w) => (.illTyped, w)

end wallet

namespace anoncreds

/-- Embeds `func issuerCreateCredentialOffer(wallet *wallet.Wallet, credDefID string) (chan string,
chan error)` (anoncreds.go:563-589). -/
def issuerCreateCredentialOffer (env : Env) (wallet : wallet.Wallet) (credDefID : String)
    (w : World) : Option ((ChanId × ChanId) × World) :=
  let (respChan, w) := make 0 w
  let (errChan, w) := make 1 w
  if credDefID = "" then
    (sendNow errChan (.error (some (fmt.Errorf "credential def ID must be specified"))) w).map
      (fun w => ((respChan, errChan), w))
  else
    let cb := issuerCreateCredentialOfferCb respChan errChan
    match indy.IssuerCreateCredentialOffer env wallet.Handle credDefID cb w with
    | none => none
    | some (some err, w) =>
      -- Send the error immediately
      (sendNow errChan (.error (some err)) w).map (fun w => ((respChan, errChan), w))
    | some (none, w) => some ((respChan, errChan), w)

/-- Embeds `func IssuerCreateCredentialOffer(wallet *wallet.Wallet, credDefID string)
(credentialOfferJSON string, err error)` (anoncreds.go:87-94). -/
def IssuerCreateCredentialOffer (env : Env) (wallet : wallet.Wallet) (credDefID : String)
    (w : World) : Outcome (String × Option GoError) × World :=
  match issuerCreateCredentialOffer env wallet credDefID w with
  | none => (.blocked, w)
  | some ((respChan, errChan), w) =>
    let w := indy.nativeThreads w
    match w.fault with
    | some _ => (.crashed, w)
    | none =>
      match select2 env.pick respChan errChan w with
      | none => (.blocked, w)
      | some (.case1 (.string credentialOfferJSON), w) => (.returned (credentialOfferJSON, none), w)
      | some (.case2 (.error err), w) => (.returned ("", err), w)
      | some (_, w) => (.illTyped, w)

/-- Embeds `func proverCreateMasterSecret(wallet *wallet.Wallet, masterSecretID string) (chan
string, chan error)` (anoncreds.go:638-659). -/
def proverCreateMasterSecret (env : Env) (wallet : wallet.Wallet) (masterSecretID : String)
    (w : World) : Option ((ChanId × ChanId) × World) :=
  let (respChan, w) := make 0 w
  let (errChan, w) := make 1 w
  let cb := proverCreateMasterSecretCb respChan errChan
  match indy.ProverCreateMasterSecret env wallet.Handle masterSecretID cb w with
  | none => none
  | some (some err, w) =>
    -- Send the error immediately
    (sendNow errChan (.error (some err)) w).map (fun w => ((respChan, errChan), w))
  | some (none, w) => some ((respChan, errChan), w)

/-- Embeds `func ProverCreateMasterSecret(wallet *wallet.Wallet, secretID string) (masterSecretID
string, err error)` (anoncreds.go:147-154). -/
def ProverCreateMasterSecret (env : Env) (wallet : wallet.Wallet) (secretID : String) (w : World) :
    Outcome (String × Option GoError) × World :=
  match proverCreateMasterSecret env wallet secretID w with
  | none => (.blocked, w)
  | some ((respChan, errChan), w) =>
    let w := indy.nativeThreads w
    match w.fault with
    | some _ => (.crashed, w)
    | none =>
      match select2 env.pick respChan errChan w with
      | none => (.blocked, w)
      | some (.case1 (.string masterSecretID), w) => (.returned (masterSecretID, none), w)
      | some (.case2 (.error err), w) => (.returned ("", err), w)
      | some (_, w) => (.illTyped, w)

/-- Embeds `func proverCreateCredentialReq(wallet *wallet.Wallet, proverDID, credentialOfferJSON,
credentialDefJSON, masterSecretID string) (chan *proverCreateCredentialResp, chan error)`
(anoncreds.go:666-708). -/
def proverCreateCredentialReq (env : Env) (wallet : wallet.Wallet)
    (proverDID credentialOfferJSON credentialDefJSON masterSecretID : String) (w : World) :
    Option ((ChanId × ChanId) × World) :=
  let (respChan, w) := make 0 w
  let (errChan, w) := make 1 w
  if proverDID = "" then
    (sendNow errChan (.error (some (fmt.Errorf "prover DID must be specified"))) w).map
      (fun w => ((respChan, errChan), w))
  else if credentialOfferJSON = "" then
    (sendNow errChan (.error (some (fmt.Errorf "credential offer JSON must be specified"))) w).map
      (fun w => ((respChan, errChan), w))
  else if credentialDefJSON = "" then
    (sendNow errChan (.error (some (fmt.Errorf "credential def JSON must be specified"))) w).map
      (fun w => ((respChan, errChan), w))
  else if masterSecretID = "" then
    (sendNow errChan (.error (some (fmt.Errorf "master secret ID must be specified"))) w).map
      (fun w => ((respChan, errChan), w))
  else
    let cb := proverCreateCredentialReqCb respChan errChan
    match indy.ProverCreateCredentialReq env wallet.Handle proverDID credentialOfferJSON
        credentialDefJSON masterSecretID cb w with
    | none => none
    | some (some err, w) =>
      -- Send the error immediately
      (sendNow errChan (.error (some err)) w).map (fun w => ((respChan, errChan), w))
    | some (none, w) => some ((respChan, errChan), w)

/-- Embeds `func ProverCreateCredentialReq(wallet *wallet.Wallet, proverDID, credentialOfferJSON,
credentialDefJSON, masterSecretID string) (requestJSON string, requestMetadataJSON string, err
error)` (anoncreds.go:167-176). -/
def ProverCreateCredentialReq (env : Env) (wallet : wallet.Wallet)
    (proverDID credentialOfferJSON credentialDefJSON masterSecretID : String) (w : World) :
    Outcome (String × String × Option GoError) × World :=
  match proverCreateCredentialReq env wallet proverDID credentialOfferJSON credentialDefJSON
      masterSecretID w with
  | none => (.blocked, w)
  | some ((respChan, errChan), w) =>
    let w := indy.nativeThreads w
    match w.fault with
    | some _ => (.crashed, w)
    | none =>
      match select2 env.pick respChan errChan w with
      | none => (.blocked, w)
      | some (.case1 (.proverCreateCredentialResp requestJSON requestMetadataJSON), w) =>
        (.returned (requestJSON, requestMetadataJSON, none), w)
      | some (.case2 (.error err), w) => (.returned ("", "", err), w)
      | some (_, w) => (.illTyped, w)

/-- Embeds `func proverStoreCredential(wallet *wallet.Wallet, credID, credReqMetadataJSON, credJSON,
credDefJSON, revRegDefJSON string) (chan string, chan error)` (anoncreds.go:710-744). -/
def proverStoreCredential (env : Env) (wallet : wallet.Wallet)
    (credID credReqMetadataJSON credJSON credDefJSON revRegDefJSON : String) (w : World) :
    Option ((ChanId × ChanId) × World) :=
  let (respChan, w) := make 0 w
  let (errChan, w) := make 1 w
  if credReqMetadataJSON = "" then
    (sendNow errChan
        (.error (some (fmt.Errorf "cred request metadata JSON must be specified"))) w).map
      (fun w => ((respChan, errChan), w))
  else if credJSON = "" then
    (sendNow errChan (.error (some (fmt.Errorf "cred JSON must be specified"))) w).map
      (fun w => ((respChan, errChan), w))
  else if credDefJSON = "" then
    (sendNow errChan (.error (some (fmt.Errorf "cred def JSON must be specified"))) w).map
      (fun w => ((respChan, errChan), w))
  else
    let cb := proverStoreCredentialCb respChan errChan
    match indy.ProverStoreCredential env wallet.Handle credID credReqMetadataJSON credJSON
        credDefJSON revRegDefJSON cb w with
    | none => none
    | some (some err, w) =>
      -- Send the error immediately
      (sendNow errChan (.error (some err)) w).map (fun w => ((respChan, errChan), w))
    | some (none, w) => some ((respChan, errChan), w)

/-- Embeds `func ProverStoreCredential(wallet *wallet.Wallet, credID, credReqMetadataJSON, credJSON,
credDefJSON, revRegDefJSON string) (responseJSON string, err error)` (anoncreds.go:187-194). -/
def ProverStoreCredential (env : Env) (wallet : wallet.Wallet)
    (credID credReqMetadataJSON credJSON credDefJSON revRegDefJSON : String) (w : World) :
    Outcome (String × Option GoError) × World :=
  match proverStoreCredential env wallet credID credReqMetadataJSON credJSON credDefJSON
      revRegDefJSON w with
  | none => (.blocked, w)
  | some ((respChan, errChan), w) =>
    let w := indy.nativeThreads w
    match w.fault with
    | some _ => (.crashed, w)
    | none =>
      match select2 env.pick respChan errChan w with
      | none => (.blocked, w)
      | some (.case1 (.string responseJSON), w) => (.returned (responseJSON, none), w)
      | some (.case2 (.error err), w) => (.returned ("", err), w)
      | some (_, w) => (.illTyped, w)

/-- Embeds `func proverGetCredentialsForProofReq(wallet *wallet.Wallet, proofRequest string) (chan
string, chan error)` (anoncreds.go:746-772). -/
def proverGetCredentialsForProofReq (env : Env) (wallet : wallet.Wallet) (proofRequest : String)
    (w : World) : Option ((ChanId × ChanId) × World) :=
  let (respChan, w) := make 0 w
  let (errChan, w) := make 1 w
  if proofRequest = "" then
    (sendNow errChan (.error (some (fmt.Errorf "proof request must be specified"))) w).map
      (fun w => ((respChan, errChan), w))
  else
    let cb := proverGetCredentialsForProofReqCb respChan errChan
    match indy.ProverGetCredentialsForProofReq env wallet.Handle proofRequest cb w with
    | none => none
    | some (some err, w) =>
      -- Send the error immediately
      (sendNow errChan (.error (some err)) w).map (fun w => ((respChan, errChan), w))
    | some (none, w) => some ((respChan, errChan), w)

/-- Embeds `func ProverGetCredentialsForProofReq(wallet *wallet.Wallet, proofRequest string)
(responseJSON string, err error)` (anoncreds.go:266-273). -/
def ProverGetCredentialsForProofReq (env : Env) (wallet : wallet.Wallet) (proofRequest : String)
    (w : World) : Outcome (String × Option GoError) × World :=
  match proverGetCredentialsForProofReq env wallet proofRequest w with
  | none => (.blocked, w)
  | some ((respChan, errChan), w) =>
    let w := indy.nativeThreads w
    match w.fault with
    | some _ => (.crashed, w)
    | none =>
      match select2 env.pick respChan errChan w with
      | none => (.blocked, w)
      | some (.case1 (.string responseJSON), w) => (.returned (responseJSON, none), w)
      | some (.case2 (.error err), w) => (.returned ("", err), w)
      | some (_, w) => (.illTyped, w)

/-- Embeds `func proverCreateProof(wallet *wallet.Wallet, proofRequest, requestedCredentials,
masterSecret, schemas, credentialDefs, revStates string) (chan string, chan error)`
(anoncreds.go:774-820). -/
def proverCreateProof (env : Env) (wallet : wallet.Wallet)
    (proofRequest requestedCredentials masterSecret schemas credentialDefs revStates : String)
    (w : World) : Option ((ChanId × ChanId) × World) :=
  let (respChan, w) := make 0 w
  let (errChan, w) := make 1 w
  if proofRequest = "" then
    (sendNow errChan (.error (some (fmt.Errorf "proof request must be specified"))) w).map
      (fun w => ((respChan, errChan), w))
  else if requestedCredentials = "" then
    (sendNow errChan (.error (some (fmt.Errorf "requested credentials must be specified"))) w).map
      (fun w => ((respChan, errChan), w))
  else if masterSecret = "" then
    (sendNow errChan (.error (some (fmt.Errorf "master secret must be specified"))) w).map
      (fun w => ((respChan, errChan), w))
  else if schemas = "" then
    (sendNow errChan (.error (some (fmt.Errorf "schemas must be specified"))) w).map
      (fun w => ((respChan, errChan), w))
  else if credentialDefs = "" then
    (sendNow errChan (.error (some (fmt.Errorf "credential defs must be specified"))) w).map
      (fun w => ((respChan, errChan), w))
  else if revStates = "" then
    (sendNow errChan (.error (some (fmt.Errorf "rev states must be specified"))) w).map
      (fun w => ((respChan, errChan), w))
  else
    let cb := proverCreateProofCb respChan errChan
    match indy.ProverCreateProof env wallet.Handle proofRequest requestedCredentials masterSecret
        schemas credentialDefs revStates cb w with
    | none => none
    | some (some err, w) =>
      -- Send the error immediately
      (sendNow errChan (.error (some err)) w).map (fun w => ((respChan, errChan), w))
    | some (none, w) => some ((respChan, errChan), w)

/-- Embeds `func ProverCreateProof(wallet *wallet.Wallet, proofRequest, requestedCredentials,
masterSecret, schemas, credentialDefs, revStates string) (proofJSON string, err error)`
(anoncreds.go:364-371). -/
def ProverCreateProof (env : Env) (wallet : wallet.Wallet)
    (proofRequest requestedCredentials masterSecret schemas credentialDefs revStates : String)
    (w : World) : Outcome (String × Option GoError) × World :=
  match proverCreateProof env wallet proofRequest requestedCredentials masterSecret schemas
      credentialDefs revStates w with
  | none => (.blocked, w)
  | some ((respChan, errChan), w) =>
    let w := indy.nativeThreads w
    match w.fault with
    | some _ => (.crashed, w)
    | none =>
      match select2 env.pick respChan errChan w with
      | none => (.blocked, w)
      | some (.case1 (.string proofJSON), w) => (.returned (proofJSON, none), w)
      | some (.case2 (.error err), w) => (.returned ("", err), w)
      | some (_, w) => (.illTyped, w)

end anoncreds

namespace crypto

/-- Embeds `func anonCrypt(recipientVK string, message []byte) (chan []byte, chan error)`
(crypto/crypto.go:108-134). -/
def anonCrypt (env : Env) (recipientVK : String) (message : List (Fin 256)) (w : World) :
    Option ((ChanId × ChanId) × World) :=
  let (respChan, w) := make 0 w
  let (errChan, w) := make 1 w
  if recipientVK = "" then
    (sendNow errChan
        (.error (some (fmt.Errorf "recipient verification key must be specified"))) w).map
      (fun w => ((respChan, errChan), w))
  else
    let cb := anonCryptCb respChan errChan
    match indy.AnonCrypt env recipientVK message cb w with
    | none => none
    | some (some err, w) =>
      -- Send the error immediately
      (sendNow errChan (.error (some err)) w).map (fun w => ((respChan, errChan), w))
    | some (none, w) => some ((respChan, errChan), w)

/-- Embeds `func AnonCrypt(recipientVK string, message []byte) (encryptedMsg []byte, err error)`
(crypto/crypto.go:30-37). -/
def AnonCrypt (env : Env) (recipientVK : String) (message : List (Fin 256)) (w : World) :
    Outcome (List (Fin 256) × Option GoError) × World :=
  match anonCrypt env recipientVK message w with
  | none => (.blocked, w)
  | some ((respChan, errChan), w) =>
    let w := indy.nativeThreads w
    match w.fault with
    | some _ => (.crashed, w)
    | none =>
      match select2 env.pick respChan errChan w with
      | none => (.blocked, w)
      | some (.case1 (.bytes encryptedMsg), w) => (.returned (encryptedMsg, none), w)
      | some (.case2 (.error err), w) => (.returned ([], err), w)
      | some (_, w) => (.illTyped, w)

/-- Embeds `func anonDecrypt(wallet *wallet.Wallet, recipientVK string, encryptedMsg []byte) (chan
[]byte, chan error)` (crypto/crypto.go:136-166). -/
def anonDecrypt (env : Env) (wallet : wallet.Wallet) (recipientVK : String)
    (encryptedMsg : List (Fin 256)) (w : World) : Option ((ChanId × ChanId) × World) :=
  let (respChan, w) := make 0 w
  let (errChan, w) := make 1 w
  if recipientVK = "" then
    (sendNow errChan
        (.error (some (fmt.Errorf "recipient verification key must be specified"))) w).map
      (fun w => ((respChan, errChan), w))
  else if encryptedMsg.length = 0 then
    (sendNow errChan (.error (some (fmt.Errorf "encrypted message must be specified"))) w).map
      (fun w => ((respChan, errChan), w))
  else
    let cb := anonDecryptCb respChan errChan
    match indy.AnonDecrypt env wallet.Handle recipientVK encryptedMsg cb w with
    | none => none
    | some (some err, w) =>
      -- Send the error immediately
      (sendNow errChan (.error (some err)) w).map (fun w => ((respChan, errChan), w))
    | some (none, w) => some ((respChan, errChan), w)

/-- Embeds `func AnonDecrypt(wallet *wallet.Wallet, recipientVK string, encryptedMsg []byte)
(decryptedMsg []byte, err error)` (crypto/crypto.go:50-57). -/
def AnonDecrypt (env : Env) (wallet : wallet.Wallet) (recipientVK : String)
    (encryptedMsg : List (Fin 256)) (w : World) :
    Outcome (List (Fin 256) × Option GoError) × World :=
  match anonDecrypt env wallet recipientVK encryptedMsg w with
  | none => (.blocked, w)
  | some ((respChan, errChan), w) =>
    let w := indy.nativeThreads w
    match w.fault with
    | some _ => (.crashed, w)
    | none =>
      match select2 env.pick respChan errChan w with
      | none => (.blocked, w)
      | some (.case1 (.bytes decryptedMsg), w) => (.returned (decryptedMsg, none), w)
      | some (.case2 (.error err), w) => (.returned ([], err), w)
      | some (_, w) => (.illTyped, w)

/-- Embeds `func authCrypt(wallet *wallet.Wallet, senderVK, recipientVK string, message []byte)
(chan []byte, chan error)` (crypto/crypto.go:168-198). -/
def authCrypt (env : Env) (wallet : wallet.Wallet) (senderVK recipientVK : String)
    (message : List (Fin 256)) (w : World) : Option ((ChanId × ChanId) × World) :=
  let (respChan, w) := make 0 w
  let (errChan, w) := make 1 w
  if senderVK = "" then
    (sendNow errChan (.error (some (fmt.Errorf "sender verification key must be specified"))) w).map
      (fun w => ((respChan, errChan), w))
  else if recipientVK = "" then
    (sendNow errChan
        (.error (some (fmt.Errorf "recipient verification key must be specified"))) w).map
      (fun w => ((respChan, errChan), w))
  else
    let cb := authCryptCb respChan errChan
    match indy.AuthCrypt env wallet.Handle senderVK recipientVK message cb w with
    | none => none
    | some (some err, w) =>
      -- Send the error immediately
      (sendNow errChan (.error (some err)) w).map (fun w => ((respChan, errChan), w))
    | some (none, w) => some ((respChan, errChan), w)

/-- Embeds `func AuthCrypt(wallet *wallet.Wallet, senderVK, recipientVK string, message []byte)
(encryptedMsg []byte, err error)` (crypto/crypto.go:74-81). -/
def AuthCrypt (env : Env) (wallet : wallet.Wallet) (senderVK recipientVK : String)
    (message : List (Fin 256)) (w : World) : Outcome (List (Fin 256) × Option GoError) × World :=
  match authCrypt env wallet senderVK recipientVK message w with
  | none => (.blocked, w)
  | some ((respChan, errChan), w) =>
    let w := indy.nativeThreads w
    match w.fault with
    | some _ => (.crashed, w)
    | none =>
      match select2 env.pick respChan errChan w with
      | none => (.blocked, w)
      | some (.case1 (.bytes encryptedMsg), w) => (.returned (encryptedMsg, none), w)
      | some (.case2 (.error err), w) => (.returned ([], err), w)
      | some (_, w) => (.illTyped, w)

end crypto

namespace did

/-- Embeds `func keyForDID(pool *pool.Pool, wallet *wallet.Wallet, did string) (chan string, chan
error)` (did.go:102-129). -/
def keyForDID (env : Env) (pool : pool.Pool) (wallet : wallet.Wallet) (did : String) (w : World) :
    Option ((ChanId × ChanId) × World) :=
  let (keyChan, w) := make 0 w
  let (errChan, w) := make 1 w
  if did = "" then
    (sendNow errChan (.error (some (fmt.Errorf "DID must be specified"))) w).map
      (fun w => ((keyChan, errChan), w))
  else
    let cb := keyForDIDCb keyChan errChan
    match indy.KeyForDID env pool.Handle wallet.Handle did cb w with
    | none => none
    | some (some err, w) =>
      -- Send the error immediately
      (sendNow errChan (.error (some err)) w).map (fun w => ((keyChan, errChan), w))
    | some (none, w) => some ((keyChan, errChan), w)

/-- Embeds `func KeyForDID(pool *pool.Pool, wallet *wallet.Wallet, did string) (key string, err
error)` (did.go:61-68). -/
def KeyForDID (env : Env) (pool : pool.Pool) (wallet : wallet.Wallet) (did : String) (w : World) :
    Outcome (String × Option GoError) × World :=
  match keyForDID env pool wallet did w with
  | none => (.blocked, w)
  | some ((keyChan, errChan), w) =>
    let w := indy.nativeThreads w
    match w.fault with
    | some _ => (.crashed, w)
    | none =>
      match select2 env.pick keyChan errChan w with
      | none => (.blocked, w)
      | some (.case1 (.string key), w) => (.returned (key, none), w)
      | some (.case2 (.error err), w) => (.returned ("", err), w)
      | some (_, w) => (.illTyped, w)

end did

namespace ledger

/-- Embeds `func signAndSubmitRequest(pool *pool.Pool, wallet *wallet.Wallet, submitterDID,
requestJSON string) (chan string, chan error)` (ledger.go:225-255). -/
def signAndSubmitRequest (env : Env) (pool : pool.Pool) (wallet : wallet.Wallet)
    (submitterDID requestJSON : String) (w : World) : Option ((ChanId × ChanId) × World) :=
  let (respChan, w) := make 0 w
  let (errChan, w) := make 1 w
  if submitterDID = "" then
    (sendNow errChan (.error (some (fmt.Errorf "Submitter DID must be specified"))) w).map
      (fun w => ((respChan, errChan), w))
  else if requestJSON = "" then
    (sendNow errChan (.error (some (fmt.Errorf "Request JSON must be specified"))) w).map
      (fun w => ((respChan, errChan), w))
  else
    let cb := signAndSubmitRequestCb respChan errChan
    match indy.SignAndSubmitRequest env pool.Handle wallet.Handle submitterDID requestJSON cb w with
    | none => none
    | some (some err, w) =>
      -- Send the error immediately
      (sendNow errChan (.error (some err)) w).map (fun w => ((respChan, errChan), w))
    | some (none, w) => some ((respChan, errChan), w)

/-- Embeds `func SignAndSubmitRequest(pool *pool.Pool, wallet *wallet.Wallet, submitterDID,
requestJSON string) (responseJSON string, err error)` (ledger.go:50-57). -/
def SignAndSubmitRequest (env : Env) (pool : pool.Pool) (wallet : wallet.Wallet)
    (submitterDID requestJSON : String) (w : World) : Outcome (String × Option GoError) × World :=
  match signAndSubmitRequest env pool wallet submitterDID requestJSON w with
  | none => (.blocked, w)
  | some ((respChan, errChan), w) =>
    let w := indy.nativeThreads w
    match w.fault with
    | some _ => (.crashed, w)
    | none =>
      match select2 env.pick respChan errChan w with
      | none => (.blocked, w)
      | some (.case1 (.string responseJSON), w) => (.returned (responseJSON, none), w)
      | some (.case2 (.error err), w) => (.returned ("", err), w)
      | some (_, w) => (.illTyped, w)

/-- Embeds `func submitRequest(pool *pool.Pool, requestJSON string) (chan string, chan error)`
(ledger.go:257-283). -/
def submitRequest (env : Env) (pool : pool.Pool) (requestJSON : String) (w : World) :
    Option ((ChanId × ChanId) × World) :=
  let (respChan, w) := make 0 w
  let (errChan, w) := make 1 w
  if requestJSON = "" then
    (sendNow errChan (.error (some (fmt.Errorf "Request JSON must be specified"))) w).map
      (fun w => ((respChan, errChan), w))
  else
    let cb := submitRequestCb respChan errChan
    match indy.SubmitRequest env pool.Handle requestJSON cb w with
    | none => none
    | some (some err, w) =>
      -- Send the error immediately
      (sendNow errChan (.error (some err)) w).map (fun w => ((respChan, errChan), w))
    | some (none, w) => some ((respChan, errChan), w)

/-- Embeds `func SubmitRequest(pool *pool.Pool, requestJSON string) (responseJSON string, err
error)` (ledger.go:64-71). -/
def SubmitRequest (env : Env) (pool : pool.Pool) (requestJSON : String) (w : World) :
    Outcome (String × Option GoError) × World :=
  match submitRequest env pool requestJSON w with
  | none => (.blocked, w)
  | some ((respChan, errChan), w) =>
    let w := indy.nativeThreads w
    match w.fault with
    | some _ => (.crashed, w)
    | none =>
      match select2 env.pick respChan errChan w with
      | none => (.blocked, w)
      | some (.case1 (.string responseJSON), w) => (.returned (responseJSON, none), w)
      | some (.case2 (.error err), w) => (.returned ("", err), w)
      | some (_, w) => (.illTyped, w)

/-- Embeds `func buildSchemaRequest(submitterDID, data string) (chan string, chan error)`
(ledger.go:285-315). -/
def buildSchemaRequest (env : Env) (submitterDID data : String) (w : World) :
    Option ((ChanId × ChanId) × World) :=
  let (reqChan, w) := make 0 w
  let (errChan, w) := make 1 w
  if submitterDID = "" then
    (sendNow errChan (.error (some (fmt.Errorf "submitter DID must be specified"))) w).map
      (fun w => ((reqChan, errChan), w))
  else if data = "" then
    (sendNow errChan (.error (some (fmt.Errorf "data must be specified"))) w).map
      (fun w => ((reqChan, errChan), w))
  else
    let cb := buildSchemaRequestCb reqChan errChan
    match indy.BuildSchemaRequest env submitterDID data cb w with
    | none => none
    | some (some err, w) =>
      -- Send the error immediately
      (sendNow errChan (.error (some err)) w).map (fun w => ((reqChan, errChan), w))
    | some (none, w) => some ((reqChan, errChan), w)

/-- Embeds `func BuildSchemaRequest(submitterDID, data string) (request string, err error)`
(ledger.go:84-91). -/
def BuildSchemaRequest (env : Env) (submitterDID data : String) (w : World) :
    Outcome (String × Option GoError) × World :=
  match buildSchemaRequest env submitterDID data w with
  | none => (.blocked, w)
  | some ((requestChan, errChan), w) =>
    let w := indy.nativeThreads w
    match w.fault with
    | some _ => (.crashed, w)
    | none =>
      match select2 env.pick requestChan errChan w with
      | none => (.blocked, w)
      | some (.case1 (.string request), w) => (.returned (request, none), w)
      | some (.case2 (.error err), w) => (.returned ("", err), w)
      | some (_, w) => (.illTyped, w)

/-- Embeds `func buildGetSchemaRequest(submitterDID, id string) (chan string, chan error)`
(ledger.go:317-347). -/
def buildGetSchemaRequest (env : Env) (submitterDID id : String) (w : World) :
    Option ((ChanId × ChanId) × World) :=
  let (reqChan, w) := make 0 w
  let (errChan, w) := make 1 w
  if submitterDID = "" then
    (sendNow errChan (.error (some (fmt.Errorf "submitter DID must be specified"))) w).map
      (fun w => ((reqChan, errChan), w))
  else if id = "" then
    (sendNow errChan (.error (some (fmt.Errorf "ID must be specified"))) w).map
      (fun w => ((reqChan, errChan), w))
  else
    let cb := buildGetSchemaRequestCb reqChan errChan
    match indy.BuildGetSchemaRequest env submitterDID id cb w with
    | none => none
    | some (some err, w) =>
      -- Send the error immediately
      (sendNow errChan (.error (some err)) w).map (fun w => ((reqChan, errChan), w))
    | some (none, w) => some ((reqChan, errChan), w)

/-- Embeds `func BuildGetSchemaRequest(submitterDID, id string) (request string, err error)`
(ledger.go:97-104). -/
def BuildGetSchemaRequest (env : Env) (submitterDID id : String) (w : World) :
    Outcome (String × Option GoError) × World :=
  match buildGetSchemaRequest env submitterDID id w with
  | none => (.blocked, w)
  | some ((requestChan, errChan), w) =>
    let w := indy.nativeThreads w
    match w.fault with
    | some _ => (.crashed, w)
    | none =>
      match select2 env.pick requestChan errChan w with
      | none => (.blocked, w)
      | some (.case1 (.string request), w) => (.returned (request, none), w)
      | some (.case2 (.error err), w) => (.returned ("", err), w)
      | some (_, w) => (.illTyped, w)

/-- Embeds `func parseGetSchemaResponse(response string) (chan *parseResponse, chan error)`
(ledger.go:354-384). -/
def parseGetSchemaResponse (env : Env) (response : String) (w : World) :
    Option ((ChanId × ChanId) × World) :=
  let (resultChan, w) := make 0 w
  let (errChan, w) := make 1 w
  if response = "" then
    (sendNow errChan (.error (some (fmt.Errorf "response must be specified"))) w).map
      (fun w => ((resultChan, errChan), w))
  else
    let cb := parseGetSchemaResponseCb resultChan errChan
    match indy.ParseGetSchemaResponse env response cb w with
    | none => none
    | some (some err, w) =>
      -- Send the error immediately
      (sendNow errChan (.error (some err)) w).map (fun w => ((resultChan, errChan), w))
    | some (none, w) => some ((resultChan, errChan), w)

/-- Embeds `func ParseGetSchemaResponse(response string) (id, json string, err error)`
(ledger.go:117-126). -/
def ParseGetSchemaResponse (env : Env) (response : String) (w : World) :
    Outcome (String × String × Option GoError) × World :=
  match parseGetSchemaResponse env response w with
  | none => (.blocked, w)
  | some ((resultChan, errChan), w) =>
    let w := indy.nativeThreads w
    match w.fault with
    | some _ => (.crashed, w)
    | none =>
      match select2 env.pick resultChan errChan w with
      | none => (.blocked, w)
      | some (.case1 (.parseResponse id json), w) => (.returned (id, json, none), w)
      | some (.case2 (.error err), w) => (.returned ("", "", err), w)
      | some (_, w) => (.illTyped, w)

/-- Embeds `func buildCredDefRequest(submitterDID, data string) (chan string, chan error)`
(ledger.go:386-416). -/
def buildCredDefRequest (env : Env) (submitterDID data : String) (w : World) :
    Option ((ChanId × ChanId) × World) :=
  let (reqChan, w) := make 0 w
  let (errChan, w) := make 1 w
  if submitterDID = "" then
    (sendNow errChan (.error (some (fmt.Errorf "submitter DID must be specified"))) w).map
      (fun w => ((reqChan, errChan), w))
  else if data = "" then
    (sendNow errChan (.error (some (fmt.Errorf "data must be specified"))) w).map
      (fun w => ((reqChan, errChan), w))
  else
    let cb := buildCredDefRequestCb reqChan errChan
    match indy.BuildCredDefRequest env submitterDID data cb w with
    | none => none
    | some (some err, w) =>
      -- Send the error immediately
      (sendNow errChan (.error (some err)) w).map (fun w => ((reqChan, errChan), w))
    | some (none, w) => some ((reqChan, errChan), w)

/-- Embeds `func BuildCredDefRequest(submitterDID, data string) (request string, err error)`
(ledger.go:144-151). -/
def BuildCredDefRequest (env : Env) (submitterDID data : String) (w : World) :
    Outcome (String × Option GoError) × World :=
  match buildCredDefRequest env submitterDID data w with
  | none => (.blocked, w)
  | some ((requestChan, errChan), w) =>
    let w := indy.nativeThreads w
    match w.fault with
    | some _ => (.crashed, w)
    | none =>
      match select2 env.pick requestChan errChan w with
      | none => (.blocked, w)
      | some (.case1 (.string request), w) => (.returned (request, none), w)
      | some (.case2 (.error err), w) => (.returned ("", err), w)
      | some (_, w) => (.illTyped, w)

/-- Embeds `func buildGetCredDefRequest(submitterDID, id string) (chan string, chan error)`
(ledger.go:418-448). -/
def buildGetCredDefRequest (env : Env) (submitterDID id : String) (w : World) :
    Option ((ChanId × ChanId) × World) :=
  let (reqChan, w) := make 0 w
  let (errChan, w) := make 1 w
  if submitterDID = "" then
    (sendNow errChan (.error (some (fmt.Errorf "submitter DID must be specified"))) w).map
      (fun w => ((reqChan, errChan), w))
  else if id = "" then
    (sendNow errChan (.error (some (fmt.Errorf "ID must be specified"))) w).map
      (fun w => ((reqChan, errChan), w))
  else
    let cb := buildGetCredDefRequestCb reqChan errChan
    match indy.BuildGetCredDefRequest env submitterDID id cb w with
    | none => none
    | some (some err, w) =>
      -- Send the error immediately
      (sendNow errChan (.error (some err)) w).map (fun w => ((reqChan, errChan), w))
    | some (none, w) => some ((reqChan, errChan), w)

/-- Embeds `func BuildGetCredDefRequest(submitterDID, id string) (request string, err error)`
(ledger.go:158-165). -/
def BuildGetCredDefRequest (env : Env) (submitterDID id : String) (w : World) :
    Outcome (String × Option GoError) × World :=
  match buildGetCredDefRequest env submitterDID id w with
  | none => (.blocked, w)
  | some ((requestChan, errChan), w) =>
    let w := indy.nativeThreads w
    match w.fault with
    | some _ => (.crashed, w)
    | none =>
      match select2 env.pick requestChan errChan w with
      | none => (.blocked, w)
      | some (.case1 (.string request), w) => (.returned (request, none), w)
      | some (.case2 (.error err), w) => (.returned ("", err), w)
      | some (_, w) => (.illTyped, w)

/-- Embeds `func parseGetCredDefResponse(response string) (chan *parseResponse, chan error)`
(ledger.go:450-480). -/
def parseGetCredDefResponse (env : Env) (response : String) (w : World) :
    Option ((ChanId × ChanId) × World) :=
  let (resultChan, w) := make 0 w
  let (errChan, w) := make 1 w
  if response = "" then
    (sendNow errChan (.error (some (fmt.Errorf "response must be specified"))) w).map
      (fun w => ((resultChan, errChan), w))
  else
    let cb := parseGetCredDefResponseCb resultChan errChan
    match indy.ParseGetCredDefResponse env response cb w with
    | none => none
    | some (some err, w) =>
      -- Send the error immediately
      (sendNow errChan (.error (some err)) w).map (fun w => ((resultChan, errChan), w))
    | some (none, w) => some ((resultChan, errChan), w)

/-- Embeds `func ParseGetCredDefResponse(response string) (id, json string, err error)`
(ledger.go:182-191). -/
def ParseGetCredDefResponse (env : Env) (response : String) (w : World) :
    Outcome (String × String × Option GoError) × World :=
  match parseGetCredDefResponse env response w with
  | none => (.blocked, w)
  | some ((resultChan, errChan), w) =>
    let w := indy.nativeThreads w
    match w.fault with
    | some _ => (.crashed, w)
    | none =>
      match select2 env.pick resultChan errChan w with
      | none => (.blocked, w)
      | some (.case1 (.parseResponse id json), w) => (.returned (id, json, none), w)
      | some (.case2 (.error err), w) => (.returned ("", "", err), w)
      | some (_, w) => (.illTyped, w)

end ledger

/-! ## The operations and their result shapes -/

/-- One operation of the binding: the function of a facade package that
builds the continuation and calls the adapter, the native function that the
adapter calls, the entry point that the adapter passes to it as its callback
argument, and the continuation, given the response channel and the error
channel. -/
structure Operation where
  facade : String
  native : String
  entry : Entry
  cb : ChanId → ChanId → Callback

/-- The operations of the binding, one row for each adapter of indy/*.go
together with the facade function that calls it (anoncreds.go, crypto.go,
did.go, ledger.go, pool.go, wallet.go).  `name` is the argument captured by
the continuations of `pool.open` and `wallet.open`, `asPools` the JSON decoder
used by the continuation of `pool.list`.  A facade with a single channel
passes `callback.New(errChan)`. -/
def operations (name : String) (asPools : String → List String × Option GoError) :
    List Operation :=
  [ { facade := "anoncreds.issuerCreateSchema", native := "indy_issuer_create_schema",
      entry := .String2, cb := anoncreds.issuerCreateSchemaCb },
    { facade := "anoncreds.issuerCreateAndStoreCredentialDef",
      native := "indy_issuer_create_and_store_credential_def",
      entry := .String2, cb := anoncreds.issuerCreateAndStoreCredentialDefCb },
    { facade := "anoncreds.issuerCreateCredentialOffer",
      native := "indy_issuer_create_credential_offer",
      entry := .String, cb := anoncreds.issuerCreateCredentialOfferCb },
    { facade := "anoncreds.issuerCreateCredential", native := "indy_issuer_create_credential",
      entry := .String3, cb := anoncreds.issuerCreateCredentialCb },
    { facade := "anoncreds.proverCreateMasterSecret",
      native := "indy_prover_create_master_secret",
      entry := .String, cb := anoncreds.proverCreateMasterSecretCb },
    { facade := "anoncreds.proverCreateCredentialReq",
      native := "indy_prover_create_credential_req",
      entry := .String2, cb := anoncreds.proverCreateCredentialReqCb },
    { facade := "anoncreds.proverStoreCredential", native := "indy_prover_store_credential",
      entry := .String, cb := anoncreds.proverStoreCredentialCb },
    { facade := "anoncreds.proverGetCredentialsForProofReq",
      native := "indy_prover_get_credentials_for_proof_req",
      entry := .String, cb := anoncreds.proverGetCredentialsForProofReqCb },
    { facade := "anoncreds.proverCreateProof", native := "indy_prover_create_proof",
      entry := .String, cb := anoncreds.proverCreateProofCb },
    { facade := "anoncreds.verifierVerifyProof", native := "indy_verifier_verify_proof",
      entry := .Bool, cb := anoncreds.verifierVerifyProofCb },
    { facade := "crypto.anonCrypt", native := "indy_crypto_anon_crypt",
      entry := .Bytes, cb := crypto.anonCryptCb },
    { facade := "crypto.anonDecrypt", native := "indy_crypto_anon_decrypt",
      entry := .Bytes, cb := crypto.anonDecryptCb },
    { facade := "crypto.authCrypt", native := "indy_crypto_auth_crypt",
      entry := .Bytes, cb := crypto.authCryptCb },
    { facade := "crypto.authDecrypt", native := "indy_crypto_auth_decrypt",
      entry := .StringAndBytes, cb := crypto.authDecryptCb },
    { facade := "did.createAndStoreMyDID", native := "indy_create_and_store_my_did",
      entry := .String2, cb := did.createAndStoreMyDIDCb },
    { facade := "did.keyForDID", native := "indy_key_for_did",
      entry := .String, cb := did.keyForDIDCb },
    { facade := "ledger.buildNYMRequest", native := "indy_build_nym_request",
      entry := .String, cb := ledger.buildNYMRequestCb },
    { facade := "ledger.signAndSubmitRequest", native := "indy_sign_and_submit_request",
      entry := .String, cb := ledger.signAndSubmitRequestCb },
    { facade := "ledger.submitRequest", native := "indy_submit_request",
      entry := .String, cb := ledger.submitRequestCb },
    { facade := "ledger.buildSchemaRequest", native := "indy_build_schema_request",
      entry := .String, cb := ledger.buildSchemaRequestCb },
    { facade := "ledger.buildGetSchemaRequest", native := "indy_build_get_schema_request",
      entry := .String, cb := ledger.buildGetSchemaRequestCb },
    { facade := "ledger.parseGetSchemaResponse", native := "indy_parse_get_schema_response",
      entry := .String2, cb := ledger.parseGetSchemaResponseCb },
    { facade := "ledger.buildCredDefRequest", native := "indy_build_cred_def_request",
      entry := .String, cb := ledger.buildCredDefRequestCb },
    { facade := "ledger.buildGetCredDefRequest", native := "indy_build_get_cred_def_request",
      entry := .String, cb := ledger.buildGetCredDefRequestCb },
    { facade := "ledger.parseGetCredDefResponse",
      native := "indy_parse_get_cred_def_response",
      entry := .String2, cb := ledger.parseGetCredDefResponseCb },
    { facade := "pool.create", native := "indy_create_pool_ledger_config",
      entry := .Default, cb := fun _ errChan => callback.New errChan },
    { facade := "pool.delete", native := "indy_delete_pool_ledger_config",
      entry := .Default, cb := fun _ errChan => callback.New errChan },
    { facade := "pool.open", native := "indy_open_pool_ledger",
      entry := .SingleHandle, cb := pool.openCb name },
    { facade := "pool.list", native := "indy_list_pools",
      entry := .String, cb := pool.listCb asPools },
    { facade := "pool.refresh", native := "indy_refresh_pool_ledger",
      entry := .Default, cb := fun _ errChan => callback.New errChan },
    { facade := "pool.close", native := "indy_close_pool_ledger",
      entry := .Default, cb := fun _ errChan => callback.New errChan },
    { facade := "wallet.close", native := "indy_close_wallet",
      entry := .Default, cb := fun _ errChan => callback.New errChan },
    { facade := "wallet.create", native := "indy_create_wallet",
      entry := .Default, cb := fun _ errChan => callback.New errChan },
    { facade := "wallet.delete", native := "indy_delete_wallet",
      entry := .Default, cb := fun _ errChan => callback.New errChan },
    { facade := "wallet.open", native := "indy_open_wallet",
      entry := .SingleHandle, cb := wallet.openCb name } ]

/-! ## Examples used by the witnesses -/

/-- A random source that yields every value twice: 7, 7, 8, 8, 9, 9, ... -/
def exampleSource : Nat → Nat := fun i => i / 2 + 7

/-- A registry in which handle 7 is pending with the continuation
`callback.New 0`. -/
def exampleRegistry : callback.registry :=
  { registry := fun k => if k = 7 then some (callback.New 0) else none }

/-- A quiet process whose registry is `exampleRegistry`. -/
def exampleWorld : World :=
  { cbRegistry := exampleRegistry, randPos := 0,
    chans := fun _ => { cap := 0, buf := [], sendq := [] }, nextChan := 0,
    calls := [], completions := [], fault := none }

/-- The empty process: nothing pending, no channel made, no call issued. -/
def emptyWorld : World :=
  { cbRegistry := { registry := fun _ => none }, randPos := 0,
    chans := fun _ => { cap := 0, buf := [], sendq := [] }, nextChan := 0,
    calls := [], completions := [], fault := none }

/-- A continuation that reports the string it is handed as `data` on
channel 0. -/
def probe : Callback :=
  fun _ data =>
    match data with
    | .string s => .send 0 (.error (some (.plain s)))
    | _ => .send 0 (.error none)

/-- A process in which handle 7 is pending with `probe`, and channel 0 has
room for one value. -/
def probeWorld : World :=
  { cbRegistry := { registry := fun k => if k = 7 then some probe else none }, randPos := 0,
    chans := fun _ => { cap := 1, buf := [], sendq := [] }, nextChan := 1,
    calls := [], completions := [], fault := none }

/-- A native library that rejects every call at once with status 113 and
never calls back; the random source is `exampleSource`. -/
def rejectingEnv : Env :=
  { rand := exampleSource, fuel := 5, pick := true, native := fun _ _ => (113, []) }

/-- A native library that accepts every call and completes it through the
2-string entry with status `c` and the strings `s1`, `s2`. -/
def completingEnv (c : Int) (s1 s2 : CString) : Env :=
  { rand := exampleSource, fuel := 5, pick := true,
    native := fun _ call => (0, [.string2_callback call.command_handle c s1 s2]) }

/-- A wallet, opened earlier, whose native handle is 3. -/
def exampleWallet : wallet.Wallet := { Name := "wallet1", handle := 3 }

/-- A native library that accepts every call and completes it through the
3-string entry with status 0 and the strings `s1`, `s2`, `s3`. -/
def completingEnv3 (s1 s2 s3 : CString) : Env :=
  { rand := exampleSource, fuel := 5, pick := true,
    native := fun _ call => (0, [.string3_callback call.command_handle 0 s1 s2 s3]) }

/-- A native library that accepts every call and completes it through the
entry without payload, with status 0. -/
def acceptingEnv : Env :=
  { rand := exampleSource, fuel := 5, pick := true,
    native := fun _ call => (0, [.def_callback call.command_handle 0]) }

/-- A native library that accepts every call and completes it through the
boolean entry with status 0 and the unsigned value `b`. -/
def verifyingEnv (b : Nat) : Env :=
  { rand := exampleSource, fuel := 5, pick := true,
    native := fun _ call => (0, [.bool_callback call.command_handle 0 b]) }

/-- A native library that accepts every call and completes it through the
string-and-bytes entry with status 0, the string `s` and the first `n` bytes
at `b`. -/
def decryptingEnv (s : CString) (b : CBytes) (n : Int) : Env :=
  { rand := exampleSource, fuel := 5, pick := true,
    native := fun _ call => (0, [.string_bytes_callback call.command_handle 0 s b n]) }

/-- A native library that rejects every call at once with the status
4294967295, in which all 32 bits are set, and never calls back. -/
def wrappingEnv : Env :=
  { rand := exampleSource, fuel := 5, pick := true, native := fun _ _ => (4294967295, []) }

/-- Arguments for a callback: the handle 4, the strings "a", "b" and "c", a
buffer of two bytes with the length 2, and the flag 1. -/
def examplePayload : Payload :=
  { poolHandle := 4, s1 := some "a", s2 := some "b", s3 := some "c", b := some [1, 2],
    blength := 2, flag := 1 }

/-- A native library that accepts every call and completes it, through the
entry point the call carried, with status `c` and the arguments `p`. -/
def failingEnv (c : Int) (p : Payload) : Env :=
  { rand := exampleSource, fuel := 5, pick := true,
    native := fun _ call => (0, [call.complete c p]) }

/-! # Theorems -/

/-! ## The 32-bit conversion -/

@[simp] theorem toInt32_zero : indy.toInt32 0 = 0 := by
  decide

/-! ## The registry -/

theorem register_spec (src : Nat → Nat) (cb : Callback) :
    ∀ (fuel : Nat) (r : callback.registry) (pos : Nat) (h : Handle) (r' : callback.registry)
      (pos' : Nat),
      registry.register src cb fuel r pos = some (h, r', pos') →
      r.registry h = none ∧
      r' = { registry := fun k => if k = h then some cb else r.registry k } := by
  intro fuel
  induction fuel with
  | zero => intro r pos h r' pos' hreg; simp [registry.register] at hreg
  | succ n ih =>
    intro r pos h r' pos' hreg
    simp only [registry.register] at hreg
    split at hreg
    · rename_i hfree
      simp only [Option.some.injEq, Prod.mk.injEq] at hreg
      obtain ⟨rfl, rfl, -⟩ := hreg
      exact ⟨hfree, rfl⟩
    · exact ih _ _ _ _ _ hreg

theorem register_of_free (src : Nat → Nat) (cb : Callback) :
    ∀ (fuel : Nat) (r : callback.registry) (pos : Nat),
      (∃ i, i < fuel ∧ r.registry (rand.Int31 src (pos + i)) = none) →
      ∃ h r' pos', registry.register src cb fuel r pos = some (h, r', pos') := by
  intro fuel
  induction fuel with
  | zero => rintro r pos ⟨i, hi, -⟩; omega
  | succ n ih =>
    rintro r pos ⟨i, hi, hfree⟩
    simp only [registry.register]
    split
    · exact ⟨_, _, _, rfl⟩
    · rename_i c hc
      apply ih
      cases i with
      | zero => simp [hc] at hfree
      | succ j =>
        refine ⟨j, by omega, ?_⟩
        have : pos + 1 + j = pos + (j + 1) := by omega
        rw [this]; exact hfree

/-- C1 (at-most-once delivery): when handle `h` is pending with continuation
`cb`, the first `Remove h` returns `(cb, true)` and erases `h`, and a second
`Remove h` on the resulting state returns found = false (with the nil
continuation). -/
theorem remove_at_most_once (w : World) (h : Handle) (cb : Callback)
    (hreg : w.cbRegistry.registry h = some cb) :
    (Remove h w).1 = (some cb, true) ∧
    (Remove h w).2.cbRegistry.registry h = none ∧
    (Remove h (Remove h w).2).1 = (none, false) := by
  simp [Remove, registry.remove, hreg]

theorem remove_at_most_once_witness :
    exampleWorld.cbRegistry.registry 7 = some (callback.New 0) ∧
    ((Remove 7 exampleWorld).1 = (some (callback.New 0), true) ∧
     (Remove 7 exampleWorld).2.cbRegistry.registry 7 = none ∧
     (Remove 7 (Remove 7 exampleWorld).2).1 = (none, false)) :=
  ⟨rfl, remove_at_most_once exampleWorld 7 (callback.New 0) rfl⟩

/-- C2 (postcondition of register): if `register cb` returns handle `h` with
new registry `r'`, then `h` was not a key of `r`, `r'` maps `h` to `cb`, and
`r'` agrees with `r` on every other key. -/
theorem register_postcondition (src : Nat → Nat) (cb : Callback) (fuel : Nat)
    (r : callback.registry) (pos : Nat) (h : Handle) (r' : callback.registry) (pos' : Nat)
    (hret : registry.register src cb fuel r pos = some (h, r', pos')) :
    r.registry h = none ∧ r'.registry h = some cb ∧
    ∀ k, k ≠ h → r'.registry k = r.registry k := by
  obtain ⟨hfree, rfl⟩ := register_spec src cb fuel r pos h r' pos' hret
  refine ⟨hfree, by simp, ?_⟩
  intro k hk
  simp [hk]

theorem register_postcondition_witness :
    registry.register exampleSource (callback.New 1) 5 exampleRegistry 0
      = some (8, { registry := fun k => if k = 8 then some (callback.New 1)
                                        else exampleRegistry.registry k }, 3) ∧
    (exampleRegistry.registry 8 = none ∧
     (callback.registry.mk (fun k => if k = 8 then some (callback.New 1)
        else exampleRegistry.registry k)).registry 8 = some (callback.New 1) ∧
     ∀ k, k ≠ 8 →
      (callback.registry.mk (fun k => if k = 8 then some (callback.New 1)
        else exampleRegistry.registry k)).registry k = exampleRegistry.registry k) :=
  ⟨rfl, register_postcondition exampleSource (callback.New 1) 5 exampleRegistry 0 8 _ 3 rfl⟩

theorem registerAll_spec (src : Nat → Nat) (fuel : Nat) :
    ∀ (cbs : List Callback) (r : callback.registry) (pos : Nat) (hs : List Handle)
      (r' : callback.registry) (pos' : Nat),
      registerAll src fuel cbs r pos = some (hs, r', pos') →
      hs.length = cbs.length ∧ hs.Nodup ∧
      (∀ h ∈ hs, r.registry h = none) ∧
      (∀ h ∈ hs, r'.registry h ≠ none) ∧
      (∀ k, r.registry k ≠ none → r'.registry k = r.registry k) := by
  intro cbs
  induction cbs with
  | nil =>
    intro r pos hs r' pos' hret
    simp only [registerAll, Option.some.injEq, Prod.mk.injEq] at hret
    obtain ⟨rfl, rfl, -⟩ := hret
    simp
  | cons cb cbs ih =>
    intro r pos hs r' pos' hret
    simp only [registerAll] at hret
    split at hret
    · simp at hret
    · rename_i h r1 pos1 hreg
      split at hret
      · simp at hret
      · rename_i hs1 r2 pos2 hall
        simp only [Option.some.injEq, Prod.mk.injEq] at hret
        obtain ⟨rfl, rfl, -⟩ := hret
        obtain ⟨hfree, rfl⟩ := register_spec src cb fuel r pos h r1 pos1 hreg
        obtain ⟨hlen, hnodup, hfresh, hpend, hkeep⟩ := ih _ pos1 hs1 r2 pos2 hall
        have hne : ∀ k ∈ hs1, k ≠ h := by
          intro k hk hkh
          have := hfresh k hk
          simp [hkh] at this
        refine ⟨by simp [hlen], ?_, ?_, ?_, ?_⟩
        · refine List.nodup_cons.mpr ⟨?_, hnodup⟩
          intro hmem
          exact hne h hmem rfl
        · intro k hk
          rcases List.mem_cons.mp hk with rfl | hk
          · exact hfree
          · have := hfresh k hk
            simpa [hne k hk] using this
        · intro k hk
          rcases List.mem_cons.mp hk with rfl | hk
          · rw [hkeep k (by simp)]; simp
          · exact hpend k hk
        · intro k hk
          have hkh : k ≠ h := by
            intro e; rw [e] at hk; exact hk hfree
          rw [hkeep k (by simpa [hkh] using hk)]
          simp [hkh]

theorem registerAll_returns (src : Nat → Nat) (fuel : Nat) :
    ∀ (cbs : List Callback) (r : callback.registry) (pos : Nat),
      (∀ (taken : List Handle) (p : Nat), taken.length < cbs.length →
        ∃ i, i < fuel ∧ r.registry (rand.Int31 src (p + i)) = none ∧
          rand.Int31 src (p + i) ∉ taken) →
      (registerAll src fuel cbs r pos).isSome := by
  intro cbs
  induction cbs with
  | nil => intro r pos _; simp [registerAll]
  | cons cb cbs ih =>
    intro r pos hfair
    obtain ⟨i, hi, hfree, -⟩ := hfair [] pos (by simp)
    obtain ⟨h, r1, pos1, hreg⟩ := register_of_free src cb fuel r pos ⟨i, hi, hfree⟩
    obtain ⟨-, rfl⟩ := register_spec src cb fuel r pos h r1 pos1 hreg
    have hrest := ih { registry := fun k => if k = h then some cb else r.registry k } pos1 (by
      intro taken p hlen
      obtain ⟨j, hj, hjfree, hjnot⟩ := hfair (h :: taken) p (by simpa using hlen)
      refine ⟨j, hj, ?_, ?_⟩
      · have : rand.Int31 src (p + j) ≠ h := fun e => hjnot (by simp [e])
        simp [this, hjfree]
      · exact fun hm => hjnot (List.mem_cons_of_mem _ hm))
    simp only [registerAll, hreg]
    cases hall : registerAll src fuel cbs
        { registry := fun k => if k = h then some cb else r.registry k } pos1 with
    | none => simp [hall] at hrest
    | some res => simp

/-- C3 (handle uniqueness): registering the continuations `cbs` one after
another, with no removal in between.  Whenever the registrations return,
they return as many handles as there are continuations, pairwise distinct,
none of them a handle that was pending initially, all of them pending
afterwards, and every entry that was pending initially is kept.  And they do
return whenever, from every position on, the random source yields within
`fuel` draws a value that is free initially and avoids any given set of fewer
than `cbs.length` handles. -/
theorem register_handles_unique (src : Nat → Nat) (fuel : Nat) (cbs : List Callback)
    (r : callback.registry) (pos : Nat) :
    (∀ (hs : List Handle) (r' : callback.registry) (pos' : Nat),
      registerAll src fuel cbs r pos = some (hs, r', pos') →
      hs.length = cbs.length ∧ hs.Nodup ∧
      (∀ h ∈ hs, r.registry h = none) ∧
      (∀ h ∈ hs, r'.registry h ≠ none) ∧
      (∀ k, r.registry k ≠ none → r'.registry k = r.registry k)) ∧
    ((∀ (taken : List Handle) (p : Nat), taken.length < cbs.length →
        ∃ i, i < fuel ∧ r.registry (rand.Int31 src (p + i)) = none ∧
          rand.Int31 src (p + i) ∉ taken) →
      (registerAll src fuel cbs r pos).isSome) :=
  ⟨registerAll_spec src fuel cbs r pos, registerAll_returns src fuel cbs r pos⟩

theorem counter_source_fair (taken : List Handle) (p : Nat) (hlen : taken.length < 3) :
    ∃ i, i < 4 ∧ exampleRegistry.registry (rand.Int31 (fun n => n) (p + i)) = none ∧
      rand.Int31 (fun n => n) (p + i) ∉ taken := by
  have key : ∀ a b : Int, ∃ i, i < 4 ∧ rand.Int31 (fun n => n) (p + i) ≠ 7 ∧
      rand.Int31 (fun n => n) (p + i) ≠ a ∧ rand.Int31 (fun n => n) (p + i) ≠ b := by
    intro a b
    simp only [rand.Int31]
    by_cases h0 : (((p + 0) % 2147483648 : Nat) : Int) ≠ 7 ∧
        (((p + 0) % 2147483648 : Nat) : Int) ≠ a ∧ (((p + 0) % 2147483648 : Nat) : Int) ≠ b
    · exact ⟨0, by omega, h0⟩
    by_cases h1 : (((p + 1) % 2147483648 : Nat) : Int) ≠ 7 ∧
        (((p + 1) % 2147483648 : Nat) : Int) ≠ a ∧ (((p + 1) % 2147483648 : Nat) : Int) ≠ b
    · exact ⟨1, by omega, h1⟩
    by_cases h2 : (((p + 2) % 2147483648 : Nat) : Int) ≠ 7 ∧
        (((p + 2) % 2147483648 : Nat) : Int) ≠ a ∧ (((p + 2) % 2147483648 : Nat) : Int) ≠ b
    · exact ⟨2, by omega, h2⟩
    refine ⟨3, by omega, ?_⟩
    omega
  have hreg : ∀ v : Int, v ≠ 7 → exampleRegistry.registry v = none := by
    intro v hv; simp [exampleRegistry, hv]
  match taken, hlen with
  | [], _ =>
    obtain ⟨i, hi, h7, -, -⟩ := key 7 7
    exact ⟨i, hi, hreg _ h7, by simp⟩
  | [a], _ =>
    obtain ⟨i, hi, h7, ha, -⟩ := key a a
    exact ⟨i, hi, hreg _ h7, by simp [ha]⟩
  | [a, b], _ =>
    obtain ⟨i, hi, h7, ha, hb⟩ := key a b
    exact ⟨i, hi, hreg _ h7, by simp [ha, hb]⟩
  | _ :: _ :: _ :: _, h =>
    simp only [List.length_cons] at h
    omega

theorem register_handles_unique_witness :
    (registerAll exampleSource 5 [callback.New 1, callback.New 2, callback.New 3]
        exampleRegistry 0
      = some ([8, 9, 10],
          { registry := fun k => if k = 10 then some (callback.New 3)
              else if k = 9 then some (callback.New 2)
              else if k = 8 then some (callback.New 1)
              else exampleRegistry.registry k }, 7) ∧
     ([8, 9, 10] : List Handle).Nodup ∧
     ∀ h ∈ ([8, 9, 10] : List Handle), exampleRegistry.registry h = none) ∧
    (registerAll (fun n => n) 4 [callback.New 1, callback.New 2, callback.New 3]
        exampleRegistry 0).isSome :=
  ⟨⟨rfl,
    ((register_handles_unique exampleSource 5
        [callback.New 1, callback.New 2, callback.New 3] exampleRegistry 0).1
      _ _ _ rfl).2.1,
    ((register_handles_unique exampleSource 5
        [callback.New 1, callback.New 2, callback.New 3] exampleRegistry 0).1
      _ _ _ rfl).2.2.1⟩,
   (register_handles_unique (fun n => n) 4
      [callback.New 1, callback.New 2, callback.New 3] exampleRegistry 0).2
     (fun taken p hlen => counter_source_fair taken p hlen)⟩

/-! ## The de-multiplexer -/

theorem remove_absent (w : World) (h : Handle) (habs : w.cbRegistry.registry h = none) :
    Remove h w = ((none, false), w) := by
  simp [Remove, registry.remove, habs]

theorem remove_present (w : World) (h : Handle) (cb : Callback)
    (hreg : w.cbRegistry.registry h = some cb) :
    Remove h w = ((some cb, true),
      { w with cbRegistry := { registry := fun k => if k = h then none else w.cbRegistry.registry k } }) := by
  simp [Remove, registry.remove, hreg]

/-- Every entry point that finds no continuation for its handle calls the nil
function: the process goes down with the run-time's nil dereference. -/
theorem missing_handle_panics (w : World) (h : Handle)
    (habs : w.cbRegistry.registry h = none) :
    (∀ c, indy.def_callback h c w = w.panic "invalid memory address or nil pointer dereference") ∧
    (∀ c p, indy.handle_callback h c p w
      = w.panic "invalid memory address or nil pointer dereference") ∧
    (∀ c s, indy.string_callback h c s w
      = w.panic "invalid memory address or nil pointer dereference") ∧
    (∀ c s1 s2, indy.string2_callback h c s1 s2 w
      = w.panic "invalid memory address or nil pointer dereference") ∧
    (∀ c s1 s2 s3, indy.string3_callback h c s1 s2 s3 w
      = w.panic "invalid memory address or nil pointer dereference") ∧
    (∀ c b n, indy.bytes_callback h c b n w
      = w.panic "invalid memory address or nil pointer dereference") ∧
    (∀ c s b n, indy.string_bytes_callback h c s b n w
      = w.panic "invalid memory address or nil pointer dereference") ∧
    (∀ c b, indy.bool_callback h c b w
      = w.panic "invalid memory address or nil pointer dereference") := by
  simp [indy.def_callback, indy.handle_callback, indy.string_callback, indy.string2_callback,
    indy.string3_callback, indy.bytes_callback, indy.string_bytes_callback, indy.bool_callback,
    remove_absent w h habs, call]

/-- C4 (missing-handle fault), evaluated on the code: with handle 5 not in the
registry, each of the eight entry points, whatever the status and payload,
ends in the nil-function call (the run-time's nil dereference) and not in a
delivery of the error it has built. -/
theorem missing_handle_calls_nil :
    (indy.def_callback 5 0 emptyWorld).fault
      = some "invalid memory address or nil pointer dereference" ∧
    (indy.handle_callback 5 0 1 emptyWorld).fault
      = some "invalid memory address or nil pointer dereference" ∧
    (indy.string_callback 5 0 (some "s") emptyWorld).fault
      = some "invalid memory address or nil pointer dereference" ∧
    (indy.string2_callback 5 0 (some "s1") (some "s2") emptyWorld).fault
      = some "invalid memory address or nil pointer dereference" ∧
    (indy.string3_callback 5 0 (some "s1") (some "s2") (some "s3") emptyWorld).fault
      = some "invalid memory address or nil pointer dereference" ∧
    (indy.bytes_callback 5 0 (some [1, 2]) 2 emptyWorld).fault
      = some "invalid memory address or nil pointer dereference" ∧
    (indy.string_bytes_callback 5 0 (some "s") (some [1, 2]) 2 emptyWorld).fault
      = some "invalid memory address or nil pointer dereference" ∧
    (indy.bool_callback 5 0 1 emptyWorld).fault
      = some "invalid memory address or nil pointer dereference" := by
  decide

/-- C10, as stated, fails: with handle 7 pending and the non-zero status 100,
the string entry hands the continuation the decoded payload, so two payloads
give two different deliveries. -/
theorem error_status_still_decodes :
    (indy.string_callback 7 100 (some "a") probeWorld).chans 0
      = { cap := 1, buf := [.error (some (.plain "a"))], sendq := [] } ∧
    (indy.string_callback 7 100 (some "b") probeWorld).chans 0
      = { cap := 1, buf := [.error (some (.plain "b"))], sendq := [] } ∧
    (indy.string_callback 7 100 (some "a") probeWorld).chans 0
      ≠ (indy.string_callback 7 100 (some "b") probeWorld).chans 0 := by
  decide

/-- C10, amended: with the handle pending and a non-zero status `c`, every
entry point with a payload calls the continuation with the error
`indyerror.New c`, which is non-nil, has code `c` and does not depend on the
payload; the data it passes is the decoded payload (for the two entries with
a byte buffer, provided the buffer can be read). -/
theorem error_status_delivers_error (w : World) (h : Handle) (cb : Callback) (c : Int)
    (hreg : w.cbRegistry.registry h = some cb) (hc : c ≠ 0) :
    indyerror.New c ≠ none ∧ indyerror.Code (indyerror.New c) = c ∧
    (∀ p, indy.handle_callback h c p w
      = call (some cb) (indyerror.New c) (.handle p) (Remove h w).2) ∧
    (∀ s, indy.string_callback h c s w
      = call (some cb) (indyerror.New c) (.string (indy.GoString s)) (Remove h w).2) ∧
    (∀ s1 s2, indy.string2_callback h c s1 s2 w
      = call (some cb) (indyerror.New c)
          (.strings [indy.GoString s1, indy.GoString s2]) (Remove h w).2) ∧
    (∀ s1 s2 s3, indy.string3_callback h c s1 s2 s3 w
      = call (some cb) (indyerror.New c)
          (.strings [indy.GoString s1, indy.GoString s2, indy.GoString s3]) (Remove h w).2) ∧
    (∀ b n bs, indy.GoBytes b n = some bs →
      indy.bytes_callback h c b n w
        = call (some cb) (indyerror.New c) (.bytes bs) (Remove h w).2) ∧
    (∀ s b n bs, indy.GoBytes b n = some bs →
      indy.string_bytes_callback h c s b n w
        = call (some cb) (indyerror.New c)
            (.ifaces [.string (indy.GoString s), .bytes bs]) (Remove h w).2) ∧
    (∀ b, indy.bool_callback h c b w
      = call (some cb) (indyerror.New c) (.bool (b == 1)) (Remove h w).2) := by
  have hS : c ≠ indyerror.Success := hc
  refine ⟨by simp [indyerror.New, hS], ?_, ?_⟩
  · simp [indyerror.New, hS, indyerror.Code, indyerror.indyError.Code]
  · simp +contextual [indy.handle_callback, indy.string_callback, indy.string2_callback,
      indy.string3_callback, indy.bytes_callback, indy.string_bytes_callback, indy.bool_callback,
      remove_present w h cb hreg]

theorem error_status_delivers_error_witness :
    (probeWorld.cbRegistry.registry 7 = some probe ∧ (100 : Int) ≠ 0) ∧
    (∀ s, indy.string_callback 7 100 s probeWorld
      = call (some probe) (indyerror.New 100) (.string (indy.GoString s))
          (Remove 7 probeWorld).2) :=
  ⟨⟨rfl, by decide⟩,
   (error_status_delivers_error probeWorld 7 probe 100 rfl (by decide)).2.2.2.1⟩

/-! ## Conversions at the native boundary -/

theorem toInt32_Int31 (src : Nat → Nat) (pos : Nat) :
    indy.toInt32 (rand.Int31 src pos) = rand.Int31 src pos := by
  simp only [indy.toInt32, rand.Int31]
  omega

theorem register_handle_range (src : Nat → Nat) (cb : Callback) :
    ∀ (fuel : Nat) (r : callback.registry) (pos : Nat) (h : Handle) (r' : callback.registry)
      (pos' : Nat),
      registry.register src cb fuel r pos = some (h, r', pos') →
      indy.toInt32 h = h := by
  intro fuel
  induction fuel with
  | zero => intro r pos h r' pos' hreg; simp [registry.register] at hreg
  | succ n ih =>
    intro r pos h r' pos' hreg
    simp only [registry.register] at hreg
    split at hreg
    · simp only [Option.some.injEq, Prod.mk.injEq] at hreg
      obtain ⟨rfl, -, -⟩ := hreg
      exact toInt32_Int31 src pos
    · exact ih _ _ _ _ _ hreg

theorem GoString_of_no_nul (s : String) (hs : Char.ofNat 0 ∉ s.toList) :
    indy.GoString (some s) = s := by
  simp only [indy.GoString]
  have : s.toList.takeWhile (fun c => decide (c ≠ Char.ofNat 0)) = s.toList := by
    rw [List.takeWhile_eq_self_iff]
    intro c hc
    simp only [decide_eq_true_eq]
    intro e; exact hs (e ▸ hc)
  rw [this]
  cases s
  rfl

/-! ## The facades -/

theorem new_zero : indyerror.New 0 = none := by
  simp [indyerror.New, indyerror.Success]

theorem new_ne_none (c : Int) (hc : c ≠ 0) : indyerror.New c ≠ none := by
  have hS : c ≠ indyerror.Success := hc
  simp [indyerror.New, hS]

theorem code_new (c : Int) (hc : c ≠ 0) : indyerror.Code (indyerror.New c) = c := by
  have hS : c ≠ indyerror.Success := hc
  simp [indyerror.New, hS, indyerror.Code, indyerror.indyError.Code]

/-- C6, as stated, fails: the native library rejects the schema-creation call
at once with status 113 and owes no callback; the facade returns the error to
its caller, and the handle it registered (7, the first value of the random
source) is still in the registry, with no native call in flight. -/
theorem rejected_handle_stays_registered :
    (anoncreds.IssuerCreateSchema rejectingEnv "VsKV7grR1BUE29mG2Fm2kZ" "schema1" "1.0"
        "[\"name\", \"age\", \"sex\", \"height\"]" emptyWorld).1
      = .returned ("", "", indyerror.New 113) ∧
    (emptyWorld.cbRegistry.registry 7).isSome = false ∧
    ((anoncreds.IssuerCreateSchema rejectingEnv "VsKV7grR1BUE29mG2Fm2kZ" "schema1" "1.0"
        "[\"name\", \"age\", \"sex\", \"height\"]" emptyWorld).2.cbRegistry.registry 7).isSome
      = true ∧
    (anoncreds.IssuerCreateSchema rejectingEnv "VsKV7grR1BUE29mG2Fm2kZ" "schema1" "1.0"
        "[\"name\", \"age\", \"sex\", \"height\"]" emptyWorld).2.completions = [] := by
  decide

theorem schema_registry_restored (env : Env) (w : World)
    (issuerDID name version attrs : String) (c : Int) (s1 s2 : CString)
    (hargs : issuerDID ≠ "" ∧ name ≠ "" ∧ version ≠ "" ∧ attrs ≠ "")
    (hquiet : w.completions = [] ∧ w.fault = none)
    (hfree : ∃ i, i < env.fuel ∧
      w.cbRegistry.registry (rand.Int31 env.rand (w.randPos + i)) = none)
    (hnative : ∀ calls call, env.native calls call
      = (0, [.string2_callback call.command_handle c s1 s2])) :
    (∃ res, (anoncreds.IssuerCreateSchema env issuerDID name version attrs w).1
      = .returned res) ∧
    ∀ k, (anoncreds.IssuerCreateSchema env issuerDID name version attrs w).2.cbRegistry.registry k
      = w.cbRegistry.registry k := by
  obtain ⟨h1, h2, h3, h4⟩ := hargs
  obtain ⟨hq1, hq2⟩ := hquiet
  obtain ⟨h, r', pos', hreg⟩ := register_of_free env.rand
    (anoncreds.issuerCreateSchemaCb w.nextChan (w.nextChan + 1)) env.fuel w.cbRegistry
    w.randPos hfree
  obtain ⟨hfr, rfl⟩ := register_spec _ _ _ _ _ _ _ _ hreg
  have hrange := register_handle_range _ _ _ _ _ _ _ _ hreg
  by_cases hc : c = 0
  · subst hc
    refine ⟨?_, ?_⟩
    · simp [anoncreds.IssuerCreateSchema, anoncreds.issuerCreateSchema, make, h1, h2, h3, h4,
        indy.IssuerCreateSchema, Register, hreg, indy.native, hnative, hrange, hq1, hq2,
        new_zero, indy.nativeThreads, indy.invoke, indy.string2_callback, Remove,
        registry.remove, call, exec, anoncreds.issuerCreateSchemaCb, send, World.setChan,
        select2, recv]
    · intro k
      simp [anoncreds.IssuerCreateSchema, anoncreds.issuerCreateSchema, make, h1, h2, h3, h4,
        indy.IssuerCreateSchema, Register, hreg, indy.native, hnative, hrange, hq1, hq2,
        new_zero, indy.nativeThreads, indy.invoke, indy.string2_callback, Remove,
        registry.remove, call, exec, anoncreds.issuerCreateSchemaCb, send, World.setChan,
        select2, recv]
      by_cases hk : k = h <;> simp [hk, hfr]
  · obtain ⟨e, he⟩ := Option.ne_none_iff_exists'.mp (new_ne_none c hc)
    refine ⟨?_, ?_⟩
    · simp [anoncreds.IssuerCreateSchema, anoncreds.issuerCreateSchema, make, h1, h2, h3, h4,
        indy.IssuerCreateSchema, Register, hreg, indy.native, hnative, hrange, hq1, hq2,
        new_zero, he, indy.nativeThreads, indy.invoke, indy.string2_callback, Remove,
        registry.remove, call, exec, anoncreds.issuerCreateSchemaCb, send, World.setChan,
        select2, recv]
    · intro k
      simp [anoncreds.IssuerCreateSchema, anoncreds.issuerCreateSchema, make, h1, h2, h3, h4,
        indy.IssuerCreateSchema, Register, hreg, indy.native, hnative, hrange, hq1, hq2,
        new_zero, he, indy.nativeThreads, indy.invoke, indy.string2_callback, Remove,
        registry.remove, call, exec, anoncreds.issuerCreateSchemaCb, send, World.setChan,
        select2, recv]
      by_cases hk : k = h <;> simp [hk, hfr]

theorem did_registry_restored (env : Env) (w : World) (wallet : wallet.Wallet)
    (didJSON : String) (c : Int) (s1 s2 : CString)
    (hargs : didJSON ≠ "")
    (hquiet : w.completions = [] ∧ w.fault = none)
    (hfree : ∃ i, i < env.fuel ∧
      w.cbRegistry.registry (rand.Int31 env.rand (w.randPos + i)) = none)
    (hnative : ∀ calls call, env.native calls call
      = (0, [.string2_callback call.command_handle c s1 s2])) :
    (∃ res, (did.CreateAndStoreMyDID env wallet didJSON w).1 = .returned res) ∧
    ∀ k, (did.CreateAndStoreMyDID env wallet didJSON w).2.cbRegistry.registry k
      = w.cbRegistry.registry k := by
  obtain ⟨hq1, hq2⟩ := hquiet
  obtain ⟨h, r', pos', hreg⟩ := register_of_free env.rand
    (did.createAndStoreMyDIDCb w.nextChan (w.nextChan + 1)) env.fuel w.cbRegistry
    w.randPos hfree
  obtain ⟨hfr, rfl⟩ := register_spec _ _ _ _ _ _ _ _ hreg
  have hrange := register_handle_range _ _ _ _ _ _ _ _ hreg
  by_cases hc : c = 0
  · subst hc
    refine ⟨?_, ?_⟩
    · simp [did.CreateAndStoreMyDID, did.createAndStoreMyDID, make, hargs,
        indy.CreateAndStoreMyDID, Register, hreg, indy.native, hnative, hrange, hq1, hq2,
        new_zero, indy.nativeThreads, indy.invoke, indy.string2_callback, Remove,
        registry.remove, call, exec, did.createAndStoreMyDIDCb, send, World.setChan,
        select2, recv]
    · intro k
      simp [did.CreateAndStoreMyDID, did.createAndStoreMyDID, make, hargs,
        indy.CreateAndStoreMyDID, Register, hreg, indy.native, hnative, hrange, hq1, hq2,
        new_zero, indy.nativeThreads, indy.invoke, indy.string2_callback, Remove,
        registry.remove, call, exec, did.createAndStoreMyDIDCb, send, World.setChan,
        select2, recv]
      by_cases hk : k = h <;> simp [hk, hfr]
  · obtain ⟨e, he⟩ := Option.ne_none_iff_exists'.mp (new_ne_none c hc)
    refine ⟨?_, ?_⟩
    · simp [did.CreateAndStoreMyDID, did.createAndStoreMyDID, make, hargs,
        indy.CreateAndStoreMyDID, Register, hreg, indy.native, hnative, hrange, hq1, hq2,
        new_zero, he, indy.nativeThreads, indy.invoke, indy.string2_callback, Remove,
        registry.remove, call, exec, did.createAndStoreMyDIDCb, send, World.setChan,
        select2, recv]
    · intro k
      simp [did.CreateAndStoreMyDID, did.createAndStoreMyDID, make, hargs,
        indy.CreateAndStoreMyDID, Register, hreg, indy.native, hnative, hrange, hq1, hq2,
        new_zero, he, indy.nativeThreads, indy.invoke, indy.string2_callback, Remove,
        registry.remove, call, exec, did.createAndStoreMyDIDCb, send, World.setChan,
        select2, recv]
      by_cases hk : k = h <;> simp [hk, hfr]

theorem pool_registry_restored (env : Env) (w : World) (name configPath : String) (c : Int)
    (hargs : name ≠ "" ∧ configPath ≠ "")
    (hquiet : w.completions = [] ∧ w.fault = none)
    (hfree : ∃ i, i < env.fuel ∧
      w.cbRegistry.registry (rand.Int31 env.rand (w.randPos + i)) = none)
    (hnative : ∀ calls call, env.native calls call
      = (0, [.def_callback call.command_handle c])) :
    (pool.Create env name configPath w).1 = .returned (indyerror.New c) ∧
    ∀ k, (pool.Create env name configPath w).2.cbRegistry.registry k
      = w.cbRegistry.registry k := by
  obtain ⟨hn, hp⟩ := hargs
  obtain ⟨hq1, hq2⟩ := hquiet
  obtain ⟨h, r', pos', hreg⟩ := register_of_free env.rand
    (callback.New w.nextChan) env.fuel w.cbRegistry w.randPos hfree
  obtain ⟨hfr, rfl⟩ := register_spec _ _ _ _ _ _ _ _ hreg
  have hrange := register_handle_range _ _ _ _ _ _ _ _ hreg
  refine ⟨?_, ?_⟩
  · simp [pool.Create, pool.create, make, hn, hp, indy.CreatePoolLedgerConfig, Register, hreg,
      indy.native, hnative, hrange, hq1, hq2, new_zero, indy.nativeThreads, indy.invoke,
      indy.def_callback, Remove, registry.remove, call, exec, callback.New, send,
      World.setChan, recv]
  · intro k
    simp [pool.Create, pool.create, make, hn, hp, indy.CreatePoolLedgerConfig, Register, hreg,
      indy.native, hnative, hrange, hq1, hq2, new_zero, indy.nativeThreads, indy.invoke,
      indy.def_callback, Remove, registry.remove, call, exec, callback.New, send,
      World.setChan, recv]
    by_cases hk : k = h <;> simp [hk, hfr]

theorem rejected_registry_keeps_handle (env : Env) (w : World) (c : Int)
    (hquiet : w.completions = [] ∧ w.fault = none)
    (hfree : ∃ i, i < env.fuel ∧
      w.cbRegistry.registry (rand.Int31 env.rand (w.randPos + i)) = none)
    (hnative : ∀ calls call, env.native calls call = (c, [])) :
    (∀ issuerDID name version attrs : String,
      issuerDID ≠ "" → name ≠ "" → version ≠ "" → attrs ≠ "" →
      ∃ h, w.cbRegistry.registry h = none ∧
        (anoncreds.IssuerCreateSchema env issuerDID name version attrs w).2.cbRegistry.registry h
          = some (anoncreds.issuerCreateSchemaCb w.nextChan (w.nextChan + 1)) ∧
        ∀ k, k ≠ h →
          (anoncreds.IssuerCreateSchema env issuerDID name version attrs w).2.cbRegistry.registry k
            = w.cbRegistry.registry k) ∧
    (∀ (wallet : wallet.Wallet) (didJSON : String), didJSON ≠ "" →
      ∃ h, w.cbRegistry.registry h = none ∧
        (did.CreateAndStoreMyDID env wallet didJSON w).2.cbRegistry.registry h
          = some (did.createAndStoreMyDIDCb w.nextChan (w.nextChan + 1)) ∧
        ∀ k, k ≠ h →
          (did.CreateAndStoreMyDID env wallet didJSON w).2.cbRegistry.registry k
            = w.cbRegistry.registry k) ∧
    (∀ name configPath : String, name ≠ "" → configPath ≠ "" →
      ∃ h, w.cbRegistry.registry h = none ∧
        (pool.Create env name configPath w).2.cbRegistry.registry h
          = some (callback.New w.nextChan) ∧
        ∀ k, k ≠ h →
          (pool.Create env name configPath w).2.cbRegistry.registry k
            = w.cbRegistry.registry k) := by
  obtain ⟨hq1, hq2⟩ := hquiet
  cases he : indyerror.New (indy.toInt32 c)
  all_goals
    refine ⟨?_, ?_, ?_⟩
    · intro issuerDID name version attrs h1 h2 h3 h4
      obtain ⟨h, r', pos', hreg⟩ := register_of_free env.rand
        (anoncreds.issuerCreateSchemaCb w.nextChan (w.nextChan + 1)) env.fuel w.cbRegistry
        w.randPos hfree
      obtain ⟨hfr, rfl⟩ := register_spec _ _ _ _ _ _ _ _ hreg
      refine ⟨h, hfr, ?_, ?_⟩
      · simp [anoncreds.IssuerCreateSchema, anoncreds.issuerCreateSchema, make, h1, h2, h3, h4,
          indy.IssuerCreateSchema, Register, hreg, indy.native, hnative, hq1, hq2, he,
          indy.nativeThreads, sendNow, World.setChan, select2, recv]
      · intro k hk
        simp [anoncreds.IssuerCreateSchema, anoncreds.issuerCreateSchema, make, h1, h2, h3, h4,
          indy.IssuerCreateSchema, Register, hreg, indy.native, hnative, hq1, hq2, he,
          indy.nativeThreads, sendNow, World.setChan, select2, recv, hk]
    · intro wallet didJSON hd
      obtain ⟨h, r', pos', hreg⟩ := register_of_free env.rand
        (did.createAndStoreMyDIDCb w.nextChan (w.nextChan + 1)) env.fuel w.cbRegistry
        w.randPos hfree
      obtain ⟨hfr, rfl⟩ := register_spec _ _ _ _ _ _ _ _ hreg
      refine ⟨h, hfr, ?_, ?_⟩
      · simp [did.CreateAndStoreMyDID, did.createAndStoreMyDID, make, hd,
          indy.CreateAndStoreMyDID, Register, hreg, indy.native, hnative, hq1, hq2, he,
          indy.nativeThreads, sendNow, World.setChan, select2, recv]
      · intro k hk
        simp [did.CreateAndStoreMyDID, did.createAndStoreMyDID, make, hd,
          indy.CreateAndStoreMyDID, Register, hreg, indy.native, hnative, hq1, hq2, he,
          indy.nativeThreads, sendNow, World.setChan, select2, recv, hk]
    · intro name configPath hn hp
      obtain ⟨h, r', pos', hreg⟩ := register_of_free env.rand
        (callback.New w.nextChan) env.fuel w.cbRegistry w.randPos hfree
      obtain ⟨hfr, rfl⟩ := register_spec _ _ _ _ _ _ _ _ hreg
      refine ⟨h, hfr, ?_, ?_⟩
      · simp [pool.Create, pool.create, make, hn, hp,
          indy.CreatePoolLedgerConfig, Register, hreg, indy.native, hnative, hq1, hq2, he,
          indy.nativeThreads, sendNow, World.setChan, recv]
      · intro k hk
        simp [pool.Create, pool.create, make, hn, hp,
          indy.CreatePoolLedgerConfig, Register, hreg, indy.native, hnative, hq1, hq2, he,
          indy.nativeThreads, sendNow, World.setChan, recv, hk]

/-- C6, amended, shown for `anoncreds.IssuerCreateSchema`,
`did.CreateAndStoreMyDID` and `pool.Create` called with their required
arguments non-empty.  When the call is accepted and the library completes it
through the de-multiplexer entry of the operation, with status 0 or with an
error status, the facade returns and the registry is then exactly as it was
before the call: the handle it registered is gone and no other entry has
changed.  When the call is rejected at once with a non-zero status, the
handle stays registered with its continuation after the facade has returned,
the other entries unchanged. -/
theorem registry_after_facade_returns (env : Env) (w : World)
    (hquiet : w.completions = [] ∧ w.fault = none)
    (hfree : ∃ i, i < env.fuel ∧
      w.cbRegistry.registry (rand.Int31 env.rand (w.randPos + i)) = none) :
    (∀ (c : Int) (s1 s2 : CString),
      (∀ calls call, env.native calls call
        = (0, [.string2_callback call.command_handle c s1 s2])) →
      (∀ issuerDID name version attrs : String,
        issuerDID ≠ "" → name ≠ "" → version ≠ "" → attrs ≠ "" →
        (∃ res, (anoncreds.IssuerCreateSchema env issuerDID name version attrs w).1
          = .returned res) ∧
        ∀ k, (anoncreds.IssuerCreateSchema env issuerDID name version attrs
            w).2.cbRegistry.registry k = w.cbRegistry.registry k) ∧
      (∀ (wallet : wallet.Wallet) (didJSON : String), didJSON ≠ "" →
        (∃ res, (did.CreateAndStoreMyDID env wallet didJSON w).1 = .returned res) ∧
        ∀ k, (did.CreateAndStoreMyDID env wallet didJSON w).2.cbRegistry.registry k
          = w.cbRegistry.registry k)) ∧
    (∀ (c : Int),
      (∀ calls call, env.native calls call = (0, [.def_callback call.command_handle c])) →
      ∀ name configPath : String, name ≠ "" → configPath ≠ "" →
        (pool.Create env name configPath w).1 = .returned (indyerror.New c) ∧
        ∀ k, (pool.Create env name configPath w).2.cbRegistry.registry k
          = w.cbRegistry.registry k) ∧
    (∀ (c : Int), c ≠ 0 → (∀ calls call, env.native calls call = (c, [])) →
      (∀ issuerDID name version attrs : String,
        issuerDID ≠ "" → name ≠ "" → version ≠ "" → attrs ≠ "" →
        ∃ h, w.cbRegistry.registry h = none ∧
          (anoncreds.IssuerCreateSchema env issuerDID name version attrs
              w).2.cbRegistry.registry h
            = some (anoncreds.issuerCreateSchemaCb w.nextChan (w.nextChan + 1)) ∧
          ∀ k, k ≠ h →
            (anoncreds.IssuerCreateSchema env issuerDID name version attrs
                w).2.cbRegistry.registry k = w.cbRegistry.registry k) ∧
      (∀ (wallet : wallet.Wallet) (didJSON : String), didJSON ≠ "" →
        ∃ h, w.cbRegistry.registry h = none ∧
          (did.CreateAndStoreMyDID env wallet didJSON w).2.cbRegistry.registry h
            = some (did.createAndStoreMyDIDCb w.nextChan (w.nextChan + 1)) ∧
          ∀ k, k ≠ h →
            (did.CreateAndStoreMyDID env wallet didJSON w).2.cbRegistry.registry k
              = w.cbRegistry.registry k) ∧
      (∀ name configPath : String, name ≠ "" → configPath ≠ "" →
        ∃ h, w.cbRegistry.registry h = none ∧
          (pool.Create env name configPath w).2.cbRegistry.registry h
            = some (callback.New w.nextChan) ∧
          ∀ k, k ≠ h →
            (pool.Create env name configPath w).2.cbRegistry.registry k
              = w.cbRegistry.registry k)) := by
  refine ⟨?_, ?_, ?_⟩
  · intro c s1 s2 hnative
    exact ⟨fun issuerDID name version attrs h1 h2 h3 h4 =>
        schema_registry_restored env w issuerDID name version attrs c s1 s2 ⟨h1, h2, h3, h4⟩
          hquiet hfree hnative,
      fun wallet didJSON hd =>
        did_registry_restored env w wallet didJSON c s1 s2 hd hquiet hfree hnative⟩
  · intro c hnative name configPath hn hp
    exact pool_registry_restored env w name configPath c ⟨hn, hp⟩ hquiet hfree hnative
  · intro c hc hnative
    exact rejected_registry_keeps_handle env w c hquiet hfree hnative

theorem registry_after_facade_returns_witness :
    (emptyWorld.completions = [] ∧ emptyWorld.fault = none) ∧
    (∀ k, (anoncreds.IssuerCreateSchema (completingEnv 0 (some "abc123") (some "json"))
        "VsKV7grR1BUE29mG2Fm2kZ" "schema1" "1.0" "[\"name\", \"age\", \"sex\", \"height\"]"
        emptyWorld).2.cbRegistry.registry k = emptyWorld.cbRegistry.registry k) :=
  ⟨⟨rfl, rfl⟩,
   (((registry_after_facade_returns (completingEnv 0 (some "abc123") (some "json")) emptyWorld
      ⟨rfl, rfl⟩ ⟨0, by decide, rfl⟩).1 0 (some "abc123") (some "json")
      (fun _ _ => rfl)).1 "VsKV7grR1BUE29mG2Fm2kZ" "schema1" "1.0"
      "[\"name\", \"age\", \"sex\", \"height\"]"
      (by decide) (by decide) (by decide) (by decide)).2⟩

/-- C7 (asynchronous failure keeps the status code and excludes a result):
for a pending `did.CreateAndStoreMyDID` call that the library completes
through the 2-string entry with the non-zero status `c` (whatever the two
string pointers), the facade returns `(nil, err)` with `err = indyerror.New c`,
which is non-nil and has code `c`. -/
theorem async_failure_keeps_code (env : Env) (w : World) (wallet : wallet.Wallet)
    (didJSON : String) (c : Int) (s1 s2 : CString)
    (hargs : didJSON ≠ "")
    (hquiet : w.completions = [] ∧ w.fault = none)
    (hfree : ∃ i, i < env.fuel ∧
      w.cbRegistry.registry (rand.Int31 env.rand (w.randPos + i)) = none)
    (hc : c ≠ 0)
    (hnative : ∀ calls call, env.native calls call
      = (0, [.string2_callback call.command_handle c s1 s2])) :
    (did.CreateAndStoreMyDID env wallet didJSON w).1 = .returned (none, indyerror.New c) ∧
    indyerror.New c ≠ none ∧ indyerror.Code (indyerror.New c) = c := by
  obtain ⟨hq1, hq2⟩ := hquiet
  obtain ⟨h, r', pos', hreg⟩ := register_of_free env.rand
    (did.createAndStoreMyDIDCb w.nextChan (w.nextChan + 1)) env.fuel w.cbRegistry
    w.randPos hfree
  obtain ⟨hfr, rfl⟩ := register_spec _ _ _ _ _ _ _ _ hreg
  have hrange := register_handle_range _ _ _ _ _ _ _ _ hreg
  have hne := new_ne_none c hc
  obtain ⟨e, he⟩ := Option.ne_none_iff_exists'.mp hne
  refine ⟨?_, hne, code_new c hc⟩
  simp [did.CreateAndStoreMyDID, did.createAndStoreMyDID, make, hargs,
    indy.CreateAndStoreMyDID, Register, hreg, indy.native, hnative, hrange, hq1, hq2, he,
    new_zero, indy.nativeThreads, indy.invoke, indy.string2_callback, Remove, registry.remove,
    call, exec, did.createAndStoreMyDIDCb, send, World.setChan, select2, recv]

theorem async_failure_keeps_code_witness :
    ("\x7b\"did\":\"VsKV7grR1BUE29mG2Fm2kZ\"\x7d" ≠ "" ∧
      (emptyWorld.completions = [] ∧ emptyWorld.fault = none) ∧
      indyerror.DidAlreadyExistsError ≠ 0) ∧
    ((did.CreateAndStoreMyDID (completingEnv indyerror.DidAlreadyExistsError none none)
        exampleWallet "\x7b\"did\":\"VsKV7grR1BUE29mG2Fm2kZ\"\x7d" emptyWorld).1
      = .returned (none, indyerror.New indyerror.DidAlreadyExistsError) ∧
     indyerror.New indyerror.DidAlreadyExistsError ≠ none ∧
     indyerror.Code (indyerror.New indyerror.DidAlreadyExistsError)
      = indyerror.DidAlreadyExistsError) :=
  ⟨⟨by decide, ⟨rfl, rfl⟩, by decide⟩,
   async_failure_keeps_code (completingEnv indyerror.DidAlreadyExistsError none none)
     emptyWorld exampleWallet "\x7b\"did\":\"VsKV7grR1BUE29mG2Fm2kZ\"\x7d"
     indyerror.DidAlreadyExistsError none none (by decide) ⟨rfl, rfl⟩ ⟨0, by decide, rfl⟩
     (by decide) (fun _ _ => rfl)⟩

/-- C8 (end-to-end success): for non-empty `issuerDID`, `name`, `version` and
`attrs`, when the native call is accepted (immediate status 0) and the
2-string entry is then invoked with the registered handle, status 0 and the
C strings `a` and `b`, `anoncreds.IssuerCreateSchema` returns
`(schemaID, schemaJSON, err) = (a, b, nil)`. -/
theorem end_to_end_success (env : Env) (w : World) (issuerDID name version attrs a b : String)
    (hargs : issuerDID ≠ "" ∧ name ≠ "" ∧ version ≠ "" ∧ attrs ≠ "")
    (hquiet : w.completions = [] ∧ w.fault = none)
    (hfree : ∃ i, i < env.fuel ∧
      w.cbRegistry.registry (rand.Int31 env.rand (w.randPos + i)) = none)
    (hnative : ∀ calls call, env.native calls call
      = (0, [.string2_callback call.command_handle 0 (some a) (some b)]))
    (ha : Char.ofNat 0 ∉ a.toList) (hb : Char.ofNat 0 ∉ b.toList) :
    (anoncreds.IssuerCreateSchema env issuerDID name version attrs w).1
      = .returned (a, b, none) := by
  obtain ⟨h1, h2, h3, h4⟩ := hargs
  obtain ⟨hq1, hq2⟩ := hquiet
  obtain ⟨h, r', pos', hreg⟩ := register_of_free env.rand
    (anoncreds.issuerCreateSchemaCb w.nextChan (w.nextChan + 1)) env.fuel w.cbRegistry
    w.randPos hfree
  obtain ⟨hfr, rfl⟩ := register_spec _ _ _ _ _ _ _ _ hreg
  have hrange := register_handle_range _ _ _ _ _ _ _ _ hreg
  simp [anoncreds.IssuerCreateSchema, anoncreds.issuerCreateSchema, make, h1, h2, h3, h4,
    indy.IssuerCreateSchema, Register, hreg, indy.native, hnative, hrange, hq1, hq2,
    indy.nativeThreads, indy.invoke, indy.string2_callback, Remove, registry.remove, call, exec,
    anoncreds.issuerCreateSchemaCb, new_zero, send, World.setChan,
    select2, recv, GoString_of_no_nul a ha, GoString_of_no_nul b hb]

theorem end_to_end_success_witness :
    (("VsKV7grR1BUE29mG2Fm2kZ" ≠ "" ∧ "schema1" ≠ "" ∧ "1.0" ≠ "" ∧
        "[\"name\", \"age\", \"sex\", \"height\"]" ≠ "") ∧
      (emptyWorld.completions = [] ∧ emptyWorld.fault = none) ∧
      Char.ofNat 0 ∉ "abc123".toList ∧
      Char.ofNat 0 ∉ "\x7b\"attrNames\":[\"a\"]\x7d".toList) ∧
    (anoncreds.IssuerCreateSchema
        (completingEnv 0 (some "abc123") (some "\x7b\"attrNames\":[\"a\"]\x7d"))
        "VsKV7grR1BUE29mG2Fm2kZ" "schema1" "1.0" "[\"name\", \"age\", \"sex\", \"height\"]"
        emptyWorld).1
      = .returned ("abc123", "\x7b\"attrNames\":[\"a\"]\x7d", none) :=
  ⟨⟨by decide, ⟨rfl, rfl⟩, by decide, by decide⟩,
   end_to_end_success (completingEnv 0 (some "abc123") (some "\x7b\"attrNames\":[\"a\"]\x7d"))
     emptyWorld "VsKV7grR1BUE29mG2Fm2kZ" "schema1" "1.0"
     "[\"name\", \"age\", \"sex\", \"height\"]" "abc123" "\x7b\"attrNames\":[\"a\"]\x7d"
     (by decide) ⟨rfl, rfl⟩ ⟨0, by decide, rfl⟩ (fun _ _ => rfl) (by decide) (by decide)⟩

/-! ## The record of native calls -/

theorem send_calls (ch : ChanId) (v : Value) (w : World) : (send ch v w).calls = w.calls := by
  unfold send
  simp only []
  split <;> rfl

theorem call_calls (cb : Option Callback) (err : Option GoError) (data : Data) (w : World) :
    (call cb err data w).calls = w.calls := by
  unfold call
  cases cb with
  | none => rfl
  | some f =>
    simp only [exec]
    split
    · exact send_calls _ _ _
    · rfl

theorem Remove_calls (h : Handle) (w : World) : (Remove h w).2.calls = w.calls := by
  unfold Remove registry.remove
  split
  all_goals rfl

theorem invoke_calls (c : Completion) (w : World) : (indy.invoke c w).calls = w.calls := by
  cases c <;>
    simp only [indy.invoke, indy.def_callback, indy.handle_callback, indy.string_callback,
      indy.string2_callback, indy.string3_callback, indy.bytes_callback,
      indy.string_bytes_callback, indy.bool_callback] <;>
    repeat' split <;>
    simp only [call_calls, Remove_calls, World.panic]

theorem foldl_invoke_calls (cs : List Completion) :
    ∀ w : World, (cs.foldl (fun w c => match w.fault with
      | some _ => w
      | none => indy.invoke c w) w).calls = w.calls := by
  induction cs with
  | nil => intro w; rfl
  | cons c cs ih =>
    intro w
    simp only [List.foldl_cons]
    rw [ih]
    split
    · rfl
    · exact invoke_calls c w

theorem nativeThreads_calls (w : World) : (indy.nativeThreads w).calls = w.calls := by
  unfold indy.nativeThreads
  rw [foldl_invoke_calls]

theorem recv_calls (ch : ChanId) (w : World) (v : Value) (w' : World)
    (hr : recv ch w = some (v, w')) : w'.calls = w.calls := by
  simp only [recv] at hr
  split at hr
  · simp only [Option.some.injEq, Prod.mk.injEq] at hr
    obtain ⟨-, rfl⟩ := hr
    rfl
  · simp only [Option.some.injEq, Prod.mk.injEq] at hr
    obtain ⟨-, rfl⟩ := hr
    rfl
  · simp only [Option.some.injEq, Prod.mk.injEq] at hr
    obtain ⟨-, rfl⟩ := hr
    rfl
  · simp at hr

theorem select2_calls (pick : Bool) (c1 c2 : ChanId) (w : World) (s : Selected) (w' : World)
    (hs : select2 pick c1 c2 w = some (s, w')) : w'.calls = w.calls := by
  unfold select2 at hs
  split at hs
  · rename_i v w1 h1 _
    simp only [Option.some.injEq, Prod.mk.injEq] at hs
    obtain ⟨-, rfl⟩ := hs
    exact recv_calls _ _ _ _ h1
  · rename_i v w2 _ h2
    simp only [Option.some.injEq, Prod.mk.injEq] at hs
    obtain ⟨-, rfl⟩ := hs
    exact recv_calls _ _ _ _ h2
  · rename_i v1 w1 v2 w2 h1 h2
    split at hs
    · simp only [Option.some.injEq, Prod.mk.injEq] at hs
      obtain ⟨-, rfl⟩ := hs
      exact recv_calls _ _ _ _ h1
    · simp only [Option.some.injEq, Prod.mk.injEq] at hs
      obtain ⟨-, rfl⟩ := hs
      exact recv_calls _ _ _ _ h2
  · simp at hs

theorem IssuerCreateSchema_calls (env : Env) (issuerDID name version attrs : String)
    (w : World) (chs : ChanId × ChanId) (w1 : World)
    (hissue : anoncreds.issuerCreateSchema env issuerDID name version attrs w = some (chs, w1)) :
    (anoncreds.IssuerCreateSchema env issuerDID name version attrs w).2.calls = w1.calls := by
  unfold anoncreds.IssuerCreateSchema
  rw [hissue]
  simp only []
  split
  · exact nativeThreads_calls w1
  · split
    · exact nativeThreads_calls w1
    · rename_i hsel
      rw [select2_calls _ _ _ _ _ _ hsel]; exact nativeThreads_calls w1
    · rename_i hsel
      rw [select2_calls _ _ _ _ _ _ hsel]; exact nativeThreads_calls w1
    · rename_i hsel
      rw [select2_calls _ _ _ _ _ _ hsel]; exact nativeThreads_calls w1

/-! ## Validation -/

theorem issuerCreateSchema_valid (env : Env) (w : World)
    (issuerDID name version attrs : String)
    (h1 : issuerDID ≠ "") (h2 : name ≠ "") (h3 : version ≠ "") (h4 : attrs ≠ "")
    (h : Handle) (r' : callback.registry) (pos' : Nat)
    (hreg : registry.register env.rand (anoncreds.issuerCreateSchemaCb w.nextChan (w.nextChan + 1))
      env.fuel w.cbRegistry w.randPos = some (h, r', pos')) :
    ∃ w1, anoncreds.issuerCreateSchema env issuerDID name version attrs w
        = some ((w.nextChan, w.nextChan + 1), w1) ∧
      w1.cbRegistry = r' ∧
      w1.calls = w.calls ++
        [{ fn := "indy_issuer_create_schema", command_handle := indy.toInt32 h,
           args := [.str (some issuerDID), .str (some name), .str (some version),
             .str (some attrs)],
           cb := .String2 }] := by
  cases hN : indyerror.New (indy.toInt32 (env.native w.calls
      { fn := "indy_issuer_create_schema", command_handle := indy.toInt32 h,
        args := [.str (some issuerDID), .str (some name), .str (some version),
          .str (some attrs)],
        cb := .String2 }).1) with
  | none =>
    cases hI : anoncreds.issuerCreateSchema env issuerDID name version attrs w with
    | none =>
      simp [anoncreds.issuerCreateSchema, make, h1, h2, h3, h4, indy.IssuerCreateSchema,
        Register, hreg, indy.native, indy.newChar, hN] at hI
    | some x =>
      simp [anoncreds.issuerCreateSchema, make, h1, h2, h3, h4, indy.IssuerCreateSchema,
        Register, hreg, indy.native, indy.newChar, hN] at hI
      subst hI
      exact ⟨_, rfl, rfl, rfl⟩
  | some e =>
    cases hI : anoncreds.issuerCreateSchema env issuerDID name version attrs w with
    | none =>
      simp [anoncreds.issuerCreateSchema, make, h1, h2, h3, h4, indy.IssuerCreateSchema,
        Register, hreg, indy.native, indy.newChar, hN, sendNow, World.setChan] at hI
    | some x =>
      simp [anoncreds.issuerCreateSchema, make, h1, h2, h3, h4, indy.IssuerCreateSchema,
        Register, hreg, indy.native, indy.newChar, hN, sendNow, World.setChan] at hI
      subst hI
      exact ⟨_, rfl, rfl, rfl⟩

theorem issuerCreateSchema_short_circuit (env : Env) (w : World)
    (issuerDID name version attrs : String)
    (hquiet : w.completions = [] ∧ w.fault = none)
    (hinv : issuerDID = "" ∨ name = "" ∨ version = "" ∨ attrs = "") :
    ∃ msg, (anoncreds.IssuerCreateSchema env issuerDID name version attrs w).1
        = .returned ("", "", some (.plain msg)) ∧
      (anoncreds.IssuerCreateSchema env issuerDID name version attrs w).2.cbRegistry
        = w.cbRegistry ∧
      (anoncreds.IssuerCreateSchema env issuerDID name version attrs w).2.calls = w.calls := by
  obtain ⟨hq1, hq2⟩ := hquiet
  have e1 : fmt.Errorf "issuer DID must be specified" = .plain "issuer DID must be specified" :=
    rfl
  have e2 : fmt.Errorf "name must be specified" = .plain "name must be specified" := rfl
  have e3 : fmt.Errorf "version must be specified" = .plain "version must be specified" := rfl
  have e4 : fmt.Errorf "attrs must be specified" = .plain "attrs must be specified" := rfl
  by_cases h1 : issuerDID = ""
  · refine ⟨"issuer DID must be specified", ?_, ?_, ?_⟩ <;>
      simp [anoncreds.IssuerCreateSchema, anoncreds.issuerCreateSchema, make, h1, hq1, hq2,
        indy.nativeThreads, sendNow, World.setChan, select2, recv, e1]
  by_cases h2 : name = ""
  · refine ⟨"name must be specified", ?_, ?_, ?_⟩ <;>
      simp [anoncreds.IssuerCreateSchema, anoncreds.issuerCreateSchema, make, h1, h2, hq1, hq2,
        indy.nativeThreads, sendNow, World.setChan, select2, recv, e2]
  by_cases h3 : version = ""
  · refine ⟨"version must be specified", ?_, ?_, ?_⟩ <;>
      simp [anoncreds.IssuerCreateSchema, anoncreds.issuerCreateSchema, make, h1, h2, h3, hq1,
        hq2, indy.nativeThreads, sendNow, World.setChan, select2, recv, e3]
  have h4 : attrs = "" := by
    rcases hinv with h | h | h | h
    · exact absurd h h1
    · exact absurd h h2
    · exact absurd h h3
    · exact h
  refine ⟨"attrs must be specified", ?_, ?_, ?_⟩ <;>
    simp [anoncreds.IssuerCreateSchema, anoncreds.issuerCreateSchema, make, h1, h2, h3, h4, hq1,
      hq2, indy.nativeThreads, sendNow, World.setChan, select2, recv, e4]

/-- C9 (validation short-circuit) for `anoncreds.IssuerCreateSchema`.  The
facade returns a local validation error (a plain error, not an `IndyError`)
with the registry unchanged and no native call issued if and only if at least
one of `issuerDID`, `name`, `version`, `attrs` is the empty string.  When all
four are non-empty (and the random source yields a free handle),
`issuerCreateSchema` registers exactly one handle, with its continuation,
leaving every other entry as it was, and issues exactly one native call,
`indy_issuer_create_schema`, with that handle and the four strings. -/
theorem validation_short_circuit (env : Env) (w : World)
    (issuerDID name version attrs : String)
    (hquiet : w.completions = [] ∧ w.fault = none) :
    ((∃ msg, (anoncreds.IssuerCreateSchema env issuerDID name version attrs w).1
          = .returned ("", "", some (.plain msg)) ∧
        (anoncreds.IssuerCreateSchema env issuerDID name version attrs w).2.cbRegistry
          = w.cbRegistry ∧
        (anoncreds.IssuerCreateSchema env issuerDID name version attrs w).2.calls = w.calls)
      ↔ (issuerDID = "" ∨ name = "" ∨ version = "" ∨ attrs = "")) ∧
    ((issuerDID ≠ "" ∧ name ≠ "" ∧ version ≠ "" ∧ attrs ≠ "") →
      (∃ i, i < env.fuel ∧
        w.cbRegistry.registry (rand.Int31 env.rand (w.randPos + i)) = none) →
      ∃ h w1, anoncreds.issuerCreateSchema env issuerDID name version attrs w
          = some ((w.nextChan, w.nextChan + 1), w1) ∧
        w.cbRegistry.registry h = none ∧
        w1.cbRegistry.registry h
          = some (anoncreds.issuerCreateSchemaCb w.nextChan (w.nextChan + 1)) ∧
        (∀ k, k ≠ h → w1.cbRegistry.registry k = w.cbRegistry.registry k) ∧
        w1.calls = w.calls ++
          [{ fn := "indy_issuer_create_schema", command_handle := h,
             args := [.str (some issuerDID), .str (some name), .str (some version),
               .str (some attrs)],
             cb := .String2 }]) := by
  refine ⟨⟨?_, issuerCreateSchema_short_circuit env w issuerDID name version attrs hquiet⟩, ?_⟩
  · rintro ⟨msg, hret, -, hcalls⟩
    by_contra hne
    simp only [not_or] at hne
    obtain ⟨h1, h2, h3, h4⟩ := hne
    cases hreg : registry.register env.rand
        (anoncreds.issuerCreateSchemaCb w.nextChan (w.nextChan + 1)) env.fuel w.cbRegistry
        w.randPos with
    | none =>
      simp [anoncreds.IssuerCreateSchema, anoncreds.issuerCreateSchema, make, h1, h2, h3, h4,
        indy.IssuerCreateSchema, Register, hreg] at hret
    | some res =>
      obtain ⟨h, r', pos'⟩ := res
      obtain ⟨w1, hissue, -, hw1⟩ :=
        issuerCreateSchema_valid env w issuerDID name version attrs h1 h2 h3 h4 h r' pos' hreg
      rw [IssuerCreateSchema_calls env issuerDID name version attrs w _ w1 hissue, hw1] at hcalls
      have := congrArg List.length hcalls
      simp at this
  · rintro ⟨h1, h2, h3, h4⟩ hfree
    obtain ⟨h, r', pos', hreg⟩ := register_of_free env.rand
      (anoncreds.issuerCreateSchemaCb w.nextChan (w.nextChan + 1)) env.fuel w.cbRegistry
      w.randPos hfree
    obtain ⟨w1, hissue, hr, hw1⟩ :=
      issuerCreateSchema_valid env w issuerDID name version attrs h1 h2 h3 h4 h r' pos' hreg
    obtain ⟨hfr, rfl⟩ := register_spec _ _ _ _ _ _ _ _ hreg
    have hrange := register_handle_range _ _ _ _ _ _ _ _ hreg
    rw [hrange] at hw1
    refine ⟨h, w1, hissue, hfr, ?_, ?_, hw1⟩
    · rw [hr]; simp
    · intro k hk
      rw [hr]; simp [hk]

theorem validation_short_circuit_witness :
    (emptyWorld.completions = [] ∧ emptyWorld.fault = none) ∧
    ∃ msg, (anoncreds.IssuerCreateSchema rejectingEnv "" "schema1" "1.0"
          "[\"name\", \"age\", \"sex\", \"height\"]" emptyWorld).1
        = .returned ("", "", some (.plain msg)) ∧
      (anoncreds.IssuerCreateSchema rejectingEnv "" "schema1" "1.0"
          "[\"name\", \"age\", \"sex\", \"height\"]" emptyWorld).2.cbRegistry
        = emptyWorld.cbRegistry ∧
      (anoncreds.IssuerCreateSchema rejectingEnv "" "schema1" "1.0"
          "[\"name\", \"age\", \"sex\", \"height\"]" emptyWorld).2.calls = emptyWorld.calls :=
  ⟨⟨rfl, rfl⟩,
   (validation_short_circuit rejectingEnv emptyWorld "" "schema1" "1.0"
      "[\"name\", \"age\", \"sex\", \"height\"]" ⟨rfl, rfl⟩).1.mpr (Or.inl rfl)⟩

/-! ## indyerror -/

theorem lookup_none_of_not_key (c : Int)
    (hkey : c ∉ indyerror.errorStringMap.map Prod.fst) :
    indyerror.errorStringMap.lookup c = none := by
  rw [List.lookup_eq_none_iff]
  intro p hp
  simp only [bne_iff_ne, ne_eq]
  intro hc
  exact hkey (List.mem_map.mpr ⟨p, hp, hc.symm⟩)

theorem toString_int_decimal (c : Int) :
    toString c = if 0 ≤ c then Nat.repr c.toNat else "-" ++ Nat.repr (-c).toNat := by
  cases c with
  | ofNat n => simp; rfl
  | negSucc n =>
    have h : ¬ (0 : Int) ≤ Int.negSucc n := by
      have := Int.negSucc_lt_zero n
      omega
    rw [if_neg h]
    rfl

/-- C13 (status code round trip): for every status code `c` other than 0,
known or unknown, positive or negative, `indyerror.Code (indyerror.New c) = c`,
and `New c` is an `*indyError` whose method `Code` returns `c`. -/
theorem status_code_round_trip (c : Int) (hc : c ≠ 0) :
    indyerror.Code (indyerror.New c) = c ∧
    ∃ e : indyerror.indyError, indyerror.New c = some (.indy e) ∧ e.Code = c := by
  have hS : c ≠ indyerror.Success := hc
  refine ⟨?_, ?_⟩
  · simp [indyerror.New, hS, indyerror.Code, indyerror.indyError.Code]
  · simp [indyerror.New, hS, indyerror.indyError.Code]

theorem status_code_round_trip_witness :
    (-5 : Int) ≠ 0 ∧
    (indyerror.Code (indyerror.New (-5)) = -5 ∧
     ∃ e : indyerror.indyError, indyerror.New (-5) = some (.indy e) ∧ e.Code = -5) :=
  ⟨by decide, status_code_round_trip (-5) (by decide)⟩

/-- C14 (unknown status code fallback): for every non-zero code `c` that is
not a key of `errorStringMap`, `indyerror.New c` is a non-nil error with code
`c` whose text is "unknown error: " followed by the decimal digits of `c`
(after a minus sign when `c` is negative). -/
theorem unknown_code_fallback (c : Int) (hc : c ≠ 0)
    (hkey : c ∉ indyerror.errorStringMap.map Prod.fst) :
    indyerror.New c
      = some (.indy { error := "unknown error: " ++
                        (if 0 ≤ c then Nat.repr c.toNat else "-" ++ Nat.repr (-c).toNat),
                      code := c }) ∧
    indyerror.Code (indyerror.New c) = c := by
  have hS : c ≠ indyerror.Success := hc
  refine ⟨?_, ?_⟩
  · simp only [indyerror.New, hS, if_false, lookup_none_of_not_key c hkey, toString_int_decimal]
  · simp [indyerror.New, hS, indyerror.Code, indyerror.indyError.Code]

theorem unknown_code_fallback_witness :
    ((9999 : Int) ≠ 0 ∧ (9999 : Int) ∉ indyerror.errorStringMap.map Prod.fst) ∧
    (indyerror.New 9999 = some (.indy { error := "unknown error: 9999", code := 9999 }) ∧
     indyerror.Code (indyerror.New 9999) = 9999) :=
  ⟨⟨by decide, by decide⟩, unknown_code_fallback 9999 (by decide) (by decide)⟩

/-- C15, as stated, fails: 402 and 403 lie in 400..407 and are not keys of
`errorStringMap`, so `indyerror.New` gives them the generic description. -/
theorem codes_402_403_unknown :
    indyerror.errorStringMap.lookup 402 = none ∧
    indyerror.errorStringMap.lookup 403 = none ∧
    indyerror.New 402 = some (.indy { error := "unknown error: 402", code := 402 }) ∧
    indyerror.New 403 = some (.indy { error := "unknown error: 403", code := 403 }) := by
  decide

/-- C15, amended: every code in 100..114, 200..207, 300..307, equal to 400 or
401, in 404..407, or equal to 500 or 600 is a key of `errorStringMap`, and
`indyerror.New` of it carries the table's description, which is not the
generic "unknown error: <c>" one. -/
theorem documented_codes_known (c : Int)
    (hdoc : (100 ≤ c ∧ c ≤ 114) ∨ (200 ≤ c ∧ c ≤ 207) ∨ (300 ≤ c ∧ c ≤ 307) ∨
      c = 400 ∨ c = 401 ∨ (404 ≤ c ∧ c ≤ 407) ∨ c = 500 ∨ c = 600) :
    ∃ msg, indyerror.errorStringMap.lookup c = some msg ∧
      indyerror.New c = some (.indy { error := msg, code := c }) ∧
      msg ≠ "unknown error: " ++ toString c := by
  rcases hdoc with ⟨h1, h2⟩ | ⟨h1, h2⟩ | ⟨h1, h2⟩ | rfl | rfl | ⟨h1, h2⟩ | rfl | rfl
  · interval_cases c <;> exact ⟨_, rfl, by decide, by decide⟩
  · interval_cases c <;> exact ⟨_, rfl, by decide, by decide⟩
  · interval_cases c <;> exact ⟨_, rfl, by decide, by decide⟩
  · exact ⟨_, rfl, by decide, by decide⟩
  · exact ⟨_, rfl, by decide, by decide⟩
  · interval_cases c <;> exact ⟨_, rfl, by decide, by decide⟩
  · exact ⟨_, rfl, by decide, by decide⟩
  · exact ⟨_, rfl, by decide, by decide⟩

theorem documented_codes_known_witness :
    ((100 ≤ (600 : Int) ∧ (600 : Int) ≤ 114) ∨ (200 ≤ (600 : Int) ∧ (600 : Int) ≤ 207) ∨
      (300 ≤ (600 : Int) ∧ (600 : Int) ≤ 307) ∨ (600 : Int) = 400 ∨ (600 : Int) = 401 ∨
      (404 ≤ (600 : Int) ∧ (600 : Int) ≤ 407) ∨ (600 : Int) = 500 ∨ (600 : Int) = 600) ∧
    ∃ msg, indyerror.errorStringMap.lookup 600 = some msg ∧
      indyerror.New 600 = some (.indy { error := msg, code := 600 }) ∧
      msg ≠ "unknown error: " ++ toString (600 : Int) :=
  ⟨by decide, documented_codes_known 600 (by decide)⟩

/-! ## Decoding on success -/

theorem GoBytes_take (m : List (Fin 256)) (n : Nat) (hn : n ≤ m.length) :
    indy.GoBytes (some m) (n : Int) = some (m.take n) := by
  unfold indy.GoBytes
  by_cases h0 : n = 0
  · subst h0; simp
  · have h1 : ¬ ((n : Int) = 0) := by omega
    have h2 : ¬ ((n : Int) < 0) := by omega
    simp [h1, h2, hn]

/-- C11 (success payload decode round trip): with the handle pending and
status 0, each of the eight entry points calls the continuation with a nil
error and with the payload as data: nothing; the resource handle; the C
string `s`; the pair `[s1, s2]`; the triple `[s1, s2, s3]`; the first `n`
bytes of the buffer; the pair `[s, bytes]`; the boolean encoded as 1 or 0.
A C string is a text without NUL, a byte payload a length within the
buffer. -/
theorem success_decode_round_trip (w : World) (h : Handle) (cb : Callback)
    (hreg : w.cbRegistry.registry h = some cb) :
    indy.def_callback h 0 w = call (some cb) none .nil (Remove h w).2 ∧
    (∀ p : Int, indy.handle_callback h 0 p w
      = call (some cb) none (.handle p) (Remove h w).2) ∧
    (∀ s : String, Char.ofNat 0 ∉ s.toList →
      indy.string_callback h 0 (some s) w
        = call (some cb) none (.string s) (Remove h w).2) ∧
    (∀ s1 s2 : String, Char.ofNat 0 ∉ s1.toList → Char.ofNat 0 ∉ s2.toList →
      indy.string2_callback h 0 (some s1) (some s2) w
        = call (some cb) none (.strings [s1, s2]) (Remove h w).2) ∧
    (∀ s1 s2 s3 : String, Char.ofNat 0 ∉ s1.toList → Char.ofNat 0 ∉ s2.toList →
      Char.ofNat 0 ∉ s3.toList →
      indy.string3_callback h 0 (some s1) (some s2) (some s3) w
        = call (some cb) none (.strings [s1, s2, s3]) (Remove h w).2) ∧
    (∀ (m : List (Fin 256)) (n : Nat), n ≤ m.length →
      indy.bytes_callback h 0 (some m) n w
        = call (some cb) none (.bytes (m.take n)) (Remove h w).2) ∧
    (∀ (s : String) (m : List (Fin 256)) (n : Nat), Char.ofNat 0 ∉ s.toList →
      n ≤ m.length →
      indy.string_bytes_callback h 0 (some s) (some m) n w
        = call (some cb) none (.ifaces [.string s, .bytes (m.take n)]) (Remove h w).2) ∧
    (∀ v : Bool, indy.bool_callback h 0 (if v then 1 else 0) w
      = call (some cb) none (.bool v) (Remove h w).2) := by
  refine ⟨?_, ?_, ?_, ?_, ?_, ?_, ?_, ?_⟩
  · simp [indy.def_callback, remove_present w h cb hreg, new_zero]
  · intro p
    simp [indy.handle_callback, remove_present w h cb hreg, new_zero]
  · intro s hs
    simp [indy.string_callback, remove_present w h cb hreg, new_zero, GoString_of_no_nul s hs]
  · intro s1 s2 h1 h2
    simp [indy.string2_callback, remove_present w h cb hreg, new_zero,
      GoString_of_no_nul s1 h1, GoString_of_no_nul s2 h2]
  · intro s1 s2 s3 h1 h2 h3
    simp [indy.string3_callback, remove_present w h cb hreg, new_zero,
      GoString_of_no_nul s1 h1, GoString_of_no_nul s2 h2, GoString_of_no_nul s3 h3]
  · intro m n hn
    simp [indy.bytes_callback, remove_present w h cb hreg, new_zero, GoBytes_take m n hn]
  · intro s m n hs hn
    simp [indy.string_bytes_callback, remove_present w h cb hreg, new_zero,
      GoBytes_take m n hn, GoString_of_no_nul s hs]
  · intro v
    cases v <;> simp [indy.bool_callback, remove_present w h cb hreg, new_zero]

theorem success_decode_round_trip_witness :
    probeWorld.cbRegistry.registry 7 = some probe ∧
    indy.string2_callback 7 0 (some "abc123") (some "\x7b\"attrNames\":[\"a\"]\x7d") probeWorld
      = call (some probe) none (.strings ["abc123", "\x7b\"attrNames\":[\"a\"]\x7d"])
          (Remove 7 probeWorld).2 :=
  ⟨rfl, (success_decode_round_trip probeWorld 7 probe rfl).2.2.2.1 "abc123"
    "\x7b\"attrNames\":[\"a\"]\x7d" (by decide) (by decide)⟩

/-! ## Status 0 -/

/-- C12 (status 0 never surfaces as an error): `indyerror.New 0` is nil and
`New c` is non-nil for every other code.  Hence, with the handle pending,
every de-multiplexer entry invoked with status 0 passes a nil error to the
continuation; and every adapter whose native call returns status 0 returns a
nil error (shown for the adapters of schema creation, credential creation,
DID creation, pool-config creation, the four crypto operations and the NYM
request, when the random source yields a free handle). -/
theorem status_zero_is_no_error :
    indyerror.New 0 = none ∧
    (∀ c : Int, c ≠ 0 → indyerror.New c ≠ none) ∧
    (∀ (w : World) (h : Handle) (cb : Callback), w.cbRegistry.registry h = some cb →
      indy.def_callback h 0 w = call (some cb) none .nil (Remove h w).2 ∧
      (∀ p, indy.handle_callback h 0 p w
        = call (some cb) none (.handle p) (Remove h w).2) ∧
      (∀ s, indy.string_callback h 0 s w
        = call (some cb) none (.string (indy.GoString s)) (Remove h w).2) ∧
      (∀ s1 s2, indy.string2_callback h 0 s1 s2 w
        = call (some cb) none (.strings [indy.GoString s1, indy.GoString s2])
            (Remove h w).2) ∧
      (∀ s1 s2 s3, indy.string3_callback h 0 s1 s2 s3 w
        = call (some cb) none
            (.strings [indy.GoString s1, indy.GoString s2, indy.GoString s3])
            (Remove h w).2) ∧
      (∀ b n bs, indy.GoBytes b n = some bs →
        indy.bytes_callback h 0 b n w = call (some cb) none (.bytes bs) (Remove h w).2) ∧
      (∀ s b n bs, indy.GoBytes b n = some bs →
        indy.string_bytes_callback h 0 s b n w
          = call (some cb) none (.ifaces [.string (indy.GoString s), .bytes bs])
              (Remove h w).2) ∧
      (∀ b, indy.bool_callback h 0 b w
        = call (some cb) none (.bool (b == 1)) (Remove h w).2)) ∧
    (∀ (env : Env) (w : World) (cb : Callback),
      (∃ i, i < env.fuel ∧
        w.cbRegistry.registry (rand.Int31 env.rand (w.randPos + i)) = none) →
      (∀ calls call, (env.native calls call).1 = 0) →
      (∀ issuerDID name version attrs,
        (indy.IssuerCreateSchema env issuerDID name version attrs cb w).map Prod.fst
          = some none) ∧
      (∀ walletHandle credOfferJSON credReqJSON credValuesJSON revRegID blobHandle,
        (indy.IssuerCreateCredential env walletHandle credOfferJSON credReqJSON
          credValuesJSON revRegID blobHandle cb w).map Prod.fst = some none) ∧
      (∀ walletHandle didJSON,
        (indy.CreateAndStoreMyDID env walletHandle didJSON cb w).map Prod.fst = some none) ∧
      (∀ name configPath,
        (indy.CreatePoolLedgerConfig env name configPath cb w).map Prod.fst = some none) ∧
      (∀ recipientVK message,
        (indy.AnonCrypt env recipientVK message cb w).map Prod.fst = some none) ∧
      (∀ walletHandle recipientVK message,
        (indy.AnonDecrypt env walletHandle recipientVK message cb w).map Prod.fst
          = some none) ∧
      (∀ walletHandle senderVK recipientVK message,
        (indy.AuthCrypt env walletHandle senderVK recipientVK message cb w).map Prod.fst
          = some none) ∧
      (∀ walletHandle recipientVK message,
        (indy.AuthDecrypt env walletHandle recipientVK message cb w).map Prod.fst
          = some none) ∧
      (∀ submitterDID targetDID verkey nymAlias role,
        (indy.BuildNYMRequest env submitterDID targetDID verkey nymAlias role cb w).map
          Prod.fst = some none)) := by
  refine ⟨new_zero, new_ne_none, ?_, ?_⟩
  · intro w h cb hreg
    simp +contextual [indy.def_callback, indy.handle_callback, indy.string_callback,
      indy.string2_callback, indy.string3_callback, indy.bytes_callback,
      indy.string_bytes_callback, indy.bool_callback, remove_present w h cb hreg, new_zero]
  · intro env w cb hfree hnat
    obtain ⟨h, r', pos', hreg⟩ := register_of_free env.rand cb env.fuel w.cbRegistry
      w.randPos hfree
    simp [indy.IssuerCreateSchema, indy.IssuerCreateCredential, indy.CreateAndStoreMyDID,
      indy.CreatePoolLedgerConfig, indy.AnonCrypt, indy.AnonDecrypt, indy.AuthCrypt,
      indy.AuthDecrypt, indy.BuildNYMRequest, Register, hreg, indy.native, hnat, new_zero]

/-! ## Local validation errors -/

theorem did_short_circuit (env : Env) (w : World) (wallet : wallet.Wallet)
    (hquiet : w.completions = [] ∧ w.fault = none) :
    (did.CreateAndStoreMyDID env wallet "" w).1
        = .returned (none, some (.plain "JSON for DID must be specified")) ∧
    (did.CreateAndStoreMyDID env wallet "" w).2.calls = w.calls := by
  obtain ⟨hq1, hq2⟩ := hquiet
  have e1 : fmt.Errorf "JSON for DID must be specified"
      = .plain "JSON for DID must be specified" := rfl
  refine ⟨?_, ?_⟩ <;>
    simp [did.CreateAndStoreMyDID, did.createAndStoreMyDID, make, hq1, hq2,
      indy.nativeThreads, sendNow, World.setChan, select2, recv, e1]

theorem pool_short_circuit (env : Env) (w : World) (name configPath : String)
    (hquiet : w.completions = [] ∧ w.fault = none)
    (hinv : name = "" ∨ configPath = "") :
    ∃ msg, (pool.Create env name configPath w).1 = .returned (some (.plain msg)) ∧
      (pool.Create env name configPath w).2.calls = w.calls := by
  obtain ⟨hq1, hq2⟩ := hquiet
  have e1 : fmt.Errorf "pool name must be specified" = .plain "pool name must be specified" :=
    rfl
  have e2 : fmt.Errorf "config path must be specified"
      = .plain "config path must be specified" := rfl
  by_cases h1 : name = ""
  · refine ⟨"pool name must be specified", ?_, ?_⟩ <;>
      simp [pool.Create, pool.create, make, h1, hq1, hq2, indy.nativeThreads, sendNow,
        World.setChan, recv, e1]
  have h2 : configPath = "" := by
    rcases hinv with h | h
    · exact absurd h h1
    · exact h
  refine ⟨"config path must be specified", ?_, ?_⟩ <;>
    simp [pool.Create, pool.create, make, h1, h2, hq1, hq2, indy.nativeThreads, sendNow,
      World.setChan, recv, e2]

theorem credential_short_circuit (env : Env) (w : World) (wallet : wallet.Wallet)
    (credOfferJSON credReqJSON credValuesJSON revRegID : String) (blobHandle : Handle)
    (hquiet : w.completions = [] ∧ w.fault = none)
    (hinv : credOfferJSON = "" ∨ credReqJSON = "" ∨ credValuesJSON = "") :
    ∃ msg, (anoncreds.IssuerCreateCredential env wallet credOfferJSON credReqJSON
          credValuesJSON revRegID blobHandle w).1
        = .returned ("", "", "", some (.plain msg)) ∧
      (anoncreds.IssuerCreateCredential env wallet credOfferJSON credReqJSON
          credValuesJSON revRegID blobHandle w).2.calls = w.calls := by
  obtain ⟨hq1, hq2⟩ := hquiet
  have e1 : fmt.Errorf "cred offer JSON must be specified"
      = .plain "cred offer JSON must be specified" := rfl
  have e2 : fmt.Errorf "cred request JSON must be specified"
      = .plain "cred request JSON must be specified" := rfl
  have e3 : fmt.Errorf "cred values JSON must be specified"
      = .plain "cred values JSON must be specified" := rfl
  by_cases h1 : credOfferJSON = ""
  · refine ⟨"cred offer JSON must be specified", ?_, ?_⟩ <;>
      simp [anoncreds.IssuerCreateCredential, anoncreds.issuerCreateCredential, make, h1, hq1,
        hq2, indy.nativeThreads, sendNow, World.setChan, select2, recv, e1]
  by_cases h2 : credReqJSON = ""
  · refine ⟨"cred request JSON must be specified", ?_, ?_⟩ <;>
      simp [anoncreds.IssuerCreateCredential, anoncreds.issuerCreateCredential, make, h1, h2,
        hq1, hq2, indy.nativeThreads, sendNow, World.setChan, select2, recv, e2]
  have h3 : credValuesJSON = "" := by
    rcases hinv with h | h | h
    · exact absurd h h1
    · exact absurd h h2
    · exact h
  refine ⟨"cred values JSON must be specified", ?_, ?_⟩ <;>
    simp [anoncreds.IssuerCreateCredential, anoncreds.issuerCreateCredential, make, h1, h2, h3,
      hq1, hq2, indy.nativeThreads, sendNow, World.setChan, select2, recv, e3]

theorem nym_short_circuit (env : Env) (w : World) (submitterDID targetDID verkey : String)
    (nymAlias : Option types.Alias) (role : Option role.Role)
    (hquiet : w.completions = [] ∧ w.fault = none)
    (hinv : submitterDID = "" ∨ targetDID = "") :
    ∃ msg, (ledger.BuildNYMRequest env submitterDID targetDID verkey nymAlias role w).1
        = .returned ("", some (.plain msg)) ∧
      (ledger.BuildNYMRequest env submitterDID targetDID verkey nymAlias role w).2.calls
        = w.calls := by
  obtain ⟨hq1, hq2⟩ := hquiet
  have e1 : fmt.Errorf "Submitter DID must be specified"
      = .plain "Submitter DID must be specified" := rfl
  have e2 : fmt.Errorf "Target DID must be specified"
      = .plain "Target DID must be specified" := rfl
  by_cases h1 : submitterDID = ""
  · refine ⟨"Submitter DID must be specified", ?_, ?_⟩ <;>
      simp [ledger.BuildNYMRequest, ledger.buildNYMRequest, make, h1, hq1, hq2,
        indy.nativeThreads, sendNow, World.setChan, select2, recv, e1]
  have h2 : targetDID = "" := by
    rcases hinv with h | h
    · exact absurd h h1
    · exact h
  refine ⟨"Target DID must be specified", ?_, ?_⟩ <;>
    simp [ledger.BuildNYMRequest, ledger.buildNYMRequest, make, h1, h2, hq1, hq2,
      indy.nativeThreads, sendNow, World.setChan, select2, recv, e2]

/-- C16 (non-domain errors have code Undefined): `indyerror.Code` returns
`Undefined`, which is -1, for every error that is not an `IndyError`.  In
particular the error a facade returns when a required argument is empty,
with no native call issued, is such an error and has code -1: shown for
`anoncreds.IssuerCreateSchema`, `anoncreds.IssuerCreateCredential`,
`did.CreateAndStoreMyDID`, `pool.Create` and `ledger.BuildNYMRequest`. -/
theorem local_error_code_undefined (env : Env) (w : World)
    (hquiet : w.completions = [] ∧ w.fault = none) :
    indyerror.Undefined = -1 ∧
    (∀ msg : String, indyerror.Code (some (.plain msg)) = indyerror.Undefined) ∧
    (∀ issuerDID name version attrs : String,
      issuerDID = "" ∨ name = "" ∨ version = "" ∨ attrs = "" →
      ∃ err, (anoncreds.IssuerCreateSchema env issuerDID name version attrs w).1
          = .returned ("", "", some err) ∧
        indyerror.Code (some err) = -1 ∧
        (anoncreds.IssuerCreateSchema env issuerDID name version attrs w).2.calls = w.calls) ∧
    (∀ (wallet : wallet.Wallet) (credOfferJSON credReqJSON credValuesJSON revRegID : String)
        (blobHandle : Handle),
      credOfferJSON = "" ∨ credReqJSON = "" ∨ credValuesJSON = "" →
      ∃ err, (anoncreds.IssuerCreateCredential env wallet credOfferJSON credReqJSON
            credValuesJSON revRegID blobHandle w).1 = .returned ("", "", "", some err) ∧
        indyerror.Code (some err) = -1 ∧
        (anoncreds.IssuerCreateCredential env wallet credOfferJSON credReqJSON
            credValuesJSON revRegID blobHandle w).2.calls = w.calls) ∧
    (∀ wallet : wallet.Wallet,
      ∃ err, (did.CreateAndStoreMyDID env wallet "" w).1 = .returned (none, some err) ∧
        indyerror.Code (some err) = -1 ∧
        (did.CreateAndStoreMyDID env wallet "" w).2.calls = w.calls) ∧
    (∀ name configPath : String, name = "" ∨ configPath = "" →
      ∃ err, (pool.Create env name configPath w).1 = .returned (some err) ∧
        indyerror.Code (some err) = -1 ∧
        (pool.Create env name configPath w).2.calls = w.calls) ∧
    (∀ (submitterDID targetDID verkey : String) (nymAlias : Option types.Alias)
        (role : Option role.Role), submitterDID = "" ∨ targetDID = "" →
      ∃ err, (ledger.BuildNYMRequest env submitterDID targetDID verkey nymAlias role w).1
          = .returned ("", some err) ∧
        indyerror.Code (some err) = -1 ∧
        (ledger.BuildNYMRequest env submitterDID targetDID verkey nymAlias role w).2.calls
          = w.calls) := by
  refine ⟨rfl, fun _ => rfl, ?_, ?_, ?_, ?_, ?_⟩
  · intro issuerDID name version attrs hinv
    obtain ⟨msg, h1, -, h3⟩ :=
      issuerCreateSchema_short_circuit env w issuerDID name version attrs hquiet hinv
    exact ⟨.plain msg, h1, rfl, h3⟩
  · intro wallet credOfferJSON credReqJSON credValuesJSON revRegID blobHandle hinv
    obtain ⟨msg, h1, h3⟩ := credential_short_circuit env w wallet credOfferJSON credReqJSON
      credValuesJSON revRegID blobHandle hquiet hinv
    exact ⟨.plain msg, h1, rfl, h3⟩
  · intro wallet
    obtain ⟨h1, h3⟩ := did_short_circuit env w wallet hquiet
    exact ⟨_, h1, rfl, h3⟩
  · intro name configPath hinv
    obtain ⟨msg, h1, h3⟩ := pool_short_circuit env w name configPath hquiet hinv
    exact ⟨.plain msg, h1, rfl, h3⟩
  · intro submitterDID targetDID verkey nymAlias role hinv
    obtain ⟨msg, h1, h3⟩ :=
      nym_short_circuit env w submitterDID targetDID verkey nymAlias role hquiet hinv
    exact ⟨.plain msg, h1, rfl, h3⟩

theorem local_error_code_undefined_witness :
    (emptyWorld.completions = [] ∧ emptyWorld.fault = none) ∧
    ∃ err, (anoncreds.IssuerCreateSchema rejectingEnv "" "schema1" "1.0"
          "[\"name\", \"age\", \"sex\", \"height\"]" emptyWorld).1
          = .returned ("", "", some err) ∧
        indyerror.Code (some err) = -1 ∧
        (anoncreds.IssuerCreateSchema rejectingEnv "" "schema1" "1.0"
          "[\"name\", \"age\", \"sex\", \"height\"]" emptyWorld).2.calls = emptyWorld.calls :=
  ⟨⟨rfl, rfl⟩,
   (local_error_code_undefined rejectingEnv emptyWorld ⟨rfl, rfl⟩).2.2.1 "" "schema1" "1.0"
     "[\"name\", \"age\", \"sex\", \"height\"]" (Or.inl rfl)⟩

/-! ## The delivery channels -/

/-- C17, as stated, fails: the response channel of `issuerCreateSchema` is made
without a capacity (channel 0, capacity 0) and only the error channel
(channel 1) has capacity 1; and when the library completes the call with
status 0 before the caller receives, the continuation's send is not
completed: its value is held by the parked sender, not by the channel. -/
theorem response_channel_unbuffered :
    (anoncreds.issuerCreateSchema (completingEnv 0 (some "abc123") (some "json"))
        "VsKV7grR1BUE29mG2Fm2kZ" "schema1" "1.0" "[\"name\", \"age\", \"sex\", \"height\"]"
        emptyWorld).map (fun x => (x.1, (x.2.chans x.1.1).cap, (x.2.chans x.1.2).cap))
      = some ((0, 1), 0, 1) ∧
    (anoncreds.issuerCreateSchema (completingEnv 0 (some "abc123") (some "json"))
        "VsKV7grR1BUE29mG2Fm2kZ" "schema1" "1.0" "[\"name\", \"age\", \"sex\", \"height\"]"
        emptyWorld).map (fun x => (indy.nativeThreads x.2).chans 0)
      = some { cap := 0, buf := [],
               sendq := [.issuerCreateSchemaResponse "abc123" "json"] } := by
  decide

/-- C17, amended, for `anoncreds.IssuerCreateSchema` with four non-empty
arguments and for `pool.Create`.  The error channel has capacity 1 and the
response channel capacity 0.  Before the caller's receive, after the library
has made its callback: on a success callback the response is held by the
sender parked on the response channel and the error channel is empty; on an
error callback, and likewise on an immediate rejection, the error is
buffered in the error channel and the response channel is empty.  So one
channel is written, once, per call.  `pool.Create` has the error channel
only, which then holds the error or, on success, the nil error. -/
theorem delivery_channels (env : Env) (w : World)
    (issuerDID name version attrs : String)
    (hargs : issuerDID ≠ "" ∧ name ≠ "" ∧ version ≠ "" ∧ attrs ≠ "")
    (hquiet : w.completions = [] ∧ w.fault = none)
    (hfree : ∃ i, i < env.fuel ∧
      w.cbRegistry.registry (rand.Int31 env.rand (w.randPos + i)) = none) :
    (∀ s1 s2 : CString,
      (∀ calls call, env.native calls call
        = (0, [.string2_callback call.command_handle 0 s1 s2])) →
      (anoncreds.issuerCreateSchema env issuerDID name version attrs w).map
          (fun x => (x.1, (indy.nativeThreads x.2).chans x.1.1,
            (indy.nativeThreads x.2).chans x.1.2))
        = some ((w.nextChan, w.nextChan + 1),
            { cap := 0, buf := [],
              sendq := [.issuerCreateSchemaResponse (indy.GoString s1) (indy.GoString s2)] },
            { cap := 1, buf := [], sendq := [] })) ∧
    (∀ (c : Int) (s1 s2 : CString), c ≠ 0 →
      (∀ calls call, env.native calls call
        = (0, [.string2_callback call.command_handle c s1 s2])) →
      (anoncreds.issuerCreateSchema env issuerDID name version attrs w).map
          (fun x => (x.1, (indy.nativeThreads x.2).chans x.1.1,
            (indy.nativeThreads x.2).chans x.1.2))
        = some ((w.nextChan, w.nextChan + 1),
            { cap := 0, buf := [], sendq := [] },
            { cap := 1, buf := [.error (indyerror.New c)], sendq := [] })) ∧
    (∀ c : Int, indy.toInt32 c ≠ 0 → (∀ calls call, env.native calls call = (c, [])) →
      (anoncreds.issuerCreateSchema env issuerDID name version attrs w).map
          (fun x => (x.1, (indy.nativeThreads x.2).chans x.1.1,
            (indy.nativeThreads x.2).chans x.1.2))
        = some ((w.nextChan, w.nextChan + 1),
            { cap := 0, buf := [], sendq := [] },
            { cap := 1, buf := [.error (indyerror.New (indy.toInt32 c))], sendq := [] })) ∧
    (∀ (c : Int) (poolName configPath : String), poolName ≠ "" → configPath ≠ "" →
      (∀ calls call, env.native calls call = (0, [.def_callback call.command_handle c])) →
      (pool.create env poolName configPath w).map
          (fun x => (x.1, (indy.nativeThreads x.2).chans x.1))
        = some (w.nextChan,
            { cap := 1, buf := [.error (indyerror.New c)], sendq := [] })) := by
  obtain ⟨h1, h2, h3, h4⟩ := hargs
  obtain ⟨hq1, hq2⟩ := hquiet
  refine ⟨?_, ?_, ?_, ?_⟩
  · intro s1 s2 hnative
    obtain ⟨h, r', pos', hreg⟩ := register_of_free env.rand
      (anoncreds.issuerCreateSchemaCb w.nextChan (w.nextChan + 1)) env.fuel w.cbRegistry
      w.randPos hfree
    obtain ⟨hfr, rfl⟩ := register_spec _ _ _ _ _ _ _ _ hreg
    have hrange := register_handle_range _ _ _ _ _ _ _ _ hreg
    simp [anoncreds.issuerCreateSchema, make, h1, h2, h3, h4,
      indy.IssuerCreateSchema, Register, hreg, indy.native, hnative, hrange, hq1, hq2,
      new_zero, indy.nativeThreads, indy.invoke, indy.string2_callback, Remove,
      registry.remove, call, exec, anoncreds.issuerCreateSchemaCb, send, World.setChan]
  · intro c s1 s2 hc hnative
    obtain ⟨h, r', pos', hreg⟩ := register_of_free env.rand
      (anoncreds.issuerCreateSchemaCb w.nextChan (w.nextChan + 1)) env.fuel w.cbRegistry
      w.randPos hfree
    obtain ⟨hfr, rfl⟩ := register_spec _ _ _ _ _ _ _ _ hreg
    have hrange := register_handle_range _ _ _ _ _ _ _ _ hreg
    obtain ⟨e, he⟩ := Option.ne_none_iff_exists'.mp (new_ne_none c hc)
    simp [anoncreds.issuerCreateSchema, make, h1, h2, h3, h4,
      indy.IssuerCreateSchema, Register, hreg, indy.native, hnative, hrange, hq1, hq2,
      new_zero, he, indy.nativeThreads, indy.invoke, indy.string2_callback, Remove,
      registry.remove, call, exec, anoncreds.issuerCreateSchemaCb, send, World.setChan]
  · intro c hc hnative
    obtain ⟨h, r', pos', hreg⟩ := register_of_free env.rand
      (anoncreds.issuerCreateSchemaCb w.nextChan (w.nextChan + 1)) env.fuel w.cbRegistry
      w.randPos hfree
    obtain ⟨e, he⟩ := Option.ne_none_iff_exists'.mp (new_ne_none (indy.toInt32 c) hc)
    simp [anoncreds.issuerCreateSchema, make, h1, h2, h3, h4,
      indy.IssuerCreateSchema, Register, hreg, indy.native, hnative, hq1, hq2, he,
      indy.nativeThreads, sendNow, World.setChan]
  · intro c poolName configPath hn hp hnative
    obtain ⟨h, r', pos', hreg⟩ := register_of_free env.rand
      (callback.New w.nextChan) env.fuel w.cbRegistry w.randPos hfree
    obtain ⟨hfr, rfl⟩ := register_spec _ _ _ _ _ _ _ _ hreg
    have hrange := register_handle_range _ _ _ _ _ _ _ _ hreg
    simp [pool.create, make, hn, hp, indy.CreatePoolLedgerConfig, Register, hreg,
      indy.native, hnative, hrange, hq1, hq2, new_zero, indy.nativeThreads, indy.invoke,
      indy.def_callback, Remove, registry.remove, call, exec, callback.New, send,
      World.setChan]

theorem delivery_channels_witness :
    (("VsKV7grR1BUE29mG2Fm2kZ" ≠ "" ∧ "schema1" ≠ "" ∧ "1.0" ≠ "" ∧
        "[\"name\", \"age\", \"sex\", \"height\"]" ≠ "") ∧
      (emptyWorld.completions = [] ∧ emptyWorld.fault = none)) ∧
    (anoncreds.issuerCreateSchema rejectingEnv "VsKV7grR1BUE29mG2Fm2kZ" "schema1" "1.0"
        "[\"name\", \"age\", \"sex\", \"height\"]" emptyWorld).map
        (fun x => (x.1, (indy.nativeThreads x.2).chans x.1.1,
          (indy.nativeThreads x.2).chans x.1.2))
      = some ((emptyWorld.nextChan, emptyWorld.nextChan + 1),
          { cap := 0, buf := [], sendq := [] },
          { cap := 1, buf := [.error (indyerror.New 113)], sendq := [] }) :=
  ⟨⟨by decide, ⟨rfl, rfl⟩⟩,
   (delivery_channels rejectingEnv emptyWorld "VsKV7grR1BUE29mG2Fm2kZ" "schema1" "1.0"
      "[\"name\", \"age\", \"sex\", \"height\"]" (by decide) ⟨rfl, rfl⟩
      ⟨0, by decide, rfl⟩).2.2.1 113 (by decide) (fun _ _ => rfl)⟩

/-! ## Credential issuance -/

/-- C18 (ordered triple): for `anoncreds.IssuerCreateCredential` with its
required arguments non-empty, when the native call is accepted and the
3-string entry is then invoked with the registered handle, status 0 and the
C strings `s1`, `s2`, `s3`, the facade returns
`(credJSON, credRevID, revocRegDeltaJSON, err) = (s1, s2, s3, nil)`. -/
theorem ordered_triple (env : Env) (w : World) (wallet : wallet.Wallet)
    (credOfferJSON credReqJSON credValuesJSON revRegID : String) (blobHandle : Handle)
    (s1 s2 s3 : String)
    (hargs : credOfferJSON ≠ "" ∧ credReqJSON ≠ "" ∧ credValuesJSON ≠ "")
    (hquiet : w.completions = [] ∧ w.fault = none)
    (hfree : ∃ i, i < env.fuel ∧
      w.cbRegistry.registry (rand.Int31 env.rand (w.randPos + i)) = none)
    (hnative : ∀ calls call, env.native calls call
      = (0, [.string3_callback call.command_handle 0 (some s1) (some s2) (some s3)]))
    (hs : Char.ofNat 0 ∉ s1.toList ∧ Char.ofNat 0 ∉ s2.toList ∧ Char.ofNat 0 ∉ s3.toList) :
    (anoncreds.IssuerCreateCredential env wallet credOfferJSON credReqJSON credValuesJSON
        revRegID blobHandle w).1 = .returned (s1, s2, s3, none) := by
  obtain ⟨h1, h2, h3⟩ := hargs
  obtain ⟨hq1, hq2⟩ := hquiet
  obtain ⟨hs1, hs2, hs3⟩ := hs
  obtain ⟨h, r', pos', hreg⟩ := register_of_free env.rand
    (anoncreds.issuerCreateCredentialCb w.nextChan (w.nextChan + 1)) env.fuel w.cbRegistry
    w.randPos hfree
  obtain ⟨hfr, rfl⟩ := register_spec _ _ _ _ _ _ _ _ hreg
  have hrange := register_handle_range _ _ _ _ _ _ _ _ hreg
  simp [anoncreds.IssuerCreateCredential, anoncreds.issuerCreateCredential, make, h1, h2, h3,
    indy.IssuerCreateCredential, Register, hreg, indy.native, hnative, hrange, hq1, hq2,
    indy.nativeThreads, indy.invoke, indy.string3_callback, Remove, registry.remove, call,
    exec, anoncreds.issuerCreateCredentialCb, new_zero, send, World.setChan, select2, recv,
    GoString_of_no_nul s1 hs1, GoString_of_no_nul s2 hs2, GoString_of_no_nul s3 hs3]

theorem ordered_triple_witness :
    (("offer" ≠ "" ∧ "request" ≠ "" ∧ "values" ≠ "") ∧
      (emptyWorld.completions = [] ∧ emptyWorld.fault = none) ∧
      (Char.ofNat 0 ∉ "cred".toList ∧ Char.ofNat 0 ∉ "rev-1".toList ∧
        Char.ofNat 0 ∉ "delta".toList)) ∧
    (anoncreds.IssuerCreateCredential
        (completingEnv3 (some "cred") (some "rev-1") (some "delta")) exampleWallet
        "offer" "request" "values" "" 0 emptyWorld).1
      = .returned ("cred", "rev-1", "delta", none) :=
  ⟨⟨by decide, ⟨rfl, rfl⟩, by decide⟩,
   ordered_triple (completingEnv3 (some "cred") (some "rev-1") (some "delta")) emptyWorld
     exampleWallet "offer" "request" "values" "" 0 "cred" "rev-1" "delta"
     (by decide) ⟨rfl, rfl⟩ ⟨0, by decide, rfl⟩ (fun _ _ => rfl) (by decide)⟩

/-! ## Marshaling of arguments -/

theorem toUint32_length (message : List (Fin 256)) (hlen : message.length < 4294967296) :
    indy.toUint32 (message.length : Int) = (message.length : Int) := by
  unfold indy.toUint32
  omega

/-- C19 (binary arguments carry an explicit length): for every message
shorter than 2^32 bytes, each of the adapters `AnonCrypt`, `AnonDecrypt`,
`AuthCrypt` and `AuthDecrypt` issues one native call whose buffer argument
holds exactly the bytes of `message`, in order, zero bytes included, followed
by a length argument equal to `len(message)`. -/
theorem binary_arguments_with_length (env : Env) (w : World) (cb : Callback)
    (message : List (Fin 256))
    (hlen : message.length < 4294967296)
    (hfree : ∃ i, i < env.fuel ∧
      w.cbRegistry.registry (rand.Int31 env.rand (w.randPos + i)) = none) :
    ∃ h : Handle, w.cbRegistry.registry h = none ∧
      (∀ recipientVK : String,
        (indy.AnonCrypt env recipientVK message cb w).map (fun x => x.2.calls)
          = some (w.calls ++
              [{ fn := "indy_crypto_anon_crypt", command_handle := h,
                 args := [.str (some recipientVK), .bytes (some message),
                   .u32 message.length],
                 cb := .Bytes }])) ∧
      (∀ (walletHandle : Handle) (recipientVK : String),
        (indy.AnonDecrypt env walletHandle recipientVK message cb w).map (fun x => x.2.calls)
          = some (w.calls ++
              [{ fn := "indy_crypto_anon_decrypt", command_handle := h,
                 args := [.handle (indy.toInt32 walletHandle), .str (some recipientVK),
                   .bytes (some message), .u32 message.length],
                 cb := .Bytes }])) ∧
      (∀ (walletHandle : Handle) (senderVK recipientVK : String),
        (indy.AuthCrypt env walletHandle senderVK recipientVK message cb w).map
            (fun x => x.2.calls)
          = some (w.calls ++
              [{ fn := "indy_crypto_auth_crypt", command_handle := h,
                 args := [.handle (indy.toInt32 walletHandle), .str (some senderVK),
                   .str (some recipientVK), .bytes (some message), .u32 message.length],
                 cb := .Bytes }])) ∧
      (∀ (walletHandle : Handle) (recipientVK : String),
        (indy.AuthDecrypt env walletHandle recipientVK message cb w).map (fun x => x.2.calls)
          = some (w.calls ++
              [{ fn := "indy_crypto_auth_decrypt", command_handle := h,
                 args := [.handle (indy.toInt32 walletHandle), .str (some recipientVK),
                   .bytes (some message), .u32 message.length],
                 cb := .StringAndBytes }])) := by
  obtain ⟨h, r', pos', hreg⟩ := register_of_free env.rand cb env.fuel w.cbRegistry
    w.randPos hfree
  obtain ⟨hfr, rfl⟩ := register_spec _ _ _ _ _ _ _ _ hreg
  have hrange := register_handle_range _ _ _ _ _ _ _ _ hreg
  have hu := toUint32_length message hlen
  refine ⟨h, hfr, ?_, ?_, ?_, ?_⟩
  · intro recipientVK
    simp [indy.AnonCrypt, Register, hreg, indy.native, hrange, hu, indy.newChar]
  · intro walletHandle recipientVK
    simp [indy.AnonDecrypt, Register, hreg, indy.native, hrange, hu, indy.newChar]
  · intro walletHandle senderVK recipientVK
    simp [indy.AuthCrypt, Register, hreg, indy.native, hrange, hu, indy.newChar]
  · intro walletHandle recipientVK
    simp [indy.AuthDecrypt, Register, hreg, indy.native, hrange, hu, indy.newChar]

theorem binary_arguments_with_length_witness :
    (([1, 0, 2] : List (Fin 256)).length < 4294967296) ∧
    ∃ h : Handle, emptyWorld.cbRegistry.registry h = none ∧
      (∀ recipientVK : String,
        (indy.AnonCrypt rejectingEnv recipientVK [1, 0, 2] (callback.New 0) emptyWorld).map
            (fun x => x.2.calls)
          = some (emptyWorld.calls ++
              [{ fn := "indy_crypto_anon_crypt", command_handle := h,
                 args := [.str (some recipientVK), .bytes (some [1, 0, 2]),
                   .u32 (([1, 0, 2] : List (Fin 256)).length)],
                 cb := .Bytes }])) :=
  ⟨by decide,
   match binary_arguments_with_length rejectingEnv emptyWorld (callback.New 0) [1, 0, 2]
      (by decide) ⟨0, by decide, rfl⟩ with
   | ⟨h, hfr, h1, _⟩ => ⟨h, hfr, h1⟩⟩

theorem buildNYMRequest_valid (env : Env) (w : World)
    (submitterDID targetDID verkey : String) (nymAlias : Option types.Alias)
    (nymRole : Option role.Role)
    (h1 : submitterDID ≠ "") (h2 : targetDID ≠ "")
    (h : Handle) (r' : callback.registry) (pos' : Nat)
    (hreg : registry.register env.rand (ledger.buildNYMRequestCb w.nextChan (w.nextChan + 1))
      env.fuel w.cbRegistry w.randPos = some (h, r', pos')) :
    ∃ w1, ledger.buildNYMRequest env submitterDID targetDID verkey nymAlias nymRole w
        = some ((w.nextChan, w.nextChan + 1), w1) ∧
      w1.cbRegistry = r' ∧
      w1.calls = w.calls ++
        [{ fn := "indy_build_nym_request", command_handle := indy.toInt32 h,
           args := [.str (some submitterDID), .str (some targetDID), .str (some verkey),
             .str (nymAlias.map types.Alias.String), .str (nymRole.map role.Role.String)],
           cb := .String }] := by
  cases hN : indyerror.New (indy.toInt32 (env.native w.calls
      { fn := "indy_build_nym_request", command_handle := indy.toInt32 h,
        args := [.str (some submitterDID), .str (some targetDID), .str (some verkey),
          .str (nymAlias.map types.Alias.String), .str (nymRole.map role.Role.String)],
        cb := .String }).1) with
  | none =>
    cases hI : ledger.buildNYMRequest env submitterDID targetDID verkey nymAlias nymRole w with
    | none =>
      cases nymAlias <;> cases nymRole <;>
        simp [ledger.buildNYMRequest, make, h1, h2, indy.BuildNYMRequest, Register, hreg,
          indy.native, indy.newChar] at hN hI <;>
        simp [hN] at hI
    | some x =>
      cases nymAlias <;> cases nymRole <;>
        simp [ledger.buildNYMRequest, make, h1, h2, indy.BuildNYMRequest, Register, hreg,
          indy.native, indy.newChar] at hN hI <;>
        simp [hN] at hI <;>
        (subst hI; exact ⟨_, rfl, rfl, rfl⟩)
  | some e =>
    cases hI : ledger.buildNYMRequest env submitterDID targetDID verkey nymAlias nymRole w with
    | none =>
      cases nymAlias <;> cases nymRole <;>
        simp [ledger.buildNYMRequest, make, h1, h2, indy.BuildNYMRequest, Register, hreg,
          indy.native, indy.newChar] at hN hI <;>
        simp [hN, sendNow, World.setChan] at hI
    | some x =>
      cases nymAlias <;> cases nymRole <;>
        simp [ledger.buildNYMRequest, make, h1, h2, indy.BuildNYMRequest, Register, hreg,
          indy.native, indy.newChar] at hN hI <;>
        simp [hN, sendNow, World.setChan] at hI <;>
        (subst hI; exact ⟨_, rfl, rfl, rfl⟩)

/-- C20 (role marshaling in `BuildNYMRequest`): with `submitterDID` and
`targetDID` non-empty, `ledger.buildNYMRequest` issues one
`indy_build_nym_request` call whose last two string arguments are the alias
and the role.  The role argument is NULL if and only if the role pointer is
nil; `role.Trustee`, `role.Steward` and `role.TrustAnchor` are passed as
"TRUSTEE", "STEWARD" and "TRUST_ANCHOR"; `role.Reset` is passed as the empty
string, which is not NULL; and the alias argument is NULL if and only if the
alias pointer is nil, else the alias text. -/
theorem role_marshaling (env : Env) (w : World)
    (submitterDID targetDID verkey : String) (nymAlias : Option types.Alias)
    (nymRole : Option role.Role)
    (hargs : submitterDID ≠ "" ∧ targetDID ≠ "")
    (hfree : ∃ i, i < env.fuel ∧
      w.cbRegistry.registry (rand.Int31 env.rand (w.randPos + i)) = none) :
    ∃ (h : Handle) (csAlias csRole : CString),
      (ledger.buildNYMRequest env submitterDID targetDID verkey nymAlias nymRole w).map
          (fun x => x.2.calls)
        = some (w.calls ++
            [{ fn := "indy_build_nym_request", command_handle := h,
               args := [.str (some submitterDID), .str (some targetDID), .str (some verkey),
                 .str csAlias, .str csRole],
               cb := .String }]) ∧
      (csRole = none ↔ nymRole = none) ∧
      (nymRole = some role.Trustee → csRole = some "TRUSTEE") ∧
      (nymRole = some role.Steward → csRole = some "STEWARD") ∧
      (nymRole = some role.TrustAnchor → csRole = some "TRUST_ANCHOR") ∧
      (nymRole = some role.Reset → csRole = some "" ∧ csRole ≠ none) ∧
      (csAlias = none ↔ nymAlias = none) ∧
      (∀ a : types.Alias, nymAlias = some a → csAlias = some a.value) := by
  obtain ⟨h1, h2⟩ := hargs
  obtain ⟨h, r', pos', hreg⟩ := register_of_free env.rand
    (ledger.buildNYMRequestCb w.nextChan (w.nextChan + 1)) env.fuel w.cbRegistry
    w.randPos hfree
  have hrange := register_handle_range _ _ _ _ _ _ _ _ hreg
  obtain ⟨w1, hv, -, hcalls⟩ := buildNYMRequest_valid env w submitterDID targetDID verkey
    nymAlias nymRole h1 h2 h r' pos' hreg
  rw [hrange] at hcalls
  refine ⟨h, nymAlias.map types.Alias.String, nymRole.map role.Role.String, ?_, ?_, ?_, ?_, ?_,
    ?_, ?_, ?_⟩
  · rw [hv]; simp [hcalls]
  · simp
  · rintro rfl; rfl
  · rintro rfl; rfl
  · rintro rfl; rfl
  · rintro rfl; exact ⟨rfl, by simp⟩
  · simp
  · rintro a rfl; rfl

theorem role_marshaling_witness :
    ("Th7MpTaRZVRYnPiabds81Y" ≠ "" ∧ "VsKV7grR1BUE29mG2Fm2kZ" ≠ "") ∧
    ∃ (h : Handle) (csAlias csRole : CString),
      (ledger.buildNYMRequest rejectingEnv "Th7MpTaRZVRYnPiabds81Y" "VsKV7grR1BUE29mG2Fm2kZ"
          "" none (some role.Reset) emptyWorld).map (fun x => x.2.calls)
        = some (emptyWorld.calls ++
            [{ fn := "indy_build_nym_request", command_handle := h,
               args := [.str (some "Th7MpTaRZVRYnPiabds81Y"),
                 .str (some "VsKV7grR1BUE29mG2Fm2kZ"), .str (some ""),
                 .str csAlias, .str csRole],
               cb := .String }]) ∧
      (csRole = some "" ∧ csRole ≠ none) ∧ csAlias = none :=
  ⟨by decide,
   match role_marshaling rejectingEnv emptyWorld "Th7MpTaRZVRYnPiabds81Y"
      "VsKV7grR1BUE29mG2Fm2kZ" "" none (some role.Reset) (by decide)
      ⟨0, by decide, rfl⟩ with
   | ⟨h, csAlias, csRole, hc, _, _, _, _, hreset, halias, _⟩ =>
     ⟨h, csAlias, csRole, hc, hreset rfl, halias.mpr rfl⟩⟩

/-! ## Termination of register -/

theorem register_first_free (src : Nat → Nat) (cb : Callback) (r : callback.registry) :
    ∀ (n pos fuel : Nat),
      r.registry (rand.Int31 src (pos + n)) = none →
      (∀ i, i < n → r.registry (rand.Int31 src (pos + i)) ≠ none) →
      n < fuel →
      registry.register src cb fuel r pos
        = some (rand.Int31 src (pos + n),
            { registry := fun k => if k = rand.Int31 src (pos + n) then some cb
                                   else r.registry k },
            pos + n + 1) := by
  intro n
  induction n with
  | zero =>
    intro pos fuel hfree _ hfuel
    obtain ⟨f, rfl⟩ : ∃ f, fuel = f + 1 := ⟨fuel - 1, by omega⟩
    simp only [Nat.add_zero] at hfree
    simp [registry.register, hfree]
  | succ m ih =>
    intro pos fuel hfree hbusy hfuel
    obtain ⟨f, rfl⟩ : ∃ f, fuel = f + 1 := ⟨fuel - 1, by omega⟩
    have h0 := hbusy 0 (by omega)
    simp only [Nat.add_zero] at h0
    obtain ⟨c, hc⟩ := Option.ne_none_iff_exists'.mp h0
    have e : pos + (m + 1) = pos + 1 + m := by omega
    have hrec := ih (pos + 1) f (by rw [← e]; exact hfree)
      (by
        intro i hi
        have := hbusy (i + 1) (by omega)
        have e2 : pos + (i + 1) = pos + 1 + i := by omega
        rw [← e2]; exact this)
      (by omega)
    simp only [registry.register, hc]
    rw [hrec, e]

theorem register_still_running (src : Nat → Nat) (cb : Callback) (r : callback.registry) :
    ∀ (fuel pos : Nat),
      (∀ i, i < fuel → r.registry (rand.Int31 src (pos + i)) ≠ none) →
      registry.register src cb fuel r pos = none := by
  intro fuel
  induction fuel with
  | zero => intro pos _; rfl
  | succ f ih =>
    intro pos hbusy
    have h0 := hbusy 0 (by omega)
    simp only [Nat.add_zero] at h0
    obtain ⟨c, hc⟩ := Option.ne_none_iff_exists'.mp h0
    simp only [registry.register, hc]
    apply ih
    intro i hi
    have := hbusy (i + 1) (by omega)
    have e2 : pos + (i + 1) = pos + 1 + i := by omega
    rw [← e2]; exact this

/-- C27 (termination of register).  Reading the random source from position
`pos`: if some candidate is not a key of the registry, then there is a first
such candidate, at offset `n`; `register` returns as soon as it is allowed
more than `n` iterations, it returns that candidate, mapped to the
continuation in an otherwise unchanged registry, and it has drawn exactly
`n + 1` candidates (the source is left at `pos + n + 1`), while after `n`
iterations or fewer the loop is still running.  If every candidate the source
yields is a key, the loop is still running after any number of iterations. -/
theorem register_terminates (src : Nat → Nat) (cb : Callback) (r : callback.registry)
    (pos : Nat) :
    ((∃ i, r.registry (rand.Int31 src (pos + i)) = none) →
      ∃ n, r.registry (rand.Int31 src (pos + n)) = none ∧
        (∀ i, i < n → r.registry (rand.Int31 src (pos + i)) ≠ none) ∧
        (∀ fuel, n < fuel →
          registry.register src cb fuel r pos
            = some (rand.Int31 src (pos + n),
                { registry := fun k => if k = rand.Int31 src (pos + n) then some cb
                                       else r.registry k },
                pos + n + 1)) ∧
        (∀ fuel, fuel ≤ n → registry.register src cb fuel r pos = none)) ∧
    ((∀ i, r.registry (rand.Int31 src (pos + i)) ≠ none) →
      ∀ fuel, registry.register src cb fuel r pos = none) := by
  classical
  refine ⟨?_, ?_⟩
  · intro hex
    refine ⟨Nat.find hex, Nat.find_spec hex, ?_, ?_, ?_⟩
    · intro i hi
      exact Nat.find_min hex hi
    · intro fuel hfuel
      exact register_first_free src cb r _ pos fuel (Nat.find_spec hex)
        (fun i hi => Nat.find_min hex hi) hfuel
    · intro fuel hfuel
      exact register_still_running src cb r fuel pos
        (fun i hi => Nat.find_min hex (by omega))
  · intro hall fuel
    exact register_still_running src cb r fuel pos (fun i _ => hall i)

/-! ## The range of handles -/

theorem Int31_range (src : Nat → Nat) (pos : Nat) :
    0 ≤ rand.Int31 src pos ∧ rand.Int31 src pos ≤ 2147483647 := by
  simp only [rand.Int31]
  omega

theorem register_in_range (src : Nat → Nat) (cb : Callback) :
    ∀ (fuel : Nat) (r : callback.registry) (pos : Nat) (h : Handle) (r' : callback.registry)
      (pos' : Nat),
      registry.register src cb fuel r pos = some (h, r', pos') →
      0 ≤ h ∧ h ≤ 2147483647 := by
  intro fuel
  induction fuel with
  | zero => intro r pos h r' pos' hreg; simp [registry.register] at hreg
  | succ n ih =>
    intro r pos h r' pos' hreg
    simp only [registry.register] at hreg
    split at hreg
    · simp only [Option.some.injEq, Prod.mk.injEq] at hreg
      obtain ⟨rfl, -, -⟩ := hreg
      exact Int31_range src pos
    · exact ih _ _ _ _ _ hreg

theorem toInt32_of_range (h : Int) (h0 : -2147483648 ≤ h) (h1 : h ≤ 2147483647) :
    indy.toInt32 h = h := by
  simp only [indy.toInt32]
  omega

/-- C26 (handle range and lossless native round trip).  Every handle `h`
returned by `Register` satisfies `0 ≤ h ≤ 2^31 - 1`; its conversion to the
native signed 32-bit handle is `h` itself; the command handle of the native
call an adapter then issues is `h` (shown for `indy.IssuerCreateSchema`); and
an entry point that receives that 32-bit value back finds, under
`types.Handle` of it, the continuation that was registered. -/
theorem handle_round_trip (env : Env) (cb : Callback) (w : World) (h : Handle) (w' : World)
    (hret : Register env cb w = some (h, w')) :
    (0 ≤ h ∧ h ≤ 2147483647) ∧
    indy.toInt32 h = h ∧
    (∀ k : Int, -2147483648 ≤ k → k ≤ 2147483647 → k ≠ h → indy.toInt32 k ≠ indy.toInt32 h) ∧
    (∀ issuerDID name version attrs,
      ∃ err w1, indy.IssuerCreateSchema env issuerDID name version attrs cb w = some (err, w1) ∧
        w1.calls = w.calls ++
          [{ fn := "indy_issuer_create_schema", command_handle := h,
             args := [.str (some issuerDID), .str (some name), .str (some version),
               .str (some attrs)],
             cb := .String2 }]) ∧
    (Remove (indy.toInt32 h) w').1 = (some cb, true) ∧
    (∀ c, indy.def_callback (indy.toInt32 h) c w'
      = call (some cb) (indyerror.New c) .nil (Remove h w').2) := by
  simp only [Register] at hret
  cases hreg : registry.register env.rand cb env.fuel w.cbRegistry w.randPos with
  | none => simp [hreg] at hret
  | some res =>
    obtain ⟨h', r', pos'⟩ := res
    simp only [hreg, Option.some.injEq, Prod.mk.injEq] at hret
    obtain ⟨rfl, rfl⟩ := hret
    obtain ⟨hfr, rfl⟩ := register_spec _ _ _ _ _ _ _ _ hreg
    have hrange := register_in_range _ _ _ _ _ _ _ _ hreg
    have hconv := toInt32_of_range h' (le_trans (by decide : (-2147483648 : Int) ≤ 0) hrange.1) hrange.2
    refine ⟨hrange, hconv, ?_, ?_, ?_, ?_⟩
    · intro k hk0 hk1 hne
      rw [toInt32_of_range k hk0 hk1, hconv]
      exact hne
    · intro issuerDID name version attrs
      simp only [indy.IssuerCreateSchema, Register, hreg, indy.native, indy.newChar, hconv]
      exact ⟨_, _, rfl, rfl⟩
    · rw [hconv]
      simp [Remove, registry.remove]
    · intro c
      rw [hconv]
      simp [indy.def_callback, Remove, registry.remove]

theorem handle_round_trip_witness :
    Register rejectingEnv (callback.New 0) exampleWorld
      = some (8, { exampleWorld with
          cbRegistry := { registry := fun k => if k = 8 then some (callback.New 0)
                                             else exampleWorld.cbRegistry.registry k },
          randPos := 3 }) ∧
    ((0 : Int) ≤ 8 ∧ (8 : Int) ≤ 2147483647) ∧ indy.toInt32 8 = 8 :=
  ⟨rfl,
   (handle_round_trip rejectingEnv (callback.New 0) exampleWorld 8 _ rfl).1,
   (handle_round_trip rejectingEnv (callback.New 0) exampleWorld 8 _ rfl).2.1⟩

/-! ## Codes and descriptions -/

/-- C30 (code of a success value): `indyerror.New 0` is the nil error and
`indyerror.Code` of it is `Undefined`, which is -1 and not `Success`.
`Code err = 0` holds exactly when `err` is an `*indyError` carrying code 0, and
no error that the binding makes is one: not the nil error, not a plain error
(`fmt.Errorf`, the error of an entry point that finds no continuation), and
not `indyerror.New c` for any status `c`, the only place where an `*indyError`
is built. -/
theorem code_of_success_undefined :
    indyerror.New 0 = none ∧
    indyerror.Code (indyerror.New 0) = indyerror.Undefined ∧
    indyerror.Undefined = -1 ∧
    indyerror.Code (indyerror.New 0) ≠ indyerror.Success ∧
    (∀ err : Option GoError,
      indyerror.Code err = 0 ↔ ∃ e : indyerror.indyError, err = some (.indy e) ∧ e.code = 0) ∧
    (∀ c : Int, indyerror.Code (indyerror.New c) ≠ 0) ∧
    indyerror.Code none ≠ 0 ∧
    (∀ format : String, indyerror.Code (some (fmt.Errorf format)) ≠ 0) ∧
    (∀ handle : Int, indyerror.Code (some (indy.unableToFind handle)) ≠ 0) := by
  refine ⟨new_zero, ?_, rfl, ?_, ?_, ?_, ?_, ?_, ?_⟩
  · rw [new_zero]; rfl
  · rw [new_zero]; decide
  · intro err
    cases err with
    | none => simp [indyerror.Code, indyerror.Undefined]
    | some e =>
      cases e with
      | indy e => simp [indyerror.Code, indyerror.indyError.Code]
      | plain msg => simp [indyerror.Code, indyerror.Undefined]
  · intro c
    by_cases hc : c = 0
    · subst hc; rw [new_zero]; decide
    · rw [code_new c hc]; exact hc
  · decide
  · intro format
    simp [indyerror.Code, fmt.Errorf, indyerror.Undefined]
  · intro handle
    simp [indyerror.Code, indy.unableToFind, indyerror.Undefined]

/-- C25 (known status codes keep their description verbatim): for every
non-zero code `c` with table entry `(c, msg)`, the table is looked up at `c`
with result `msg`, and `indyerror.New c` is the error with code `c` whose text
(`Error()`) is `msg` character for character.  (No string of the table holds
a `%`, so `fmt.Errorf` with the string as format copies it.) -/
theorem known_code_verbatim (c : Int) (msg : String) (hc : c ≠ 0)
    (hkey : (c, msg) ∈ indyerror.errorStringMap) :
    indyerror.errorStringMap.lookup c = some msg ∧
    indyerror.New c = some (.indy { error := msg, code := c }) ∧
    (indyerror.New c).map GoError.Error = some msg ∧
    fmt.Sprintf msg = msg ∧ '%' ∉ msg.toList := by
  simp only [indyerror.errorStringMap, List.mem_cons, Prod.mk.injEq, List.mem_singleton,
    List.not_mem_nil, or_false] at hkey
  rcases hkey with ⟨rfl, rfl⟩ | ⟨rfl, rfl⟩ | ⟨rfl, rfl⟩ | ⟨rfl, rfl⟩ | ⟨rfl, rfl⟩ | ⟨rfl, rfl⟩ |
    ⟨rfl, rfl⟩ | ⟨rfl, rfl⟩ | ⟨rfl, rfl⟩ | ⟨rfl, rfl⟩ | ⟨rfl, rfl⟩ | ⟨rfl, rfl⟩ | ⟨rfl, rfl⟩ |
    ⟨rfl, rfl⟩ | ⟨rfl, rfl⟩ | ⟨rfl, rfl⟩ | ⟨rfl, rfl⟩ | ⟨rfl, rfl⟩ | ⟨rfl, rfl⟩ | ⟨rfl, rfl⟩ |
    ⟨rfl, rfl⟩ | ⟨rfl, rfl⟩ | ⟨rfl, rfl⟩ | ⟨rfl, rfl⟩ | ⟨rfl, rfl⟩ | ⟨rfl, rfl⟩ | ⟨rfl, rfl⟩ |
    ⟨rfl, rfl⟩ | ⟨rfl, rfl⟩ | ⟨rfl, rfl⟩ | ⟨rfl, rfl⟩ | ⟨rfl, rfl⟩ | ⟨rfl, rfl⟩ | ⟨rfl, rfl⟩ |
    ⟨rfl, rfl⟩ | ⟨rfl, rfl⟩ | ⟨rfl, rfl⟩ | ⟨rfl, rfl⟩ | ⟨rfl, rfl⟩ | ⟨rfl, rfl⟩
  all_goals first
    | exact absurd rfl hc
    | exact ⟨by decide, by decide, by decide, by decide, by decide⟩

theorem known_code_verbatim_witness :
    ((600 : Int) ≠ 0 ∧
      ((600 : Int), "Attempt to create duplicate did") ∈ indyerror.errorStringMap) ∧
    (indyerror.New 600).map GoError.Error = some "Attempt to create duplicate did" ∧
    (indyerror.New 203).map GoError.Error
      = some "Attempt to create wallet with name used for another exists wallet" :=
  ⟨⟨by decide, by decide⟩,
   (known_code_verbatim 600 "Attempt to create duplicate did" (by decide) (by decide)).2.2.1,
   (known_code_verbatim 203 "Attempt to create wallet with name used for another exists wallet"
      (by decide) (by decide)).2.2.1⟩

/-! ## The frame of the de-multiplexer -/

theorem exec_cbRegistry (a : Delivery) (w : World) : (exec a w).cbRegistry = w.cbRegistry := by
  cases a with
  | send ch v =>
    simp only [exec, send]
    split <;> rfl
  | panic msg => rfl

/-- C24, as stated, fails: handle 7 is pending with `probe`, which sends on
channel 0 whatever it is called with, and the bytes entry is invoked for that
handle with status 0, a buffer of two bytes and the length -1.  `C.GoBytes`
faults on the negative length after the handle has been removed and before the
continuation is called: handle 7 is gone from the registry, nothing has been
sent on channel 0, and the process is down.  The same happens in the
string-and-bytes entry invoked with a NULL buffer of length 1.  With the
length 2 the continuation is called, and its send is in channel 0. -/
theorem byte_fault_skips_continuation :
    (probeWorld.cbRegistry.registry 7).isSome = true ∧
    ((indy.bytes_callback 7 0 (some [1, 2]) (-1) probeWorld).cbRegistry.registry 7).isSome
      = false ∧
    (indy.bytes_callback 7 0 (some [1, 2]) (-1) probeWorld).chans 0
      = { cap := 1, buf := [], sendq := [] } ∧
    (indy.bytes_callback 7 0 (some [1, 2]) (-1) probeWorld).fault = some "fault in C.GoBytes" ∧
    ((indy.string_bytes_callback 7 0 (some "a") none 1 probeWorld).cbRegistry.registry
        7).isSome = false ∧
    (indy.string_bytes_callback 7 0 (some "a") none 1 probeWorld).chans 0
      = { cap := 1, buf := [], sendq := [] } ∧
    (indy.string_bytes_callback 7 0 (some "a") none 1 probeWorld).fault
      = some "fault in C.GoBytes" ∧
    (indy.bytes_callback 7 0 (some [1, 2]) 2 probeWorld).chans 0
      = { cap := 1, buf := [.error none], sendq := [] } ∧
    (indy.bytes_callback 7 0 (some [1, 2]) 2 probeWorld).fault = none := by
  decide

/-- C24, amended (de-multiplexer frame).  Let handle `h` be pending with
continuation `cb`.  Whatever the status `c` and the payload, each of the six
entry points without a byte buffer does exactly this: it removes `h`, and on
the state so obtained it carries out one call of `cb`, with the error
`indyerror.New c` and the decoded payload; the two entry points with a byte
buffer do the same when `C.GoBytes` can copy the buffer.  One such call leaves
the registry alone, so afterwards `h` is absent and every other handle is
mapped as before, and every entry point leaves the registry that way, whatever
`C.GoBytes` does. -/
theorem demultiplexer_frame (w : World) (h : Handle) (cb : Callback)
    (hreg : w.cbRegistry.registry h = some cb) :
    ((∀ c, indy.def_callback h c w = exec (cb (indyerror.New c) .nil) (Remove h w).2) ∧
     (∀ c p, indy.handle_callback h c p w
        = exec (cb (indyerror.New c) (.handle p)) (Remove h w).2) ∧
     (∀ c s, indy.string_callback h c s w
        = exec (cb (indyerror.New c) (.string (indy.GoString s))) (Remove h w).2) ∧
     (∀ c s1 s2, indy.string2_callback h c s1 s2 w
        = exec (cb (indyerror.New c) (.strings [indy.GoString s1, indy.GoString s2]))
            (Remove h w).2) ∧
     (∀ c s1 s2 s3, indy.string3_callback h c s1 s2 s3 w
        = exec (cb (indyerror.New c)
              (.strings [indy.GoString s1, indy.GoString s2, indy.GoString s3]))
            (Remove h w).2) ∧
     (∀ c b n bs, indy.GoBytes b n = some bs →
        indy.bytes_callback h c b n w = exec (cb (indyerror.New c) (.bytes bs)) (Remove h w).2) ∧
     (∀ c s b n bs, indy.GoBytes b n = some bs →
        indy.string_bytes_callback h c s b n w
          = exec (cb (indyerror.New c) (.ifaces [.string (indy.GoString s), .bytes bs]))
              (Remove h w).2) ∧
     (∀ c b, indy.bool_callback h c b w
        = exec (cb (indyerror.New c) (.bool (b == 1))) (Remove h w).2)) ∧
    ((Remove h w).2.cbRegistry.registry h = none ∧
     (∀ k, k ≠ h → (Remove h w).2.cbRegistry.registry k = w.cbRegistry.registry k) ∧
     (∀ a, (exec a (Remove h w).2).cbRegistry = (Remove h w).2.cbRegistry)) ∧
    (∀ x : World,
      ((∃ c, x = indy.def_callback h c w) ∨ (∃ c p, x = indy.handle_callback h c p w) ∨
       (∃ c s, x = indy.string_callback h c s w) ∨
       (∃ c s1 s2, x = indy.string2_callback h c s1 s2 w) ∨
       (∃ c s1 s2 s3, x = indy.string3_callback h c s1 s2 s3 w) ∨
       (∃ c b n, x = indy.bytes_callback h c b n w) ∨
       (∃ c s b n, x = indy.string_bytes_callback h c s b n w) ∨
       (∃ c b, x = indy.bool_callback h c b w)) →
      x.cbRegistry.registry h = none ∧
      ∀ k, k ≠ h → x.cbRegistry.registry k = w.cbRegistry.registry k) := by
  have hrem := remove_present w h cb hreg
  have hframe : (Remove h w).2.cbRegistry.registry h = none ∧
      (∀ k, k ≠ h → (Remove h w).2.cbRegistry.registry k = w.cbRegistry.registry k) := by
    rw [hrem]
    refine ⟨by simp, ?_⟩
    intro k hk
    simp [hk]
  have hentries :
      (∀ c, indy.def_callback h c w = exec (cb (indyerror.New c) .nil) (Remove h w).2) ∧
      (∀ c p, indy.handle_callback h c p w
        = exec (cb (indyerror.New c) (.handle p)) (Remove h w).2) ∧
      (∀ c s, indy.string_callback h c s w
        = exec (cb (indyerror.New c) (.string (indy.GoString s))) (Remove h w).2) ∧
      (∀ c s1 s2, indy.string2_callback h c s1 s2 w
        = exec (cb (indyerror.New c) (.strings [indy.GoString s1, indy.GoString s2]))
            (Remove h w).2) ∧
      (∀ c s1 s2 s3, indy.string3_callback h c s1 s2 s3 w
        = exec (cb (indyerror.New c)
              (.strings [indy.GoString s1, indy.GoString s2, indy.GoString s3]))
            (Remove h w).2) ∧
      (∀ c b n bs, indy.GoBytes b n = some bs →
        indy.bytes_callback h c b n w = exec (cb (indyerror.New c) (.bytes bs)) (Remove h w).2) ∧
      (∀ c s b n bs, indy.GoBytes b n = some bs →
        indy.string_bytes_callback h c s b n w
          = exec (cb (indyerror.New c) (.ifaces [.string (indy.GoString s), .bytes bs]))
              (Remove h w).2) ∧
      (∀ c b, indy.bool_callback h c b w
        = exec (cb (indyerror.New c) (.bool (b == 1))) (Remove h w).2) := by
    simp +contextual [indy.def_callback, indy.handle_callback, indy.string_callback,
      indy.string2_callback, indy.string3_callback, indy.bytes_callback,
      indy.string_bytes_callback, indy.bool_callback, hrem, call]
  obtain ⟨h1, h2, h3, h4, h5, h6, h7, h8⟩ := hentries
  have hexec : ∀ a, (exec a (Remove h w).2).cbRegistry = (Remove h w).2.cbRegistry :=
    fun a => exec_cbRegistry a _
  have hpanic : ∀ msg, ((Remove h w).2.panic msg).cbRegistry = (Remove h w).2.cbRegistry :=
    fun _ => rfl
  refine ⟨⟨h1, h2, h3, h4, h5, h6, h7, h8⟩, ⟨hframe.1, hframe.2, hexec⟩, ?_⟩
  intro x hx
  have key : x.cbRegistry = (Remove h w).2.cbRegistry := by
    rcases hx with ⟨c, rfl⟩ | ⟨c, p, rfl⟩ | ⟨c, s, rfl⟩ | ⟨c, s1, s2, rfl⟩ |
      ⟨c, s1, s2, s3, rfl⟩ | ⟨c, b, n, rfl⟩ | ⟨c, s, b, n, rfl⟩ | ⟨c, b, rfl⟩
    · rw [h1]; exact hexec _
    · rw [h2]; exact hexec _
    · rw [h3]; exact hexec _
    · rw [h4]; exact hexec _
    · rw [h5]; exact hexec _
    · cases hb : indy.GoBytes b n with
      | some bs => rw [h6 c b n bs hb]; exact hexec _
      | none =>
        have : indy.bytes_callback h c b n w = (Remove h w).2.panic "fault in C.GoBytes" := by
          simp [indy.bytes_callback, hrem, hb]
        rw [this]; exact hpanic _
    · cases hb : indy.GoBytes b n with
      | some bs => rw [h7 c s b n bs hb]; exact hexec _
      | none =>
        have : indy.string_bytes_callback h c s b n w
            = (Remove h w).2.panic "fault in C.GoBytes" := by
          simp [indy.string_bytes_callback, hrem, hb]
        rw [this]; exact hpanic _
    · rw [h8]; exact hexec _
  rw [key]
  exact hframe

theorem demultiplexer_frame_witness :
    probeWorld.cbRegistry.registry 7 = some probe ∧
    indy.string_callback 7 100 (some "a") probeWorld
      = exec (probe (indyerror.New 100) (.string (indy.GoString (some "a"))))
          (Remove 7 probeWorld).2 ∧
    (Remove 7 probeWorld).2.cbRegistry.registry 7 = none :=
  ⟨rfl, (demultiplexer_frame probeWorld 7 probe rfl).1.2.2.1 100 (some "a"),
   (demultiplexer_frame probeWorld 7 probe rfl).2.1.1⟩

/-! ## The order of validation -/

/-- C28 (validation order in `IssuerCreateSchema`): the local validation error
names the first empty argument in the order issuerDID, name, version, attrs.
In each case `issuerCreateSchema` returns its two channels with that error as
the one value on the error channel, and the facade returns it together with
two empty strings. -/
theorem validation_order (env : Env) (w : World) (issuerDID name version attrs : String)
    (hquiet : w.completions = [] ∧ w.fault = none) :
    (issuerDID = "" →
      (∃ w1, anoncreds.issuerCreateSchema env issuerDID name version attrs w
          = some ((w.nextChan, w.nextChan + 1), w1) ∧
        w1.chans (w.nextChan + 1)
          = { cap := 1, buf := [.error (some (.plain "issuer DID must be specified"))],
              sendq := [] }) ∧
      (anoncreds.IssuerCreateSchema env issuerDID name version attrs w).1
        = .returned ("", "", some (.plain "issuer DID must be specified"))) ∧
    (issuerDID ≠ "" → name = "" →
      (∃ w1, anoncreds.issuerCreateSchema env issuerDID name version attrs w
          = some ((w.nextChan, w.nextChan + 1), w1) ∧
        w1.chans (w.nextChan + 1)
          = { cap := 1, buf := [.error (some (.plain "name must be specified"))],
              sendq := [] }) ∧
      (anoncreds.IssuerCreateSchema env issuerDID name version attrs w).1
        = .returned ("", "", some (.plain "name must be specified"))) ∧
    (issuerDID ≠ "" → name ≠ "" → version = "" →
      (∃ w1, anoncreds.issuerCreateSchema env issuerDID name version attrs w
          = some ((w.nextChan, w.nextChan + 1), w1) ∧
        w1.chans (w.nextChan + 1)
          = { cap := 1, buf := [.error (some (.plain "version must be specified"))],
              sendq := [] }) ∧
      (anoncreds.IssuerCreateSchema env issuerDID name version attrs w).1
        = .returned ("", "", some (.plain "version must be specified"))) ∧
    (issuerDID ≠ "" → name ≠ "" → version ≠ "" → attrs = "" →
      (∃ w1, anoncreds.issuerCreateSchema env issuerDID name version attrs w
          = some ((w.nextChan, w.nextChan + 1), w1) ∧
        w1.chans (w.nextChan + 1)
          = { cap := 1, buf := [.error (some (.plain "attrs must be specified"))],
              sendq := [] }) ∧
      (anoncreds.IssuerCreateSchema env issuerDID name version attrs w).1
        = .returned ("", "", some (.plain "attrs must be specified"))) := by
  obtain ⟨hq1, hq2⟩ := hquiet
  have e1 : fmt.Errorf "issuer DID must be specified" = .plain "issuer DID must be specified" :=
    rfl
  have e2 : fmt.Errorf "name must be specified" = .plain "name must be specified" := rfl
  have e3 : fmt.Errorf "version must be specified" = .plain "version must be specified" := rfl
  have e4 : fmt.Errorf "attrs must be specified" = .plain "attrs must be specified" := rfl
  refine ⟨?_, ?_, ?_, ?_⟩
  · intro h1
    refine ⟨?_, ?_⟩
    · simp [anoncreds.issuerCreateSchema, make, h1, sendNow, World.setChan, e1]
    · simp [anoncreds.IssuerCreateSchema, anoncreds.issuerCreateSchema, make, h1, hq1, hq2,
        indy.nativeThreads, sendNow, World.setChan, select2, recv, e1]
  · intro h1 h2
    refine ⟨?_, ?_⟩
    · simp [anoncreds.issuerCreateSchema, make, h1, h2, sendNow, World.setChan, e2]
    · simp [anoncreds.IssuerCreateSchema, anoncreds.issuerCreateSchema, make, h1, h2, hq1, hq2,
        indy.nativeThreads, sendNow, World.setChan, select2, recv, e2]
  · intro h1 h2 h3
    refine ⟨?_, ?_⟩
    · simp [anoncreds.issuerCreateSchema, make, h1, h2, h3, sendNow, World.setChan, e3]
    · simp [anoncreds.IssuerCreateSchema, anoncreds.issuerCreateSchema, make, h1, h2, h3, hq1,
        hq2, indy.nativeThreads, sendNow, World.setChan, select2, recv, e3]
  · intro h1 h2 h3 h4
    refine ⟨?_, ?_⟩
    · simp [anoncreds.issuerCreateSchema, make, h1, h2, h3, h4, sendNow, World.setChan, e4]
    · simp [anoncreds.IssuerCreateSchema, anoncreds.issuerCreateSchema, make, h1, h2, h3, h4,
        hq1, hq2, indy.nativeThreads, sendNow, World.setChan, select2, recv, e4]

theorem validation_order_witness :
    (emptyWorld.completions = [] ∧ emptyWorld.fault = none) ∧
    (anoncreds.IssuerCreateSchema rejectingEnv "" "" "1.0" "" emptyWorld).1
      = .returned ("", "", some (.plain "issuer DID must be specified")) ∧
    (anoncreds.IssuerCreateSchema rejectingEnv "VsKV7grR1BUE29mG2Fm2kZ" "schema1" "" ""
        emptyWorld).1
      = .returned ("", "", some (.plain "version must be specified")) :=
  ⟨⟨rfl, rfl⟩,
   ((validation_order rejectingEnv emptyWorld "" "" "1.0" "" ⟨rfl, rfl⟩).1 rfl).2,
   ((validation_order rejectingEnv emptyWorld "VsKV7grR1BUE29mG2Fm2kZ" "schema1" "" ""
      ⟨rfl, rfl⟩).2.2.1 (by decide) (by decide) rfl).2⟩

/-! ## Boolean results -/

/-- C29 (boolean decode).  With the handle pending, the bool entry invoked
with status 0 and the unsigned value `b` calls the continuation with a nil
error and the boolean `b == 1`, which is true exactly when `b = 1` (so false
for 0 and for every other value).  When the native verification call is
accepted and completed that way, `anoncreds.VerifierVerifyProof` returns that
boolean as `valid`, with a nil error. -/
theorem bool_decode (env : Env) (w : World) (b : Nat)
    (proofRequest proof schemas credentialDefs revocRegDefs revocRegs : String)
    (hargs : proofRequest ≠ "" ∧ proof ≠ "" ∧ schemas ≠ "" ∧ credentialDefs ≠ "" ∧
      revocRegDefs ≠ "" ∧ revocRegs ≠ "")
    (hquiet : w.completions = [] ∧ w.fault = none)
    (hfree : ∃ i, i < env.fuel ∧
      w.cbRegistry.registry (rand.Int31 env.rand (w.randPos + i)) = none)
    (hnative : ∀ calls call, env.native calls call
      = (0, [.bool_callback call.command_handle 0 b])) :
    (((b == 1) = true ↔ b = 1) ∧ (b ≠ 1 → (b == 1) = false)) ∧
    (∀ (w0 : World) (h : Handle) (cb : Callback), w0.cbRegistry.registry h = some cb →
      indy.bool_callback h 0 b w0 = exec (cb none (.bool (b == 1))) (Remove h w0).2) ∧
    (anoncreds.VerifierVerifyProof env proofRequest proof schemas credentialDefs revocRegDefs
        revocRegs w).1 = .returned (b == 1, none) := by
  obtain ⟨h1, h2, h3, h4, h5, h6⟩ := hargs
  obtain ⟨hq1, hq2⟩ := hquiet
  refine ⟨⟨by simp, by simp⟩, ?_, ?_⟩
  · intro w0 h cb hreg
    simp [indy.bool_callback, remove_present w0 h cb hreg, new_zero, call]
  · obtain ⟨h, r', pos', hreg⟩ := register_of_free env.rand
      (anoncreds.verifierVerifyProofCb w.nextChan (w.nextChan + 1)) env.fuel w.cbRegistry
      w.randPos hfree
    obtain ⟨hfr, rfl⟩ := register_spec _ _ _ _ _ _ _ _ hreg
    have hrange := register_handle_range _ _ _ _ _ _ _ _ hreg
    simp [anoncreds.VerifierVerifyProof, anoncreds.verifierVerifyProof, make, h1, h2, h3, h4,
      h5, h6, indy.VerifierVerifyProof, Register, hreg, indy.native, hnative, hrange, hq1, hq2,
      indy.nativeThreads, indy.invoke, indy.bool_callback, Remove, registry.remove, call, exec,
      anoncreds.verifierVerifyProofCb, new_zero, send, World.setChan, select2, recv]

theorem bool_decode_witness :
    (emptyWorld.completions = [] ∧ emptyWorld.fault = none) ∧
    (anoncreds.VerifierVerifyProof (verifyingEnv 1) "\x7b\"nonce\":\"1\"\x7d" "\x7b\x7d"
        "\x7b\x7d" "\x7b\x7d" "\x7b\x7d" "\x7b\x7d" emptyWorld).1 = .returned (true, none) ∧
    (anoncreds.VerifierVerifyProof (verifyingEnv 2) "\x7b\"nonce\":\"1\"\x7d" "\x7b\x7d"
        "\x7b\x7d" "\x7b\x7d" "\x7b\x7d" "\x7b\x7d" emptyWorld).1 = .returned (false, none) :=
  ⟨⟨rfl, rfl⟩,
   (bool_decode (verifyingEnv 1) emptyWorld 1 "\x7b\"nonce\":\"1\"\x7d" "\x7b\x7d" "\x7b\x7d"
      "\x7b\x7d" "\x7b\x7d" "\x7b\x7d"
      ⟨by decide, by decide, by decide, by decide, by decide, by decide⟩ ⟨rfl, rfl⟩
      ⟨0, by decide, rfl⟩ (fun _ _ => rfl)).2.2,
   (bool_decode (verifyingEnv 2) emptyWorld 2 "\x7b\"nonce\":\"1\"\x7d" "\x7b\x7d" "\x7b\x7d"
      "\x7b\x7d" "\x7b\x7d" "\x7b\x7d"
      ⟨by decide, by decide, by decide, by decide, by decide, by decide⟩ ⟨rfl, rfl⟩
      ⟨0, by decide, rfl⟩ (fun _ _ => rfl)).2.2⟩

/-! ## Optional arguments -/

/-- C21, evaluated on the code: with the pool name "pool1" and an empty
config, `pool.Create` returns the local error "config path must be specified"
and no native call has been issued, although the comment of `Create` says of
the config "if NULL, then default config will be used" and the library would
have accepted the call (with the config given it is issued and `Create`
returns nil).  The adapters of `pool.Open`, `wallet.Create` and `wallet.Open`,
called with their config empty, issue the native call with NULL for it. -/
theorem empty_config_rejected_locally :
    (pool.Create acceptingEnv "pool1" "" emptyWorld).1
      = .returned (some (.plain "config path must be specified")) ∧
    (pool.Create acceptingEnv "pool1" "" emptyWorld).2.calls = [] ∧
    (pool.Create acceptingEnv "pool1" "\x7b\"genesis_txn\": \"genesis\"\x7d" emptyWorld).1
      = .returned none ∧
    (pool.Create acceptingEnv "pool1" "\x7b\"genesis_txn\": \"genesis\"\x7d"
        emptyWorld).2.calls
      = [{ fn := "indy_create_pool_ledger_config", command_handle := 7,
           args := [.str (some "pool1"), .str (some "\x7b\"genesis_txn\": \"genesis\"\x7d")],
           cb := .Default }] ∧
    ((indy.OpenPoolLedger acceptingEnv "pool1" "" (callback.New 0) emptyWorld).map
        (fun r => r.2.calls))
      = some [{ fn := "indy_open_pool_ledger", command_handle := 7,
                args := [.str (some "pool1"), .str none], cb := .SingleHandle }] ∧
    ((indy.CreateWallet acceptingEnv "pool1" "wallet1" "" "" "" (callback.New 0)
        emptyWorld).map (fun r => r.2.calls))
      = some [{ fn := "indy_create_wallet", command_handle := 7,
                args := [.str (some "pool1"), .str (some "wallet1"), .str none, .str none,
                  .str none],
                cb := .Default }] ∧
    ((indy.OpenWallet acceptingEnv "wallet1" "" "" (callback.New 0) emptyWorld).map
        (fun r => r.2.calls))
      = some [{ fn := "indy_open_wallet", command_handle := 7,
                args := [.str (some "wallet1"), .str none, .str none],
                cb := .SingleHandle }] := by
  decide

/-- C22, evaluated on the code: `anoncreds.IssuerCreateAndStoreCredentialDef`
called with an empty signature type (and the other arguments given) raises no
local error, and the native call it issues carries the signature type as a
pointer to an empty C string, not as NULL; the adapters of
`IssuerCreateCredential`, `ProverCreateMasterSecret` and
`ProverStoreCredential`, called with their optional arguments empty, pass
NULL for them. -/
theorem empty_signature_type_not_null :
    ((anoncreds.issuerCreateAndStoreCredentialDef acceptingEnv exampleWallet
        "VsKV7grR1BUE29mG2Fm2kZ" "\x7b\"id\":\"1\"\x7d" "TAG1" ""
        "\x7b\"support_revocation\": false\x7d" emptyWorld).map (fun r => r.2.calls))
      = some [{ fn := "indy_issuer_create_and_store_credential_def", command_handle := 7,
                args := [.handle 3, .str (some "VsKV7grR1BUE29mG2Fm2kZ"),
                  .str (some "\x7b\"id\":\"1\"\x7d"), .str (some "TAG1"), .str (some ""),
                  .str (some "\x7b\"support_revocation\": false\x7d")],
                cb := .String2 }] ∧
    ((indy.IssuerCreateCredential acceptingEnv 3 "offer" "request" "values" "" 0
        (callback.New 0) emptyWorld).map (fun r => r.2.calls))
      = some [{ fn := "indy_issuer_create_credential", command_handle := 7,
                args := [.handle 3, .str (some "offer"), .str (some "request"),
                  .str (some "values"), .str none, .i32 0],
                cb := .String3 }] ∧
    ((indy.ProverCreateMasterSecret acceptingEnv 3 "" (callback.New 0) emptyWorld).map
        (fun r => r.2.calls))
      = some [{ fn := "indy_prover_create_master_secret", command_handle := 7,
                args := [.handle 3, .str none], cb := .String }] ∧
    ((indy.ProverStoreCredential acceptingEnv 3 "" "metadata" "credential" "definition" ""
        (callback.New 0) emptyWorld).map (fun r => r.2.calls))
      = some [{ fn := "indy_prover_store_credential", command_handle := 7,
                args := [.handle 3, .str none, .str (some "metadata"),
                  .str (some "credential"), .str (some "definition"), .str none],
                cb := .String }] := by
  decide

/-! ## Result shapes -/

theorem entries_exec (w : World) (h : Handle) (cb : Callback)
    (hreg : w.cbRegistry.registry h = some cb) (c : Int) :
    indy.def_callback h c w = exec (cb (indyerror.New c) .nil) (Remove h w).2 ∧
    (∀ p, indy.handle_callback h c p w
      = exec (cb (indyerror.New c) (.handle p)) (Remove h w).2) ∧
    (∀ s, indy.string_callback h c s w
      = exec (cb (indyerror.New c) (.string (indy.GoString s))) (Remove h w).2) ∧
    (∀ s1 s2, indy.string2_callback h c s1 s2 w
      = exec (cb (indyerror.New c) (.strings [indy.GoString s1, indy.GoString s2]))
          (Remove h w).2) ∧
    (∀ s1 s2 s3, indy.string3_callback h c s1 s2 s3 w
      = exec (cb (indyerror.New c)
            (.strings [indy.GoString s1, indy.GoString s2, indy.GoString s3]))
          (Remove h w).2) ∧
    (∀ b n bs, indy.GoBytes b n = some bs →
      indy.bytes_callback h c b n w = exec (cb (indyerror.New c) (.bytes bs)) (Remove h w).2) ∧
    (∀ s b n bs, indy.GoBytes b n = some bs →
      indy.string_bytes_callback h c s b n w
        = exec (cb (indyerror.New c) (.ifaces [.string (indy.GoString s), .bytes bs]))
            (Remove h w).2) ∧
    (∀ b, indy.bool_callback h c b w
      = exec (cb (indyerror.New c) (.bool (b == 1))) (Remove h w).2) := by
  simp +contextual [indy.def_callback, indy.handle_callback, indy.string_callback,
    indy.string2_callback, indy.string3_callback, indy.bytes_callback,
    indy.string_bytes_callback, indy.bool_callback, remove_present w h cb hreg, call]

theorem default_sends (w : World) (h : Handle) (cb : Callback)
    (hreg : w.cbRegistry.registry h = some cb)
    (hcb : ∃ ch v, cb none .nil = .send ch v) :
    ∃ ch v, indy.def_callback h 0 w = send ch v (Remove h w).2 := by
  obtain ⟨ch, v, hs⟩ := hcb
  refine ⟨ch, v, ?_⟩
  rw [(entries_exec w h cb hreg 0).1, new_zero, hs]
  rfl

theorem handle_sends (w : World) (h : Handle) (cb : Callback)
    (hreg : w.cbRegistry.registry h = some cb)
    (hcb : ∀ p, ∃ ch v, cb none (.handle p) = .send ch v) :
    ∀ p, ∃ ch v, indy.handle_callback h 0 p w = send ch v (Remove h w).2 := by
  intro p
  obtain ⟨ch, v, hs⟩ := hcb p
  refine ⟨ch, v, ?_⟩
  rw [(entries_exec w h cb hreg 0).2.1, new_zero, hs]
  rfl

theorem string_sends (w : World) (h : Handle) (cb : Callback)
    (hreg : w.cbRegistry.registry h = some cb)
    (hcb : ∀ s, ∃ ch v, cb none (.string s) = .send ch v) :
    ∀ s, ∃ ch v, indy.string_callback h 0 s w = send ch v (Remove h w).2 := by
  intro s
  obtain ⟨ch, v, hs⟩ := hcb (indy.GoString s)
  refine ⟨ch, v, ?_⟩
  rw [(entries_exec w h cb hreg 0).2.2.1, new_zero, hs]
  rfl

theorem string2_sends (w : World) (h : Handle) (cb : Callback)
    (hreg : w.cbRegistry.registry h = some cb)
    (hcb : ∀ a b, ∃ ch v, cb none (.strings [a, b]) = .send ch v) :
    ∀ s1 s2, ∃ ch v, indy.string2_callback h 0 s1 s2 w = send ch v (Remove h w).2 := by
  intro s1 s2
  obtain ⟨ch, v, hs⟩ := hcb (indy.GoString s1) (indy.GoString s2)
  refine ⟨ch, v, ?_⟩
  rw [(entries_exec w h cb hreg 0).2.2.2.1, new_zero, hs]
  rfl

theorem string3_sends (w : World) (h : Handle) (cb : Callback)
    (hreg : w.cbRegistry.registry h = some cb)
    (hcb : ∀ a b c, ∃ ch v, cb none (.strings [a, b, c]) = .send ch v) :
    ∀ s1 s2 s3, ∃ ch v, indy.string3_callback h 0 s1 s2 s3 w = send ch v (Remove h w).2 := by
  intro s1 s2 s3
  obtain ⟨ch, v, hs⟩ := hcb (indy.GoString s1) (indy.GoString s2) (indy.GoString s3)
  refine ⟨ch, v, ?_⟩
  rw [(entries_exec w h cb hreg 0).2.2.2.2.1, new_zero, hs]
  rfl

theorem bytes_sends (w : World) (h : Handle) (cb : Callback)
    (hreg : w.cbRegistry.registry h = some cb)
    (hcb : ∀ bs, ∃ ch v, cb none (.bytes bs) = .send ch v) :
    ∀ b n, indy.GoBytes b n ≠ none →
      ∃ ch v, indy.bytes_callback h 0 b n w = send ch v (Remove h w).2 := by
  intro b n hb
  obtain ⟨bs, hbs⟩ := Option.ne_none_iff_exists'.mp hb
  obtain ⟨ch, v, hs⟩ := hcb bs
  refine ⟨ch, v, ?_⟩
  rw [(entries_exec w h cb hreg 0).2.2.2.2.2.1 b n bs hbs, new_zero, hs]
  rfl

theorem string_bytes_sends (w : World) (h : Handle) (cb : Callback)
    (hreg : w.cbRegistry.registry h = some cb)
    (hcb : ∀ a bs, ∃ ch v, cb none (.ifaces [.string a, .bytes bs]) = .send ch v) :
    ∀ s b n, indy.GoBytes b n ≠ none →
      ∃ ch v, indy.string_bytes_callback h 0 s b n w = send ch v (Remove h w).2 := by
  intro s b n hb
  obtain ⟨bs, hbs⟩ := Option.ne_none_iff_exists'.mp hb
  obtain ⟨ch, v, hs⟩ := hcb (indy.GoString s) bs
  refine ⟨ch, v, ?_⟩
  rw [(entries_exec w h cb hreg 0).2.2.2.2.2.2.1 s b n bs hbs, new_zero, hs]
  rfl

theorem bool_sends (w : World) (h : Handle) (cb : Callback)
    (hreg : w.cbRegistry.registry h = some cb)
    (hcb : ∀ v, ∃ ch x, cb none (.bool v) = .send ch x) :
    ∀ b, ∃ ch v, indy.bool_callback h 0 b w = send ch v (Remove h w).2 := by
  intro b
  obtain ⟨ch, v, hs⟩ := hcb (b == 1)
  refine ⟨ch, v, ?_⟩
  rw [(entries_exec w h cb hreg 0).2.2.2.2.2.2.2, new_zero, hs]
  rfl

theorem table_shapes (name : String) (asPools : String → List String × Option GoError)
    (op : Operation) (hop : op ∈ operations name asPools)
    (w : World) (h : Handle) (respChan errChan : ChanId)
    (hreg : w.cbRegistry.registry h = some (op.cb respChan errChan)) :
    match op.entry with
    | .Default => ∃ ch v, indy.def_callback h 0 w = send ch v (Remove h w).2
    | .SingleHandle => ∀ p, ∃ ch v, indy.handle_callback h 0 p w = send ch v (Remove h w).2
    | .String => ∀ s, ∃ ch v, indy.string_callback h 0 s w = send ch v (Remove h w).2
    | .String2 =>
      ∀ s1 s2, ∃ ch v, indy.string2_callback h 0 s1 s2 w = send ch v (Remove h w).2
    | .String3 =>
      ∀ s1 s2 s3, ∃ ch v, indy.string3_callback h 0 s1 s2 s3 w = send ch v (Remove h w).2
    | .Bytes =>
      ∀ b n, indy.GoBytes b n ≠ none →
        ∃ ch v, indy.bytes_callback h 0 b n w = send ch v (Remove h w).2
    | .StringAndBytes =>
      ∀ s b n, indy.GoBytes b n ≠ none →
        ∃ ch v, indy.string_bytes_callback h 0 s b n w = send ch v (Remove h w).2
    | .Bool => ∀ b, ∃ ch v, indy.bool_callback h 0 b w = send ch v (Remove h w).2 := by
  revert hreg
  simp only [operations, List.mem_cons, List.mem_singleton, List.not_mem_nil, or_false] at hop
  rcases hop with rfl | rfl | rfl | rfl | rfl | rfl | rfl | rfl | rfl | rfl | rfl | rfl | rfl |
    rfl | rfl | rfl | rfl | rfl | rfl | rfl | rfl | rfl | rfl | rfl | rfl | rfl | rfl | rfl |
    rfl | rfl | rfl | rfl | rfl | rfl | rfl
  all_goals intro hreg
  all_goals dsimp only at hreg ⊢
  all_goals first
    | exact default_sends w h _ hreg ⟨_, _, rfl⟩
    | exact handle_sends w h _ hreg (fun _ => ⟨_, _, rfl⟩)
    | exact string_sends w h _ hreg (fun _ => ⟨_, _, rfl⟩)
    | exact string2_sends w h _ hreg (fun _ _ => ⟨_, _, rfl⟩)
    | exact string3_sends w h _ hreg (fun _ _ _ => ⟨_, _, rfl⟩)
    | exact bytes_sends w h _ hreg (fun _ => ⟨_, _, rfl⟩)
    | exact string_bytes_sends w h _ hreg (fun _ _ => ⟨_, _, rfl⟩)
    | exact bool_sends w h _ hreg (fun _ => ⟨_, _, rfl⟩)
    | exact string_sends w h _ hreg (fun s => by
        simp only [pool.listCb]
        split
        · exact ⟨_, _, rfl⟩
        · exact ⟨_, _, rfl⟩)

theorem adapters_in_table (name : String) (asPools : String → List String × Option GoError)
    (env : Env) (cb : Callback) (w : World) (r : Option (Option GoError × World))
    (hr : (∃ issuerDID nm version attrs,
        r = indy.IssuerCreateSchema env issuerDID nm version attrs cb w) ∨
      (∃ walletHandle issuerDID schemaJSON tag signatureType configJSON,
        r = indy.IssuerCreateAndStoreCredentialDef env walletHandle issuerDID schemaJSON tag
          signatureType configJSON cb w) ∨
      (∃ walletHandle credOfferJSON credReqJSON credValuesJSON revRegID blobHandle,
        r = indy.IssuerCreateCredential env walletHandle credOfferJSON credReqJSON
          credValuesJSON revRegID blobHandle cb w) ∨
      (∃ walletHandle masterSecretID,
        r = indy.ProverCreateMasterSecret env walletHandle masterSecretID cb w) ∨
      (∃ walletHandle credID credReqMetadataJSON credJSON credDefJSON revRegDefJSON,
        r = indy.ProverStoreCredential env walletHandle credID credReqMetadataJSON credJSON
          credDefJSON revRegDefJSON cb w) ∨
      (∃ proofRequest proof schemas credentialDefs revocRegDefs revocRegs,
        r = indy.VerifierVerifyProof env proofRequest proof schemas credentialDefs revocRegDefs
          revocRegs cb w) ∨
      (∃ recipientVK message, r = indy.AnonCrypt env recipientVK message cb w) ∨
      (∃ walletHandle recipientVK message,
        r = indy.AnonDecrypt env walletHandle recipientVK message cb w) ∨
      (∃ walletHandle senderVK recipientVK message,
        r = indy.AuthCrypt env walletHandle senderVK recipientVK message cb w) ∨
      (∃ walletHandle recipientVK message,
        r = indy.AuthDecrypt env walletHandle recipientVK message cb w) ∨
      (∃ walletHandle didJSON, r = indy.CreateAndStoreMyDID env walletHandle didJSON cb w) ∨
      (∃ submitterDID targetDID verkey nymAlias nymRole,
        r = indy.BuildNYMRequest env submitterDID targetDID verkey nymAlias nymRole cb w) ∨
      (∃ nm configPath, r = indy.CreatePoolLedgerConfig env nm configPath cb w) ∨
      (∃ nm config, r = indy.OpenPoolLedger env nm config cb w))
    (err : Option GoError) (w1 : World) (hret : r = some (err, w1)) :
    ∃ c, w1.calls = w.calls ++ [c] ∧
      ∃ op ∈ operations name asPools, op.native = c.fn ∧ op.entry = c.cb := by
  cases hreg : registry.register env.rand cb env.fuel w.cbRegistry w.randPos with
  | none =>
    rcases hr with ⟨_, _, _, _, rfl⟩ | ⟨_, _, _, _, _, _, rfl⟩ | ⟨_, _, _, _, _, _, rfl⟩ |
      ⟨_, _, rfl⟩ | ⟨_, _, _, _, _, _, rfl⟩ | ⟨_, _, _, _, _, _, rfl⟩ | ⟨_, _, rfl⟩ |
      ⟨_, _, _, rfl⟩ | ⟨_, _, _, _, rfl⟩ | ⟨_, _, _, rfl⟩ | ⟨_, _, rfl⟩ |
      ⟨_, _, _, _, _, rfl⟩ | ⟨_, _, rfl⟩ | ⟨_, _, rfl⟩
    all_goals
      simp [indy.IssuerCreateSchema, indy.IssuerCreateAndStoreCredentialDef,
        indy.IssuerCreateCredential, indy.ProverCreateMasterSecret, indy.ProverStoreCredential,
        indy.VerifierVerifyProof, indy.AnonCrypt, indy.AnonDecrypt, indy.AuthCrypt,
        indy.AuthDecrypt, indy.CreateAndStoreMyDID, indy.BuildNYMRequest,
        indy.CreatePoolLedgerConfig, indy.OpenPoolLedger, Register, hreg] at hret
  | some res =>
    obtain ⟨h', r', pos'⟩ := res
    rcases hr with ⟨_, _, _, _, rfl⟩ | ⟨_, _, _, _, _, _, rfl⟩ | ⟨_, _, _, _, _, _, rfl⟩ |
      ⟨_, _, rfl⟩ | ⟨_, _, _, _, _, _, rfl⟩ | ⟨_, _, _, _, _, _, rfl⟩ | ⟨_, _, rfl⟩ |
      ⟨_, _, _, rfl⟩ | ⟨_, _, _, _, rfl⟩ | ⟨_, _, _, rfl⟩ | ⟨_, _, rfl⟩ |
      ⟨_, _, _, _, _, rfl⟩ | ⟨_, _, rfl⟩ | ⟨_, _, rfl⟩
    all_goals
      simp only [indy.IssuerCreateSchema, indy.IssuerCreateAndStoreCredentialDef,
        indy.IssuerCreateCredential, indy.ProverCreateMasterSecret, indy.ProverStoreCredential,
        indy.VerifierVerifyProof, indy.AnonCrypt, indy.AnonDecrypt, indy.AuthCrypt,
        indy.AuthDecrypt, indy.CreateAndStoreMyDID, indy.BuildNYMRequest,
        indy.CreatePoolLedgerConfig, indy.OpenPoolLedger, Register, hreg, indy.native,
        Option.some.injEq, Prod.mk.injEq] at hret
      obtain ⟨-, rfl⟩ := hret
      exact ⟨_, rfl, by simp [operations]⟩

/-- C23 (result-shape agreement).  For every operation of the binding, listed
in `operations` with the entry point its adapter passes and the continuation
its facade registers: when that entry point is invoked with status 0 for a
handle that is pending with that continuation, whatever payload it is given
(for the entries with a byte buffer: whenever `C.GoBytes` returns), the
continuation ends in a send on one of its channels, that is, no type assertion
and no index in it fails.  The entry listed is the one in the native call
recorded by the adapter (for the adapters embedded here).  In particular, when
the native library accepts `indy_crypto_auth_decrypt` and completes it through
the string-and-bytes entry with status 0, `crypto.AuthDecrypt` returns the
sender, the message and a nil error. -/
theorem result_shape_agreement (name : String)
    (asPools : String → List String × Option GoError) :
    (∀ op ∈ operations name asPools,
      ∀ (w : World) (h : Handle) (respChan errChan : ChanId),
        w.cbRegistry.registry h = some (op.cb respChan errChan) →
        match op.entry with
        | .Default => ∃ ch v, indy.def_callback h 0 w = send ch v (Remove h w).2
        | .SingleHandle =>
          ∀ p, ∃ ch v, indy.handle_callback h 0 p w = send ch v (Remove h w).2
        | .String => ∀ s, ∃ ch v, indy.string_callback h 0 s w = send ch v (Remove h w).2
        | .String2 =>
          ∀ s1 s2, ∃ ch v, indy.string2_callback h 0 s1 s2 w = send ch v (Remove h w).2
        | .String3 =>
          ∀ s1 s2 s3, ∃ ch v,
            indy.string3_callback h 0 s1 s2 s3 w = send ch v (Remove h w).2
        | .Bytes =>
          ∀ b n, indy.GoBytes b n ≠ none →
            ∃ ch v, indy.bytes_callback h 0 b n w = send ch v (Remove h w).2
        | .StringAndBytes =>
          ∀ s b n, indy.GoBytes b n ≠ none →
            ∃ ch v, indy.string_bytes_callback h 0 s b n w = send ch v (Remove h w).2
        | .Bool => ∀ b, ∃ ch v, indy.bool_callback h 0 b w = send ch v (Remove h w).2) ∧
    (operations name asPools).length = 35 ∧
    (∀ (env : Env) (cb : Callback) (w : World) (err : Option GoError) (w1 : World),
      ((∃ issuerDID nm version attrs,
          indy.IssuerCreateSchema env issuerDID nm version attrs cb w = some (err, w1)) ∨
        (∃ walletHandle issuerDID schemaJSON tag signatureType configJSON,
          indy.IssuerCreateAndStoreCredentialDef env walletHandle issuerDID schemaJSON tag
            signatureType configJSON cb w = some (err, w1)) ∨
        (∃ walletHandle credOfferJSON credReqJSON credValuesJSON revRegID blobHandle,
          indy.IssuerCreateCredential env walletHandle credOfferJSON credReqJSON
            credValuesJSON revRegID blobHandle cb w = some (err, w1)) ∨
        (∃ walletHandle masterSecretID,
          indy.ProverCreateMasterSecret env walletHandle masterSecretID cb w
            = some (err, w1)) ∨
        (∃ walletHandle credID credReqMetadataJSON credJSON credDefJSON revRegDefJSON,
          indy.ProverStoreCredential env walletHandle credID credReqMetadataJSON credJSON
            credDefJSON revRegDefJSON cb w = some (err, w1)) ∨
        (∃ proofRequest proof schemas credentialDefs revocRegDefs revocRegs,
          indy.VerifierVerifyProof env proofRequest proof schemas credentialDefs revocRegDefs
            revocRegs cb w = some (err, w1)) ∨
        (∃ recipientVK message, indy.AnonCrypt env recipientVK message cb w = some (err, w1)) ∨
        (∃ walletHandle recipientVK message,
          indy.AnonDecrypt env walletHandle recipientVK message cb w = some (err, w1)) ∨
        (∃ walletHandle senderVK recipientVK message,
          indy.AuthCrypt env walletHandle senderVK recipientVK message cb w
            = some (err, w1)) ∨
        (∃ walletHandle recipientVK message,
          indy.AuthDecrypt env walletHandle recipientVK message cb w = some (err, w1)) ∨
        (∃ walletHandle didJSON,
          indy.CreateAndStoreMyDID env walletHandle didJSON cb w = some (err, w1)) ∨
        (∃ submitterDID targetDID verkey nymAlias nymRole,
          indy.BuildNYMRequest env submitterDID targetDID verkey nymAlias nymRole cb w
            = some (err, w1)) ∨
        (∃ nm configPath,
          indy.CreatePoolLedgerConfig env nm configPath cb w = some (err, w1)) ∨
        (∃ nm config, indy.OpenPoolLedger env nm config cb w = some (err, w1))) →
      ∃ c, w1.calls = w.calls ++ [c] ∧
        ∃ op ∈ operations name asPools, op.native = c.fn ∧ op.entry = c.cb) ∧
    (∀ (env : Env) (w : World) (wallet : wallet.Wallet) (recipientVK : String)
      (message : List (Fin 256)) (s : String) (m : List (Fin 256)) (n : Nat),
      recipientVK ≠ "" → w.completions = [] → w.fault = none →
      (∃ i, i < env.fuel ∧
        w.cbRegistry.registry (rand.Int31 env.rand (w.randPos + i)) = none) →
      (∀ calls call, env.native calls call
        = (0, [.string_bytes_callback call.command_handle 0 (some s) (some m) n])) →
      Char.ofNat 0 ∉ s.toList → n ≤ m.length →
      (crypto.AuthDecrypt env wallet recipientVK message w).1
        = .returned (s, m.take n, none)) := by
  refine ⟨?_, rfl, ?_, ?_⟩
  · intro op hop w h respChan errChan hreg
    exact table_shapes name asPools op hop w h respChan errChan hreg
  · intro env cb w err w1 hr
    refine adapters_in_table name asPools env cb w (some (err, w1)) ?_ err w1 rfl
    rcases hr with ⟨a, b, c, d, e⟩ | ⟨a, b, c, d, e, f, g⟩ | ⟨a, b, c, d, e, f, g⟩ |
      ⟨a, b, e⟩ | ⟨a, b, c, d, e, f, g⟩ | ⟨a, b, c, d, e, f, g⟩ | ⟨a, b, e⟩ |
      ⟨a, b, c, e⟩ | ⟨a, b, c, d, e⟩ | ⟨a, b, c, e⟩ | ⟨a, b, e⟩ |
      ⟨a, b, c, d, e, g⟩ | ⟨a, b, e⟩ | ⟨a, b, e⟩
    · exact Or.inl ⟨a, b, c, d, e.symm⟩
    · exact Or.inr (Or.inl ⟨a, b, c, d, e, f, g.symm⟩)
    · exact Or.inr (Or.inr (Or.inl ⟨a, b, c, d, e, f, g.symm⟩))
    · exact Or.inr (Or.inr (Or.inr (Or.inl ⟨a, b, e.symm⟩)))
    · exact Or.inr (Or.inr (Or.inr (Or.inr (Or.inl ⟨a, b, c, d, e, f, g.symm⟩))))
    · exact Or.inr (Or.inr (Or.inr (Or.inr (Or.inr (Or.inl ⟨a, b, c, d, e, f, g.symm⟩)))))
    · exact Or.inr (Or.inr (Or.inr (Or.inr (Or.inr (Or.inr (Or.inl ⟨a, b, e.symm⟩))))))
    · exact Or.inr (Or.inr (Or.inr (Or.inr (Or.inr (Or.inr (Or.inr
        (Or.inl ⟨a, b, c, e.symm⟩)))))))
    · exact Or.inr (Or.inr (Or.inr (Or.inr (Or.inr (Or.inr (Or.inr (Or.inr
        (Or.inl ⟨a, b, c, d, e.symm⟩))))))))
    · exact Or.inr (Or.inr (Or.inr (Or.inr (Or.inr (Or.inr (Or.inr (Or.inr (Or.inr
        (Or.inl ⟨a, b, c, e.symm⟩)))))))))
    · exact Or.inr (Or.inr (Or.inr (Or.inr (Or.inr (Or.inr (Or.inr (Or.inr (Or.inr (Or.inr
        (Or.inl ⟨a, b, e.symm⟩))))))))))
    · exact Or.inr (Or.inr (Or.inr (Or.inr (Or.inr (Or.inr (Or.inr (Or.inr (Or.inr (Or.inr
        (Or.inr (Or.inl ⟨a, b, c, d, e, g.symm⟩)))))))))))
    · exact Or.inr (Or.inr (Or.inr (Or.inr (Or.inr (Or.inr (Or.inr (Or.inr (Or.inr (Or.inr
        (Or.inr (Or.inr (Or.inl ⟨a, b, e.symm⟩))))))))))))
    · exact Or.inr (Or.inr (Or.inr (Or.inr (Or.inr (Or.inr (Or.inr (Or.inr (Or.inr (Or.inr
        (Or.inr (Or.inr (Or.inr ⟨a, b, e.symm⟩))))))))))))
  · intro env w wallet recipientVK message s m n hvk hq1 hq2 hfree hnative hs hn
    obtain ⟨h, r', pos', hreg⟩ := register_of_free env.rand
      (crypto.authDecryptCb w.nextChan (w.nextChan + 1)) env.fuel w.cbRegistry
      w.randPos hfree
    obtain ⟨hfr, rfl⟩ := register_spec _ _ _ _ _ _ _ _ hreg
    have hrange := register_handle_range _ _ _ _ _ _ _ _ hreg
    simp [crypto.AuthDecrypt, crypto.authDecrypt, make, hvk, indy.AuthDecrypt, Register, hreg,
      indy.native, hnative, hrange, hq1, hq2, indy.nativeThreads, indy.invoke,
      indy.string_bytes_callback, Remove, registry.remove, call, exec, crypto.authDecryptCb,
      new_zero, send, World.setChan, select2, recv, GoString_of_no_nul s hs,
      GoBytes_take m n hn]

/-! ## Immediate rejection in every facade -/

theorem toInt32_ne_zero (s : Int) (h0 : -2147483648 ≤ s) (h1 : s < 4294967296) (hs : s ≠ 0) :
    indy.toInt32 s ≠ 0 := by
  unfold indy.toInt32
  omega

theorem rejected_anoncreds_IssuerCreateSchema (env : Env) (w : World) (c : Int)
    (hquiet : w.completions = [] ∧ w.fault = none)
    (hfree : ∃ i, i < env.fuel ∧
      w.cbRegistry.registry (rand.Int31 env.rand (w.randPos + i)) = none)
    (hc : indy.toInt32 c ≠ 0)
    (hnative : ∀ calls call, env.native calls call = (c, []))
    (issuerDID name version attrs : String) (h1 : issuerDID ≠ "") (h2 : name ≠ "")
    (h3 : version ≠ "") (h4 : attrs ≠ "") :
    (anoncreds.IssuerCreateSchema env issuerDID name version attrs w).1
      = .returned ("", "", indyerror.New (indy.toInt32 c)) := by
  obtain ⟨hq1, hq2⟩ := hquiet
  obtain ⟨e, he⟩ := Option.ne_none_iff_exists'.mp (new_ne_none (indy.toInt32 c) hc)
  obtain ⟨h, r', pos', hreg⟩ := register_of_free env.rand
    (anoncreds.issuerCreateSchemaCb w.nextChan (w.nextChan + 1)) env.fuel w.cbRegistry w.randPos
    hfree
  simp [anoncreds.IssuerCreateSchema, anoncreds.issuerCreateSchema, make, h1, h2, h3, h4,
    indy.IssuerCreateSchema, Register, hreg, indy.native, hnative, hq1, hq2, he, indy.nativeThreads,
    sendNow, World.setChan, select2, recv]

theorem failed_anoncreds_IssuerCreateSchema (env : Env) (w : World) (c : Int) (p : Payload)
    (hquiet : w.completions = [] ∧ w.fault = none)
    (hfree : ∃ i, i < env.fuel ∧
      w.cbRegistry.registry (rand.Int31 env.rand (w.randPos + i)) = none)
    (hc : c ≠ 0)
    (hnative : ∀ calls call, env.native calls call = (0, [call.complete c p]))
    (issuerDID name version attrs : String) (h1 : issuerDID ≠ "") (h2 : name ≠ "")
    (h3 : version ≠ "") (h4 : attrs ≠ "") :
    (anoncreds.IssuerCreateSchema env issuerDID name version attrs w).1
      = .returned ("", "", indyerror.New c) := by
  obtain ⟨hq1, hq2⟩ := hquiet
  obtain ⟨e, he⟩ := Option.ne_none_iff_exists'.mp (new_ne_none c hc)
  obtain ⟨h, r', pos', hreg⟩ := register_of_free env.rand
    (anoncreds.issuerCreateSchemaCb w.nextChan (w.nextChan + 1)) env.fuel w.cbRegistry w.randPos
    hfree
  obtain ⟨hfr, rfl⟩ := register_spec _ _ _ _ _ _ _ _ hreg
  have hrange := register_handle_range _ _ _ _ _ _ _ _ hreg
  simp [anoncreds.IssuerCreateSchema, anoncreds.issuerCreateSchema, make, h1, h2, h3, h4,
    indy.IssuerCreateSchema, Register, hreg, indy.native, hnative, NativeCall.complete, hrange, hq1,
    hq2, he, new_zero, indy.nativeThreads, indy.invoke, indy.string2_callback, Remove,
    registry.remove, call, exec, anoncreds.issuerCreateSchemaCb, send, World.setChan, select2, recv]

theorem rejected_anoncreds_IssuerCreateAndStoreCredentialDef (env : Env) (w : World) (c : Int)
    (hquiet : w.completions = [] ∧ w.fault = none)
    (hfree : ∃ i, i < env.fuel ∧
      w.cbRegistry.registry (rand.Int31 env.rand (w.randPos + i)) = none)
    (hc : indy.toInt32 c ≠ 0)
    (hnative : ∀ calls call, env.native calls call = (c, []))
    (wl : wallet.Wallet) (issuerDID schemaJSON tag signatureType configJSON : String)
    (h1 : issuerDID ≠ "") (h2 : schemaJSON ≠ "") (h3 : tag ≠ "") (h4 : configJSON ≠ "") :
    (anoncreds.IssuerCreateAndStoreCredentialDef env wl issuerDID schemaJSON tag signatureType
        configJSON w).1 = .returned ("", "", indyerror.New (indy.toInt32 c)) := by
  obtain ⟨hq1, hq2⟩ := hquiet
  obtain ⟨e, he⟩ := Option.ne_none_iff_exists'.mp (new_ne_none (indy.toInt32 c) hc)
  obtain ⟨h, r', pos', hreg⟩ := register_of_free env.rand
    (anoncreds.issuerCreateAndStoreCredentialDefCb w.nextChan (w.nextChan + 1)) env.fuel
    w.cbRegistry w.randPos hfree
  simp [anoncreds.IssuerCreateAndStoreCredentialDef, anoncreds.issuerCreateAndStoreCredentialDef,
    make, h1, h2, h3, h4, indy.IssuerCreateAndStoreCredentialDef, Register, hreg, indy.native,
    hnative, hq1, hq2, he, indy.nativeThreads, sendNow, World.setChan, select2, recv]

theorem failed_anoncreds_IssuerCreateAndStoreCredentialDef (env : Env) (w : World) (c : Int) (p : Payload)
    (hquiet : w.completions = [] ∧ w.fault = none)
    (hfree : ∃ i, i < env.fuel ∧
      w.cbRegistry.registry (rand.Int31 env.rand (w.randPos + i)) = none)
    (hc : c ≠ 0)
    (hnative : ∀ calls call, env.native calls call = (0, [call.complete c p]))
    (wl : wallet.Wallet) (issuerDID schemaJSON tag signatureType configJSON : String)
    (h1 : issuerDID ≠ "") (h2 : schemaJSON ≠ "") (h3 : tag ≠ "") (h4 : configJSON ≠ "") :
    (anoncreds.IssuerCreateAndStoreCredentialDef env wl issuerDID schemaJSON tag signatureType
        configJSON w).1 = .returned ("", "", indyerror.New c) := by
  obtain ⟨hq1, hq2⟩ := hquiet
  obtain ⟨e, he⟩ := Option.ne_none_iff_exists'.mp (new_ne_none c hc)
  obtain ⟨h, r', pos', hreg⟩ := register_of_free env.rand
    (anoncreds.issuerCreateAndStoreCredentialDefCb w.nextChan (w.nextChan + 1)) env.fuel
    w.cbRegistry w.randPos hfree
  obtain ⟨hfr, rfl⟩ := register_spec _ _ _ _ _ _ _ _ hreg
  have hrange := register_handle_range _ _ _ _ _ _ _ _ hreg
  simp [anoncreds.IssuerCreateAndStoreCredentialDef, anoncreds.issuerCreateAndStoreCredentialDef,
    make, h1, h2, h3, h4, indy.IssuerCreateAndStoreCredentialDef, Register, hreg, indy.native,
    hnative, NativeCall.complete, hrange, hq1, hq2, he, new_zero, indy.nativeThreads, indy.invoke,
    indy.string2_callback, Remove, registry.remove, call, exec,
    anoncreds.issuerCreateAndStoreCredentialDefCb, send, World.setChan, select2, recv]

theorem rejected_anoncreds_IssuerCreateCredentialOffer (env : Env) (w : World) (c : Int)
    (hquiet : w.completions = [] ∧ w.fault = none)
    (hfree : ∃ i, i < env.fuel ∧
      w.cbRegistry.registry (rand.Int31 env.rand (w.randPos + i)) = none)
    (hc : indy.toInt32 c ≠ 0)
    (hnative : ∀ calls call, env.native calls call = (c, []))
    (wl : wallet.Wallet) (credDefID : String) (h1 : credDefID ≠ "") :
    (anoncreds.IssuerCreateCredentialOffer env wl credDefID w).1
      = .returned ("", indyerror.New (indy.toInt32 c)) := by
  obtain ⟨hq1, hq2⟩ := hquiet
  obtain ⟨e, he⟩ := Option.ne_none_iff_exists'.mp (new_ne_none (indy.toInt32 c) hc)
  obtain ⟨h, r', pos', hreg⟩ := register_of_free env.rand
    (anoncreds.issuerCreateCredentialOfferCb w.nextChan (w.nextChan + 1)) env.fuel w.cbRegistry
    w.randPos hfree
  simp [anoncreds.IssuerCreateCredentialOffer, anoncreds.issuerCreateCredentialOffer, make, h1,
    indy.IssuerCreateCredentialOffer, Register, hreg, indy.native, hnative, hq1, hq2, he,
    indy.nativeThreads, sendNow, World.setChan, select2, recv]

theorem failed_anoncreds_IssuerCreateCredentialOffer (env : Env) (w : World) (c : Int) (p : Payload)
    (hquiet : w.completions = [] ∧ w.fault = none)
    (hfree : ∃ i, i < env.fuel ∧
      w.cbRegistry.registry (rand.Int31 env.rand (w.randPos + i)) = none)
    (hc : c ≠ 0)
    (hnative : ∀ calls call, env.native calls call = (0, [call.complete c p]))
    (wl : wallet.Wallet) (credDefID : String) (h1 : credDefID ≠ "") :
    (anoncreds.IssuerCreateCredentialOffer env wl credDefID w).1
      = .returned ("", indyerror.New c) := by
  obtain ⟨hq1, hq2⟩ := hquiet
  obtain ⟨e, he⟩ := Option.ne_none_iff_exists'.mp (new_ne_none c hc)
  obtain ⟨h, r', pos', hreg⟩ := register_of_free env.rand
    (anoncreds.issuerCreateCredentialOfferCb w.nextChan (w.nextChan + 1)) env.fuel w.cbRegistry
    w.randPos hfree
  obtain ⟨hfr, rfl⟩ := register_spec _ _ _ _ _ _ _ _ hreg
  have hrange := register_handle_range _ _ _ _ _ _ _ _ hreg
  simp [anoncreds.IssuerCreateCredentialOffer, anoncreds.issuerCreateCredentialOffer, make, h1,
    indy.IssuerCreateCredentialOffer, Register, hreg, indy.native, hnative, NativeCall.complete,
    hrange, hq1, hq2, he, new_zero, indy.nativeThreads, indy.invoke, indy.string_callback, Remove,
    registry.remove, call, exec, anoncreds.issuerCreateCredentialOfferCb, send, World.setChan,
    select2, recv]

theorem rejected_anoncreds_IssuerCreateCredential (env : Env) (w : World) (c : Int)
    (hquiet : w.completions = [] ∧ w.fault = none)
    (hfree : ∃ i, i < env.fuel ∧
      w.cbRegistry.registry (rand.Int31 env.rand (w.randPos + i)) = none)
    (hc : indy.toInt32 c ≠ 0)
    (hnative : ∀ calls call, env.native calls call = (c, []))
    (wl : wallet.Wallet) (credOfferJSON credReqJSON credValuesJSON revRegID : String)
    (blobStorageReaderHandle : Handle) (h1 : credOfferJSON ≠ "") (h2 : credReqJSON ≠ "")
    (h3 : credValuesJSON ≠ "") :
    (anoncreds.IssuerCreateCredential env wl credOfferJSON credReqJSON credValuesJSON revRegID
        blobStorageReaderHandle w).1 = .returned ("", "", "", indyerror.New (indy.toInt32 c)) := by
  obtain ⟨hq1, hq2⟩ := hquiet
  obtain ⟨e, he⟩ := Option.ne_none_iff_exists'.mp (new_ne_none (indy.toInt32 c) hc)
  obtain ⟨h, r', pos', hreg⟩ := register_of_free env.rand
    (anoncreds.issuerCreateCredentialCb w.nextChan (w.nextChan + 1)) env.fuel w.cbRegistry w.randPos
    hfree
  simp [anoncreds.IssuerCreateCredential, anoncreds.issuerCreateCredential, make, h1, h2, h3,
    indy.IssuerCreateCredential, Register, hreg, indy.native, hnative, hq1, hq2, he,
    indy.nativeThreads, sendNow, World.setChan, select2, recv]

theorem failed_anoncreds_IssuerCreateCredential (env : Env) (w : World) (c : Int) (p : Payload)
    (hquiet : w.completions = [] ∧ w.fault = none)
    (hfree : ∃ i, i < env.fuel ∧
      w.cbRegistry.registry (rand.Int31 env.rand (w.randPos + i)) = none)
    (hc : c ≠ 0)
    (hnative : ∀ calls call, env.native calls call = (0, [call.complete c p]))
    (wl : wallet.Wallet) (credOfferJSON credReqJSON credValuesJSON revRegID : String)
    (blobStorageReaderHandle : Handle) (h1 : credOfferJSON ≠ "") (h2 : credReqJSON ≠ "")
    (h3 : credValuesJSON ≠ "") :
    (anoncreds.IssuerCreateCredential env wl credOfferJSON credReqJSON credValuesJSON revRegID
        blobStorageReaderHandle w).1 = .returned ("", "", "", indyerror.New c) := by
  obtain ⟨hq1, hq2⟩ := hquiet
  obtain ⟨e, he⟩ := Option.ne_none_iff_exists'.mp (new_ne_none c hc)
  obtain ⟨h, r', pos', hreg⟩ := register_of_free env.rand
    (anoncreds.issuerCreateCredentialCb w.nextChan (w.nextChan + 1)) env.fuel w.cbRegistry w.randPos
    hfree
  obtain ⟨hfr, rfl⟩ := register_spec _ _ _ _ _ _ _ _ hreg
  have hrange := register_handle_range _ _ _ _ _ _ _ _ hreg
  simp [anoncreds.IssuerCreateCredential, anoncreds.issuerCreateCredential, make, h1, h2, h3,
    indy.IssuerCreateCredential, Register, hreg, indy.native, hnative, NativeCall.complete, hrange,
    hq1, hq2, he, new_zero, indy.nativeThreads, indy.invoke, indy.string3_callback, Remove,
    registry.remove, call, exec, anoncreds.issuerCreateCredentialCb, send, World.setChan, select2,
    recv]

theorem rejected_anoncreds_ProverCreateMasterSecret (env : Env) (w : World) (c : Int)
    (hquiet : w.completions = [] ∧ w.fault = none)
    (hfree : ∃ i, i < env.fuel ∧
      w.cbRegistry.registry (rand.Int31 env.rand (w.randPos + i)) = none)
    (hc : indy.toInt32 c ≠ 0)
    (hnative : ∀ calls call, env.native calls call = (c, []))
    (wl : wallet.Wallet) (secretID : String) :
    (anoncreds.ProverCreateMasterSecret env wl secretID w).1
      = .returned ("", indyerror.New (indy.toInt32 c)) := by
  obtain ⟨hq1, hq2⟩ := hquiet
  obtain ⟨e, he⟩ := Option.ne_none_iff_exists'.mp (new_ne_none (indy.toInt32 c) hc)
  obtain ⟨h, r', pos', hreg⟩ := register_of_free env.rand
    (anoncreds.proverCreateMasterSecretCb w.nextChan (w.nextChan + 1)) env.fuel w.cbRegistry
    w.randPos hfree
  simp [anoncreds.ProverCreateMasterSecret, anoncreds.proverCreateMasterSecret, make,
    indy.ProverCreateMasterSecret, Register, hreg, indy.native, hnative, hq1, hq2, he,
    indy.nativeThreads, sendNow, World.setChan, select2, recv]

theorem failed_anoncreds_ProverCreateMasterSecret (env : Env) (w : World) (c : Int) (p : Payload)
    (hquiet : w.completions = [] ∧ w.fault = none)
    (hfree : ∃ i, i < env.fuel ∧
      w.cbRegistry.registry (rand.Int31 env.rand (w.randPos + i)) = none)
    (hc : c ≠ 0)
    (hnative : ∀ calls call, env.native calls call = (0, [call.complete c p]))
    (wl : wallet.Wallet) (secretID : String) :
    (anoncreds.ProverCreateMasterSecret env wl secretID w).1 = .returned ("", indyerror.New c) := by
  obtain ⟨hq1, hq2⟩ := hquiet
  obtain ⟨e, he⟩ := Option.ne_none_iff_exists'.mp (new_ne_none c hc)
  obtain ⟨h, r', pos', hreg⟩ := register_of_free env.rand
    (anoncreds.proverCreateMasterSecretCb w.nextChan (w.nextChan + 1)) env.fuel w.cbRegistry
    w.randPos hfree
  obtain ⟨hfr, rfl⟩ := register_spec _ _ _ _ _ _ _ _ hreg
  have hrange := register_handle_range _ _ _ _ _ _ _ _ hreg
  simp [anoncreds.ProverCreateMasterSecret, anoncreds.proverCreateMasterSecret, make,
    indy.ProverCreateMasterSecret, Register, hreg, indy.native, hnative, NativeCall.complete,
    hrange, hq1, hq2, he, new_zero, indy.nativeThreads, indy.invoke, indy.string_callback, Remove,
    registry.remove, call, exec, anoncreds.proverCreateMasterSecretCb, send, World.setChan, select2,
    recv]

theorem rejected_anoncreds_ProverCreateCredentialReq (env : Env) (w : World) (c : Int)
    (hquiet : w.completions = [] ∧ w.fault = none)
    (hfree : ∃ i, i < env.fuel ∧
      w.cbRegistry.registry (rand.Int31 env.rand (w.randPos + i)) = none)
    (hc : indy.toInt32 c ≠ 0)
    (hnative : ∀ calls call, env.native calls call = (c, []))
    (wl : wallet.Wallet) (proverDID credentialOfferJSON credentialDefJSON masterSecretID : String)
    (h1 : proverDID ≠ "") (h2 : credentialOfferJSON ≠ "") (h3 : credentialDefJSON ≠ "")
    (h4 : masterSecretID ≠ "") :
    (anoncreds.ProverCreateCredentialReq env wl proverDID credentialOfferJSON credentialDefJSON
        masterSecretID w).1 = .returned ("", "", indyerror.New (indy.toInt32 c)) := by
  obtain ⟨hq1, hq2⟩ := hquiet
  obtain ⟨e, he⟩ := Option.ne_none_iff_exists'.mp (new_ne_none (indy.toInt32 c) hc)
  obtain ⟨h, r', pos', hreg⟩ := register_of_free env.rand
    (anoncreds.proverCreateCredentialReqCb w.nextChan (w.nextChan + 1)) env.fuel w.cbRegistry
    w.randPos hfree
  simp [anoncreds.ProverCreateCredentialReq, anoncreds.proverCreateCredentialReq, make, h1, h2, h3,
    h4, indy.ProverCreateCredentialReq, Register, hreg, indy.native, hnative, hq1, hq2, he,
    indy.nativeThreads, sendNow, World.setChan, select2, recv]

theorem failed_anoncreds_ProverCreateCredentialReq (env : Env) (w : World) (c : Int) (p : Payload)
    (hquiet : w.completions = [] ∧ w.fault = none)
    (hfree : ∃ i, i < env.fuel ∧
      w.cbRegistry.registry (rand.Int31 env.rand (w.randPos + i)) = none)
    (hc : c ≠ 0)
    (hnative : ∀ calls call, env.native calls call = (0, [call.complete c p]))
    (wl : wallet.Wallet) (proverDID credentialOfferJSON credentialDefJSON masterSecretID : String)
    (h1 : proverDID ≠ "") (h2 : credentialOfferJSON ≠ "") (h3 : credentialDefJSON ≠ "")
    (h4 : masterSecretID ≠ "") :
    (anoncreds.ProverCreateCredentialReq env wl proverDID credentialOfferJSON credentialDefJSON
        masterSecretID w).1 = .returned ("", "", indyerror.New c) := by
  obtain ⟨hq1, hq2⟩ := hquiet
  obtain ⟨e, he⟩ := Option.ne_none_iff_exists'.mp (new_ne_none c hc)
  obtain ⟨h, r', pos', hreg⟩ := register_of_free env.rand
    (anoncreds.proverCreateCredentialReqCb w.nextChan (w.nextChan + 1)) env.fuel w.cbRegistry
    w.randPos hfree
  obtain ⟨hfr, rfl⟩ := register_spec _ _ _ _ _ _ _ _ hreg
  have hrange := register_handle_range _ _ _ _ _ _ _ _ hreg
  simp [anoncreds.ProverCreateCredentialReq, anoncreds.proverCreateCredentialReq, make, h1, h2, h3,
    h4, indy.ProverCreateCredentialReq, Register, hreg, indy.native, hnative, NativeCall.complete,
    hrange, hq1, hq2, he, new_zero, indy.nativeThreads, indy.invoke, indy.string2_callback, Remove,
    registry.remove, call, exec, anoncreds.proverCreateCredentialReqCb, send, World.setChan,
    select2, recv]

theorem rejected_anoncreds_ProverStoreCredential (env : Env) (w : World) (c : Int)
    (hquiet : w.completions = [] ∧ w.fault = none)
    (hfree : ∃ i, i < env.fuel ∧
      w.cbRegistry.registry (rand.Int31 env.rand (w.randPos + i)) = none)
    (hc : indy.toInt32 c ≠ 0)
    (hnative : ∀ calls call, env.native calls call = (c, []))
    (wl : wallet.Wallet) (credID credReqMetadataJSON credJSON credDefJSON revRegDefJSON : String)
    (h1 : credReqMetadataJSON ≠ "") (h2 : credJSON ≠ "") (h3 : credDefJSON ≠ "") :
    (anoncreds.ProverStoreCredential env wl credID credReqMetadataJSON credJSON credDefJSON
        revRegDefJSON w).1 = .returned ("", indyerror.New (indy.toInt32 c)) := by
  obtain ⟨hq1, hq2⟩ := hquiet
  obtain ⟨e, he⟩ := Option.ne_none_iff_exists'.mp (new_ne_none (indy.toInt32 c) hc)
  obtain ⟨h, r', pos', hreg⟩ := register_of_free env.rand
    (anoncreds.proverStoreCredentialCb w.nextChan (w.nextChan + 1)) env.fuel w.cbRegistry w.randPos
    hfree
  simp [anoncreds.ProverStoreCredential, anoncreds.proverStoreCredential, make, h1, h2, h3,
    indy.ProverStoreCredential, Register, hreg, indy.native, hnative, hq1, hq2, he,
    indy.nativeThreads, sendNow, World.setChan, select2, recv]

theorem failed_anoncreds_ProverStoreCredential (env : Env) (w : World) (c : Int) (p : Payload)
    (hquiet : w.completions = [] ∧ w.fault = none)
    (hfree : ∃ i, i < env.fuel ∧
      w.cbRegistry.registry (rand.Int31 env.rand (w.randPos + i)) = none)
    (hc : c ≠ 0)
    (hnative : ∀ calls call, env.native calls call = (0, [call.complete c p]))
    (wl : wallet.Wallet) (credID credReqMetadataJSON credJSON credDefJSON revRegDefJSON : String)
    (h1 : credReqMetadataJSON ≠ "") (h2 : credJSON ≠ "") (h3 : credDefJSON ≠ "") :
    (anoncreds.ProverStoreCredential env wl credID credReqMetadataJSON credJSON credDefJSON
        revRegDefJSON w).1 = .returned ("", indyerror.New c) := by
  obtain ⟨hq1, hq2⟩ := hquiet
  obtain ⟨e, he⟩ := Option.ne_none_iff_exists'.mp (new_ne_none c hc)
  obtain ⟨h, r', pos', hreg⟩ := register_of_free env.rand
    (anoncreds.proverStoreCredentialCb w.nextChan (w.nextChan + 1)) env.fuel w.cbRegistry w.randPos
    hfree
  obtain ⟨hfr, rfl⟩ := register_spec _ _ _ _ _ _ _ _ hreg
  have hrange := register_handle_range _ _ _ _ _ _ _ _ hreg
  simp [anoncreds.ProverStoreCredential, anoncreds.proverStoreCredential, make, h1, h2, h3,
    indy.ProverStoreCredential, Register, hreg, indy.native, hnative, NativeCall.complete, hrange,
    hq1, hq2, he, new_zero, indy.nativeThreads, indy.invoke, indy.string_callback, Remove,
    registry.remove, call, exec, anoncreds.proverStoreCredentialCb, send, World.setChan, select2,
    recv]

theorem rejected_anoncreds_ProverGetCredentialsForProofReq (env : Env) (w : World) (c : Int)
    (hquiet : w.completions = [] ∧ w.fault = none)
    (hfree : ∃ i, i < env.fuel ∧
      w.cbRegistry.registry (rand.Int31 env.rand (w.randPos + i)) = none)
    (hc : indy.toInt32 c ≠ 0)
    (hnative : ∀ calls call, env.native calls call = (c, []))
    (wl : wallet.Wallet) (proofRequest : String) (h1 : proofRequest ≠ "") :
    (anoncreds.ProverGetCredentialsForProofReq env wl proofRequest w).1
      = .returned ("", indyerror.New (indy.toInt32 c)) := by
  obtain ⟨hq1, hq2⟩ := hquiet
  obtain ⟨e, he⟩ := Option.ne_none_iff_exists'.mp (new_ne_none (indy.toInt32 c) hc)
  obtain ⟨h, r', pos', hreg⟩ := register_of_free env.rand
    (anoncreds.proverGetCredentialsForProofReqCb w.nextChan (w.nextChan + 1)) env.fuel w.cbRegistry
    w.randPos hfree
  simp [anoncreds.ProverGetCredentialsForProofReq, anoncreds.proverGetCredentialsForProofReq, make,
    h1, indy.ProverGetCredentialsForProofReq, Register, hreg, indy.native, hnative, hq1, hq2, he,
    indy.nativeThreads, sendNow, World.setChan, select2, recv]

theorem failed_anoncreds_ProverGetCredentialsForProofReq (env : Env) (w : World) (c : Int) (p : Payload)
    (hquiet : w.completions = [] ∧ w.fault = none)
    (hfree : ∃ i, i < env.fuel ∧
      w.cbRegistry.registry (rand.Int31 env.rand (w.randPos + i)) = none)
    (hc : c ≠ 0)
    (hnative : ∀ calls call, env.native calls call = (0, [call.complete c p]))
    (wl : wallet.Wallet) (proofRequest : String) (h1 : proofRequest ≠ "") :
    (anoncreds.ProverGetCredentialsForProofReq env wl proofRequest w).1
      = .returned ("", indyerror.New c) := by
  obtain ⟨hq1, hq2⟩ := hquiet
  obtain ⟨e, he⟩ := Option.ne_none_iff_exists'.mp (new_ne_none c hc)
  obtain ⟨h, r', pos', hreg⟩ := register_of_free env.rand
    (anoncreds.proverGetCredentialsForProofReqCb w.nextChan (w.nextChan + 1)) env.fuel w.cbRegistry
    w.randPos hfree
  obtain ⟨hfr, rfl⟩ := register_spec _ _ _ _ _ _ _ _ hreg
  have hrange := register_handle_range _ _ _ _ _ _ _ _ hreg
  simp [anoncreds.ProverGetCredentialsForProofReq, anoncreds.proverGetCredentialsForProofReq, make,
    h1, indy.ProverGetCredentialsForProofReq, Register, hreg, indy.native, hnative,
    NativeCall.complete, hrange, hq1, hq2, he, new_zero, indy.nativeThreads, indy.invoke,
    indy.string_callback, Remove, registry.remove, call, exec,
    anoncreds.proverGetCredentialsForProofReqCb, send, World.setChan, select2, recv]

theorem rejected_anoncreds_ProverCreateProof (env : Env) (w : World) (c : Int)
    (hquiet : w.completions = [] ∧ w.fault = none)
    (hfree : ∃ i, i < env.fuel ∧
      w.cbRegistry.registry (rand.Int31 env.rand (w.randPos + i)) = none)
    (hc : indy.toInt32 c ≠ 0)
    (hnative : ∀ calls call, env.native calls call = (c, []))
    (wl : wallet.Wallet)
    (proofRequest requestedCredentials masterSecret schemas credentialDefs revStates : String)
    (h1 : proofRequest ≠ "") (h2 : requestedCredentials ≠ "") (h3 : masterSecret ≠ "")
    (h4 : schemas ≠ "") (h5 : credentialDefs ≠ "") (h6 : revStates ≠ "") :
    (anoncreds.ProverCreateProof env wl proofRequest requestedCredentials masterSecret schemas
        credentialDefs revStates w).1 = .returned ("", indyerror.New (indy.toInt32 c)) := by
  obtain ⟨hq1, hq2⟩ := hquiet
  obtain ⟨e, he⟩ := Option.ne_none_iff_exists'.mp (new_ne_none (indy.toInt32 c) hc)
  obtain ⟨h, r', pos', hreg⟩ := register_of_free env.rand
    (anoncreds.proverCreateProofCb w.nextChan (w.nextChan + 1)) env.fuel w.cbRegistry w.randPos
    hfree
  simp [anoncreds.ProverCreateProof, anoncreds.proverCreateProof, make, h1, h2, h3, h4, h5, h6,
    indy.ProverCreateProof, Register, hreg, indy.native, hnative, hq1, hq2, he, indy.nativeThreads,
    sendNow, World.setChan, select2, recv]

theorem failed_anoncreds_ProverCreateProof (env : Env) (w : World) (c : Int) (p : Payload)
    (hquiet : w.completions = [] ∧ w.fault = none)
    (hfree : ∃ i, i < env.fuel ∧
      w.cbRegistry.registry (rand.Int31 env.rand (w.randPos + i)) = none)
    (hc : c ≠ 0)
    (hnative : ∀ calls call, env.native calls call = (0, [call.complete c p]))
    (wl : wallet.Wallet)
    (proofRequest requestedCredentials masterSecret schemas credentialDefs revStates : String)
    (h1 : proofRequest ≠ "") (h2 : requestedCredentials ≠ "") (h3 : masterSecret ≠ "")
    (h4 : schemas ≠ "") (h5 : credentialDefs ≠ "") (h6 : revStates ≠ "") :
    (anoncreds.ProverCreateProof env wl proofRequest requestedCredentials masterSecret schemas
        credentialDefs revStates w).1 = .returned ("", indyerror.New c) := by
  obtain ⟨hq1, hq2⟩ := hquiet
  obtain ⟨e, he⟩ := Option.ne_none_iff_exists'.mp (new_ne_none c hc)
  obtain ⟨h, r', pos', hreg⟩ := register_of_free env.rand
    (anoncreds.proverCreateProofCb w.nextChan (w.nextChan + 1)) env.fuel w.cbRegistry w.randPos
    hfree
  obtain ⟨hfr, rfl⟩ := register_spec _ _ _ _ _ _ _ _ hreg
  have hrange := register_handle_range _ _ _ _ _ _ _ _ hreg
  simp [anoncreds.ProverCreateProof, anoncreds.proverCreateProof, make, h1, h2, h3, h4, h5, h6,
    indy.ProverCreateProof, Register, hreg, indy.native, hnative, NativeCall.complete, hrange, hq1,
    hq2, he, new_zero, indy.nativeThreads, indy.invoke, indy.string_callback, Remove,
    registry.remove, call, exec, anoncreds.proverCreateProofCb, send, World.setChan, select2, recv]

theorem rejected_anoncreds_VerifierVerifyProof (env : Env) (w : World) (c : Int)
    (hquiet : w.completions = [] ∧ w.fault = none)
    (hfree : ∃ i, i < env.fuel ∧
      w.cbRegistry.registry (rand.Int31 env.rand (w.randPos + i)) = none)
    (hc : indy.toInt32 c ≠ 0)
    (hnative : ∀ calls call, env.native calls call = (c, []))
    (proofRequest proof schemas credentialDefs revocRegDefs revocRegs : String)
    (h1 : proofRequest ≠ "") (h2 : proof ≠ "") (h3 : schemas ≠ "") (h4 : credentialDefs ≠ "")
    (h5 : revocRegDefs ≠ "") (h6 : revocRegs ≠ "") :
    (anoncreds.VerifierVerifyProof env proofRequest proof schemas credentialDefs revocRegDefs
        revocRegs w).1 = .returned (false, indyerror.New (indy.toInt32 c)) := by
  obtain ⟨hq1, hq2⟩ := hquiet
  obtain ⟨e, he⟩ := Option.ne_none_iff_exists'.mp (new_ne_none (indy.toInt32 c) hc)
  obtain ⟨h, r', pos', hreg⟩ := register_of_free env.rand
    (anoncreds.verifierVerifyProofCb w.nextChan (w.nextChan + 1)) env.fuel w.cbRegistry w.randPos
    hfree
  simp [anoncreds.VerifierVerifyProof, anoncreds.verifierVerifyProof, make, h1, h2, h3, h4, h5, h6,
    indy.VerifierVerifyProof, Register, hreg, indy.native, hnative, hq1, hq2, he,
    indy.nativeThreads, sendNow, World.setChan, select2, recv]

theorem failed_anoncreds_VerifierVerifyProof (env : Env) (w : World) (c : Int) (p : Payload)
    (hquiet : w.completions = [] ∧ w.fault = none)
    (hfree : ∃ i, i < env.fuel ∧
      w.cbRegistry.registry (rand.Int31 env.rand (w.randPos + i)) = none)
    (hc : c ≠ 0)
    (hnative : ∀ calls call, env.native calls call = (0, [call.complete c p]))
    (proofRequest proof schemas credentialDefs revocRegDefs revocRegs : String)
    (h1 : proofRequest ≠ "") (h2 : proof ≠ "") (h3 : schemas ≠ "") (h4 : credentialDefs ≠ "")
    (h5 : revocRegDefs ≠ "") (h6 : revocRegs ≠ "") :
    (anoncreds.VerifierVerifyProof env proofRequest proof schemas credentialDefs revocRegDefs
        revocRegs w).1 = .returned (false, indyerror.New c) := by
  obtain ⟨hq1, hq2⟩ := hquiet
  obtain ⟨e, he⟩ := Option.ne_none_iff_exists'.mp (new_ne_none c hc)
  obtain ⟨h, r', pos', hreg⟩ := register_of_free env.rand
    (anoncreds.verifierVerifyProofCb w.nextChan (w.nextChan + 1)) env.fuel w.cbRegistry w.randPos
    hfree
  obtain ⟨hfr, rfl⟩ := register_spec _ _ _ _ _ _ _ _ hreg
  have hrange := register_handle_range _ _ _ _ _ _ _ _ hreg
  simp [anoncreds.VerifierVerifyProof, anoncreds.verifierVerifyProof, make, h1, h2, h3, h4, h5, h6,
    indy.VerifierVerifyProof, Register, hreg, indy.native, hnative, NativeCall.complete, hrange,
    hq1, hq2, he, new_zero, indy.nativeThreads, indy.invoke, indy.bool_callback, Remove,
    registry.remove, call, exec, anoncreds.verifierVerifyProofCb, send, World.setChan, select2,
    recv]

theorem rejected_crypto_AnonCrypt (env : Env) (w : World) (c : Int)
    (hquiet : w.completions = [] ∧ w.fault = none)
    (hfree : ∃ i, i < env.fuel ∧
      w.cbRegistry.registry (rand.Int31 env.rand (w.randPos + i)) = none)
    (hc : indy.toInt32 c ≠ 0)
    (hnative : ∀ calls call, env.native calls call = (c, []))
    (recipientVK : String) (message : List (Fin 256)) (h1 : recipientVK ≠ "") :
    (crypto.AnonCrypt env recipientVK message w).1
      = .returned ([], indyerror.New (indy.toInt32 c)) := by
  obtain ⟨hq1, hq2⟩ := hquiet
  obtain ⟨e, he⟩ := Option.ne_none_iff_exists'.mp (new_ne_none (indy.toInt32 c) hc)
  obtain ⟨h, r', pos', hreg⟩ := register_of_free env.rand
    (crypto.anonCryptCb w.nextChan (w.nextChan + 1)) env.fuel w.cbRegistry w.randPos hfree
  simp [crypto.AnonCrypt, crypto.anonCrypt, make, h1, indy.AnonCrypt, Register, hreg, indy.native,
    hnative, hq1, hq2, he, indy.nativeThreads, sendNow, World.setChan, select2, recv]

theorem failed_crypto_AnonCrypt (env : Env) (w : World) (c : Int) (p : Payload)
    (hquiet : w.completions = [] ∧ w.fault = none)
    (hfree : ∃ i, i < env.fuel ∧
      w.cbRegistry.registry (rand.Int31 env.rand (w.randPos + i)) = none)
    (hc : c ≠ 0)
    (hbytes : indy.GoBytes p.b p.blength ≠ none)
    (hnative : ∀ calls call, env.native calls call = (0, [call.complete c p]))
    (recipientVK : String) (message : List (Fin 256)) (h1 : recipientVK ≠ "") :
    (crypto.AnonCrypt env recipientVK message w).1 = .returned ([], indyerror.New c) := by
  obtain ⟨hq1, hq2⟩ := hquiet
  obtain ⟨e, he⟩ := Option.ne_none_iff_exists'.mp (new_ne_none c hc)
  obtain ⟨bs, hbs⟩ := Option.ne_none_iff_exists'.mp hbytes
  obtain ⟨h, r', pos', hreg⟩ := register_of_free env.rand
    (crypto.anonCryptCb w.nextChan (w.nextChan + 1)) env.fuel w.cbRegistry w.randPos hfree
  obtain ⟨hfr, rfl⟩ := register_spec _ _ _ _ _ _ _ _ hreg
  have hrange := register_handle_range _ _ _ _ _ _ _ _ hreg
  simp [crypto.AnonCrypt, crypto.anonCrypt, make, h1, indy.AnonCrypt, Register, hreg, indy.native,
    hnative, NativeCall.complete, hrange, hq1, hq2, he, hbs, new_zero, indy.nativeThreads,
    indy.invoke, indy.bytes_callback, Remove, registry.remove, call, exec, crypto.anonCryptCb, send,
    World.setChan, select2, recv]

theorem rejected_crypto_AnonDecrypt (env : Env) (w : World) (c : Int)
    (hquiet : w.completions = [] ∧ w.fault = none)
    (hfree : ∃ i, i < env.fuel ∧
      w.cbRegistry.registry (rand.Int31 env.rand (w.randPos + i)) = none)
    (hc : indy.toInt32 c ≠ 0)
    (hnative : ∀ calls call, env.native calls call = (c, []))
    (wl : wallet.Wallet) (recipientVK : String) (encryptedMsg : List (Fin 256))
    (h1 : recipientVK ≠ "") (h2 : encryptedMsg ≠ []) :
    (crypto.AnonDecrypt env wl recipientVK encryptedMsg w).1
      = .returned ([], indyerror.New (indy.toInt32 c)) := by
  obtain ⟨hq1, hq2⟩ := hquiet
  obtain ⟨e, he⟩ := Option.ne_none_iff_exists'.mp (new_ne_none (indy.toInt32 c) hc)
  obtain ⟨h, r', pos', hreg⟩ := register_of_free env.rand
    (crypto.anonDecryptCb w.nextChan (w.nextChan + 1)) env.fuel w.cbRegistry w.randPos hfree
  simp [crypto.AnonDecrypt, crypto.anonDecrypt, make, h1, h2, indy.AnonDecrypt, Register, hreg,
    indy.native, hnative, hq1, hq2, he, indy.nativeThreads, sendNow, World.setChan, select2, recv]

theorem failed_crypto_AnonDecrypt (env : Env) (w : World) (c : Int) (p : Payload)
    (hquiet : w.completions = [] ∧ w.fault = none)
    (hfree : ∃ i, i < env.fuel ∧
      w.cbRegistry.registry (rand.Int31 env.rand (w.randPos + i)) = none)
    (hc : c ≠ 0)
    (hbytes : indy.GoBytes p.b p.blength ≠ none)
    (hnative : ∀ calls call, env.native calls call = (0, [call.complete c p]))
    (wl : wallet.Wallet) (recipientVK : String) (encryptedMsg : List (Fin 256))
    (h1 : recipientVK ≠ "") (h2 : encryptedMsg ≠ []) :
    (crypto.AnonDecrypt env wl recipientVK encryptedMsg w).1 = .returned ([], indyerror.New c) := by
  obtain ⟨hq1, hq2⟩ := hquiet
  obtain ⟨e, he⟩ := Option.ne_none_iff_exists'.mp (new_ne_none c hc)
  obtain ⟨bs, hbs⟩ := Option.ne_none_iff_exists'.mp hbytes
  obtain ⟨h, r', pos', hreg⟩ := register_of_free env.rand
    (crypto.anonDecryptCb w.nextChan (w.nextChan + 1)) env.fuel w.cbRegistry w.randPos hfree
  obtain ⟨hfr, rfl⟩ := register_spec _ _ _ _ _ _ _ _ hreg
  have hrange := register_handle_range _ _ _ _ _ _ _ _ hreg
  simp [crypto.AnonDecrypt, crypto.anonDecrypt, make, h1, h2, indy.AnonDecrypt, Register, hreg,
    indy.native, hnative, NativeCall.complete, hrange, hq1, hq2, he, hbs, new_zero,
    indy.nativeThreads, indy.invoke, indy.bytes_callback, Remove, registry.remove, call, exec,
    crypto.anonDecryptCb, send, World.setChan, select2, recv]

theorem rejected_crypto_AuthCrypt (env : Env) (w : World) (c : Int)
    (hquiet : w.completions = [] ∧ w.fault = none)
    (hfree : ∃ i, i < env.fuel ∧
      w.cbRegistry.registry (rand.Int31 env.rand (w.randPos + i)) = none)
    (hc : indy.toInt32 c ≠ 0)
    (hnative : ∀ calls call, env.native calls call = (c, []))
    (wl : wallet.Wallet) (senderVK recipientVK : String) (message : List (Fin 256))
    (h1 : senderVK ≠ "") (h2 : recipientVK ≠ "") :
    (crypto.AuthCrypt env wl senderVK recipientVK message w).1
      = .returned ([], indyerror.New (indy.toInt32 c)) := by
  obtain ⟨hq1, hq2⟩ := hquiet
  obtain ⟨e, he⟩ := Option.ne_none_iff_exists'.mp (new_ne_none (indy.toInt32 c) hc)
  obtain ⟨h, r', pos', hreg⟩ := register_of_free env.rand
    (crypto.authCryptCb w.nextChan (w.nextChan + 1)) env.fuel w.cbRegistry w.randPos hfree
  simp [crypto.AuthCrypt, crypto.authCrypt, make, h1, h2, indy.AuthCrypt, Register, hreg,
    indy.native, hnative, hq1, hq2, he, indy.nativeThreads, sendNow, World.setChan, select2, recv]

theorem failed_crypto_AuthCrypt (env : Env) (w : World) (c : Int) (p : Payload)
    (hquiet : w.completions = [] ∧ w.fault = none)
    (hfree : ∃ i, i < env.fuel ∧
      w.cbRegistry.registry (rand.Int31 env.rand (w.randPos + i)) = none)
    (hc : c ≠ 0)
    (hbytes : indy.GoBytes p.b p.blength ≠ none)
    (hnative : ∀ calls call, env.native calls call = (0, [call.complete c p]))
    (wl : wallet.Wallet) (senderVK recipientVK : String) (message : List (Fin 256))
    (h1 : senderVK ≠ "") (h2 : recipientVK ≠ "") :
    (crypto.AuthCrypt env wl senderVK recipientVK message w).1
      = .returned ([], indyerror.New c) := by
  obtain ⟨hq1, hq2⟩ := hquiet
  obtain ⟨e, he⟩ := Option.ne_none_iff_exists'.mp (new_ne_none c hc)
  obtain ⟨bs, hbs⟩ := Option.ne_none_iff_exists'.mp hbytes
  obtain ⟨h, r', pos', hreg⟩ := register_of_free env.rand
    (crypto.authCryptCb w.nextChan (w.nextChan + 1)) env.fuel w.cbRegistry w.randPos hfree
  obtain ⟨hfr, rfl⟩ := register_spec _ _ _ _ _ _ _ _ hreg
  have hrange := register_handle_range _ _ _ _ _ _ _ _ hreg
  simp [crypto.AuthCrypt, crypto.authCrypt, make, h1, h2, indy.AuthCrypt, Register, hreg,
    indy.native, hnative, NativeCall.complete, hrange, hq1, hq2, he, hbs, new_zero,
    indy.nativeThreads, indy.invoke, indy.bytes_callback, Remove, registry.remove, call, exec,
    crypto.authCryptCb, send, World.setChan, select2, recv]

theorem rejected_crypto_AuthDecrypt (env : Env) (w : World) (c : Int)
    (hquiet : w.completions = [] ∧ w.fault = none)
    (hfree : ∃ i, i < env.fuel ∧
      w.cbRegistry.registry (rand.Int31 env.rand (w.randPos + i)) = none)
    (hc : indy.toInt32 c ≠ 0)
    (hnative : ∀ calls call, env.native calls call = (c, []))
    (wl : wallet.Wallet) (recipientVK : String) (message : List (Fin 256)) (h1 : recipientVK ≠ "") :
    (crypto.AuthDecrypt env wl recipientVK message w).1
      = .returned ("", [], indyerror.New (indy.toInt32 c)) := by
  obtain ⟨hq1, hq2⟩ := hquiet
  obtain ⟨e, he⟩ := Option.ne_none_iff_exists'.mp (new_ne_none (indy.toInt32 c) hc)
  obtain ⟨h, r', pos', hreg⟩ := register_of_free env.rand
    (crypto.authDecryptCb w.nextChan (w.nextChan + 1)) env.fuel w.cbRegistry w.randPos hfree
  simp [crypto.AuthDecrypt, crypto.authDecrypt, make, h1, indy.AuthDecrypt, Register, hreg,
    indy.native, hnative, hq1, hq2, he, indy.nativeThreads, sendNow, World.setChan, select2, recv]

theorem failed_crypto_AuthDecrypt (env : Env) (w : World) (c : Int) (p : Payload)
    (hquiet : w.completions = [] ∧ w.fault = none)
    (hfree : ∃ i, i < env.fuel ∧
      w.cbRegistry.registry (rand.Int31 env.rand (w.randPos + i)) = none)
    (hc : c ≠ 0)
    (hbytes : indy.GoBytes p.b p.blength ≠ none)
    (hnative : ∀ calls call, env.native calls call = (0, [call.complete c p]))
    (wl : wallet.Wallet) (recipientVK : String) (message : List (Fin 256)) (h1 : recipientVK ≠ "") :
    (crypto.AuthDecrypt env wl recipientVK message w).1 = .returned ("", [], indyerror.New c) := by
  obtain ⟨hq1, hq2⟩ := hquiet
  obtain ⟨e, he⟩ := Option.ne_none_iff_exists'.mp (new_ne_none c hc)
  obtain ⟨bs, hbs⟩ := Option.ne_none_iff_exists'.mp hbytes
  obtain ⟨h, r', pos', hreg⟩ := register_of_free env.rand
    (crypto.authDecryptCb w.nextChan (w.nextChan + 1)) env.fuel w.cbRegistry w.randPos hfree
  obtain ⟨hfr, rfl⟩ := register_spec _ _ _ _ _ _ _ _ hreg
  have hrange := register_handle_range _ _ _ _ _ _ _ _ hreg
  simp [crypto.AuthDecrypt, crypto.authDecrypt, make, h1, indy.AuthDecrypt, Register, hreg,
    indy.native, hnative, NativeCall.complete, hrange, hq1, hq2, he, hbs, new_zero,
    indy.nativeThreads, indy.invoke, indy.string_bytes_callback, Remove, registry.remove, call,
    exec, crypto.authDecryptCb, send, World.setChan, select2, recv]

theorem rejected_did_CreateAndStoreMyDID (env : Env) (w : World) (c : Int)
    (hquiet : w.completions = [] ∧ w.fault = none)
    (hfree : ∃ i, i < env.fuel ∧
      w.cbRegistry.registry (rand.Int31 env.rand (w.randPos + i)) = none)
    (hc : indy.toInt32 c ≠ 0)
    (hnative : ∀ calls call, env.native calls call = (c, []))
    (wl : wallet.Wallet) (didJSON : String) (h1 : didJSON ≠ "") :
    (did.CreateAndStoreMyDID env wl didJSON w).1
      = .returned (none, indyerror.New (indy.toInt32 c)) := by
  obtain ⟨hq1, hq2⟩ := hquiet
  obtain ⟨e, he⟩ := Option.ne_none_iff_exists'.mp (new_ne_none (indy.toInt32 c) hc)
  obtain ⟨h, r', pos', hreg⟩ := register_of_free env.rand
    (did.createAndStoreMyDIDCb w.nextChan (w.nextChan + 1)) env.fuel w.cbRegistry w.randPos hfree
  simp [did.CreateAndStoreMyDID, did.createAndStoreMyDID, make, h1, indy.CreateAndStoreMyDID,
    Register, hreg, indy.native, hnative, hq1, hq2, he, indy.nativeThreads, sendNow, World.setChan,
    select2, recv]

theorem failed_did_CreateAndStoreMyDID (env : Env) (w : World) (c : Int) (p : Payload)
    (hquiet : w.completions = [] ∧ w.fault = none)
    (hfree : ∃ i, i < env.fuel ∧
      w.cbRegistry.registry (rand.Int31 env.rand (w.randPos + i)) = none)
    (hc : c ≠ 0)
    (hnative : ∀ calls call, env.native calls call = (0, [call.complete c p]))
    (wl : wallet.Wallet) (didJSON : String) (h1 : didJSON ≠ "") :
    (did.CreateAndStoreMyDID env wl didJSON w).1 = .returned (none, indyerror.New c) := by
  obtain ⟨hq1, hq2⟩ := hquiet
  obtain ⟨e, he⟩ := Option.ne_none_iff_exists'.mp (new_ne_none c hc)
  obtain ⟨h, r', pos', hreg⟩ := register_of_free env.rand
    (did.createAndStoreMyDIDCb w.nextChan (w.nextChan + 1)) env.fuel w.cbRegistry w.randPos hfree
  obtain ⟨hfr, rfl⟩ := register_spec _ _ _ _ _ _ _ _ hreg
  have hrange := register_handle_range _ _ _ _ _ _ _ _ hreg
  simp [did.CreateAndStoreMyDID, did.createAndStoreMyDID, make, h1, indy.CreateAndStoreMyDID,
    Register, hreg, indy.native, hnative, NativeCall.complete, hrange, hq1, hq2, he, new_zero,
    indy.nativeThreads, indy.invoke, indy.string2_callback, Remove, registry.remove, call, exec,
    did.createAndStoreMyDIDCb, send, World.setChan, select2, recv]

theorem rejected_did_KeyForDID (env : Env) (w : World) (c : Int)
    (hquiet : w.completions = [] ∧ w.fault = none)
    (hfree : ∃ i, i < env.fuel ∧
      w.cbRegistry.registry (rand.Int31 env.rand (w.randPos + i)) = none)
    (hc : indy.toInt32 c ≠ 0)
    (hnative : ∀ calls call, env.native calls call = (c, []))
    (pl : pool.Pool) (wl : wallet.Wallet) (d : String) (h1 : d ≠ "") :
    (did.KeyForDID env pl wl d w).1 = .returned ("", indyerror.New (indy.toInt32 c)) := by
  obtain ⟨hq1, hq2⟩ := hquiet
  obtain ⟨e, he⟩ := Option.ne_none_iff_exists'.mp (new_ne_none (indy.toInt32 c) hc)
  obtain ⟨h, r', pos', hreg⟩ := register_of_free env.rand
    (did.keyForDIDCb w.nextChan (w.nextChan + 1)) env.fuel w.cbRegistry w.randPos hfree
  simp [did.KeyForDID, did.keyForDID, make, h1, indy.KeyForDID, Register, hreg, indy.native,
    hnative, hq1, hq2, he, indy.nativeThreads, sendNow, World.setChan, select2, recv]

theorem failed_did_KeyForDID (env : Env) (w : World) (c : Int) (p : Payload)
    (hquiet : w.completions = [] ∧ w.fault = none)
    (hfree : ∃ i, i < env.fuel ∧
      w.cbRegistry.registry (rand.Int31 env.rand (w.randPos + i)) = none)
    (hc : c ≠ 0)
    (hnative : ∀ calls call, env.native calls call = (0, [call.complete c p]))
    (pl : pool.Pool) (wl : wallet.Wallet) (d : String) (h1 : d ≠ "") :
    (did.KeyForDID env pl wl d w).1 = .returned ("", indyerror.New c) := by
  obtain ⟨hq1, hq2⟩ := hquiet
  obtain ⟨e, he⟩ := Option.ne_none_iff_exists'.mp (new_ne_none c hc)
  obtain ⟨h, r', pos', hreg⟩ := register_of_free env.rand
    (did.keyForDIDCb w.nextChan (w.nextChan + 1)) env.fuel w.cbRegistry w.randPos hfree
  obtain ⟨hfr, rfl⟩ := register_spec _ _ _ _ _ _ _ _ hreg
  have hrange := register_handle_range _ _ _ _ _ _ _ _ hreg
  simp [did.KeyForDID, did.keyForDID, make, h1, indy.KeyForDID, Register, hreg, indy.native,
    hnative, NativeCall.complete, hrange, hq1, hq2, he, new_zero, indy.nativeThreads, indy.invoke,
    indy.string_callback, Remove, registry.remove, call, exec, did.keyForDIDCb, send, World.setChan,
    select2, recv]

theorem rejected_ledger_BuildNYMRequest (env : Env) (w : World) (c : Int)
    (hquiet : w.completions = [] ∧ w.fault = none)
    (hfree : ∃ i, i < env.fuel ∧
      w.cbRegistry.registry (rand.Int31 env.rand (w.randPos + i)) = none)
    (hc : indy.toInt32 c ≠ 0)
    (hnative : ∀ calls call, env.native calls call = (c, []))
    (submitterDID targetDID verkey : String) (nymAlias : Option types.Alias) (r : Option role.Role)
    (h1 : submitterDID ≠ "") (h2 : targetDID ≠ "") :
    (ledger.BuildNYMRequest env submitterDID targetDID verkey nymAlias r w).1
      = .returned ("", indyerror.New (indy.toInt32 c)) := by
  obtain ⟨hq1, hq2⟩ := hquiet
  obtain ⟨e, he⟩ := Option.ne_none_iff_exists'.mp (new_ne_none (indy.toInt32 c) hc)
  obtain ⟨h, r', pos', hreg⟩ := register_of_free env.rand
    (ledger.buildNYMRequestCb w.nextChan (w.nextChan + 1)) env.fuel w.cbRegistry w.randPos hfree
  simp [ledger.BuildNYMRequest, ledger.buildNYMRequest, make, h1, h2, indy.BuildNYMRequest,
    Register, hreg, indy.native, hnative, hq1, hq2, he, indy.nativeThreads, sendNow, World.setChan,
    select2, recv]

theorem failed_ledger_BuildNYMRequest (env : Env) (w : World) (c : Int) (p : Payload)
    (hquiet : w.completions = [] ∧ w.fault = none)
    (hfree : ∃ i, i < env.fuel ∧
      w.cbRegistry.registry (rand.Int31 env.rand (w.randPos + i)) = none)
    (hc : c ≠ 0)
    (hnative : ∀ calls call, env.native calls call = (0, [call.complete c p]))
    (submitterDID targetDID verkey : String) (nymAlias : Option types.Alias) (r : Option role.Role)
    (h1 : submitterDID ≠ "") (h2 : targetDID ≠ "") :
    (ledger.BuildNYMRequest env submitterDID targetDID verkey nymAlias r w).1
      = .returned ("", indyerror.New c) := by
  obtain ⟨hq1, hq2⟩ := hquiet
  obtain ⟨e, he⟩ := Option.ne_none_iff_exists'.mp (new_ne_none c hc)
  obtain ⟨h, r', pos', hreg⟩ := register_of_free env.rand
    (ledger.buildNYMRequestCb w.nextChan (w.nextChan + 1)) env.fuel w.cbRegistry w.randPos hfree
  obtain ⟨hfr, rfl⟩ := register_spec _ _ _ _ _ _ _ _ hreg
  have hrange := register_handle_range _ _ _ _ _ _ _ _ hreg
  simp [ledger.BuildNYMRequest, ledger.buildNYMRequest, make, h1, h2, indy.BuildNYMRequest,
    Register, hreg, indy.native, hnative, NativeCall.complete, hrange, hq1, hq2, he, new_zero,
    indy.nativeThreads, indy.invoke, indy.string_callback, Remove, registry.remove, call, exec,
    ledger.buildNYMRequestCb, send, World.setChan, select2, recv]

theorem rejected_ledger_SignAndSubmitRequest (env : Env) (w : World) (c : Int)
    (hquiet : w.completions = [] ∧ w.fault = none)
    (hfree : ∃ i, i < env.fuel ∧
      w.cbRegistry.registry (rand.Int31 env.rand (w.randPos + i)) = none)
    (hc : indy.toInt32 c ≠ 0)
    (hnative : ∀ calls call, env.native calls call = (c, []))
    (pl : pool.Pool) (wl : wallet.Wallet) (submitterDID requestJSON : String)
    (h1 : submitterDID ≠ "") (h2 : requestJSON ≠ "") :
    (ledger.SignAndSubmitRequest env pl wl submitterDID requestJSON w).1
      = .returned ("", indyerror.New (indy.toInt32 c)) := by
  obtain ⟨hq1, hq2⟩ := hquiet
  obtain ⟨e, he⟩ := Option.ne_none_iff_exists'.mp (new_ne_none (indy.toInt32 c) hc)
  obtain ⟨h, r', pos', hreg⟩ := register_of_free env.rand
    (ledger.signAndSubmitRequestCb w.nextChan (w.nextChan + 1)) env.fuel w.cbRegistry w.randPos
    hfree
  simp [ledger.SignAndSubmitRequest, ledger.signAndSubmitRequest, make, h1, h2,
    indy.SignAndSubmitRequest, Register, hreg, indy.native, hnative, hq1, hq2, he,
    indy.nativeThreads, sendNow, World.setChan, select2, recv]

theorem failed_ledger_SignAndSubmitRequest (env : Env) (w : World) (c : Int) (p : Payload)
    (hquiet : w.completions = [] ∧ w.fault = none)
    (hfree : ∃ i, i < env.fuel ∧
      w.cbRegistry.registry (rand.Int31 env.rand (w.randPos + i)) = none)
    (hc : c ≠ 0)
    (hnative : ∀ calls call, env.native calls call = (0, [call.complete c p]))
    (pl : pool.Pool) (wl : wallet.Wallet) (submitterDID requestJSON : String)
    (h1 : submitterDID ≠ "") (h2 : requestJSON ≠ "") :
    (ledger.SignAndSubmitRequest env pl wl submitterDID requestJSON w).1
      = .returned ("", indyerror.New c) := by
  obtain ⟨hq1, hq2⟩ := hquiet
  obtain ⟨e, he⟩ := Option.ne_none_iff_exists'.mp (new_ne_none c hc)
  obtain ⟨h, r', pos', hreg⟩ := register_of_free env.rand
    (ledger.signAndSubmitRequestCb w.nextChan (w.nextChan + 1)) env.fuel w.cbRegistry w.randPos
    hfree
  obtain ⟨hfr, rfl⟩ := register_spec _ _ _ _ _ _ _ _ hreg
  have hrange := register_handle_range _ _ _ _ _ _ _ _ hreg
  simp [ledger.SignAndSubmitRequest, ledger.signAndSubmitRequest, make, h1, h2,
    indy.SignAndSubmitRequest, Register, hreg, indy.native, hnative, NativeCall.complete, hrange,
    hq1, hq2, he, new_zero, indy.nativeThreads, indy.invoke, indy.string_callback, Remove,
    registry.remove, call, exec, ledger.signAndSubmitRequestCb, send, World.setChan, select2, recv]

theorem rejected_ledger_SubmitRequest (env : Env) (w : World) (c : Int)
    (hquiet : w.completions = [] ∧ w.fault = none)
    (hfree : ∃ i, i < env.fuel ∧
      w.cbRegistry.registry (rand.Int31 env.rand (w.randPos + i)) = none)
    (hc : indy.toInt32 c ≠ 0)
    (hnative : ∀ calls call, env.native calls call = (c, []))
    (pl : pool.Pool) (requestJSON : String) (h1 : requestJSON ≠ "") :
    (ledger.SubmitRequest env pl requestJSON w).1
      = .returned ("", indyerror.New (indy.toInt32 c)) := by
  obtain ⟨hq1, hq2⟩ := hquiet
  obtain ⟨e, he⟩ := Option.ne_none_iff_exists'.mp (new_ne_none (indy.toInt32 c) hc)
  obtain ⟨h, r', pos', hreg⟩ := register_of_free env.rand
    (ledger.submitRequestCb w.nextChan (w.nextChan + 1)) env.fuel w.cbRegistry w.randPos hfree
  simp [ledger.SubmitRequest, ledger.submitRequest, make, h1, indy.SubmitRequest, Register, hreg,
    indy.native, hnative, hq1, hq2, he, indy.nativeThreads, sendNow, World.setChan, select2, recv]

theorem failed_ledger_SubmitRequest (env : Env) (w : World) (c : Int) (p : Payload)
    (hquiet : w.completions = [] ∧ w.fault = none)
    (hfree : ∃ i, i < env.fuel ∧
      w.cbRegistry.registry (rand.Int31 env.rand (w.randPos + i)) = none)
    (hc : c ≠ 0)
    (hnative : ∀ calls call, env.native calls call = (0, [call.complete c p]))
    (pl : pool.Pool) (requestJSON : String) (h1 : requestJSON ≠ "") :
    (ledger.SubmitRequest env pl requestJSON w).1 = .returned ("", indyerror.New c) := by
  obtain ⟨hq1, hq2⟩ := hquiet
  obtain ⟨e, he⟩ := Option.ne_none_iff_exists'.mp (new_ne_none c hc)
  obtain ⟨h, r', pos', hreg⟩ := register_of_free env.rand
    (ledger.submitRequestCb w.nextChan (w.nextChan + 1)) env.fuel w.cbRegistry w.randPos hfree
  obtain ⟨hfr, rfl⟩ := register_spec _ _ _ _ _ _ _ _ hreg
  have hrange := register_handle_range _ _ _ _ _ _ _ _ hreg
  simp [ledger.SubmitRequest, ledger.submitRequest, make, h1, indy.SubmitRequest, Register, hreg,
    indy.native, hnative, NativeCall.complete, hrange, hq1, hq2, he, new_zero, indy.nativeThreads,
    indy.invoke, indy.string_callback, Remove, registry.remove, call, exec, ledger.submitRequestCb,
    send, World.setChan, select2, recv]

theorem rejected_ledger_BuildSchemaRequest (env : Env) (w : World) (c : Int)
    (hquiet : w.completions = [] ∧ w.fault = none)
    (hfree : ∃ i, i < env.fuel ∧
      w.cbRegistry.registry (rand.Int31 env.rand (w.randPos + i)) = none)
    (hc : indy.toInt32 c ≠ 0)
    (hnative : ∀ calls call, env.native calls call = (c, []))
    (submitterDID data : String) (h1 : submitterDID ≠ "") (h2 : data ≠ "") :
    (ledger.BuildSchemaRequest env submitterDID data w).1
      = .returned ("", indyerror.New (indy.toInt32 c)) := by
  obtain ⟨hq1, hq2⟩ := hquiet
  obtain ⟨e, he⟩ := Option.ne_none_iff_exists'.mp (new_ne_none (indy.toInt32 c) hc)
  obtain ⟨h, r', pos', hreg⟩ := register_of_free env.rand
    (ledger.buildSchemaRequestCb w.nextChan (w.nextChan + 1)) env.fuel w.cbRegistry w.randPos hfree
  simp [ledger.BuildSchemaRequest, ledger.buildSchemaRequest, make, h1, h2, indy.BuildSchemaRequest,
    Register, hreg, indy.native, hnative, hq1, hq2, he, indy.nativeThreads, sendNow, World.setChan,
    select2, recv]

theorem failed_ledger_BuildSchemaRequest (env : Env) (w : World) (c : Int) (p : Payload)
    (hquiet : w.completions = [] ∧ w.fault = none)
    (hfree : ∃ i, i < env.fuel ∧
      w.cbRegistry.registry (rand.Int31 env.rand (w.randPos + i)) = none)
    (hc : c ≠ 0)
    (hnative : ∀ calls call, env.native calls call = (0, [call.complete c p]))
    (submitterDID data : String) (h1 : submitterDID ≠ "") (h2 : data ≠ "") :
    (ledger.BuildSchemaRequest env submitterDID data w).1 = .returned ("", indyerror.New c) := by
  obtain ⟨hq1, hq2⟩ := hquiet
  obtain ⟨e, he⟩ := Option.ne_none_iff_exists'.mp (new_ne_none c hc)
  obtain ⟨h, r', pos', hreg⟩ := register_of_free env.rand
    (ledger.buildSchemaRequestCb w.nextChan (w.nextChan + 1)) env.fuel w.cbRegistry w.randPos hfree
  obtain ⟨hfr, rfl⟩ := register_spec _ _ _ _ _ _ _ _ hreg
  have hrange := register_handle_range _ _ _ _ _ _ _ _ hreg
  simp [ledger.BuildSchemaRequest, ledger.buildSchemaRequest, make, h1, h2, indy.BuildSchemaRequest,
    Register, hreg, indy.native, hnative, NativeCall.complete, hrange, hq1, hq2, he, new_zero,
    indy.nativeThreads, indy.invoke, indy.string_callback, Remove, registry.remove, call, exec,
    ledger.buildSchemaRequestCb, send, World.setChan, select2, recv]

theorem rejected_ledger_BuildGetSchemaRequest (env : Env) (w : World) (c : Int)
    (hquiet : w.completions = [] ∧ w.fault = none)
    (hfree : ∃ i, i < env.fuel ∧
      w.cbRegistry.registry (rand.Int31 env.rand (w.randPos + i)) = none)
    (hc : indy.toInt32 c ≠ 0)
    (hnative : ∀ calls call, env.native calls call = (c, []))
    (submitterDID id : String) (h1 : submitterDID ≠ "") (h2 : id ≠ "") :
    (ledger.BuildGetSchemaRequest env submitterDID id w).1
      = .returned ("", indyerror.New (indy.toInt32 c)) := by
  obtain ⟨hq1, hq2⟩ := hquiet
  obtain ⟨e, he⟩ := Option.ne_none_iff_exists'.mp (new_ne_none (indy.toInt32 c) hc)
  obtain ⟨h, r', pos', hreg⟩ := register_of_free env.rand
    (ledger.buildGetSchemaRequestCb w.nextChan (w.nextChan + 1)) env.fuel w.cbRegistry w.randPos
    hfree
  simp [ledger.BuildGetSchemaRequest, ledger.buildGetSchemaRequest, make, h1, h2,
    indy.BuildGetSchemaRequest, Register, hreg, indy.native, hnative, hq1, hq2, he,
    indy.nativeThreads, sendNow, World.setChan, select2, recv]

theorem failed_ledger_BuildGetSchemaRequest (env : Env) (w : World) (c : Int) (p : Payload)
    (hquiet : w.completions = [] ∧ w.fault = none)
    (hfree : ∃ i, i < env.fuel ∧
      w.cbRegistry.registry (rand.Int31 env.rand (w.randPos + i)) = none)
    (hc : c ≠ 0)
    (hnative : ∀ calls call, env.native calls call = (0, [call.complete c p]))
    (submitterDID id : String) (h1 : submitterDID ≠ "") (h2 : id ≠ "") :
    (ledger.BuildGetSchemaRequest env submitterDID id w).1 = .returned ("", indyerror.New c) := by
  obtain ⟨hq1, hq2⟩ := hquiet
  obtain ⟨e, he⟩ := Option.ne_none_iff_exists'.mp (new_ne_none c hc)
  obtain ⟨h, r', pos', hreg⟩ := register_of_free env.rand
    (ledger.buildGetSchemaRequestCb w.nextChan (w.nextChan + 1)) env.fuel w.cbRegistry w.randPos
    hfree
  obtain ⟨hfr, rfl⟩ := register_spec _ _ _ _ _ _ _ _ hreg
  have hrange := register_handle_range _ _ _ _ _ _ _ _ hreg
  simp [ledger.BuildGetSchemaRequest, ledger.buildGetSchemaRequest, make, h1, h2,
    indy.BuildGetSchemaRequest, Register, hreg, indy.native, hnative, NativeCall.complete, hrange,
    hq1, hq2, he, new_zero, indy.nativeThreads, indy.invoke, indy.string_callback, Remove,
    registry.remove, call, exec, ledger.buildGetSchemaRequestCb, send, World.setChan, select2, recv]

theorem rejected_ledger_ParseGetSchemaResponse (env : Env) (w : World) (c : Int)
    (hquiet : w.completions = [] ∧ w.fault = none)
    (hfree : ∃ i, i < env.fuel ∧
      w.cbRegistry.registry (rand.Int31 env.rand (w.randPos + i)) = none)
    (hc : indy.toInt32 c ≠ 0)
    (hnative : ∀ calls call, env.native calls call = (c, []))
    (response : String) (h1 : response ≠ "") :
    (ledger.ParseGetSchemaResponse env response w).1
      = .returned ("", "", indyerror.New (indy.toInt32 c)) := by
  obtain ⟨hq1, hq2⟩ := hquiet
  obtain ⟨e, he⟩ := Option.ne_none_iff_exists'.mp (new_ne_none (indy.toInt32 c) hc)
  obtain ⟨h, r', pos', hreg⟩ := register_of_free env.rand
    (ledger.parseGetSchemaResponseCb w.nextChan (w.nextChan + 1)) env.fuel w.cbRegistry w.randPos
    hfree
  simp [ledger.ParseGetSchemaResponse, ledger.parseGetSchemaResponse, make, h1,
    indy.ParseGetSchemaResponse, Register, hreg, indy.native, hnative, hq1, hq2, he,
    indy.nativeThreads, sendNow, World.setChan, select2, recv]

theorem failed_ledger_ParseGetSchemaResponse (env : Env) (w : World) (c : Int) (p : Payload)
    (hquiet : w.completions = [] ∧ w.fault = none)
    (hfree : ∃ i, i < env.fuel ∧
      w.cbRegistry.registry (rand.Int31 env.rand (w.randPos + i)) = none)
    (hc : c ≠ 0)
    (hnative : ∀ calls call, env.native calls call = (0, [call.complete c p]))
    (response : String) (h1 : response ≠ "") :
    (ledger.ParseGetSchemaResponse env response w).1 = .returned ("", "", indyerror.New c) := by
  obtain ⟨hq1, hq2⟩ := hquiet
  obtain ⟨e, he⟩ := Option.ne_none_iff_exists'.mp (new_ne_none c hc)
  obtain ⟨h, r', pos', hreg⟩ := register_of_free env.rand
    (ledger.parseGetSchemaResponseCb w.nextChan (w.nextChan + 1)) env.fuel w.cbRegistry w.randPos
    hfree
  obtain ⟨hfr, rfl⟩ := register_spec _ _ _ _ _ _ _ _ hreg
  have hrange := register_handle_range _ _ _ _ _ _ _ _ hreg
  simp [ledger.ParseGetSchemaResponse, ledger.parseGetSchemaResponse, make, h1,
    indy.ParseGetSchemaResponse, Register, hreg, indy.native, hnative, NativeCall.complete, hrange,
    hq1, hq2, he, new_zero, indy.nativeThreads, indy.invoke, indy.string2_callback, Remove,
    registry.remove, call, exec, ledger.parseGetSchemaResponseCb, send, World.setChan, select2,
    recv]

theorem rejected_ledger_BuildCredDefRequest (env : Env) (w : World) (c : Int)
    (hquiet : w.completions = [] ∧ w.fault = none)
    (hfree : ∃ i, i < env.fuel ∧
      w.cbRegistry.registry (rand.Int31 env.rand (w.randPos + i)) = none)
    (hc : indy.toInt32 c ≠ 0)
    (hnative : ∀ calls call, env.native calls call = (c, []))
    (submitterDID data : String) (h1 : submitterDID ≠ "") (h2 : data ≠ "") :
    (ledger.BuildCredDefRequest env submitterDID data w).1
      = .returned ("", indyerror.New (indy.toInt32 c)) := by
  obtain ⟨hq1, hq2⟩ := hquiet
  obtain ⟨e, he⟩ := Option.ne_none_iff_exists'.mp (new_ne_none (indy.toInt32 c) hc)
  obtain ⟨h, r', pos', hreg⟩ := register_of_free env.rand
    (ledger.buildCredDefRequestCb w.nextChan (w.nextChan + 1)) env.fuel w.cbRegistry w.randPos hfree
  simp [ledger.BuildCredDefRequest, ledger.buildCredDefRequest, make, h1, h2,
    indy.BuildCredDefRequest, Register, hreg, indy.native, hnative, hq1, hq2, he,
    indy.nativeThreads, sendNow, World.setChan, select2, recv]

theorem failed_ledger_BuildCredDefRequest (env : Env) (w : World) (c : Int) (p : Payload)
    (hquiet : w.completions = [] ∧ w.fault = none)
    (hfree : ∃ i, i < env.fuel ∧
      w.cbRegistry.registry (rand.Int31 env.rand (w.randPos + i)) = none)
    (hc : c ≠ 0)
    (hnative : ∀ calls call, env.native calls call = (0, [call.complete c p]))
    (submitterDID data : String) (h1 : submitterDID ≠ "") (h2 : data ≠ "") :
    (ledger.BuildCredDefRequest env submitterDID data w).1 = .returned ("", indyerror.New c) := by
  obtain ⟨hq1, hq2⟩ := hquiet
  obtain ⟨e, he⟩ := Option.ne_none_iff_exists'.mp (new_ne_none c hc)
  obtain ⟨h, r', pos', hreg⟩ := register_of_free env.rand
    (ledger.buildCredDefRequestCb w.nextChan (w.nextChan + 1)) env.fuel w.cbRegistry w.randPos hfree
  obtain ⟨hfr, rfl⟩ := register_spec _ _ _ _ _ _ _ _ hreg
  have hrange := register_handle_range _ _ _ _ _ _ _ _ hreg
  simp [ledger.BuildCredDefRequest, ledger.buildCredDefRequest, make, h1, h2,
    indy.BuildCredDefRequest, Register, hreg, indy.native, hnative, NativeCall.complete, hrange,
    hq1, hq2, he, new_zero, indy.nativeThreads, indy.invoke, indy.string_callback, Remove,
    registry.remove, call, exec, ledger.buildCredDefRequestCb, send, World.setChan, select2, recv]

theorem rejected_ledger_BuildGetCredDefRequest (env : Env) (w : World) (c : Int)
    (hquiet : w.completions = [] ∧ w.fault = none)
    (hfree : ∃ i, i < env.fuel ∧
      w.cbRegistry.registry (rand.Int31 env.rand (w.randPos + i)) = none)
    (hc : indy.toInt32 c ≠ 0)
    (hnative : ∀ calls call, env.native calls call = (c, []))
    (submitterDID id : String) (h1 : submitterDID ≠ "") (h2 : id ≠ "") :
    (ledger.BuildGetCredDefRequest env submitterDID id w).1
      = .returned ("", indyerror.New (indy.toInt32 c)) := by
  obtain ⟨hq1, hq2⟩ := hquiet
  obtain ⟨e, he⟩ := Option.ne_none_iff_exists'.mp (new_ne_none (indy.toInt32 c) hc)
  obtain ⟨h, r', pos', hreg⟩ := register_of_free env.rand
    (ledger.buildGetCredDefRequestCb w.nextChan (w.nextChan + 1)) env.fuel w.cbRegistry w.randPos
    hfree
  simp [ledger.BuildGetCredDefRequest, ledger.buildGetCredDefRequest, make, h1, h2,
    indy.BuildGetCredDefRequest, Register, hreg, indy.native, hnative, hq1, hq2, he,
    indy.nativeThreads, sendNow, World.setChan, select2, recv]

theorem failed_ledger_BuildGetCredDefRequest (env : Env) (w : World) (c : Int) (p : Payload)
    (hquiet : w.completions = [] ∧ w.fault = none)
    (hfree : ∃ i, i < env.fuel ∧
      w.cbRegistry.registry (rand.Int31 env.rand (w.randPos + i)) = none)
    (hc : c ≠ 0)
    (hnative : ∀ calls call, env.native calls call = (0, [call.complete c p]))
    (submitterDID id : String) (h1 : submitterDID ≠ "") (h2 : id ≠ "") :
    (ledger.BuildGetCredDefRequest env submitterDID id w).1 = .returned ("", indyerror.New c) := by
  obtain ⟨hq1, hq2⟩ := hquiet
  obtain ⟨e, he⟩ := Option.ne_none_iff_exists'.mp (new_ne_none c hc)
  obtain ⟨h, r', pos', hreg⟩ := register_of_free env.rand
    (ledger.buildGetCredDefRequestCb w.nextChan (w.nextChan + 1)) env.fuel w.cbRegistry w.randPos
    hfree
  obtain ⟨hfr, rfl⟩ := register_spec _ _ _ _ _ _ _ _ hreg
  have hrange := register_handle_range _ _ _ _ _ _ _ _ hreg
  simp [ledger.BuildGetCredDefRequest, ledger.buildGetCredDefRequest, make, h1, h2,
    indy.BuildGetCredDefRequest, Register, hreg, indy.native, hnative, NativeCall.complete, hrange,
    hq1, hq2, he, new_zero, indy.nativeThreads, indy.invoke, indy.string_callback, Remove,
    registry.remove, call, exec, ledger.buildGetCredDefRequestCb, send, World.setChan, select2,
    recv]

theorem rejected_ledger_ParseGetCredDefResponse (env : Env) (w : World) (c : Int)
    (hquiet : w.completions = [] ∧ w.fault = none)
    (hfree : ∃ i, i < env.fuel ∧
      w.cbRegistry.registry (rand.Int31 env.rand (w.randPos + i)) = none)
    (hc : indy.toInt32 c ≠ 0)
    (hnative : ∀ calls call, env.native calls call = (c, []))
    (response : String) (h1 : response ≠ "") :
    (ledger.ParseGetCredDefResponse env response w).1
      = .returned ("", "", indyerror.New (indy.toInt32 c)) := by
  obtain ⟨hq1, hq2⟩ := hquiet
  obtain ⟨e, he⟩ := Option.ne_none_iff_exists'.mp (new_ne_none (indy.toInt32 c) hc)
  obtain ⟨h, r', pos', hreg⟩ := register_of_free env.rand
    (ledger.parseGetCredDefResponseCb w.nextChan (w.nextChan + 1)) env.fuel w.cbRegistry w.randPos
    hfree
  simp [ledger.ParseGetCredDefResponse, ledger.parseGetCredDefResponse, make, h1,
    indy.ParseGetCredDefResponse, Register, hreg, indy.native, hnative, hq1, hq2, he,
    indy.nativeThreads, sendNow, World.setChan, select2, recv]

theorem failed_ledger_ParseGetCredDefResponse (env : Env) (w : World) (c : Int) (p : Payload)
    (hquiet : w.completions = [] ∧ w.fault = none)
    (hfree : ∃ i, i < env.fuel ∧
      w.cbRegistry.registry (rand.Int31 env.rand (w.randPos + i)) = none)
    (hc : c ≠ 0)
    (hnative : ∀ calls call, env.native calls call = (0, [call.complete c p]))
    (response : String) (h1 : response ≠ "") :
    (ledger.ParseGetCredDefResponse env response w).1 = .returned ("", "", indyerror.New c) := by
  obtain ⟨hq1, hq2⟩ := hquiet
  obtain ⟨e, he⟩ := Option.ne_none_iff_exists'.mp (new_ne_none c hc)
  obtain ⟨h, r', pos', hreg⟩ := register_of_free env.rand
    (ledger.parseGetCredDefResponseCb w.nextChan (w.nextChan + 1)) env.fuel w.cbRegistry w.randPos
    hfree
  obtain ⟨hfr, rfl⟩ := register_spec _ _ _ _ _ _ _ _ hreg
  have hrange := register_handle_range _ _ _ _ _ _ _ _ hreg
  simp [ledger.ParseGetCredDefResponse, ledger.parseGetCredDefResponse, make, h1,
    indy.ParseGetCredDefResponse, Register, hreg, indy.native, hnative, NativeCall.complete, hrange,
    hq1, hq2, he, new_zero, indy.nativeThreads, indy.invoke, indy.string2_callback, Remove,
    registry.remove, call, exec, ledger.parseGetCredDefResponseCb, send, World.setChan, select2,
    recv]

theorem rejected_pool_Create (env : Env) (w : World) (c : Int)
    (hquiet : w.completions = [] ∧ w.fault = none)
    (hfree : ∃ i, i < env.fuel ∧
      w.cbRegistry.registry (rand.Int31 env.rand (w.randPos + i)) = none)
    (hc : indy.toInt32 c ≠ 0)
    (hnative : ∀ calls call, env.native calls call = (c, []))
    (name configPath : String) (h1 : name ≠ "") (h2 : configPath ≠ "") :
    (pool.Create env name configPath w).1 = .returned (indyerror.New (indy.toInt32 c)) := by
  obtain ⟨hq1, hq2⟩ := hquiet
  obtain ⟨e, he⟩ := Option.ne_none_iff_exists'.mp (new_ne_none (indy.toInt32 c) hc)
  obtain ⟨h, r', pos', hreg⟩ := register_of_free env.rand (callback.New w.nextChan) env.fuel
    w.cbRegistry w.randPos hfree
  simp [pool.Create, pool.create, make, h1, h2, indy.CreatePoolLedgerConfig, Register, hreg,
    indy.native, hnative, hq1, hq2, he, indy.nativeThreads, sendNow, World.setChan, recv]

theorem failed_pool_Create (env : Env) (w : World) (c : Int) (p : Payload)
    (hquiet : w.completions = [] ∧ w.fault = none)
    (hfree : ∃ i, i < env.fuel ∧
      w.cbRegistry.registry (rand.Int31 env.rand (w.randPos + i)) = none)
    (hc : c ≠ 0)
    (hnative : ∀ calls call, env.native calls call = (0, [call.complete c p]))
    (name configPath : String) (h1 : name ≠ "") (h2 : configPath ≠ "") :
    (pool.Create env name configPath w).1 = .returned (indyerror.New c) := by
  obtain ⟨hq1, hq2⟩ := hquiet
  obtain ⟨e, he⟩ := Option.ne_none_iff_exists'.mp (new_ne_none c hc)
  obtain ⟨h, r', pos', hreg⟩ := register_of_free env.rand (callback.New w.nextChan) env.fuel
    w.cbRegistry w.randPos hfree
  obtain ⟨hfr, rfl⟩ := register_spec _ _ _ _ _ _ _ _ hreg
  have hrange := register_handle_range _ _ _ _ _ _ _ _ hreg
  simp [pool.Create, pool.create, make, h1, h2, indy.CreatePoolLedgerConfig, Register, hreg,
    indy.native, hnative, NativeCall.complete, hrange, hq1, hq2, he, new_zero, indy.nativeThreads,
    indy.invoke, indy.def_callback, Remove, registry.remove, call, exec, callback.New, send,
    World.setChan, recv]

theorem rejected_pool_Delete (env : Env) (w : World) (c : Int)
    (hquiet : w.completions = [] ∧ w.fault = none)
    (hfree : ∃ i, i < env.fuel ∧
      w.cbRegistry.registry (rand.Int31 env.rand (w.randPos + i)) = none)
    (hc : indy.toInt32 c ≠ 0)
    (hnative : ∀ calls call, env.native calls call = (c, []))
    (name : String) (h1 : name ≠ "") :
    (pool.Delete env name w).1 = .returned (indyerror.New (indy.toInt32 c)) := by
  obtain ⟨hq1, hq2⟩ := hquiet
  obtain ⟨e, he⟩ := Option.ne_none_iff_exists'.mp (new_ne_none (indy.toInt32 c) hc)
  obtain ⟨h, r', pos', hreg⟩ := register_of_free env.rand (callback.New w.nextChan) env.fuel
    w.cbRegistry w.randPos hfree
  simp [pool.Delete, pool.delete, make, h1, indy.DeletePoolLedgerConfig, Register, hreg,
    indy.native, hnative, hq1, hq2, he, indy.nativeThreads, sendNow, World.setChan, recv]

theorem failed_pool_Delete (env : Env) (w : World) (c : Int) (p : Payload)
    (hquiet : w.completions = [] ∧ w.fault = none)
    (hfree : ∃ i, i < env.fuel ∧
      w.cbRegistry.registry (rand.Int31 env.rand (w.randPos + i)) = none)
    (hc : c ≠ 0)
    (hnative : ∀ calls call, env.native calls call = (0, [call.complete c p]))
    (name : String) (h1 : name ≠ "") :
    (pool.Delete env name w).1 = .returned (indyerror.New c) := by
  obtain ⟨hq1, hq2⟩ := hquiet
  obtain ⟨e, he⟩ := Option.ne_none_iff_exists'.mp (new_ne_none c hc)
  obtain ⟨h, r', pos', hreg⟩ := register_of_free env.rand (callback.New w.nextChan) env.fuel
    w.cbRegistry w.randPos hfree
  obtain ⟨hfr, rfl⟩ := register_spec _ _ _ _ _ _ _ _ hreg
  have hrange := register_handle_range _ _ _ _ _ _ _ _ hreg
  simp [pool.Delete, pool.delete, make, h1, indy.DeletePoolLedgerConfig, Register, hreg,
    indy.native, hnative, NativeCall.complete, hrange, hq1, hq2, he, new_zero, indy.nativeThreads,
    indy.invoke, indy.def_callback, Remove, registry.remove, call, exec, callback.New, send,
    World.setChan, recv]

theorem rejected_pool_Open (env : Env) (w : World) (c : Int)
    (hquiet : w.completions = [] ∧ w.fault = none)
    (hfree : ∃ i, i < env.fuel ∧
      w.cbRegistry.registry (rand.Int31 env.rand (w.randPos + i)) = none)
    (hc : indy.toInt32 c ≠ 0)
    (hnative : ∀ calls call, env.native calls call = (c, []))
    (name config : String) (h1 : name ≠ "") :
    (pool.Open env name config w).1 = .returned (none, indyerror.New (indy.toInt32 c)) := by
  obtain ⟨hq1, hq2⟩ := hquiet
  obtain ⟨e, he⟩ := Option.ne_none_iff_exists'.mp (new_ne_none (indy.toInt32 c) hc)
  obtain ⟨h, r', pos', hreg⟩ := register_of_free env.rand
    (pool.openCb name w.nextChan (w.nextChan + 1)) env.fuel w.cbRegistry w.randPos hfree
  simp [pool.Open, pool.«open», make, h1, indy.OpenPoolLedger, Register, hreg, indy.native, hnative,
    hq1, hq2, he, indy.nativeThreads, sendNow, World.setChan, select2, recv]

theorem failed_pool_Open (env : Env) (w : World) (c : Int) (p : Payload)
    (hquiet : w.completions = [] ∧ w.fault = none)
    (hfree : ∃ i, i < env.fuel ∧
      w.cbRegistry.registry (rand.Int31 env.rand (w.randPos + i)) = none)
    (hc : c ≠ 0)
    (hnative : ∀ calls call, env.native calls call = (0, [call.complete c p]))
    (name config : String) (h1 : name ≠ "") :
    (pool.Open env name config w).1 = .returned (none, indyerror.New c) := by
  obtain ⟨hq1, hq2⟩ := hquiet
  obtain ⟨e, he⟩ := Option.ne_none_iff_exists'.mp (new_ne_none c hc)
  obtain ⟨h, r', pos', hreg⟩ := register_of_free env.rand
    (pool.openCb name w.nextChan (w.nextChan + 1)) env.fuel w.cbRegistry w.randPos hfree
  obtain ⟨hfr, rfl⟩ := register_spec _ _ _ _ _ _ _ _ hreg
  have hrange := register_handle_range _ _ _ _ _ _ _ _ hreg
  simp [pool.Open, pool.«open», make, h1, indy.OpenPoolLedger, Register, hreg, indy.native, hnative,
    NativeCall.complete, hrange, hq1, hq2, he, new_zero, indy.nativeThreads, indy.invoke,
    indy.handle_callback, Remove, registry.remove, call, exec, pool.openCb, send, World.setChan,
    select2, recv]

theorem rejected_pool_List (env : Env) (w : World) (c : Int)
    (hquiet : w.completions = [] ∧ w.fault = none)
    (hfree : ∃ i, i < env.fuel ∧
      w.cbRegistry.registry (rand.Int31 env.rand (w.randPos + i)) = none)
    (hc : indy.toInt32 c ≠ 0)
    (hnative : ∀ calls call, env.native calls call = (c, []))
    (asPools : String → List String × Option GoError) :
    (pool.List env asPools w).1 = .returned ([], indyerror.New (indy.toInt32 c)) := by
  obtain ⟨hq1, hq2⟩ := hquiet
  obtain ⟨e, he⟩ := Option.ne_none_iff_exists'.mp (new_ne_none (indy.toInt32 c) hc)
  obtain ⟨h, r', pos', hreg⟩ := register_of_free env.rand
    (pool.listCb asPools w.nextChan (w.nextChan + 1)) env.fuel w.cbRegistry w.randPos hfree
  simp [pool.List, pool.list, make, indy.ListPools, Register, hreg, indy.native, hnative, hq1, hq2,
    he, indy.nativeThreads, sendNow, World.setChan, select2, recv]

theorem failed_pool_List (env : Env) (w : World) (c : Int) (p : Payload)
    (hquiet : w.completions = [] ∧ w.fault = none)
    (hfree : ∃ i, i < env.fuel ∧
      w.cbRegistry.registry (rand.Int31 env.rand (w.randPos + i)) = none)
    (hc : c ≠ 0)
    (hnative : ∀ calls call, env.native calls call = (0, [call.complete c p]))
    (asPools : String → List String × Option GoError) :
    (pool.List env asPools w).1 = .returned ([], indyerror.New c) := by
  obtain ⟨hq1, hq2⟩ := hquiet
  obtain ⟨e, he⟩ := Option.ne_none_iff_exists'.mp (new_ne_none c hc)
  obtain ⟨h, r', pos', hreg⟩ := register_of_free env.rand
    (pool.listCb asPools w.nextChan (w.nextChan + 1)) env.fuel w.cbRegistry w.randPos hfree
  obtain ⟨hfr, rfl⟩ := register_spec _ _ _ _ _ _ _ _ hreg
  have hrange := register_handle_range _ _ _ _ _ _ _ _ hreg
  simp [pool.List, pool.list, make, indy.ListPools, Register, hreg, indy.native, hnative,
    NativeCall.complete, hrange, hq1, hq2, he, new_zero, indy.nativeThreads, indy.invoke,
    indy.string_callback, Remove, registry.remove, call, exec, pool.listCb, send, World.setChan,
    select2, recv]

theorem rejected_pool_Refresh (env : Env) (w : World) (c : Int)
    (hquiet : w.completions = [] ∧ w.fault = none)
    (hfree : ∃ i, i < env.fuel ∧
      w.cbRegistry.registry (rand.Int31 env.rand (w.randPos + i)) = none)
    (hc : indy.toInt32 c ≠ 0)
    (hnative : ∀ calls call, env.native calls call = (c, []))
    (pl : pool.Pool) :
    (pool.Pool.Refresh env pl w).1 = .returned (indyerror.New (indy.toInt32 c)) := by
  obtain ⟨hq1, hq2⟩ := hquiet
  obtain ⟨e, he⟩ := Option.ne_none_iff_exists'.mp (new_ne_none (indy.toInt32 c) hc)
  obtain ⟨h, r', pos', hreg⟩ := register_of_free env.rand (callback.New w.nextChan) env.fuel
    w.cbRegistry w.randPos hfree
  simp [pool.Pool.Refresh, pool.Pool.refresh, make, indy.RefreshPoolLedger, Register, hreg,
    indy.native, hnative, hq1, hq2, he, indy.nativeThreads, sendNow, World.setChan, recv]

theorem failed_pool_Refresh (env : Env) (w : World) (c : Int) (p : Payload)
    (hquiet : w.completions = [] ∧ w.fault = none)
    (hfree : ∃ i, i < env.fuel ∧
      w.cbRegistry.registry (rand.Int31 env.rand (w.randPos + i)) = none)
    (hc : c ≠ 0)
    (hnative : ∀ calls call, env.native calls call = (0, [call.complete c p]))
    (pl : pool.Pool) :
    (pool.Pool.Refresh env pl w).1 = .returned (indyerror.New c) := by
  obtain ⟨hq1, hq2⟩ := hquiet
  obtain ⟨e, he⟩ := Option.ne_none_iff_exists'.mp (new_ne_none c hc)
  obtain ⟨h, r', pos', hreg⟩ := register_of_free env.rand (callback.New w.nextChan) env.fuel
    w.cbRegistry w.randPos hfree
  obtain ⟨hfr, rfl⟩ := register_spec _ _ _ _ _ _ _ _ hreg
  have hrange := register_handle_range _ _ _ _ _ _ _ _ hreg
  simp [pool.Pool.Refresh, pool.Pool.refresh, make, indy.RefreshPoolLedger, Register, hreg,
    indy.native, hnative, NativeCall.complete, hrange, hq1, hq2, he, new_zero, indy.nativeThreads,
    indy.invoke, indy.def_callback, Remove, registry.remove, call, exec, callback.New, send,
    World.setChan, recv]

theorem rejected_pool_Close (env : Env) (w : World) (c : Int)
    (hquiet : w.completions = [] ∧ w.fault = none)
    (hfree : ∃ i, i < env.fuel ∧
      w.cbRegistry.registry (rand.Int31 env.rand (w.randPos + i)) = none)
    (hc : indy.toInt32 c ≠ 0)
    (hnative : ∀ calls call, env.native calls call = (c, []))
    (pl : pool.Pool) :
    (pool.Pool.Close env pl w).1 = .returned (indyerror.New (indy.toInt32 c)) := by
  obtain ⟨hq1, hq2⟩ := hquiet
  obtain ⟨e, he⟩ := Option.ne_none_iff_exists'.mp (new_ne_none (indy.toInt32 c) hc)
  obtain ⟨h, r', pos', hreg⟩ := register_of_free env.rand (callback.New w.nextChan) env.fuel
    w.cbRegistry w.randPos hfree
  simp [pool.Pool.Close, pool.Pool.close, make, indy.ClosePoolLedger, Register, hreg, indy.native,
    hnative, hq1, hq2, he, indy.nativeThreads, sendNow, World.setChan, recv]

theorem failed_pool_Close (env : Env) (w : World) (c : Int) (p : Payload)
    (hquiet : w.completions = [] ∧ w.fault = none)
    (hfree : ∃ i, i < env.fuel ∧
      w.cbRegistry.registry (rand.Int31 env.rand (w.randPos + i)) = none)
    (hc : c ≠ 0)
    (hnative : ∀ calls call, env.native calls call = (0, [call.complete c p]))
    (pl : pool.Pool) :
    (pool.Pool.Close env pl w).1 = .returned (indyerror.New c) := by
  obtain ⟨hq1, hq2⟩ := hquiet
  obtain ⟨e, he⟩ := Option.ne_none_iff_exists'.mp (new_ne_none c hc)
  obtain ⟨h, r', pos', hreg⟩ := register_of_free env.rand (callback.New w.nextChan) env.fuel
    w.cbRegistry w.randPos hfree
  obtain ⟨hfr, rfl⟩ := register_spec _ _ _ _ _ _ _ _ hreg
  have hrange := register_handle_range _ _ _ _ _ _ _ _ hreg
  simp [pool.Pool.Close, pool.Pool.close, make, indy.ClosePoolLedger, Register, hreg, indy.native,
    hnative, NativeCall.complete, hrange, hq1, hq2, he, new_zero, indy.nativeThreads, indy.invoke,
    indy.def_callback, Remove, registry.remove, call, exec, callback.New, send, World.setChan, recv]

theorem rejected_wallet_Close (env : Env) (w : World) (c : Int)
    (hquiet : w.completions = [] ∧ w.fault = none)
    (hfree : ∃ i, i < env.fuel ∧
      w.cbRegistry.registry (rand.Int31 env.rand (w.randPos + i)) = none)
    (hc : indy.toInt32 c ≠ 0)
    (hnative : ∀ calls call, env.native calls call = (c, []))
    (wl : wallet.Wallet) :
    (wallet.Wallet.Close env wl w).1 = .returned (indyerror.New (indy.toInt32 c)) := by
  obtain ⟨hq1, hq2⟩ := hquiet
  obtain ⟨e, he⟩ := Option.ne_none_iff_exists'.mp (new_ne_none (indy.toInt32 c) hc)
  obtain ⟨h, r', pos', hreg⟩ := register_of_free env.rand (callback.New w.nextChan) env.fuel
    w.cbRegistry w.randPos hfree
  simp [wallet.Wallet.Close, wallet.Wallet.close, make, indy.CloseWallet, Register, hreg,
    indy.native, hnative, hq1, hq2, he, indy.nativeThreads, sendNow, World.setChan, recv]

theorem failed_wallet_Close (env : Env) (w : World) (c : Int) (p : Payload)
    (hquiet : w.completions = [] ∧ w.fault = none)
    (hfree : ∃ i, i < env.fuel ∧
      w.cbRegistry.registry (rand.Int31 env.rand (w.randPos + i)) = none)
    (hc : c ≠ 0)
    (hnative : ∀ calls call, env.native calls call = (0, [call.complete c p]))
    (wl : wallet.Wallet) :
    (wallet.Wallet.Close env wl w).1 = .returned (indyerror.New c) := by
  obtain ⟨hq1, hq2⟩ := hquiet
  obtain ⟨e, he⟩ := Option.ne_none_iff_exists'.mp (new_ne_none c hc)
  obtain ⟨h, r', pos', hreg⟩ := register_of_free env.rand (callback.New w.nextChan) env.fuel
    w.cbRegistry w.randPos hfree
  obtain ⟨hfr, rfl⟩ := register_spec _ _ _ _ _ _ _ _ hreg
  have hrange := register_handle_range _ _ _ _ _ _ _ _ hreg
  simp [wallet.Wallet.Close, wallet.Wallet.close, make, indy.CloseWallet, Register, hreg,
    indy.native, hnative, NativeCall.complete, hrange, hq1, hq2, he, new_zero, indy.nativeThreads,
    indy.invoke, indy.def_callback, Remove, registry.remove, call, exec, callback.New, send,
    World.setChan, recv]

theorem rejected_wallet_Create (env : Env) (w : World) (c : Int)
    (hquiet : w.completions = [] ∧ w.fault = none)
    (hfree : ∃ i, i < env.fuel ∧
      w.cbRegistry.registry (rand.Int31 env.rand (w.randPos + i)) = none)
    (hc : indy.toInt32 c ≠ 0)
    (hnative : ∀ calls call, env.native calls call = (c, []))
    (poolName name walletType config credentials : String) (h1 : poolName ≠ "") (h2 : name ≠ "") :
    (wallet.Create env poolName name walletType config credentials w).1
      = .returned (indyerror.New (indy.toInt32 c)) := by
  obtain ⟨hq1, hq2⟩ := hquiet
  obtain ⟨e, he⟩ := Option.ne_none_iff_exists'.mp (new_ne_none (indy.toInt32 c) hc)
  obtain ⟨h, r', pos', hreg⟩ := register_of_free env.rand (callback.New w.nextChan) env.fuel
    w.cbRegistry w.randPos hfree
  simp [wallet.Create, wallet.create, make, h1, h2, indy.CreateWallet, Register, hreg, indy.native,
    hnative, hq1, hq2, he, indy.nativeThreads, sendNow, World.setChan, recv]

theorem failed_wallet_Create (env : Env) (w : World) (c : Int) (p : Payload)
    (hquiet : w.completions = [] ∧ w.fault = none)
    (hfree : ∃ i, i < env.fuel ∧
      w.cbRegistry.registry (rand.Int31 env.rand (w.randPos + i)) = none)
    (hc : c ≠ 0)
    (hnative : ∀ calls call, env.native calls call = (0, [call.complete c p]))
    (poolName name walletType config credentials : String) (h1 : poolName ≠ "") (h2 : name ≠ "") :
    (wallet.Create env poolName name walletType config credentials w).1
      = .returned (indyerror.New c) := by
  obtain ⟨hq1, hq2⟩ := hquiet
  obtain ⟨e, he⟩ := Option.ne_none_iff_exists'.mp (new_ne_none c hc)
  obtain ⟨h, r', pos', hreg⟩ := register_of_free env.rand (callback.New w.nextChan) env.fuel
    w.cbRegistry w.randPos hfree
  obtain ⟨hfr, rfl⟩ := register_spec _ _ _ _ _ _ _ _ hreg
  have hrange := register_handle_range _ _ _ _ _ _ _ _ hreg
  simp [wallet.Create, wallet.create, make, h1, h2, indy.CreateWallet, Register, hreg, indy.native,
    hnative, NativeCall.complete, hrange, hq1, hq2, he, new_zero, indy.nativeThreads, indy.invoke,
    indy.def_callback, Remove, registry.remove, call, exec, callback.New, send, World.setChan, recv]

theorem rejected_wallet_Delete (env : Env) (w : World) (c : Int)
    (hquiet : w.completions = [] ∧ w.fault = none)
    (hfree : ∃ i, i < env.fuel ∧
      w.cbRegistry.registry (rand.Int31 env.rand (w.randPos + i)) = none)
    (hc : indy.toInt32 c ≠ 0)
    (hnative : ∀ calls call, env.native calls call = (c, []))
    (name credentials : String) (h1 : name ≠ "") :
    (wallet.Delete env name credentials w).1 = .returned (indyerror.New (indy.toInt32 c)) := by
  obtain ⟨hq1, hq2⟩ := hquiet
  obtain ⟨e, he⟩ := Option.ne_none_iff_exists'.mp (new_ne_none (indy.toInt32 c) hc)
  obtain ⟨h, r', pos', hreg⟩ := register_of_free env.rand (callback.New w.nextChan) env.fuel
    w.cbRegistry w.randPos hfree
  simp [wallet.Delete, wallet.delete, make, h1, indy.DeleteWallet, Register, hreg, indy.native,
    hnative, hq1, hq2, he, indy.nativeThreads, sendNow, World.setChan, recv]

theorem failed_wallet_Delete (env : Env) (w : World) (c : Int) (p : Payload)
    (hquiet : w.completions = [] ∧ w.fault = none)
    (hfree : ∃ i, i < env.fuel ∧
      w.cbRegistry.registry (rand.Int31 env.rand (w.randPos + i)) = none)
    (hc : c ≠ 0)
    (hnative : ∀ calls call, env.native calls call = (0, [call.complete c p]))
    (name credentials : String) (h1 : name ≠ "") :
    (wallet.Delete env name credentials w).1 = .returned (indyerror.New c) := by
  obtain ⟨hq1, hq2⟩ := hquiet
  obtain ⟨e, he⟩ := Option.ne_none_iff_exists'.mp (new_ne_none c hc)
  obtain ⟨h, r', pos', hreg⟩ := register_of_free env.rand (callback.New w.nextChan) env.fuel
    w.cbRegistry w.randPos hfree
  obtain ⟨hfr, rfl⟩ := register_spec _ _ _ _ _ _ _ _ hreg
  have hrange := register_handle_range _ _ _ _ _ _ _ _ hreg
  simp [wallet.Delete, wallet.delete, make, h1, indy.DeleteWallet, Register, hreg, indy.native,
    hnative, NativeCall.complete, hrange, hq1, hq2, he, new_zero, indy.nativeThreads, indy.invoke,
    indy.def_callback, Remove, registry.remove, call, exec, callback.New, send, World.setChan, recv]

theorem rejected_wallet_Open (env : Env) (w : World) (c : Int)
    (hquiet : w.completions = [] ∧ w.fault = none)
    (hfree : ∃ i, i < env.fuel ∧
      w.cbRegistry.registry (rand.Int31 env.rand (w.randPos + i)) = none)
    (hc : indy.toInt32 c ≠ 0)
    (hnative : ∀ calls call, env.native calls call = (c, []))
    (name config credentials : String) (h1 : name ≠ "") :
    (wallet.Open env name config credentials w).1
      = .returned (none, indyerror.New (indy.toInt32 c)) := by
  obtain ⟨hq1, hq2⟩ := hquiet
  obtain ⟨e, he⟩ := Option.ne_none_iff_exists'.mp (new_ne_none (indy.toInt32 c) hc)
  obtain ⟨h, r', pos', hreg⟩ := register_of_free env.rand
    (wallet.openCb name (w.nextChan + 1) w.nextChan) env.fuel w.cbRegistry w.randPos hfree
  simp [wallet.Open, wallet.«open», make, h1, indy.OpenWallet, Register, hreg, indy.native, hnative,
    hq1, hq2, he, indy.nativeThreads, sendNow, World.setChan, select2, recv]

theorem failed_wallet_Open (env : Env) (w : World) (c : Int) (p : Payload)
    (hquiet : w.completions = [] ∧ w.fault = none)
    (hfree : ∃ i, i < env.fuel ∧
      w.cbRegistry.registry (rand.Int31 env.rand (w.randPos + i)) = none)
    (hc : c ≠ 0)
    (hnative : ∀ calls call, env.native calls call = (0, [call.complete c p]))
    (name config credentials : String) (h1 : name ≠ "") :
    (wallet.Open env name config credentials w).1 = .returned (none, indyerror.New c) := by
  obtain ⟨hq1, hq2⟩ := hquiet
  obtain ⟨e, he⟩ := Option.ne_none_iff_exists'.mp (new_ne_none c hc)
  obtain ⟨h, r', pos', hreg⟩ := register_of_free env.rand
    (wallet.openCb name (w.nextChan + 1) w.nextChan) env.fuel w.cbRegistry w.randPos hfree
  obtain ⟨hfr, rfl⟩ := register_spec _ _ _ _ _ _ _ _ hreg
  have hrange := register_handle_range _ _ _ _ _ _ _ _ hreg
  simp [wallet.Open, wallet.«open», make, h1, indy.OpenWallet, Register, hreg, indy.native, hnative,
    NativeCall.complete, hrange, hq1, hq2, he, new_zero, indy.nativeThreads, indy.invoke,
    indy.handle_callback, Remove, registry.remove, call, exec, wallet.openCb, send, World.setChan,
    select2, recv]

/-- C5, as stated, fails.  The native library rejects the schema-creation call
at once with the status 4294967295 and calls nothing back: the adapter
converts the status with `int32(errCode)`, so the error that the facade
returns is `indyerror.New(-1)`, which is non-nil and has the code -1, not
4294967295.  And when the library accepts `crypto.AnonCrypt` and completes it
through the bytes entry with status 113 and a length of -1, `C.GoBytes` faults
before the continuation is called and the facade returns nothing, while the
immediate status 113 makes it return the error of code 113. -/
theorem wide_status_wraps :
    (anoncreds.IssuerCreateSchema wrappingEnv "VsKV7grR1BUE29mG2Fm2kZ" "schema1" "1.0"
        "[\"name\", \"age\", \"sex\", \"height\"]" emptyWorld).1
      = .returned ("", "", indyerror.New (-1)) ∧
    indyerror.New (-1) ≠ none ∧
    indyerror.Code (indyerror.New (-1)) = -1 ∧
    indyerror.Code (indyerror.New (-1)) ≠ 4294967295 ∧
    (crypto.AnonCrypt rejectingEnv "GJ1SzoWzavQYfNL9XkaJdrQejfztN4XqdsiV4ct3LXKL" [1, 2]
        emptyWorld).1 = .returned ([], indyerror.New 113) ∧
    (crypto.AnonCrypt (failingEnv 113 { examplePayload with blength := -1 })
        "GJ1SzoWzavQYfNL9XkaJdrQejfztN4XqdsiV4ct3LXKL" [1, 2] emptyWorld).1 = .crashed := by
  decide

/-- C5, amended (immediate rejection delivers an error, not a hang).  Let the
native library answer every call with the immediate status `c` and call
nothing back, where `int32(c)`, the value that the adapters hand to
`indyerror.New`, is not zero.  Then each of the 35 facade operations, called
with arguments that pass its local validation, returns to its caller no result
and the error `indyerror.New(int32(c))`, which is non-nil and has the code
`int32(c)`; that is `c` itself when `c` fits in 32 signed bits, and a
non-zero status of 32 bits, signed or unsigned, has `int32(c)` non-zero.  It is the
value that the facade also returns when the library (`env'`) accepts the call
and completes it, through the entry point that the adapter passed, with the
status `int32(c)` and a byte buffer that `C.GoBytes` can copy. -/
theorem immediate_rejection_returns_error (env env' : Env) (w : World) (c : Int)
    (p : Payload)
    (hquiet : w.completions = [] ∧ w.fault = none)
    (hfree : ∃ i, i < env.fuel ∧
      w.cbRegistry.registry (rand.Int31 env.rand (w.randPos + i)) = none)
    (hc : indy.toInt32 c ≠ 0)
    (hnative : ∀ calls call, env.native calls call = (c, []))
    (hrand : env'.rand = env.rand) (hfuel : env'.fuel = env.fuel)
    (hbytes : indy.GoBytes p.b p.blength ≠ none)
    (hnative' : ∀ calls call,
      env'.native calls call = (0, [call.complete (indy.toInt32 c) p])) :
    ((∀ s : Int, -2147483648 ≤ s → s < 4294967296 → s ≠ 0 → indy.toInt32 s ≠ 0) ∧
      indyerror.New (indy.toInt32 c) ≠ none ∧
      indyerror.Code (indyerror.New (indy.toInt32 c)) = indy.toInt32 c ∧
      (-2147483648 ≤ c → c ≤ 2147483647 → indy.toInt32 c = c)) ∧
    (∀ (issuerDID name version attrs : String),
      issuerDID ≠ "" → name ≠ "" → version ≠ "" → attrs ≠ "" →
      (anoncreds.IssuerCreateSchema env issuerDID name version attrs w).1
        = .returned ("", "", indyerror.New (indy.toInt32 c)) ∧
      (anoncreds.IssuerCreateSchema env' issuerDID name version attrs w).1
        = .returned ("", "", indyerror.New (indy.toInt32 c))) ∧
    (∀ (wl : wallet.Wallet) (issuerDID schemaJSON tag signatureType configJSON : String),
      issuerDID ≠ "" → schemaJSON ≠ "" → tag ≠ "" → configJSON ≠ "" →
      (anoncreds.IssuerCreateAndStoreCredentialDef env wl issuerDID schemaJSON tag signatureType
          configJSON w).1 = .returned ("", "", indyerror.New (indy.toInt32 c)) ∧
      (anoncreds.IssuerCreateAndStoreCredentialDef env' wl issuerDID schemaJSON tag signatureType
          configJSON w).1 = .returned ("", "", indyerror.New (indy.toInt32 c))) ∧
    (∀ (wl : wallet.Wallet) (credDefID : String), credDefID ≠ "" →
      (anoncreds.IssuerCreateCredentialOffer env wl credDefID w).1
        = .returned ("", indyerror.New (indy.toInt32 c)) ∧
      (anoncreds.IssuerCreateCredentialOffer env' wl credDefID w).1
        = .returned ("", indyerror.New (indy.toInt32 c))) ∧
    (∀ (wl : wallet.Wallet) (credOfferJSON credReqJSON credValuesJSON revRegID : String)
      (blobStorageReaderHandle : Handle),
      credOfferJSON ≠ "" → credReqJSON ≠ "" → credValuesJSON ≠ "" →
      (anoncreds.IssuerCreateCredential env wl credOfferJSON credReqJSON credValuesJSON revRegID
          blobStorageReaderHandle w).1 = .returned ("", "", "", indyerror.New (indy.toInt32 c)) ∧
      (anoncreds.IssuerCreateCredential env' wl credOfferJSON credReqJSON credValuesJSON revRegID
          blobStorageReaderHandle w).1 = .returned ("", "", "", indyerror.New (indy.toInt32 c))) ∧
    (∀ (wl : wallet.Wallet) (secretID : String),
      (anoncreds.ProverCreateMasterSecret env wl secretID w).1
        = .returned ("", indyerror.New (indy.toInt32 c)) ∧
      (anoncreds.ProverCreateMasterSecret env' wl secretID w).1
        = .returned ("", indyerror.New (indy.toInt32 c))) ∧
    (∀ (wl : wallet.Wallet)
      (proverDID credentialOfferJSON credentialDefJSON masterSecretID : String),
      proverDID ≠ "" → credentialOfferJSON ≠ "" → credentialDefJSON ≠ "" → masterSecretID ≠ "" →
      (anoncreds.ProverCreateCredentialReq env wl proverDID credentialOfferJSON credentialDefJSON
          masterSecretID w).1 = .returned ("", "", indyerror.New (indy.toInt32 c)) ∧
      (anoncreds.ProverCreateCredentialReq env' wl proverDID credentialOfferJSON credentialDefJSON
          masterSecretID w).1 = .returned ("", "", indyerror.New (indy.toInt32 c))) ∧
    (∀ (wl : wallet.Wallet)
      (credID credReqMetadataJSON credJSON credDefJSON revRegDefJSON : String),
      credReqMetadataJSON ≠ "" → credJSON ≠ "" → credDefJSON ≠ "" →
      (anoncreds.ProverStoreCredential env wl credID credReqMetadataJSON credJSON credDefJSON
          revRegDefJSON w).1 = .returned ("", indyerror.New (indy.toInt32 c)) ∧
      (anoncreds.ProverStoreCredential env' wl credID credReqMetadataJSON credJSON credDefJSON
          revRegDefJSON w).1 = .returned ("", indyerror.New (indy.toInt32 c))) ∧
    (∀ (wl : wallet.Wallet) (proofRequest : String), proofRequest ≠ "" →
      (anoncreds.ProverGetCredentialsForProofReq env wl proofRequest w).1
        = .returned ("", indyerror.New (indy.toInt32 c)) ∧
      (anoncreds.ProverGetCredentialsForProofReq env' wl proofRequest w).1
        = .returned ("", indyerror.New (indy.toInt32 c))) ∧
    (∀ (wl : wallet.Wallet)
      (proofRequest requestedCredentials masterSecret schemas credentialDefs revStates : String),
      proofRequest ≠ "" → requestedCredentials ≠ "" → masterSecret ≠ "" → schemas ≠ "" →
      credentialDefs ≠ "" → revStates ≠ "" →
      (anoncreds.ProverCreateProof env wl proofRequest requestedCredentials masterSecret schemas
          credentialDefs revStates w).1 = .returned ("", indyerror.New (indy.toInt32 c)) ∧
      (anoncreds.ProverCreateProof env' wl proofRequest requestedCredentials masterSecret schemas
          credentialDefs revStates w).1 = .returned ("", indyerror.New (indy.toInt32 c))) ∧
    (∀ (proofRequest proof schemas credentialDefs revocRegDefs revocRegs : String),
      proofRequest ≠ "" → proof ≠ "" → schemas ≠ "" → credentialDefs ≠ "" → revocRegDefs ≠ "" →
      revocRegs ≠ "" →
      (anoncreds.VerifierVerifyProof env proofRequest proof schemas credentialDefs revocRegDefs
          revocRegs w).1 = .returned (false, indyerror.New (indy.toInt32 c)) ∧
      (anoncreds.VerifierVerifyProof env' proofRequest proof schemas credentialDefs revocRegDefs
          revocRegs w).1 = .returned (false, indyerror.New (indy.toInt32 c))) ∧
    (∀ (recipientVK : String) (message : List (Fin 256)), recipientVK ≠ "" →
      (crypto.AnonCrypt env recipientVK message w).1
        = .returned ([], indyerror.New (indy.toInt32 c)) ∧
      (crypto.AnonCrypt env' recipientVK message w).1
        = .returned ([], indyerror.New (indy.toInt32 c))) ∧
    (∀ (wl : wallet.Wallet) (recipientVK : String) (encryptedMsg : List (Fin 256)),
      recipientVK ≠ "" → encryptedMsg ≠ [] →
      (crypto.AnonDecrypt env wl recipientVK encryptedMsg w).1
        = .returned ([], indyerror.New (indy.toInt32 c)) ∧
      (crypto.AnonDecrypt env' wl recipientVK encryptedMsg w).1
        = .returned ([], indyerror.New (indy.toInt32 c))) ∧
    (∀ (wl : wallet.Wallet) (senderVK recipientVK : String) (message : List (Fin 256)),
      senderVK ≠ "" → recipientVK ≠ "" →
      (crypto.AuthCrypt env wl senderVK recipientVK message w).1
        = .returned ([], indyerror.New (indy.toInt32 c)) ∧
      (crypto.AuthCrypt env' wl senderVK recipientVK message w).1
        = .returned ([], indyerror.New (indy.toInt32 c))) ∧
    (∀ (wl : wallet.Wallet) (recipientVK : String) (message : List (Fin 256)), recipientVK ≠ "" →
      (crypto.AuthDecrypt env wl recipientVK message w).1
        = .returned ("", [], indyerror.New (indy.toInt32 c)) ∧
      (crypto.AuthDecrypt env' wl recipientVK message w).1
        = .returned ("", [], indyerror.New (indy.toInt32 c))) ∧
    (∀ (wl : wallet.Wallet) (didJSON : String), didJSON ≠ "" →
      (did.CreateAndStoreMyDID env wl didJSON w).1
        = .returned (none, indyerror.New (indy.toInt32 c)) ∧
      (did.CreateAndStoreMyDID env' wl didJSON w).1
        = .returned (none, indyerror.New (indy.toInt32 c))) ∧
    (∀ (pl : pool.Pool) (wl : wallet.Wallet) (d : String), d ≠ "" →
      (did.KeyForDID env pl wl d w).1 = .returned ("", indyerror.New (indy.toInt32 c)) ∧
      (did.KeyForDID env' pl wl d w).1 = .returned ("", indyerror.New (indy.toInt32 c))) ∧
    (∀ (submitterDID targetDID verkey : String) (nymAlias : Option types.Alias)
      (r : Option role.Role), submitterDID ≠ "" → targetDID ≠ "" →
      (ledger.BuildNYMRequest env submitterDID targetDID verkey nymAlias r w).1
        = .returned ("", indyerror.New (indy.toInt32 c)) ∧
      (ledger.BuildNYMRequest env' submitterDID targetDID verkey nymAlias r w).1
        = .returned ("", indyerror.New (indy.toInt32 c))) ∧
    (∀ (pl : pool.Pool) (wl : wallet.Wallet) (submitterDID requestJSON : String),
      submitterDID ≠ "" → requestJSON ≠ "" →
      (ledger.SignAndSubmitRequest env pl wl submitterDID requestJSON w).1
        = .returned ("", indyerror.New (indy.toInt32 c)) ∧
      (ledger.SignAndSubmitRequest env' pl wl submitterDID requestJSON w).1
        = .returned ("", indyerror.New (indy.toInt32 c))) ∧
    (∀ (pl : pool.Pool) (requestJSON : String), requestJSON ≠ "" →
      (ledger.SubmitRequest env pl requestJSON w).1
        = .returned ("", indyerror.New (indy.toInt32 c)) ∧
      (ledger.SubmitRequest env' pl requestJSON w).1
        = .returned ("", indyerror.New (indy.toInt32 c))) ∧
    (∀ (submitterDID data : String), submitterDID ≠ "" → data ≠ "" →
      (ledger.BuildSchemaRequest env submitterDID data w).1
        = .returned ("", indyerror.New (indy.toInt32 c)) ∧
      (ledger.BuildSchemaRequest env' submitterDID data w).1
        = .returned ("", indyerror.New (indy.toInt32 c))) ∧
    (∀ (submitterDID id : String), submitterDID ≠ "" → id ≠ "" →
      (ledger.BuildGetSchemaRequest env submitterDID id w).1
        = .returned ("", indyerror.New (indy.toInt32 c)) ∧
      (ledger.BuildGetSchemaRequest env' submitterDID id w).1
        = .returned ("", indyerror.New (indy.toInt32 c))) ∧
    (∀ (response : String), response ≠ "" →
      (ledger.ParseGetSchemaResponse env response w).1
        = .returned ("", "", indyerror.New (indy.toInt32 c)) ∧
      (ledger.ParseGetSchemaResponse env' response w).1
        = .returned ("", "", indyerror.New (indy.toInt32 c))) ∧
    (∀ (submitterDID data : String), submitterDID ≠ "" → data ≠ "" →
      (ledger.BuildCredDefRequest env submitterDID data w).1
        = .returned ("", indyerror.New (indy.toInt32 c)) ∧
      (ledger.BuildCredDefRequest env' submitterDID data w).1
        = .returned ("", indyerror.New (indy.toInt32 c))) ∧
    (∀ (submitterDID id : String), submitterDID ≠ "" → id ≠ "" →
      (ledger.BuildGetCredDefRequest env submitterDID id w).1
        = .returned ("", indyerror.New (indy.toInt32 c)) ∧
      (ledger.BuildGetCredDefRequest env' submitterDID id w).1
        = .returned ("", indyerror.New (indy.toInt32 c))) ∧
    (∀ (response : String), response ≠ "" →
      (ledger.ParseGetCredDefResponse env response w).1
        = .returned ("", "", indyerror.New (indy.toInt32 c)) ∧
      (ledger.ParseGetCredDefResponse env' response w).1
        = .returned ("", "", indyerror.New (indy.toInt32 c))) ∧
    (∀ (name configPath : String), name ≠ "" → configPath ≠ "" →
      (pool.Create env name configPath w).1 = .returned (indyerror.New (indy.toInt32 c)) ∧
      (pool.Create env' name configPath w).1 = .returned (indyerror.New (indy.toInt32 c))) ∧
    (∀ (name : String), name ≠ "" →
      (pool.Delete env name w).1 = .returned (indyerror.New (indy.toInt32 c)) ∧
      (pool.Delete env' name w).1 = .returned (indyerror.New (indy.toInt32 c))) ∧
    (∀ (name config : String), name ≠ "" →
      (pool.Open env name config w).1 = .returned (none, indyerror.New (indy.toInt32 c)) ∧
      (pool.Open env' name config w).1 = .returned (none, indyerror.New (indy.toInt32 c))) ∧
    (∀ (asPools : String → List String × Option GoError),
      (pool.List env asPools w).1 = .returned ([], indyerror.New (indy.toInt32 c)) ∧
      (pool.List env' asPools w).1 = .returned ([], indyerror.New (indy.toInt32 c))) ∧
    (∀ (pl : pool.Pool),
      (pool.Pool.Refresh env pl w).1 = .returned (indyerror.New (indy.toInt32 c)) ∧
      (pool.Pool.Refresh env' pl w).1 = .returned (indyerror.New (indy.toInt32 c))) ∧
    (∀ (pl : pool.Pool),
      (pool.Pool.Close env pl w).1 = .returned (indyerror.New (indy.toInt32 c)) ∧
      (pool.Pool.Close env' pl w).1 = .returned (indyerror.New (indy.toInt32 c))) ∧
    (∀ (wl : wallet.Wallet),
      (wallet.Wallet.Close env wl w).1 = .returned (indyerror.New (indy.toInt32 c)) ∧
      (wallet.Wallet.Close env' wl w).1 = .returned (indyerror.New (indy.toInt32 c))) ∧
    (∀ (poolName name walletType config credentials : String), poolName ≠ "" → name ≠ "" →
      (wallet.Create env poolName name walletType config credentials w).1
        = .returned (indyerror.New (indy.toInt32 c)) ∧
      (wallet.Create env' poolName name walletType config credentials w).1
        = .returned (indyerror.New (indy.toInt32 c))) ∧
    (∀ (name credentials : String), name ≠ "" →
      (wallet.Delete env name credentials w).1 = .returned (indyerror.New (indy.toInt32 c)) ∧
      (wallet.Delete env' name credentials w).1 = .returned (indyerror.New (indy.toInt32 c))) ∧
    (∀ (name config credentials : String), name ≠ "" →
      (wallet.Open env name config credentials w).1
        = .returned (none, indyerror.New (indy.toInt32 c)) ∧
      (wallet.Open env' name config credentials w).1
        = .returned (none, indyerror.New (indy.toInt32 c))) := by
  have hfree' : ∃ i, i < env'.fuel ∧
      w.cbRegistry.registry (rand.Int31 env'.rand (w.randPos + i)) = none := by
    rw [hrand, hfuel]; exact hfree
  refine ⟨⟨fun s h0 h1 hs => toInt32_ne_zero s h0 h1 hs, new_ne_none _ hc, code_new _ hc,
      fun h0 h1 => toInt32_of_range c h0 h1⟩,
    fun issuerDID name version attrs h1 h2 h3 h4 => ⟨rejected_anoncreds_IssuerCreateSchema env w c
        hquiet hfree hc hnative issuerDID name version attrs h1 h2 h3 h4,
      failed_anoncreds_IssuerCreateSchema env' w (indy.toInt32 c) p hquiet hfree' hc hnative'
        issuerDID name version attrs h1 h2 h3 h4⟩,
    fun wl issuerDID schemaJSON tag signatureType configJSON h1 h2 h3 h4 => ⟨
        rejected_anoncreds_IssuerCreateAndStoreCredentialDef env w c hquiet hfree hc hnative wl
        issuerDID schemaJSON tag signatureType configJSON h1 h2 h3 h4,
      failed_anoncreds_IssuerCreateAndStoreCredentialDef env' w (indy.toInt32 c) p hquiet hfree' hc
        hnative' wl issuerDID schemaJSON tag signatureType configJSON h1 h2 h3 h4⟩,
    fun wl credDefID h1 => ⟨rejected_anoncreds_IssuerCreateCredentialOffer env w c hquiet hfree hc
        hnative wl credDefID h1,
      failed_anoncreds_IssuerCreateCredentialOffer env' w (indy.toInt32 c) p hquiet hfree' hc
        hnative' wl credDefID h1⟩,
    fun wl credOfferJSON credReqJSON credValuesJSON revRegID blobStorageReaderHandle h1 h2 h3 => ⟨
        rejected_anoncreds_IssuerCreateCredential env w c hquiet hfree hc hnative wl credOfferJSON
        credReqJSON credValuesJSON revRegID blobStorageReaderHandle h1 h2 h3,
      failed_anoncreds_IssuerCreateCredential env' w (indy.toInt32 c) p hquiet hfree' hc hnative' wl
        credOfferJSON credReqJSON credValuesJSON revRegID blobStorageReaderHandle h1 h2 h3⟩,
    fun wl secretID => ⟨rejected_anoncreds_ProverCreateMasterSecret env w c hquiet hfree hc hnative
        wl secretID,
      failed_anoncreds_ProverCreateMasterSecret env' w (indy.toInt32 c) p hquiet hfree' hc hnative'
        wl secretID⟩,
    fun wl proverDID credentialOfferJSON credentialDefJSON masterSecretID h1 h2 h3 h4 => ⟨
        rejected_anoncreds_ProverCreateCredentialReq env w c hquiet hfree hc hnative wl proverDID
        credentialOfferJSON credentialDefJSON masterSecretID h1 h2 h3 h4,
      failed_anoncreds_ProverCreateCredentialReq env' w (indy.toInt32 c) p hquiet hfree' hc hnative'
        wl proverDID credentialOfferJSON credentialDefJSON masterSecretID h1 h2 h3 h4⟩,
    fun wl credID credReqMetadataJSON credJSON credDefJSON revRegDefJSON h1 h2 h3 => ⟨
        rejected_anoncreds_ProverStoreCredential env w c hquiet hfree hc hnative wl credID
        credReqMetadataJSON credJSON credDefJSON revRegDefJSON h1 h2 h3,
      failed_anoncreds_ProverStoreCredential env' w (indy.toInt32 c) p hquiet hfree' hc hnative' wl
        credID credReqMetadataJSON credJSON credDefJSON revRegDefJSON h1 h2 h3⟩,
    fun wl proofRequest h1 => ⟨rejected_anoncreds_ProverGetCredentialsForProofReq env w c hquiet
        hfree hc hnative wl proofRequest h1,
      failed_anoncreds_ProverGetCredentialsForProofReq env' w (indy.toInt32 c) p hquiet hfree' hc
        hnative' wl proofRequest h1⟩,
    fun wl proofRequest requestedCredentials masterSecret schemas credentialDefs revStates h1 h2 h3 h4 h5 h6 => ⟨
        rejected_anoncreds_ProverCreateProof env w c hquiet hfree hc hnative wl proofRequest
        requestedCredentials masterSecret schemas credentialDefs revStates h1 h2 h3 h4 h5 h6,
      failed_anoncreds_ProverCreateProof env' w (indy.toInt32 c) p hquiet hfree' hc hnative' wl
        proofRequest requestedCredentials masterSecret schemas credentialDefs revStates h1 h2 h3 h4
        h5 h6⟩,
    fun proofRequest proof schemas credentialDefs revocRegDefs revocRegs h1 h2 h3 h4 h5 h6 => ⟨
        rejected_anoncreds_VerifierVerifyProof env w c hquiet hfree hc hnative proofRequest proof
        schemas credentialDefs revocRegDefs revocRegs h1 h2 h3 h4 h5 h6,
      failed_anoncreds_VerifierVerifyProof env' w (indy.toInt32 c) p hquiet hfree' hc hnative'
        proofRequest proof schemas credentialDefs revocRegDefs revocRegs h1 h2 h3 h4 h5 h6⟩,
    fun recipientVK message h1 => ⟨rejected_crypto_AnonCrypt env w c hquiet hfree hc hnative
        recipientVK message h1,
      failed_crypto_AnonCrypt env' w (indy.toInt32 c) p hquiet hfree' hc hbytes hnative' recipientVK
        message h1⟩,
    fun wl recipientVK encryptedMsg h1 h2 => ⟨rejected_crypto_AnonDecrypt env w c hquiet hfree hc
        hnative wl recipientVK encryptedMsg h1 h2,
      failed_crypto_AnonDecrypt env' w (indy.toInt32 c) p hquiet hfree' hc hbytes hnative' wl
        recipientVK encryptedMsg h1 h2⟩,
    fun wl senderVK recipientVK message h1 h2 => ⟨rejected_crypto_AuthCrypt env w c hquiet hfree hc
        hnative wl senderVK recipientVK message h1 h2,
      failed_crypto_AuthCrypt env' w (indy.toInt32 c) p hquiet hfree' hc hbytes hnative' wl senderVK
        recipientVK message h1 h2⟩,
    fun wl recipientVK message h1 => ⟨rejected_crypto_AuthDecrypt env w c hquiet hfree hc hnative wl
        recipientVK message h1,
      failed_crypto_AuthDecrypt env' w (indy.toInt32 c) p hquiet hfree' hc hbytes hnative' wl
        recipientVK message h1⟩,
    fun wl didJSON h1 => ⟨rejected_did_CreateAndStoreMyDID env w c hquiet hfree hc hnative wl
        didJSON h1,
      failed_did_CreateAndStoreMyDID env' w (indy.toInt32 c) p hquiet hfree' hc hnative' wl didJSON
        h1⟩,
    fun pl wl d h1 => ⟨rejected_did_KeyForDID env w c hquiet hfree hc hnative pl wl d h1,
      failed_did_KeyForDID env' w (indy.toInt32 c) p hquiet hfree' hc hnative' pl wl d h1⟩,
    fun submitterDID targetDID verkey nymAlias r h1 h2 => ⟨rejected_ledger_BuildNYMRequest env w c
        hquiet hfree hc hnative submitterDID targetDID verkey nymAlias r h1 h2,
      failed_ledger_BuildNYMRequest env' w (indy.toInt32 c) p hquiet hfree' hc hnative' submitterDID
        targetDID verkey nymAlias r h1 h2⟩,
    fun pl wl submitterDID requestJSON h1 h2 => ⟨rejected_ledger_SignAndSubmitRequest env w c hquiet
        hfree hc hnative pl wl submitterDID requestJSON h1 h2,
      failed_ledger_SignAndSubmitRequest env' w (indy.toInt32 c) p hquiet hfree' hc hnative' pl wl
        submitterDID requestJSON h1 h2⟩,
    fun pl requestJSON h1 => ⟨rejected_ledger_SubmitRequest env w c hquiet hfree hc hnative pl
        requestJSON h1,
      failed_ledger_SubmitRequest env' w (indy.toInt32 c) p hquiet hfree' hc hnative' pl requestJSON
        h1⟩,
    fun submitterDID data h1 h2 => ⟨rejected_ledger_BuildSchemaRequest env w c hquiet hfree hc
        hnative submitterDID data h1 h2,
      failed_ledger_BuildSchemaRequest env' w (indy.toInt32 c) p hquiet hfree' hc hnative'
        submitterDID data h1 h2⟩,
    fun submitterDID id h1 h2 => ⟨rejected_ledger_BuildGetSchemaRequest env w c hquiet hfree hc
        hnative submitterDID id h1 h2,
      failed_ledger_BuildGetSchemaRequest env' w (indy.toInt32 c) p hquiet hfree' hc hnative'
        submitterDID id h1 h2⟩,
    fun response h1 => ⟨rejected_ledger_ParseGetSchemaResponse env w c hquiet hfree hc hnative
        response h1,
      failed_ledger_ParseGetSchemaResponse env' w (indy.toInt32 c) p hquiet hfree' hc hnative'
        response h1⟩,
    fun submitterDID data h1 h2 => ⟨rejected_ledger_BuildCredDefRequest env w c hquiet hfree hc
        hnative submitterDID data h1 h2,
      failed_ledger_BuildCredDefRequest env' w (indy.toInt32 c) p hquiet hfree' hc hnative'
        submitterDID data h1 h2⟩,
    fun submitterDID id h1 h2 => ⟨rejected_ledger_BuildGetCredDefRequest env w c hquiet hfree hc
        hnative submitterDID id h1 h2,
      failed_ledger_BuildGetCredDefRequest env' w (indy.toInt32 c) p hquiet hfree' hc hnative'
        submitterDID id h1 h2⟩,
    fun response h1 => ⟨rejected_ledger_ParseGetCredDefResponse env w c hquiet hfree hc hnative
        response h1,
      failed_ledger_ParseGetCredDefResponse env' w (indy.toInt32 c) p hquiet hfree' hc hnative'
        response h1⟩,
    fun name configPath h1 h2 => ⟨rejected_pool_Create env w c hquiet hfree hc hnative name
        configPath h1 h2,
      failed_pool_Create env' w (indy.toInt32 c) p hquiet hfree' hc hnative' name configPath h1 h2⟩,
    fun name h1 => ⟨rejected_pool_Delete env w c hquiet hfree hc hnative name h1,
      failed_pool_Delete env' w (indy.toInt32 c) p hquiet hfree' hc hnative' name h1⟩,
    fun name config h1 => ⟨rejected_pool_Open env w c hquiet hfree hc hnative name config h1,
      failed_pool_Open env' w (indy.toInt32 c) p hquiet hfree' hc hnative' name config h1⟩,
    fun asPools => ⟨rejected_pool_List env w c hquiet hfree hc hnative asPools,
      failed_pool_List env' w (indy.toInt32 c) p hquiet hfree' hc hnative' asPools⟩,
    fun pl => ⟨rejected_pool_Refresh env w c hquiet hfree hc hnative pl,
      failed_pool_Refresh env' w (indy.toInt32 c) p hquiet hfree' hc hnative' pl⟩,
    fun pl => ⟨rejected_pool_Close env w c hquiet hfree hc hnative pl,
      failed_pool_Close env' w (indy.toInt32 c) p hquiet hfree' hc hnative' pl⟩,
    fun wl => ⟨rejected_wallet_Close env w c hquiet hfree hc hnative wl,
      failed_wallet_Close env' w (indy.toInt32 c) p hquiet hfree' hc hnative' wl⟩,
    fun poolName name walletType config credentials h1 h2 => ⟨rejected_wallet_Create env w c hquiet
        hfree hc hnative poolName name walletType config credentials h1 h2,
      failed_wallet_Create env' w (indy.toInt32 c) p hquiet hfree' hc hnative' poolName name
        walletType config credentials h1 h2⟩,
    fun name credentials h1 => ⟨rejected_wallet_Delete env w c hquiet hfree hc hnative name
        credentials h1,
      failed_wallet_Delete env' w (indy.toInt32 c) p hquiet hfree' hc hnative' name credentials h1⟩,
    fun name config credentials h1 => ⟨rejected_wallet_Open env w c hquiet hfree hc hnative name
        config credentials h1,
      failed_wallet_Open env' w (indy.toInt32 c) p hquiet hfree' hc hnative' name config credentials
        h1⟩⟩

theorem immediate_rejection_returns_error_witness :
    ((emptyWorld.completions = [] ∧ emptyWorld.fault = none) ∧ indy.toInt32 113 ≠ 0 ∧
      indy.GoBytes examplePayload.b examplePayload.blength ≠ none) ∧
    (anoncreds.IssuerCreateSchema rejectingEnv "VsKV7grR1BUE29mG2Fm2kZ" "schema1" "1.0"
        "[\"name\", \"age\", \"sex\", \"height\"]" emptyWorld).1
      = .returned ("", "", indyerror.New 113) ∧
    (anoncreds.IssuerCreateSchema (failingEnv 113 examplePayload) "VsKV7grR1BUE29mG2Fm2kZ"
        "schema1" "1.0" "[\"name\", \"age\", \"sex\", \"height\"]" emptyWorld).1
      = .returned ("", "", indyerror.New 113) :=
  ⟨⟨⟨rfl, rfl⟩, by decide, by decide⟩,
   (immediate_rejection_returns_error rejectingEnv (failingEnv 113 examplePayload) emptyWorld
      113 examplePayload ⟨rfl, rfl⟩ ⟨0, by decide, rfl⟩ (by decide) (fun _ _ => rfl) rfl rfl
      (by decide) (fun _ _ => rfl)).2.1 "VsKV7grR1BUE29mG2Fm2kZ" "schema1" "1.0"
      "[\"name\", \"age\", \"sex\", \"height\"]" (by decide) (by decide) (by decide) (by decide)⟩

end IndySdk
